import Mathlib

/-!
# Pac-Man (pacman.ino.cpp): game simulation, embedded in Lean

A shallow embedding of the simulation half of `src/main/pacman.ino.cpp`:
direction tables, the maze lookup, `Chase`, the dot bitmap (`Init`, `GetDot`,
`EatDot`), scoring, the timers, the ghost and Pac-Man targeting, `ChooseDir`,
`MoveAll` with its collision code, `PackmanDied` and `Step`.

Conventions.
* `uint8_t` and `uint16_t` values are `Nat`, reduced with `% 256` resp.
  `% 65536` wherever the C code can leave the range; `int16_t` and `int8_t`
  values are `Int`, brought back into range with `toInt16` resp. `toInt8`
  (two's complement, as the target compiler does on narrowing).
* `long` values (`_score`, `_hiscore`, `_lifescore`) are unbounded `Int`:
  signed overflow of `long` is undefined in C, so the embedding describes the
  program as long as the score stays below `2^31`.
* Table reads are total: an index outside a table reads `0`.  The dot bitmap
  is a function on all of `Int`; the array proper is the index range 0..119.
* The maze tables `playMap1`..`playMap5` are defined in `pacmanTiles.h` and
  `rand()` in the C library; both are parameters, collected in `Env`.
* Output only state is left out: the tile buffers, `updateMap`, `_dirty`, the
  score text `_scoreStr`/`_hiscoreStr`, the icon tray `_icons`, the button
  faces, the LCD and the audio calls.  Nothing in the simulation reads them.
-/

namespace Pacman

/-! ## Enumerations and constants -/

inductive GameState where
  | ReadyState
  | PlayState
  | DeadGhostState
  | DeadPlayerState
  | EndLevelState
  deriving DecidableEq, Repr

inductive SpriteState where
  | PenState
  | RunState
  | FrightenedState
  | DeadNumberState
  | DeadEyesState
  | AteDotState
  | DeadPacmanState
  deriving DecidableEq, Repr

open GameState SpriteState

def MStopped : Nat := 0
def MRight : Nat := 1
def MDown : Nat := 2
def MLeft : Nat := 3
def MUp : Nat := 4

def BINKY : Nat := 0
def PINKY : Nat := 1
def INKY : Nat := 2
def CLYDE : Nat := 3
def PACMAN : Nat := 4
def BONUS : Nat := 5

def SPEED : Int := 2
def BONUS_INACTIVE_TIME : Nat := 600
def BONUS_ACTIVE_TIME : Nat := 300
def START_LIFES : Nat := 2
def START_LEVEL : Nat := 1
def MAXLIFES : Nat := 5
def FPS : Nat := 60
def DOT : Nat := 7
def PILL : Nat := 14
def PENGATE : Nat := 0x1B
def FRIGHTENEDPALETTE : Nat := 5
def DEADEYESPALETTE : Nat := 6
def BONUSPALETTE : Nat := 7
def FRIGHTENEDGHOSTSPRITE : Int := 0
def GHOSTSPRITE : Int := 2
def NUMBERSPRITE : Int := 10
def PACMANSPRITE : Int := 14

def _initSprites : List Nat :=
  [ BINKY,  14,     17 - 3,  31, MLeft,
    PINKY,  14 - 2, 17,      79, MLeft,
    INKY,   14,     17,     137, MLeft,
    CLYDE,  14 + 2, 17,     203, MRight,
    PACMAN, 14,     17 + 9,   0, MLeft,
    BONUS,  14,     17 + 3,   0, MLeft ]

def _opposite : List Nat := [MStopped, MLeft, MUp, MRight, MDown]

/-- The macro `OppositeDirection(_x)`, that is `*(_opposite + _x)`. -/
def OppositeDirection (x : Nat) : Nat := _opposite.getD x 0

def _scatterChase : List Nat := [7, 20, 7, 20, 5, 20, 5, 0]
def _scatterTargets : List Nat := [2, 0, 25, 0, 0, 35, 27, 35]
def _pinkyTargetOffset : List Nat := [4, 0, 0, 4, 252, 0, 252, 4]
def _pacLeftAnim : List Nat := [5, 6, 5, 4]
def _pacRightAnim : List Nat := [2, 0, 2, 4]
def _pacVAnim : List Nat := [4, 3, 1, 3]

/-! ## Machine integers -/

/-- Narrowing of an `int` to `int16_t`. -/
def toInt16 (v : Int) : Int := (v + 32768) % 65536 - 32768

/-- Narrowing of an `int` to `int8_t`. -/
def toInt8 (v : Int) : Int := (v + 128) % 256 - 128

/-- Narrowing of an `int` to `uint8_t`. -/
def toU8 (v : Int) : Nat := (v % 256).toNat

/-- Narrowing of an `int` to `uint16_t`. -/
def toU16 (v : Int) : Nat := (v % 65536).toNat

/-- A table read at an `int` index; outside the table it reads `0`. -/
def tableAt (t : List Nat) (i : Int) : Nat := if 0 ≤ i then t.getD i.toNat 0 else 0

/-- The loop `while (v < 0) v += k;`, run for at most `fuel` rounds. -/
def addWhileNeg (k : Int) : Nat → Int → Int
  | 0, v => v
  | fuel + 1, v => if v < 0 then addWhileNeg k fuel (v + k) else v

/-- The loop `while (v >= k) v -= k;`, run for at most `fuel` rounds. -/
def subWhileGe (k : Int) : Nat → Int → Int
  | 0, v => v
  | fuel + 1, v => if v ≥ k then subWhileGe k fuel (v - k) else v

/-- The pair of loops `while (v < 0) v += k; while (v >= k) v -= k;`.  For
`k ≥ 1` neither loop runs more than `|v|` rounds, which is the fuel given. -/
def wrapInto (k : Int) (v : Int) : Int :=
  subWhileGe k v.natAbs (addWhileNeg k v.natAbs v)

/-! ## State -/

structure Sprite where
  _x : Int
  _y : Int
  lastx : Int
  lasty : Int
  cx : Nat
  cy : Nat
  tx : Nat
  ty : Nat
  state : SpriteState
  pentimer : Nat
  who : Nat
  _speed : Nat
  dir : Nat
  phase : Nat
  palette2 : Nat
  bits : Nat
  sy : Int

/-- What the program takes from outside `pacman.ino.cpp`: the five maze tables
of `pacmanTiles.h`, as memory read at an `int` offset, and the stream of values
of the C library's `rand()`. -/
structure Env where
  playMap1 : Int → Nat
  playMap2 : Int → Nat
  playMap3 : Int → Nat
  playMap4 : Int → Nat
  playMap5 : Int → Nat
  rand : Nat → Nat

/-- The `Playfield` object together with the program-wide variables it works
on and the six button latches.  `randCalls` counts the calls of `rand()` made
so far. -/
structure Game where
  _sprites : Nat → Sprite
  _BonusSprite : Sprite
  _dotMap : Int → Nat
  _state : GameState
  _score : Int
  _hiscore : Int
  _lifescore : Int
  _stateTimer : Nat
  _frightenedTimer : Nat
  _frightenedCount : Nat
  _scIndex : Nat
  _scTimer : Nat
  _inited : Bool
  LIFES : Nat
  GAMEWIN : Nat
  GAMEOVER : Nat
  DEMO : Nat
  LEVEL : Nat
  ACTUALBONUS : Nat
  ACTIVEBONUS : Nat
  GAMEPAUSED : Nat
  PACMANFALLBACK : Nat
  _BonusInactiveTimmer : Nat
  _BonusActiveTimmer : Nat
  but_A : Bool
  but_B : Bool
  but_UP : Bool
  but_DOWN : Bool
  but_LEFT : Bool
  but_RIGHT : Bool
  randCalls : Nat

/-- Replace the sprite at index `i` of `_sprites`. -/
def Game.setSprite (g : Game) (i : Nat) (s : Sprite) : Game :=
  { g with _sprites := fun j => if j = i then s else g._sprites j }

/-! ## Maze lookup and `Chase` -/

/-- `Playfield::GetTile`. -/
def GetTile (env : Env) (g : Game) (cx ty : Int) : Nat :=
  if g._state ≠ ReadyState ∧ ty = 20 ∧ cx > 10 ∧ cx < 17 then 0
  else if g.LEVEL % 5 = 1 then env.playMap1 (ty * 28 + cx) % 256
  else if g.LEVEL % 5 = 2 then env.playMap2 (ty * 28 + cx) % 256
  else if g.LEVEL % 5 = 3 then env.playMap3 (ty * 28 + cx) % 256
  else if g.LEVEL % 5 = 4 then env.playMap4 (ty * 28 + cx) % 256
  else if g.LEVEL % 5 = 0 then env.playMap5 (ty * 28 + cx) % 256
  else 0

/-- `Playfield::InPen`. -/
def InPen (cx cy : Nat) : Bool :=
  if cx ≤ 10 ∨ cx ≥ 18 then false
  else if cy ≤ 14 ∨ cy ≥ 18 then false
  else true

/-- `Sprite::Distance`. -/
def Sprite.Distance (s : Sprite) (x y : Nat) : Int :=
  let dx : Int := toInt16 ((s.cx : Int) - x)
  let dy : Int := toInt16 ((s.cy : Int) - y)
  toInt16 (dx * dx + dy * dy)

/-- `Sprite::Target`. -/
def Sprite.Target (s : Sprite) (x y : Nat) : Sprite := { s with tx := x, ty := y }

/-- `Playfield::Chase`. -/
def Chase (env : Env) (g : Game) (s : Sprite) (cx cy : Int) : Int :=
  let cx := wrapInto 28 cx
  let t := GetTile env g cx cy
  if ¬ (t = 0 ∨ t = DOT ∨ t = PILL ∨ t = PENGATE) then 0x7FFF
  else if t = PENGATE ∧ s.who = PACMAN then 0x7FFF
  else if t = PENGATE ∧ ¬ (InPen s.cx s.cy = true ∨ s.state = DeadEyesState) then 0x7FFF
  else
    let dx : Int := toInt16 ((s.tx : Int) - cx)
    let dy : Int := toInt16 ((s.ty : Int) - cy)
    toInt16 (dx * dx + dy * dy)

/-! ## Loops -/

/-- The loop `for (i = 0; i < n; i++) body`. -/
def forEach {α : Type} (n : Nat) (body : Nat → α → α) (a : α) : α :=
  (List.range n).foldl (fun acc i => body i acc) a

/-- The loop `for (i = lo; i < hi; i++) body`. -/
def forRange {α : Type} (lo hi : Nat) (body : Nat → α → α) (a : α) : α :=
  (List.range' lo (hi - lo)).foldl (fun acc i => body i acc) a

/-! ## Dot bitmap and score -/

/-- The index `(cy - 3) * 4 + (cx >> 3)` into `_dotMap`. -/
def dotIndex (cx cy : Nat) : Int := ((cy : Int) - 3) * 4 + ((cx >>> 3 : Nat) : Int)

/-- The mask `0x80 >> (cx & 7)`. -/
def dotMask (cx : Nat) : Nat := 0x80 >>> (cx &&& 7)

/-- `Playfield::GetDot`. -/
def GetDot (g : Game) (cx cy : Nat) : Bool :=
  decide (g._dotMap (dotIndex cx cy) &&& dotMask cx ≠ 0)

/-- `Playfield::Score`.  C's `%` and `/` on `long` truncate towards zero.  The
score strings and the icon tray are display state and are left out; the loop
`for (i = 0; i < LIFES; i++) _icons[0 + i] = PACMANICON` that follows `LIFES++`
stores inside `uint8_t _icons[14]` when the new LIFES is 14 at most, and this
is the code that the definition describes. -/
def Score (g : Game) (delta : Int) : Game :=
  let g := { g with _score := g._score + delta }
  let g := if g.DEMO = 0 ∧ g._score > g._hiscore then { g with _hiscore := g._score } else g
  if g._score > g._lifescore ∧ Int.tmod g._score 10000 > 0 then
    { g with
      _lifescore := (Int.tdiv g._score 10000 + 1) * 10000
      LIFES := (g.LIFES + 1) % 256
      _score := g._score + 100 }
  else g

/-- Body of the loop in `EatDot`: a ghost in RunState becomes frightened and
turns round. -/
def frighten (s : Sprite) : Sprite :=
  if s.state = RunState then
    { s with state := FrightenedState, dir := OppositeDirection s.dir }
  else s

/-- `Playfield::EatDot`. -/
def EatDot (env : Env) (g : Game) (cx cy : Nat) : Game :=
  if ¬ (GetDot g cx cy = true) then g
  else
    let mask := dotMask cx
    let idx := dotIndex cx cy
    let g := { g with
      _dotMap := fun i => if i = idx then g._dotMap idx &&& (255 ^^^ mask) else g._dotMap i }
    let t := GetTile env g cx cy
    if t = PILL then
      let g := { g with _frightenedTimer := 10 * FPS, _frightenedCount := 0 }
      let g := forEach 4 (fun i g => g.setSprite i (frighten (g._sprites i))) g
      Score g 50
    else
      Score g 10

/-! ## Initialisation -/

/-- `ClearKeys`. -/
def ClearKeys (g : Game) : Game :=
  { g with
    but_A := false, but_B := false, but_UP := false
    but_DOWN := false, but_LEFT := false, but_RIGHT := false }

/-- `Sprite::Init` on the sprite itself, for the row of `_initSprites` that
starts at offset `off`.  `calls` is the number of earlier `rand()` calls; the
first of the two calls is taken for the x coordinate of the target. -/
def Sprite.Init (env : Env) (calls : Nat) (off : Nat) (s : Sprite) : Sprite :=
  let who := _initSprites.getD off 0
  let cx := _initSprites.getD (off + 1) 0
  let cy := _initSprites.getD (off + 2) 0
  let pentimer := _initSprites.getD (off + 3) 0
  let dir := _initSprites.getD (off + 4) 0
  let s := { s with
    who := who, cx := cx, cy := cy, pentimer := pentimer, dir := dir
    _x := (cx : Int) * 8 - 4, lastx := (cx : Int) * 8 - 4
    _y := (cy : Int) * 8, lasty := (cy : Int) * 8
    state := PenState, _speed := 0 }
  s.Target (env.rand calls % 20) (env.rand (calls + 1) % 20)

/-- `_sprites[i].Init(s + i * 5)`, with its `ClearKeys()` and `rand()` calls. -/
def initSpriteAt (env : Env) (i : Nat) (g : Game) : Game :=
  { (ClearKeys g).setSprite i (Sprite.Init env g.randCalls (i * 5) (g._sprites i)) with
    randCalls := g.randCalls + 2 }

/-- `_BonusSprite.Init(s + 5 * 5)`. -/
def initBonusSprite (env : Env) (g : Game) : Game :=
  { ClearKeys g with
    _BonusSprite := Sprite.Init env g.randCalls (5 * 5) g._BonusSprite
    randCalls := g.randCalls + 2 }

/-- Innermost body of the dot loop of `Init`, for row `y` and column `x`. -/
def initDot (env : Env) (y x : Nat) (g : Game) : Game :=
  let t := GetTile env g x y
  if t = 7 ∨ t = 14 then
    { g with
      _dotMap := fun i =>
        if i = dotIndex x y then g._dotMap (dotIndex x y) ||| dotMask x else g._dotMap i }
  else g

/-- The block "Init dots from rom" of `Init`: the `memset` of the 240 bytes of
`_dotMap` and the two loops. -/
def initDots (env : Env) (g : Game) : Game :=
  let g := { g with _dotMap := fun i => if 0 ≤ i ∧ i < 240 then 0 else g._dotMap i }
  forRange 3 (36 - 3) (fun y g => forEach 28 (initDot env y) g) g

/-- The head of `Init`, up to the sprite loop: the `GAMEWIN` test and the
reset of state and timers. -/
def initReset (g : Game) : Game :=
  let g :=
    if g.GAMEWIN = 1 then { g with GAMEWIN := 0 }
    else
      { g with
        LEVEL := START_LEVEL, LIFES := START_LIFES, ACTUALBONUS := 0, ACTIVEBONUS := 0
        _score := 0, _lifescore := 10000 }
  { g with
    _inited := true, _state := ReadyState, _stateTimer := FPS / 2
    _frightenedCount := 0, _frightenedTimer := 0 }

/-- `Playfield::Init`.  The icon tray is display state and is left out; the
loops `_icons[13 - i] = BONUSICON + i` for `i < ACTUALBONUS` and
`_icons[0 + i] = PACMANICON` for `i < LIFES` store inside `uint8_t _icons[14]`
when both counts are 14 at most, and this is the code that the definition
describes. -/
def Init (env : Env) (g : Game) : Game :=
  let g := initReset g
  let g := forEach 5 (initSpriteAt env) g
  let g := initBonusSprite env g
  let g := { g with
    _BonusInactiveTimmer := BONUS_INACTIVE_TIME, _BonusActiveTimmer := 0
    _scIndex := 0, _scTimer := 1 }
  initDots env g

/-! ## Timers -/

/-- The effect of `v--` on a `uint16_t`. -/
def decU16 (v : Nat) : Nat := (v + 65535) % 65536

/-- Body of the release loop of `UpdateTimers`. -/
def releaseFrightened (s : Sprite) : Sprite :=
  if s.state = FrightenedState then
    { s with state := RunState, dir := OppositeDirection s.dir }
  else s

/-- First block of `UpdateTimers`: the scatter/chase selector. -/
def scatterChaseTick (g : Game) : Game :=
  if g._scIndex < 8 then
    let old := g._scTimer
    let g := { g with _scTimer := decU16 old }
    if old = 0 then
      let duration := tableAt _scatterChase g._scIndex
      { g with _scIndex := (g._scIndex + 1) % 256, _scTimer := (duration * FPS) % 65536 }
    else g
  else g

/-- Second block of `UpdateTimers`: the countdown to the next bonus. -/
def bonusInactiveTick (g : Game) : Game :=
  if g.ACTIVEBONUS = 0 then
    let old := g._BonusInactiveTimmer
    let g := { g with _BonusInactiveTimmer := decU16 old }
    if old = 0 then { g with _BonusActiveTimmer := BONUS_ACTIVE_TIME, ACTIVEBONUS := 1 }
    else g
  else g

/-- Third block of `UpdateTimers`: the countdown of the bonus on display. -/
def bonusActiveTick (g : Game) : Game :=
  if g.ACTIVEBONUS = 1 then
    let old := g._BonusActiveTimmer
    let g := { g with _BonusActiveTimmer := decU16 old }
    if old = 0 then { g with _BonusInactiveTimmer := BONUS_INACTIVE_TIME, ACTIVEBONUS := 0 }
    else g
  else g

/-- Last block of `UpdateTimers`: the frightened timer and the release of the
frightened ghosts. -/
def frightenedTick (g : Game) : Game :=
  if g._frightenedTimer ≠ 0 then
    let g : Game := { g with _frightenedTimer := g._frightenedTimer - 1 }
    if g._frightenedTimer = 0 then
      forEach 4 (fun i g => g.setSprite i (releaseFrightened (g._sprites i))) g
    else g
  else g

/-- `Playfield::UpdateTimers`. -/
def UpdateTimers (g : Game) : Game :=
  frightenedTick (bonusActiveTick (bonusInactiveTick (scatterChaseTick g)))

/-! ## Targeting -/

/-- The local variables of the ghost scan in `PacmanAI`; the three pointers are
kept as indices into `_sprites`, `none` for `NULL`. -/
structure GhostScan where
  frightenedGhost : Option Nat
  closestAttackingGhost : Option Nat
  DeadEyesStateGhost : Option Nat
  dist : Int
  closestfrightenedDist : Int
  closestAttackingDist : Int

/-- Body of the ghost scan of `PacmanAI`. -/
def scanGhost (g : Game) (i : Nat) (sc : GhostScan) : GhostScan :=
  let s := g._sprites i
  let pacman := g._sprites PACMAN
  let d := s.Distance pacman.cx pacman.cy
  if d < sc.dist then
    let sc := { sc with dist := d }
    let sc :=
      if s.state = FrightenedState then
        { sc with frightenedGhost := some i, closestfrightenedDist := d }
      else
        { sc with closestAttackingGhost := some i, closestAttackingDist := d }
    if s.state = DeadEyesState then { sc with DeadEyesStateGhost := some i } else sc
  else sc

/-- Innermost body of the dot search of `PacmanAI`; the state is the local
`dist` and the game (Pac-Man's target). -/
def dotSearchCell (y x : Nat) (st : Int × Game) : Int × Game :=
  if GetDot st.2 x y = true then
    let d := (st.2._sprites PACMAN).Distance x y
    if d < st.1 then (d, st.2.setSprite PACMAN ((st.2._sprites PACMAN).Target x y))
    else st
  else st

/-- In `PacmanAI`: the scan of the four ghosts. -/
def ghostScan (g : Game) : GhostScan :=
  forEach 4 (scanGhost g) ⟨none, none, none, 0x7FFF, 0x7FFF, 0x7FFF⟩

/-- In `PacmanAI`: the search for the closest dot, with the `GAMEWIN` test
after it. -/
def dotSearch (g : Game) : Game :=
  let st := forRange 4 32 (fun y st => forRange 1 26 (dotSearchCell y) st) (0x7FFF, g)
  if st.1 = 0x7FFF then { st.2 with GAMEWIN := 1 } else st.2

/-- In `PacmanAI`: the block "Go for the pill". -/
def pacmanForage (g : Game) : Game :=
  let pacman := g._sprites PACMAN
  if GetDot g 1 6 = true then g.setSprite PACMAN (pacman.Target 1 6)
  else if GetDot g 26 6 = true then g.setSprite PACMAN (pacman.Target 26 6)
  else if GetDot g 1 26 = true then g.setSprite PACMAN (pacman.Target 1 26)
  else if GetDot g 26 26 = true then g.setSprite PACMAN (pacman.Target 26 26)
  else dotSearch g

/-- `Playfield::PacmanAI`.  Where the code dereferences `frightenedGhost` or
`closestAttackingGhost` the pointer is not `NULL`; the embedding reads index 0
for `none`. -/
def PacmanAI (g : Game) : Game :=
  let pacman := g._sprites PACMAN
  let sc := ghostScan g
  let g := { g with PACMANFALLBACK := 0 }
  if g.DEMO = 1 ∧ sc.DeadEyesStateGhost = none ∧ sc.frightenedGhost ≠ none then
    let fg := g._sprites (sc.frightenedGhost.getD 0)
    g.setSprite PACMAN (pacman.Target fg.cx fg.cy)
  else if g.DEMO = 1 ∧ sc.DeadEyesStateGhost = none ∧ sc.dist ≤ 32 ∧
      sc.closestAttackingDist < sc.closestfrightenedDist then
    let ag := g._sprites (sc.closestAttackingGhost.getD 0)
    let g := g.setSprite PACMAN
      (pacman.Target (toU8 ((pacman.cx : Int) * 2 - ag.cx)) (toU8 ((pacman.cy : Int) * 2 - ag.cy)))
    if sc.dist ≤ 16 then { g with PACMANFALLBACK := 1 } else g
  else if g.ACTIVEBONUS = 1 then g.setSprite PACMAN (pacman.Target 13 20)
  else pacmanForage g

/-- `Playfield::Scatter`. -/
def Scatter (s : Sprite) : Sprite :=
  s.Target (tableAt _scatterTargets ((s.who : Int) * 2))
    (tableAt _scatterTargets ((s.who : Int) * 2 + 1))

/-- The chase-mode block of `UpdateTargets`: the `int8_t` pair `(tx, ty)` for
ghost `s`. -/
def chaseTarget (g : Game) (s : Sprite) : Int × Int :=
  let pacman := g._sprites PACMAN
  let tx := toInt8 pacman.cx
  let ty := toInt8 pacman.cy
  let pto : Int := ((pacman.dir : Int) - 1) * 2
  if s.who = PINKY then
    (toInt8 (tx + tableAt _pinkyTargetOffset pto),
     toInt8 (ty + tableAt _pinkyTargetOffset (pto + 1)))
  else if s.who = INKY then
    let binky := g._sprites BINKY
    let tx := toInt8 (tx + ((tableAt _pinkyTargetOffset pto >>> 1 : Nat) : Int))
    let ty := toInt8 (ty + ((tableAt _pinkyTargetOffset (pto + 1) >>> 1 : Nat) : Int))
    (toInt8 (tx + (tx - binky.cx)), toInt8 (ty + (ty - binky.cy)))
  else if s.who = CLYDE then
    if s.Distance pacman.cx pacman.cy < 64 then
      (toInt8 (tableAt _scatterTargets ((CLYDE : Int) * 2)),
       toInt8 (tableAt _scatterTargets ((CLYDE : Int) * 2 + 1)))
    else (tx, ty)
  else (tx, ty)

/-- Body of the ghost loop of `UpdateTargets`. -/
def targetGhost (scatter : Bool) (i : Nat) (g : Game) : Game :=
  let s := g._sprites i
  if s.state = DeadEyesState then
    if s.cx = 14 ∧ s.cy = 17 then g.setSprite i { s with state := PenState, pentimer := 80 }
    else g.setSprite i (s.Target 14 17)
  else if s.pentimer ≠ 0 ∧ s.pentimer - 1 ≠ 0 then
    g.setSprite i { s with pentimer := s.pentimer - 1 }
  else
    let s := if s.pentimer ≠ 0 then { s with pentimer := s.pentimer - 1, state := RunState } else s
    let g := g.setSprite i s
    if InPen s.cx s.cy = true then g.setSprite i (s.Target 14 (14 - 2))
    else if scatter = true ∨ s.state = FrightenedState then g.setSprite i (Scatter s)
    else
      let t := chaseTarget g s
      g.setSprite i (s.Target (toU8 t.1) (toU8 t.2))

/-- `Playfield::UpdateTargets`. -/
def UpdateTargets (g : Game) : Game :=
  if g._state = ReadyState then g
  else
    let g := PacmanAI g
    let scatter : Bool := decide (g._scIndex &&& 1 ≠ 0)
    forEach 4 (targetGhost scatter) g

/-! ## Direction choice and speed -/

/-- A read of the local array `choice` at an `int` index. -/
def choiceAt (choice : List Int) (i : Int) : Int :=
  if 0 ≤ i then choice.getD i.toNat 0 else 0

/-- The local variables of the loop in the last branch of `ChooseDir`, with the
program-wide `PACMANFALLBACK`. -/
structure Pick where
  dist : Int
  dir : Int
  fallback : Nat

/-- Body of the loop in the last branch of `ChooseDir`. -/
def pickStep (choice : List Int) (opposite : Nat) (who : Nat) (i : Nat) (p : Pick) : Pick :=
  let d : Nat := 4 - i
  if (d ≠ opposite ∧ choiceAt choice i < p.dist) ∨
      (who = PACMAN ∧ p.fallback ≠ 0 ∧ choiceAt choice i < p.dist) then
    { dist := choiceAt choice i
      dir := d
      fallback := if who = PACMAN ∧ p.fallback ≠ 0 then 0 else p.fallback }
  else p

/-- The body of `ChooseDir` once the array `choice` is filled: the direction
returned, and the game (for `PACMANFALLBACK`). -/
def chooseFrom (choice : List Int) (g : Game) (dir : Int) (s : Sprite) : Nat × Game :=
  if g.DEMO = 0 ∧ s.who = PACMAN ∧ choiceAt choice 0 < 0x7FFF ∧ g.but_UP = true then (MUp, g)
  else if g.DEMO = 0 ∧ s.who = PACMAN ∧ choiceAt choice 1 < 0x7FFF ∧ g.but_LEFT = true then
    (MLeft, g)
  else if g.DEMO = 0 ∧ s.who = PACMAN ∧ choiceAt choice 2 < 0x7FFF ∧ g.but_DOWN = true then
    (MDown, g)
  else if g.DEMO = 0 ∧ s.who = PACMAN ∧ choiceAt choice 3 < 0x7FFF ∧ g.but_RIGHT = true then
    (MRight, g)
  else if g.DEMO = 0 ∧ choiceAt choice 0 < 0x7FFF ∧ s.who = PACMAN ∧ dir = MUp then (MUp, g)
  else if g.DEMO = 0 ∧ choiceAt choice 1 < 0x7FFF ∧ s.who = PACMAN ∧ dir = MLeft then (MLeft, g)
  else if g.DEMO = 0 ∧ choiceAt choice 2 < 0x7FFF ∧ s.who = PACMAN ∧ dir = MDown then (MDown, g)
  else if g.DEMO = 0 ∧ choiceAt choice 3 < 0x7FFF ∧ s.who = PACMAN ∧ dir = MRight then
    (MRight, g)
  else if (g.DEMO = 0 ∧ s.who ≠ PACMAN) ∨ g.DEMO = 1 then
    let p := forEach 4 (pickStep choice (tableAt _opposite dir) s.who)
      ⟨choiceAt choice (4 - dir), dir, g.PACMANFALLBACK⟩
    (toU8 p.dir, { g with PACMANFALLBACK := p.fallback })
  else (MStopped, g)

/-- `Playfield::ChooseDir`: the direction returned, and the game (for
`PACMANFALLBACK`). -/
def ChooseDir (env : Env) (g : Game) (dir : Int) (s : Sprite) : Nat × Game :=
  chooseFrom
    [ Chase env g s s.cx ((s.cy : Int) - 1),
      Chase env g s ((s.cx : Int) - 1) s.cy,
      Chase env g s s.cx ((s.cy : Int) + 1),
      Chase env g s ((s.cx : Int) + 1) s.cy ]
    g dir s

/-- `Playfield::GetSpeed`. -/
def GetSpeed (g : Game) (s : Sprite) : Nat :=
  if s.who = PACMAN then (if g._frightenedTimer ≠ 0 then 90 else 80)
  else if s.state = FrightenedState then 40
  else if s.state = DeadEyesState then 100
  else if s.cy = 17 ∧ (s.cx ≤ 5 ∨ s.cx > 20) then 40
  else 75

/-! ## Death, movement and collisions

The calls of `Init()` in `PackmanDied` and `Step` go through a parameter
`init`; the program itself is the instance `init := Init env` given at the
end. -/

/-- The `else` branch of `PackmanDied`: one life less, and the level starts
again.  The icon tray is left out, as in `Init`; its loops store inside
`_icons[14]` when ACTUALBONUS and the new LIFES are 14 at most. -/
def restartLevel (env : Env) (g : Game) : Game :=
  let g := { g with
    LIFES := g.LIFES - 1, _inited := true, _state := ReadyState, _stateTimer := FPS / 2
    _frightenedCount := 0, _frightenedTimer := 0 }
  let g := forEach 5 (initSpriteAt env) g
  let g := { g with _scIndex := 0, _scTimer := 1 }
  let g := initBonusSprite env g
  { g with _BonusInactiveTimmer := BONUS_INACTIVE_TIME, _BonusActiveTimmer := 0 }

/-- `Playfield::PackmanDied`, with `Init()` passed in. -/
def PackmanDiedWith (init : Game → Game) (env : Env) (g : Game) : Game :=
  if g.LIFES ≤ 0 then
    init { g with GAMEOVER := 1, LEVEL := START_LEVEL, LIFES := START_LIFES, DEMO := 1 }
  else restartLevel env g

/-- The `switch` of `MoveAll` that runs when `_stateTimer` reaches zero. -/
def stateTimeout (g : Game) : Game :=
  match g._state with
  | ReadyState => { g with _state := PlayState }
  | DeadGhostState =>
    forEach 4
      (fun i g =>
        if (g._sprites i).state = DeadNumberState then
          g.setSprite i { g._sprites i with state := DeadEyesState }
        else g)
      { g with _state := PlayState }
  | _ => g

/-- In the movement loop of `MoveAll`: the call of `ChooseDir` for sprite `i`
on a cell-aligned frame. -/
def chooseAt (env : Env) (i : Nat) (g : Game) : Game :=
  let s := g._sprites i
  if s._x % 8 = 0 ∧ s._y % 8 = 0 then
    let r := ChooseDir env g s.dir s
    r.2.setSprite i { s with dir := r.1 }
  else g

/-- In the movement loop of `MoveAll`: the `switch` on the direction, the wrap
of x and the new cell. -/
def stepPixel (s : Sprite) : Sprite :=
  let x := if s.dir = MLeft then toInt16 (s._x - SPEED)
    else if s.dir = MRight then toInt16 (s._x + SPEED) else s._x
  let y := if s.dir = MUp then toInt16 (s._y - SPEED)
    else if s.dir = MDown then toInt16 (s._y + SPEED) else s._y
  let x := wrapInto 224 x
  { s with _x := x, _y := y, cx := toU8 ((x + 4) / 8), cy := toU8 ((y + 4) / 8) }

/-- In the movement loop of `MoveAll`: what happens to sprite `i` on a frame on
which it moves, from `s->_speed -= 100` on. -/
def advanceSprite (env : Env) (i : Nat) (g : Game) : Game :=
  let s := g._sprites i
  let g := g.setSprite i { s with
    _speed := s._speed - 100, lastx := s._x, lasty := s._y, phase := (s.phase + 1) % 256 }
  let g := chooseAt env i g
  let g := g.setSprite i (stepPixel (g._sprites i))
  if (g._sprites i).who = PACMAN then EatDot env g (g._sprites i).cx (g._sprites i).cy else g

/-- Body of the movement loop of `MoveAll`, for sprite `i`. -/
def moveSprite (env : Env) (i : Nat) (g : Game) : Game :=
  let s := g._sprites i
  if g._state = DeadGhostState ∧ s.state ≠ DeadEyesState then g
  else
    let s := { s with _speed := (s._speed + GetSpeed g s) % 256 }
    let g := g.setSprite i s
    if s._speed < 100 then g else advanceSprite env i g

/-- In the bonus collision: `ACTUALBONUS++` and the block that wraps it.  The
icon tray is left out; its loops store inside `_icons[14]` when LIFES and the
new ACTUALBONUS are 14 at most. -/
def bonusAdvance (g : Game) : Game :=
  let g : Game := { g with ACTUALBONUS := (g.ACTUALBONUS + 1) % 256 }
  if g.ACTUALBONUS > 7 then
    let g : Game := { g with ACTUALBONUS := 0 }
    if g.LIFES < MAXLIFES then { g with LIFES := (g.LIFES + 1) % 256 } else g
  else g

/-- The block "Collide with BONUS" of `MoveAll`. -/
def collideBonus (g : Game) : Game :=
  let pacman := g._sprites PACMAN
  let b := g._BonusSprite
  if g.ACTIVEBONUS = 1 ∧ b.cx = pacman.cx ∧ b.cy = pacman.cy then
    let g := Score g (toInt16 ((g.ACTUALBONUS : Int) * 50))
    let g := bonusAdvance g
    { g with ACTIVEBONUS := 0, _BonusInactiveTimmer := BONUS_INACTIVE_TIME }
  else g

/-- Body of the ghost collision loop of `MoveAll`, for ghost `i`.  The shift
`1 << _frightenedCount` is taken without a bound on the count. -/
def collideGhostWith (init : Game → Game) (env : Env) (i : Nat) (g : Game) : Game :=
  let s := g._sprites i
  let pacman := g._sprites PACMAN
  if s._x + SPEED ≥ pacman._x ∧ s._x - SPEED ≤ pacman._x ∧
      s._y + SPEED ≥ pacman._y ∧ s._y - SPEED ≤ pacman._y then
    if s.state = FrightenedState then
      let g := g.setSprite i { s with state := DeadNumberState }
      let g := { g with _frightenedCount := (g._frightenedCount + 1) % 256 }
      let g := { g with _state := DeadGhostState, _stateTimer := 10 }
      Score g (toInt16 (((1 <<< g._frightenedCount : Nat) : Int) * 100))
    else if s.state = DeadNumberState ∨ s.state = FrightenedState ∨
        s.state = DeadEyesState then g
    else PackmanDiedWith init env g
  else g

/-- The part of `MoveAll` after the state timer: movement, then collisions. -/
def moveAndCollideWith (init : Game → Game) (env : Env) (g : Game) : Game :=
  let g := forEach 5 (moveSprite env) g
  let g := collideBonus g
  forEach 4 (collideGhostWith init env) g

/-- `Playfield::MoveAll`, with `Init()` passed in. -/
def MoveAllWith (init : Game → Game) (env : Env) (g : Game) : Game :=
  let g := UpdateTimers g
  let g := UpdateTargets g
  if g._stateTimer ≠ 0 then
    let g : Game := { g with _stateTimer := g._stateTimer - 1 }
    if g._stateTimer ≤ 0 then moveAndCollideWith init env (stateTimeout g)
    else if g._state = ReadyState then g
    else moveAndCollideWith init env g
  else moveAndCollideWith init env g

/-- `Sprite::SetupDraw`; `ACTUALBONUS` is the program-wide variable. -/
def Sprite.SetupDraw (ACTUALBONUS : Nat) (_gameState : GameState) (deadGhostIndex : Nat)
    (s : Sprite) : Sprite :=
  let s := { s with sy := 1, palette2 := s.who }
  let p := s.phase >>> 3
  if s.who = BONUS then
    { s with bits := (21 + ACTUALBONUS) % 256, palette2 := (BONUSPALETTE + ACTUALBONUS) % 256 }
  else if s.who ≠ PACMAN then
    let s := { s with bits := toU8 (GHOSTSPRITE + ((s.dir : Int) - 1) * 2 + ((p &&& 1 : Nat) : Int)) }
    match s.state with
    | FrightenedState =>
      { s with
        bits := toU8 (FRIGHTENEDGHOSTSPRITE + ((p &&& 1 : Nat) : Int))
        palette2 := FRIGHTENEDPALETTE }
    | DeadNumberState =>
      { s with palette2 := FRIGHTENEDPALETTE, bits := toU8 (NUMBERSPRITE + deadGhostIndex) }
    | DeadEyesState => { s with palette2 := DEADEYESPALETTE }
    | _ => s
  else
    let f := (s.phase >>> 1) &&& 3
    let f :=
      if s.dir = MLeft then _pacLeftAnim.getD f 0
      else if s.dir = MRight then _pacRightAnim.getD f 0
      else _pacVAnim.getD f 0
    let s := if s.dir = MUp then { s with sy := -1 } else s
    { s with bits := toU8 ((f : Int) + PACMANSPRITE) }

/-- What `Playfield::DrawAll` does to the game: `SetupDraw` on the five sprites
and on the bonus sprite. -/
def DrawAll (g : Game) : Game :=
  let idx := toU8 ((g._frightenedCount : Int) - 1)
  let g := forEach 5
    (fun i g => g.setSprite i ((g._sprites i).SetupDraw g.ACTUALBONUS g._state idx)) g
  { g with _BonusSprite := g._BonusSprite.SetupDraw g.ACTUALBONUS g._state idx }

/-- First block of `Step`: the next level after a win. -/
def stepGameWin (init : Game → Game) (g : Game) : Game :=
  if g.GAMEWIN = 1 then init { g with LEVEL := (g.LEVEL + 1) % 256 } else g

/-- Second block of `Step`: button A starts a game or pauses it. -/
def stepButtonA (init : Game → Game) (g : Game) : Game :=
  if g.but_A = true ∧ g.DEMO = 1 ∧ g.GAMEPAUSED = 0 then
    init { g with but_A := false, DEMO := 0 }
  else if g.but_A = true ∧ g.DEMO = 0 ∧ g.GAMEPAUSED = 0 then
    { g with but_A := false, GAMEPAUSED := 1 }
  else g

/-- Third block of `Step`: button A ends a pause. -/
def stepResume (g : Game) : Game :=
  if g.GAMEPAUSED ≠ 0 ∧ g.but_A = true ∧ g.DEMO = 0 then
    { g with but_A := false, GAMEPAUSED := 0 }
  else g

/-- Fourth block of `Step`: button B, and the first call ever. -/
def stepButtonB (init : Game → Game) (g : Game) : Game :=
  if g.but_B = true then init { g with but_B := false, DEMO := 0 }
  else if g._inited = false then init { g with but_B := false, DEMO := 1 }
  else g

/-- `Playfield::Step`, with `Init()` passed in. -/
def StepWith (init : Game → Game) (env : Env) (g : Game) : Game :=
  let g := stepGameWin init g
  let g := stepButtonA init g
  let g := stepResume g
  let g := stepButtonB init g
  let g := if g.GAMEPAUSED = 0 then MoveAllWith init env g else g
  DrawAll g

/-- `Playfield::PackmanDied`. -/
def PackmanDied (env : Env) (g : Game) : Game := PackmanDiedWith (Init env) env g

/-- `Playfield::MoveAll`. -/
def MoveAll (env : Env) (g : Game) : Game := MoveAllWith (Init env) env g

/-- `Playfield::Step`. -/
def Step (env : Env) (g : Game) : Game := StepWith (Init env) env g

/-! ## Relations used in the statements -/

/-- The game `b` differs from `g` at most in the dot bitmap. -/
def sameButDots (g b : Game) : Prop := b = { g with _dotMap := b._dotMap }

/-- No bit of the dot bitmap is set in `b` that is not set in `g`. -/
def dotsWithin (b g : Game) : Prop :=
  ∀ (i : Int) (k : Nat), (b._dotMap i).testBit k = true → (g._dotMap i).testBit k = true

/-! ## Start state and sample data -/

/-- A sprite of the zero-initialised static object `_game`. -/
def Sprite.zero : Sprite :=
  { _x := 0, _y := 0, lastx := 0, lasty := 0, cx := 0, cy := 0, tx := 0, ty := 0
    state := PenState, pentimer := 0, who := 0, _speed := 0, dir := 0, phase := 0
    palette2 := 0, bits := 0, sy := 0 }

/-- The state of the program before the first `Step`: `_game` has static
storage and is zero-initialised, the program-wide variables carry their
initialisers. -/
def Game.boot : Game :=
  { _sprites := fun _ => Sprite.zero
    _BonusSprite := Sprite.zero
    _dotMap := fun _ => 0
    _state := ReadyState
    _score := 0, _hiscore := 0, _lifescore := 0
    _stateTimer := 0, _frightenedTimer := 0, _frightenedCount := 0
    _scIndex := 0, _scTimer := 0
    _inited := false
    LIFES := START_LIFES, GAMEWIN := 0, GAMEOVER := 0, DEMO := 1, LEVEL := START_LEVEL
    ACTUALBONUS := 0, ACTIVEBONUS := 0, GAMEPAUSED := 0, PACMANFALLBACK := 0
    _BonusInactiveTimmer := BONUS_INACTIVE_TIME, _BonusActiveTimmer := 0
    but_A := false, but_B := false, but_UP := false
    but_DOWN := false, but_LEFT := false, but_RIGHT := false
    randCalls := 0 }

/-- A sample maze for level 1: a pill at cell (1, 6), a dot at cell (2, 6),
every other cell empty; `rand()` always returns 0. -/
def Env.sample : Env :=
  { playMap1 := fun i => if i = 6 * 28 + 1 then PILL else if i = 6 * 28 + 2 then DOT else 0
    playMap2 := fun _ => 0
    playMap3 := fun _ => 0
    playMap4 := fun _ => 0
    playMap5 := fun _ => 0
    rand := fun _ => 0 }

/-- PINKY in chase mode with the target it gets from a Pac-Man that heads left
in column 1: x coordinate 1 - 4, stored in a `uint8_t` as 253. -/
def pinkyFarTarget : Sprite :=
  { Sprite.zero with who := PINKY, cx := 13, cy := 6, tx := 253, ty := 6, state := RunState }

/-- A game in PlayState on level 1 whose dot bitmap holds the two cells (1, 6)
and (2, 6) of the sample maze; ghost 0 is in RunState heading left. -/
def Game.sampleDots : Game :=
  { Game.boot with
    _state := PlayState
    _lifescore := 10000
    _dotMap := fun i => if i = 12 then 0x60 else 0
    _sprites := fun i =>
      if i = 0 then { Sprite.zero with state := RunState, dir := MLeft } else Sprite.zero }

/-- A game in which the bonus is on display in Pac-Man's cell and the bonus
counter is 3. -/
def Game.sampleBonus : Game :=
  { Game.boot with _state := PlayState, _lifescore := 10000, ACTIVEBONUS := 1, ACTUALBONUS := 3 }

/-! ## Input and reachable states -/

/-- The buttons of `loop()`: cases 0 to 5 of its `switch`. -/
inductive Button where
  | UP
  | LEFT
  | RIGHT
  | DOWN
  | A
  | B
  deriving DecidableEq, Repr

/-- The `switch (pressedButton)` of `loop()`.  The debounce of A and B reads
the clock and is left open: a press may come at any time. -/
def press (b : Button) (g : Game) : Game :=
  match b with
  | Button.UP => { ClearKeys g with but_UP := true }
  | Button.LEFT => { ClearKeys g with but_LEFT := true }
  | Button.RIGHT => { ClearKeys g with but_RIGHT := true }
  | Button.DOWN => { ClearKeys g with but_DOWN := true }
  | Button.A => { g with but_A := true }
  | Button.B => { g with but_B := true }

/-- The states the program can be in between two rounds of `loop()`: the start
state, and from there any sequence of `Step()` calls and button presses.  The
first `Step()` calls `Init()`. -/
inductive Reachable (env : Env) : Game → Prop where
  | boot : Reachable env Game.boot
  | step {g : Game} : Reachable env g → Reachable env (Step env g)
  | press {g : Game} (b : Button) : Reachable env g → Reachable env (press b g)

/-- The states of the runs in which every store of the icon loops is inside
`uint8_t _icons[14]`: each `Step()` of the run starts with 8 lives at most.  A
`Step()` calls `Score` six times at most (for a dot or pill, for the bonus, for
each of the four ghosts), each call adds one life at most, and the bonus block
adds one only below MAXLIFES; so LIFES is 14 at most at every icon loop of the
run.  On these runs the definitions, which leave `_icons` out, describe the
code. -/
inductive TrayReachable (env : Env) : Game → Prop where
  | boot : TrayReachable env Game.boot
  | step {g : Game} : TrayReachable env g → g.LIFES ≤ 8 → TrayReachable env (Step env g)
  | press {g : Game} (b : Button) : TrayReachable env g → TrayReachable env (press b g)

/-- The sprite `t` has the position, cell, identity, speed accumulator and
phase of `s`. -/
structure Sprite.sameBody (s t : Sprite) : Prop where
  x : t._x = s._x
  y : t._y = s._y
  lastx : t.lastx = s.lastx
  lasty : t.lasty = s.lasty
  cx : t.cx = s.cx
  cy : t.cy = s.cy
  who : t.who = s.who
  speed : t._speed = s._speed
  phase : t.phase = s.phase

/-- What the operations that neither score nor move leave alone: `b` has the
score, lives, level, bonus counter, frightened count, mode and dot bitmap of
`g`, every sprite of `b` has the body of its counterpart in `g`, and no ghost
is frightened in `b` that was not in `g`. -/
structure Frame (g b : Game) : Prop where
  score : b._score = g._score
  hiscore : b._hiscore = g._hiscore
  lifescore : b._lifescore = g._lifescore
  lifes : b.LIFES = g.LIFES
  level : b.LEVEL = g.LEVEL
  bonus : b.ACTUALBONUS = g.ACTUALBONUS
  count : b._frightenedCount = g._frightenedCount
  demo : b.DEMO = g.DEMO
  dots : b._dotMap = g._dotMap
  body : ∀ j, (g._sprites j).sameBody (b._sprites j)
  bonusBody : g._BonusSprite.sameBody b._BonusSprite
  fright : ∀ j, (b._sprites j).state = FrightenedState → (g._sprites j).state = FrightenedState

/-- The sprite's x is in 0..223 and its cell is the one `MoveAll` derives from
its position: `(x + 4) >> 3` and `(y + 4) >> 3`, stored in a `uint8_t`. -/
structure Sprite.cellOK (s : Sprite) : Prop where
  x0 : 0 ≤ s._x
  x1 : s._x < 224
  cx : s.cx = toU8 ((s._x + 4) / 8)
  cy : s.cy = toU8 ((s._y + 4) / 8)

/-- Every sprite of the game, the bonus sprite included, satisfies `cellOK`. -/
def CellInv (g : Game) : Prop := (∀ j, (g._sprites j).cellOK) ∧ g._BonusSprite.cellOK

/-- The sprite is cell-aligned: `(x & 7) == 0 && (y & 7) == 0`. -/
def Sprite.aligned (s : Sprite) : Prop := s._x % 8 = 0 ∧ s._y % 8 = 0

/-! ## Mid-game sample states -/

/-- A sprite `who` at pixel position `(x, y)`, at rest there since the frame
before, with the cell `MoveAll` derives from the position. -/
def Sprite.place (who : Nat) (x y : Int) (state : SpriteState) (dir : Nat) : Sprite :=
  { Sprite.zero with
    who := who, _x := x, _y := y, lastx := x, lasty := y
    cx := toU8 ((x + 4) / 8), cy := toU8 ((y + 4) / 8), state := state, dir := dir }

/-- The five sprites of a game under way: BINKY, given as `binky`, is out of
the pen; PINKY, INKY and CLYDE wait in the pen where `Init` put them; Pac-Man,
given as `pacman`, has 20 in its speed accumulator and so moves on the next
frame. -/
def sampleSprites (binky pacman : Sprite) (i : Nat) : Sprite :=
  if i = 0 then binky
  else if i = 1 then { Sprite.place PINKY 92 136 PenState MLeft with pentimer := 60 }
  else if i = 2 then { Sprite.place INKY 108 136 PenState MLeft with pentimer := 120 }
  else if i = 3 then { Sprite.place CLYDE 124 136 PenState MRight with pentimer := 180 }
  else if i = 4 then { pacman with _speed := 20 }
  else Sprite.zero

/-- A game under way on level 1 of the sample maze, played by the user, with
five lives and 39990 points, ten short of the next extra life.  The pill at cell
(1, 6) is still there; Pac-Man is 2 pixels right of that cell's centre and heads
left; BINKY is in RunState between two cells and heads left. -/
def Game.sampleFiveLives : Game :=
  { Game.boot with
    _inited := true, DEMO := 0, _state := PlayState, LIFES := 5
    _score := 39990, _hiscore := 39990, _lifescore := 40000
    _scIndex := 1, _scTimer := 100
    _dotMap := fun i => if i = 12 then 0x40 else 0
    _BonusSprite := Sprite.place BONUS 108 160 PenState MLeft
    _sprites := sampleSprites (Sprite.place BINKY 106 112 RunState MLeft)
      (Sprite.place PACMAN 12 48 PenState MLeft) }

/-- A game under way in which BINKY is frightened and stands 2 pixels left of
Pac-Man, who heads left; the pill at cell (1, 6) is still there. -/
def Game.sampleChase : Game :=
  { Game.boot with
    _inited := true, DEMO := 0, _state := PlayState
    _score := 500, _hiscore := 500, _lifescore := 10000
    _scIndex := 1, _scTimer := 100, _frightenedTimer := 500
    _dotMap := fun i => if i = 12 then 0x40 else 0
    _BonusSprite := Sprite.place BONUS 108 160 PenState MLeft
    _sprites := sampleSprites (Sprite.place BINKY 10 64 FrightenedState MRight)
      (Sprite.place PACMAN 12 64 PenState MLeft) }

/-- A game under way in which Pac-Man stands at x = 0 in the tunnel row and
heads left; the pill at cell (1, 6) is still there. -/
def Game.sampleTunnel : Game :=
  { Game.boot with
    _inited := true, DEMO := 0, _state := PlayState
    _score := 500, _hiscore := 500, _lifescore := 10000
    _scIndex := 1, _scTimer := 100
    _dotMap := fun i => if i = 12 then 0x40 else 0
    _BonusSprite := Sprite.place BONUS 108 160 PenState MLeft
    _sprites := sampleSprites (Sprite.place BINKY 106 112 RunState MLeft)
      (Sprite.place PACMAN 0 136 PenState MLeft) }

/-- The speed table in the words of the specification: Pac-Man gets 90 while
the frightened timer is above 0 and 80 otherwise; a ghost gets 40 in
FrightenedState, else 100 in DeadEyesState, else 40 in the tunnel (`cy = 17`
and `cx ≤ 5` or `cx > 20`), else 75. -/
def speedTable (frightenedTimer : Nat) (s : Sprite) : Nat :=
  if s.who = PACMAN then
    if frightenedTimer > 0 then 90 else 80
  else if s.state = FrightenedState then 40
  else if s.state = DeadEyesState then 100
  else if s.cy = 17 ∧ (s.cx ≤ 5 ∨ s.cx > 20) then 40
  else 75

/-- Every sprite of `b` has the direction it has in `g`. -/
def sameDirs (g b : Game) : Prop := ∀ j, (b._sprites j).dir = (g._sprites j).dir

/-! ## Tables in the words of the specification -/

/-- The offset of PINKY's target from Pac-Man's cell, by Pac-Man's direction, as
the specification gives it: Right (4, 0), Down (0, 4), Left (-4, 0), Up
(-4, 4). -/
def pinkyOffset (dir : Nat) : Int × Int :=
  if dir = MRight then (4, 0)
  else if dir = MDown then (0, 4)
  else if dir = MLeft then (-4, 0)
  else if dir = MUp then (-4, 4)
  else (0, 0)

/-- The value of `Chase` for the neighbour of sprite `s` in direction `d`: the
entry `choice[4 - d]` that `ChooseDir` computes (Up at index 0, Left at 1, Down
at 2, Right at 3). -/
def neighbourChase (env : Env) (g : Game) (s : Sprite) (d : Nat) : Int :=
  if d = MUp then Chase env g s s.cx ((s.cy : Int) - 1)
  else if d = MLeft then Chase env g s ((s.cx : Int) - 1) s.cy
  else if d = MDown then Chase env g s s.cx ((s.cy : Int) + 1)
  else if d = MRight then Chase env g s ((s.cx : Int) + 1) s.cy
  else 0

/-- The latch of the button for direction `d`. -/
def latched (g : Game) (d : Nat) : Bool :=
  if d = MUp then g.but_UP
  else if d = MLeft then g.but_LEFT
  else if d = MDown then g.but_DOWN
  else if d = MRight then g.but_RIGHT
  else false

/-- The choice of direction in player mode, in the words of the specification:
the first of Up, Left, Down, Right whose button is latched and whose neighbour
is passable; if there is none, the current direction when it is one of the four
and its neighbour is passable; otherwise Stopped. -/
def playerChoice (isLatched isPassable : Nat → Bool) (dir : Int) : Nat :=
  match [MUp, MLeft, MDown, MRight].find? (fun d => isLatched d && isPassable d) with
  | some d => d
  | none =>
    if (dir = MUp ∨ dir = MLeft ∨ dir = MDown ∨ dir = MRight) ∧ isPassable dir.toNat = true
    then dir.toNat
    else MStopped

/-- The neighbour of sprite `s` in direction `d` is passable for it:
`Chase < 0x7FFF`. -/
def passable (env : Env) (g : Game) (s : Sprite) (d : Nat) : Bool :=
  decide (neighbourChase env g s d < 0x7FFF)

/-- What play leaves alone: `b` has the scatter/chase index and timer, the
`_inited` flag, the pause flag and the six button latches of `g`. -/
structure Quiet (g b : Game) : Prop where
  scIndex : b._scIndex = g._scIndex
  scTimer : b._scTimer = g._scTimer
  inited : b._inited = g._inited
  paused : b.GAMEPAUSED = g.GAMEPAUSED
  butA : b.but_A = g.but_A
  butB : b.but_B = g.but_B
  butUP : b.but_UP = g.but_UP
  butDOWN : b.but_DOWN = g.but_DOWN
  butLEFT : b.but_LEFT = g.but_LEFT
  butRIGHT : b.but_RIGHT = g.but_RIGHT


/-- A game under way in chase mode (`_scIndex` = 2): the four ghosts are out of
the pen in RunState with their pen timers at 0, BINKY in cell (13, 14), PINKY in
(2, 6), INKY in (25, 6), CLYDE in (3, 8); Pac-Man is in cell (2, 8) and heads
left; the pill at cell (1, 6) is still there. -/
def Game.sampleHunt : Game :=
  { Game.boot with
    _inited := true, DEMO := 0, _state := PlayState
    _score := 500, _hiscore := 500, _lifescore := 10000
    _scIndex := 2, _scTimer := 100
    _dotMap := fun i => if i = 12 then 0x40 else 0
    _BonusSprite := Sprite.place BONUS 108 160 PenState MLeft
    _sprites := fun i =>
      if i = 0 then Sprite.place BINKY 104 112 RunState MLeft
      else if i = 1 then Sprite.place PINKY 16 48 RunState MLeft
      else if i = 2 then Sprite.place INKY 200 48 RunState MLeft
      else if i = 3 then Sprite.place CLYDE 24 64 RunState MRight
      else if i = 4 then { Sprite.place PACMAN 12 64 PenState MLeft with _speed := 20 }
      else Sprite.zero }


/-- The game `b` differs from `g` at most in the clocks of `UpdateTimers` other
than the frightened timer: the scatter/chase index and timer, the bonus flag
and the two bonus timers. -/
def onlyClocks (g b : Game) : Prop :=
  b = { g with
    _scIndex := b._scIndex, _scTimer := b._scTimer, ACTIVEBONUS := b.ACTIVEBONUS
    _BonusInactiveTimmer := b._BonusInactiveTimmer
    _BonusActiveTimmer := b._BonusActiveTimmer }


/-- A game under way at the end of the scatter/chase schedule (`_scIndex` = 8,
`_scTimer` = 0) in which BINKY, in RunState, stands 2 pixels left of Pac-Man,
who heads left and has two lives left; the pill at cell (1, 6) is still
there. -/
def Game.sampleLastPhase : Game :=
  { Game.boot with
    _inited := true, DEMO := 0, _state := PlayState
    _score := 500, _hiscore := 500, _lifescore := 10000
    _scIndex := 8, _scTimer := 0
    _dotMap := fun i => if i = 12 then 0x40 else 0
    _BonusSprite := Sprite.place BONUS 108 160 PenState MLeft
    _sprites := sampleSprites (Sprite.place BINKY 10 64 RunState MRight)
      (Sprite.place PACMAN 12 64 PenState MLeft) }


/-- The sprite `t` is `s` up to what `SetupDraw` writes: `sy`, `palette2` and
`bits`. -/
def Sprite.drawnFrom (s t : Sprite) : Prop :=
  t = { s with sy := t.sy, palette2 := t.palette2, bits := t.bits }

/-- The game `r` is `b` after the rest of a `Step` that finds the game in
ReadyState with more than one tick to go: at most the clocks of `UpdateTimers`,
the state timer and what `SetupDraw` writes differ, and the state timer is one
lower unless the game is paused. -/
structure readyFrame (b r : Game) : Prop where
  rest : r = { b with
    _scIndex := r._scIndex, _scTimer := r._scTimer, ACTIVEBONUS := r.ACTIVEBONUS
    _BonusInactiveTimmer := r._BonusInactiveTimmer
    _BonusActiveTimmer := r._BonusActiveTimmer
    _stateTimer := r._stateTimer, _sprites := r._sprites, _BonusSprite := r._BonusSprite }
  timer : (b.GAMEPAUSED = 0 ∧ r._stateTimer = b._stateTimer - 1) ∨
    (b.GAMEPAUSED ≠ 0 ∧ r._stateTimer = b._stateTimer)
  sprites : ∀ j, (b._sprites j).drawnFrom (r._sprites j)
  bonus : b._BonusSprite.drawnFrom r._BonusSprite


/-- The property `Q` holds of each of the five sprites: `Q j` of sprite `j`. -/
def allSprites (Q : Nat → Sprite → Prop) (g : Game) : Prop :=
  ∀ j, j < 5 → Q j (g._sprites j)

/-- The property `Q` of a sprite is kept by each of the writes the program makes
to a sprite, and holds of a sprite fresh from `Sprite::Init`.  One rule per
write: `Target`; the reversal into FrightenedState by a pill and back at the end
of the frightened time; in `UpdateTargets` the return of the eyes to the pen,
the pen timer counting down and running out; DeadNumberState turning into
DeadEyesState; a frightened ghost being eaten; in the movement loop the speed
accumulator, the bookkeeping before a move, the new direction on a cell-aligned
frame and the step itself; `SetupDraw`. -/
structure SpriteRule (env : Env) (Q : Nat → Sprite → Prop) : Prop where
  onTarget : ∀ j s x y, Q j s → Q j (s.Target x y)
  onFrighten : ∀ j s, j < 4 → Q j s → Q j (frighten s)
  onRelease : ∀ j s, j < 4 → Q j s → Q j (releaseFrightened s)
  onRevive : ∀ j s, j < 4 → s.state = DeadEyesState → Q j s →
    Q j { s with state := PenState, pentimer := 80 }
  onWait : ∀ j s, j < 4 → s.pentimer ≠ 0 → s.pentimer - 1 ≠ 0 → Q j s →
    Q j { s with pentimer := s.pentimer - 1 }
  onLeave : ∀ j s, j < 4 → s.pentimer ≠ 0 → ¬ (s.pentimer - 1 ≠ 0) → Q j s →
    Q j { s with pentimer := s.pentimer - 1, state := RunState }
  onEyes : ∀ j s, j < 4 → s.state = DeadNumberState → Q j s →
    Q j { s with state := DeadEyesState }
  onEaten : ∀ j s, j < 4 → s.state = FrightenedState → Q j s →
    Q j { s with state := DeadNumberState }
  onSpeed : ∀ j s v, Q j s → Q j { s with _speed := v }
  onAdvance : ∀ j s, Q j s →
    Q j { s with
      _speed := s._speed - 100, lastx := s._x, lasty := s._y, phase := (s.phase + 1) % 256 }
  onTurn : ∀ j s d, s.aligned → Q j s → Q j { s with dir := d }
  onPixel : ∀ j s, Q j s → Q j (stepPixel s)
  onDraw : ∀ j s ab st idx, Q j s → Q j (s.SetupDraw ab st idx)
  onInit : ∀ j c s, j < 5 → Q j (Sprite.Init env c (j * 5) s)


/-- The speed accumulator of every sprite, the bonus sprite included, is below
100. -/
def SpeedInv (g : Game) : Prop :=
  (∀ j, (g._sprites j)._speed < 100) ∧ g._BonusSprite._speed < 100


/-- Sprite `j` carries its own index in `who`, and its direction is one of
Right, Down, Left, Up (1..4) if it is a ghost or the game is in attract mode
(`demo` = 1). -/
def Sprite.dirOK (demo : Nat) (j : Nat) (s : Sprite) : Prop :=
  s.who = j ∧ ((j < 4 ∨ demo = 1) → 1 ≤ s.dir ∧ s.dir ≤ 4)

/-- DEMO is 0 or 1, and each of the five sprites has its index in `who` and,
when `ChooseDir` would take its last branch for it, a direction in 1..4. -/
def DirOK (g : Game) : Prop :=
  (g.DEMO = 0 ∨ g.DEMO = 1) ∧ ∀ j, j < 5 → (g._sprites j).dirOK g.DEMO j

/-- The sprite `t` has the `who` of `s`, and a direction in 1..4 if `s` has
one. -/
def Sprite.keepsDir (s t : Sprite) : Prop :=
  t.who = s.who ∧ (1 ≤ s.dir ∧ s.dir ≤ 4 → 1 ≤ t.dir ∧ t.dir ≤ 4)

/-- The states in which the movement loop of `MoveAll` can find the game during
a `Step` from a reachable state: the state after the four blocks of `Step` that
read the buttons, and from there any sequence of `UpdateTimers`,
`UpdateTargets`, the count-down of the state timer, the `switch` at its end,
the loop body for one of the five sprites and, inside the loop body, the write
of the speed accumulator and the bookkeeping that precede the call of
`ChooseDir`. -/
inductive Inside (env : Env) : Game → Prop where
  | blocks {g : Game} : Reachable env g →
      Inside env (stepButtonB (Init env) (stepResume (stepButtonA (Init env)
        (stepGameWin (Init env) g))))
  | timers {b : Game} : Inside env b → Inside env (UpdateTimers b)
  | targets {b : Game} : Inside env b → Inside env (UpdateTargets b)
  | tick {b : Game} : Inside env b → Inside env { b with _stateTimer := b._stateTimer - 1 }
  | timeout {b : Game} : Inside env b → Inside env (stateTimeout b)
  | move {b : Game} (i : Nat) : i < 5 → Inside env b → Inside env (moveSprite env i b)
  | accumulate {b : Game} (i : Nat) : i < 5 → Inside env b →
      Inside env (b.setSprite i { b._sprites i with
        _speed := ((b._sprites i)._speed + GetSpeed b (b._sprites i)) % 256 })
  | bookkeeping {b : Game} (i : Nat) : i < 5 → Inside env b →
      Inside env (b.setSprite i { b._sprites i with
        _speed := (b._sprites i)._speed - 100, lastx := (b._sprites i)._x
        lasty := (b._sprites i)._y, phase := ((b._sprites i).phase + 1) % 256 })

/-- A maze of walls: every tile is 1, but for the pill at cell (1, 6). -/
def Env.walled : Env :=
  { playMap1 := fun i => if i = 6 * 28 + 1 then PILL else 1
    playMap2 := fun _ => 1
    playMap3 := fun _ => 1
    playMap4 := fun _ => 1
    playMap5 := fun _ => 1
    rand := fun _ => 0 }

/-- The sample chase game with Pac-Man on the grid in cell (2, 8), heading
left, about to move, and no button latched. -/
def Game.sampleWall : Game :=
  { Game.sampleHunt with
    _sprites := fun i =>
      if i = 4 then { Sprite.place PACMAN 16 64 PenState MLeft with _speed := 20 }
      else Game.sampleHunt._sprites i }

/-- The sample chase game with INKY, in cell (25, 6), frightened; PINKY, two
cells from Pac-Man, and CLYDE, one cell from Pac-Man, are not. -/
def Game.sampleScan : Game :=
  { Game.sampleHunt with
    _frightenedTimer := 500
    _sprites := fun i =>
      if i = 2 then Sprite.place INKY 200 48 FrightenedState MLeft
      else Game.sampleHunt._sprites i }


/-- The cells the dot search of `PacmanAI` looks at: columns 1..25 of rows
4..31. -/
def dotWindow (x y : Nat) : Prop := 1 ≤ x ∧ x < 26 ∧ 4 ≤ y ∧ y < 32

/-- The cells the dot search has looked at when it comes to column `x` of row
`y`. -/
def dotTried (y x : Nat) (x1 y1 : Nat) : Prop :=
  1 ≤ x1 ∧ x1 < 26 ∧ 4 ≤ y1 ∧ (y1 < y ∨ (y1 = y ∧ x1 < x))

/-- What the dot search holds after it has looked at the cells `seen`: either
none of them has its dot bit set, `dist` is still 0x7FFF and the game is as it
was; or `dist` is the distance of one of them with its bit set, no other such
cell is closer, and that cell is Pac-Man's target. -/
def dotFound (g : Game) (seen : Nat → Nat → Prop) (st : Int × Game) : Prop :=
  (st.1 = 0x7FFF ∧ st.2 = g ∧ ∀ x y, seen x y → GetDot g x y = false) ∨
    ∃ x y, seen x y ∧ GetDot g x y = true ∧ st.1 = (g._sprites PACMAN).Distance x y ∧
      st.2 = g.setSprite PACMAN ((g._sprites PACMAN).Target x y) ∧
      ∀ x1 y1, seen x1 y1 → GetDot g x1 y1 = true →
        (g._sprites PACMAN).Distance x y ≤ (g._sprites PACMAN).Distance x1 y1

/-- The sample chase game with one dot left, at cell (26, 8): the four pills
and every other dot are eaten. -/
def Game.sampleLastDot : Game :=
  { Game.sampleHunt with _dotMap := fun i => if i = 23 then 0x20 else 0 }


/-! ## The display side: `drawIndexedmap`, `Mark`, `Draw8` -/

/-- The macro `C16`: R5 G6 B5 for the RM68120 controller, B5 R5 G6 for the
RA8875 (`ra8875 = true`). -/
def C16 (ra8875 : Bool) (rr gg bb : Nat) : Nat :=
  if ra8875 then (((bb &&& 0xF8) <<< 8) ||| ((rr &&& 0xF8) <<< 3) ||| ((gg &&& 0xFC) >>> 2)) % 65536
  else (((rr &&& 0xF8) <<< 8) ||| ((gg &&& 0xFC) <<< 3) ||| ((bb &&& 0xF8) >>> 3)) % 65536

/-- The table `_paletteW`, for the display controller chosen at build time. -/
def _paletteW (ra8875 : Bool) : List Nat :=
  [C16 ra8875 0 0 0, C16 ra8875 255 0 0, C16 ra8875 222 151 81, C16 ra8875 255 0 255,
   C16 ra8875 0 0 0, C16 ra8875 0 255 255, C16 ra8875 71 84 255, C16 ra8875 255 184 81,
   C16 ra8875 0 0 0, C16 ra8875 255 255 0, C16 ra8875 0 0 0, C16 ra8875 33 33 255,
   C16 ra8875 0 255 0, C16 ra8875 71 84 174, C16 ra8875 255 184 174, C16 ra8875 222 222 255]

/-- The static `screenBuffer[16*16]` of `drawIndexedmap`: the value at each
subscript, and the subscripts stored to since the call began, in the order of
the stores. -/
structure ScreenBuffer where
  cells : Nat → Nat
  stores : List Nat

/-- One store `screenBuffer[k] = v`. -/
def ScreenBuffer.store (sb : ScreenBuffer) (k v : Nat) : ScreenBuffer :=
  { cells := fun j => if j = k then v else sb.cells j, stores := sb.stores ++ [k] }

/-- Body of the inner loop of `drawIndexedmap`, on the pair of the `uint8_t`
counter `i` and the buffer.  The chained assignment stores from right to
left. -/
def drawQuad (paletteW : List Nat) (indexmap : Nat → Nat) (tmpY tmpX : Nat)
    (st : Nat × ScreenBuffer) : Nat × ScreenBuffer :=
  let xt := toU16 (2 * (tmpY : Int))
  let yt := toU16 (14 - 2 * (tmpX : Int))
  let v := tableAt paletteW (indexmap st.1 % 256 : Nat)
  let sb := st.2.store (xt + 1 + (yt + 1) * 16) v
  let sb := sb.store (xt + (yt + 1) * 16) v
  let sb := sb.store (xt + 1 + yt * 16) v
  let sb := sb.store (xt + yt * 16) v
  ((st.1 + 1) % 256, sb)

/-- The two loops of `drawIndexedmap` on the static buffer `sb`, for the tile
at `indexmap`.  The call then hands the buffer to `bsp_lcd_flush`, which is
output and left out. -/
def drawIndexedmap (paletteW : List Nat) (indexmap : Nat → Nat) (sb : ScreenBuffer) :
    ScreenBuffer :=
  (forEach 8 (fun tmpY st => forEach 8 (drawQuad paletteW indexmap tmpY) st)
    (0, { sb with stores := [] })).2


/-- What `drawIndexedmap` holds when it comes to input pixel number `n`
(row-major): the counter is `n`, the four entries of each pixel before it hold
that pixel's colour, and the stores so far are the four of each pixel before
it, each made once. -/
def quadsDone (paletteW : List Nat) (indexmap : Nat → Nat) (n : Nat)
    (st : Nat × ScreenBuffer) : Prop :=
  st.1 = n ∧
    (∀ tx ty a b, tx < 8 → ty < 8 → a < 2 → b < 2 → ty * 8 + tx < n →
      st.2.cells (2 * ty + a + (14 - 2 * tx + b) * 16) =
        tableAt paletteW (indexmap (ty * 8 + tx) % 256 : Nat)) ∧
    (∀ tx ty a b, tx < 8 → ty < 8 → a < 2 → b < 2 →
      st.2.stores.count (2 * ty + a + (14 - 2 * tx + b) * 16) =
        if ty * 8 + tx < n then 1 else 0) ∧
    st.2.stores.length = 4 * n


/-- The table `_palette2`: fifteen rows of four colours. -/
def _palette2 : List Nat :=
  [0, 11, 1, 15, 0, 11, 3, 15, 0, 11, 5, 15, 0, 11, 7, 15, 0, 11, 9, 9, 0, 11, 15, 15,
   0, 11, 0, 15, 0, 1, 15, 2, 0, 1, 15, 12, 0, 7, 2, 12, 0, 9, 15, 0, 0, 15, 1, 2,
   0, 12, 15, 5, 0, 11, 9, 1, 0, 5, 15, 15]

/-- What the `do` loop of `Draw8` carries: the byte `d` being shifted out, the
count `sx` of pixels left in it, the read pointer `src` as an offset into
`pacman16x16`, and the memory at `tile`, by offset from the start of the
caller's tile. -/
structure PixelRun where
  d : Nat
  sx : Nat
  src : Int
  tile : Int → Nat

/-- Body of the `do` loop of `Draw8` for column `x`; `rom` is the memory at
`pacman16x16` (the table is not in `pacman.ino.cpp`), `palette` the offset of
the palette row in `_palette2`, `tilePtr` the offset of the tile row. -/
def drawPixel (rom : Int → Nat) (palette : Int) (tilePtr : Int) (x : Nat) (st : PixelRun) :
    PixelRun :=
  let p := st.d &&& 3
  let tile : Int → Nat :=
    if p ≠ 0 then
      let p := tableAt _palette2 (palette + p)
      if p ≠ 0 then fun k => if k = tilePtr + x then p else st.tile k else st.tile
    else st.tile
  let d := st.d >>> 2
  let sx := (st.sx + 255) % 256
  if sx = 0 then { d := rom st.src % 256, sx := 4, src := st.src + 1, tile := tile }
  else { d := d, sx := sx, src := st.src, tile := tile }

/-- What the `while (lines)` loop of `Draw8` carries: the pointers `tile` and
`data` as offsets, and the memory at `tile`. -/
structure RowRun where
  tilePtr : Int
  data : Int
  tile : Int → Nat

/-- Body of the `while (lines)` loop of `Draw8`.  The `do` loop runs for
`x = left, left + 1, ..` until `++x < right` fails: `right - left` rounds, or
one round when `left ≥ right` (`left` is 7 at most, so the `uint8_t` counter
does not wrap). -/
def drawRow (rom : Int → Nat) (palette : Int) (px left right : Nat) (dy : Int) (st : RowRun) :
    RowRun :=
  let run : PixelRun :=
    { d := (rom st.data % 256) >>> (px <<< 1), sx := toU8 (4 - (px : Int)), src := st.data + 1,
      tile := st.tile }
  let run := forEach (if left < right then right - left else 1)
    (fun j run => drawPixel rom palette st.tilePtr (left + j) run) run
  { tilePtr := st.tilePtr + 8, data := st.data + dy, tile := run.tile }

/-- `Sprite::Draw8` on the memory at `tile`; `x` and `y` are the `int16_t`
arguments.  The shifts of `int16_t` values are written as the products and
quotients they are (`py << 2` as `py * 4`, `px >> 2` as `px / 4`, `px & 3` as
`px % 4`).  `lines` is 1 at least when the loop is reached, and counts the
rounds. -/
def Sprite.Draw8 (rom : Int → Nat) (s : Sprite) (x y : Int) (tile : Int → Nat) : Int → Nat :=
  let px := toInt16 (x - (s._x - 4))
  if px ≤ -8 ∨ px ≥ 16 then tile
  else
    let py := toInt16 (y - (s._y - 4))
    if py ≤ -8 ∨ py ≥ 16 then tile
    else
      let lines := toInt16 (py + 8)
      let lines := if lines > 16 then 16 else lines
      let tilePtr : Int := if py < 0 then 0 - py * 8 else 0
      let py := if py < 0 then 0 else py
      let lines := toInt16 (lines - py)
      let right := toU8 (16 - px)
      let right := if right > 8 then 8 else right
      let left := if px < 0 then toU8 (-px) else 0
      let px := if px < 0 then 0 else px
      let dy := toInt8 s.sy
      let py := if dy < 0 then toInt16 (15 - py) else py
      let data : Int := (s.bits : Int) * 64 + py * 4
      let dy := toInt8 (dy * 4)
      let data := data + px / 4
      let px := toInt16 (px % 4)
      let palette : Int := (s.palette2 : Int) * 4
      (forEach lines.toNat (fun _ st => drawRow rom palette px.toNat left right dy st)
        { tilePtr := tilePtr, data := data, tile := tile }).tile

/-- The 2-bit value of the pixel in row `row`, column `col` of sprite bitmap
`bits`: four pixels to the byte, lowest bits first, four bytes to the row,
64 bytes to the bitmap. -/
def spritePixel (rom : Int → Nat) (bits : Nat) (row col : Int) : Nat :=
  ((rom ((bits : Int) * 64 + row * 4 + col / 4) % 256) >>> (2 * (col % 4).toNat)) &&& 3

/-- The value of a tile entry over which the sprite pixel of 2-bit value `p`
is laid: the palette entry when `p` and the palette entry are not 0, the old
value otherwise. -/
def overlay (palette2 : Nat) (p old : Nat) : Nat :=
  if p ≠ 0 ∧ tableAt _palette2 ((palette2 : Int) * 4 + p) ≠ 0 then
    tableAt _palette2 ((palette2 : Int) * 4 + p)
  else old

/-- The tile after `Draw8` in the words of the specification: entry `k` of the
8x8 tile at `(x, y)` lies in row `k / 8`, column `k % 8`, over the pixel of the
sprite's 16x16 box at `(_x - 4, _y - 4)` in row `y + k / 8 - (_y - 4)`, column
`x + k % 8 - (_x - 4)`, if that is inside the box; the sprite's row is mirrored
as 15 - row when `sy < 0`; the entry is overlaid with that pixel.  Nothing else
changes. -/
def overlaidTile (rom : Int → Nat) (s : Sprite) (x y : Int) (tile : Int → Nat) (k : Int) :
    Nat :=
  let col := x + k % 8 - (s._x - 4)
  let row := y + k / 8 - (s._y - 4)
  if 0 ≤ k ∧ k < 64 ∧ 0 ≤ col ∧ col < 16 ∧ 0 ≤ row ∧ row < 16 then
    overlay s.palette2
      (spritePixel rom s.bits (if s.sy < 0 then 15 - row else row) col) (tile k)
  else tile k


/-- The 2-bit value of pixel `c` of the sprite row whose four bytes start at
offset `base` of `pacman16x16`. -/
def rowPixel (rom : Int → Nat) (base : Int) (c : Nat) : Nat :=
  ((rom (base + ((c / 4 : Nat) : Int)) % 256) >>> (2 * (c % 4))) &&& 3

/-- What the `do` loop of `Draw8` holds after `j` rounds on a sprite row that
starts at offset `base` and is entered at pixel `c0`: `d`, `sx` and `src` are
at pixel `c0 + j`, and the `j` tile entries from `tp + left` on are overlaid
with the pixels from `c0` on. -/
def pixelsDone (rom : Int → Nat) (palette2 : Nat) (base : Int) (c0 left : Nat) (tp : Int)
    (tile0 : Int → Nat) (j : Nat) (run : PixelRun) : Prop :=
  run.sx = 4 - (c0 + j) % 4 ∧
    run.src = base + (((c0 + j) / 4 : Nat) : Int) + 1 ∧
    run.d = (rom (base + (((c0 + j) / 4 : Nat) : Int)) % 256) >>> (2 * ((c0 + j) % 4)) ∧
    ∀ k : Int, run.tile k =
      if tp + left ≤ k ∧ k < tp + left + j then
        overlay palette2 (rowPixel rom base (c0 + (k - tp - left).toNat)) (tile0 k)
      else tile0 k

/-- What the `while (lines)` loop of `Draw8` holds after `i` rounds: the
pointers have moved by `i` rows, and in each of the `i` tile rows from `tp0` on
the entries of columns `left` to `right - 1` are overlaid with the pixels from
`c0` on of a sprite row. -/
def rowsDone (rom : Int → Nat) (palette2 : Nat) (base : Int) (c0 left right : Nat) (dy : Int)
    (tp0 : Int) (tile0 : Int → Nat) (i : Nat) (st : RowRun) : Prop :=
  st.tilePtr = tp0 + 8 * i ∧
    st.data = base + ((c0 / 4 : Nat) : Int) + dy * i ∧
    ∀ k : Int, st.tile k =
      if 0 ≤ k - tp0 ∧ (k - tp0) / 8 < i ∧ (left : Int) ≤ (k - tp0) % 8 ∧
          (k - tp0) % 8 < right then
        overlay palette2
          (rowPixel rom (base + dy * ((k - tp0) / 8)) (c0 + ((k - tp0) % 8 - left).toNat))
          (tile0 k)
      else tile0 k


/-- `Playfield::Mark`: the subscripts `(row, column)` of the nine stores
`updateMap[..][..] = true`, in their order.  `x` and `y` are the `int16_t`
arguments; `>> 3` is the quotient by 8 rounded down. -/
def Mark (x y : Int) : List (Int × Int) :=
  let x := toInt16 (x - 4)
  let y := toInt16 (y - 4)
  [(y / 8, x / 8), (y / 8, x / 8 + 1), (y / 8, x / 8 + 2),
   (y / 8 + 1, x / 8), (y / 8 + 1, x / 8 + 1), (y / 8 + 1, x / 8 + 2),
   (y / 8 + 2, x / 8), (y / 8 + 2, x / 8 + 1), (y / 8 + 2, x / 8 + 2)]

/-- The subscripts that the declaration `boolean updateMap[36][28]` allows. -/
def inUpdateMap (rc : Int × Int) : Bool :=
  decide (0 ≤ rc.1 ∧ rc.1 < 36 ∧ 0 ≤ rc.2 ∧ rc.2 < 28)

/-- A sprite table for examples: in every bitmap the first four pixels of row 0
have the values 3, 2, 1 and 0, and every other pixel is 0. -/
def sampleRom (i : Int) : Nat := if i % 64 = 0 then 0x1B else 0

/-- Pac-Man heading up with its 16x16 box at (0, 0), after `SetupDraw`. -/
def Sprite.sampleUp : Sprite := (Sprite.place PACMAN 4 4 RunState MUp).SetupDraw 0 PlayState 0

/-! ## Arithmetic of the wrap loops -/

theorem addWhileNeg_spec (k : Int) (hk : 1 ≤ k) (fuel : Nat) (v : Int)
    (hf : -v ≤ fuel) :
    0 ≤ addWhileNeg k fuel v ∧ (addWhileNeg k fuel v) % k = v % k ∧
      (0 ≤ v → addWhileNeg k fuel v = v) ∧ (v < 0 → addWhileNeg k fuel v < k) := by
  induction fuel generalizing v with
  | zero =>
    have hv : 0 ≤ v := by omega
    refine ⟨hv, rfl, fun _ => rfl, fun h => ?_⟩
    omega
  | succ n ih =>
    unfold addWhileNeg
    split
    · rename_i hneg
      have hstep := ih (v + k) (by push_cast at hf; omega)
      refine ⟨hstep.1, ?_, fun h => by omega, fun _ => ?_⟩
      · rw [hstep.2.1]; simp
      · by_cases h2 : v + k < 0
        · exact hstep.2.2.2 h2
        · rw [hstep.2.2.1 (by omega)]; omega
    · rename_i hpos
      exact ⟨by omega, rfl, fun _ => rfl, fun h => by omega⟩

theorem subWhileGe_spec (k : Int) (hk : 1 ≤ k) (fuel : Nat) (v : Int) (hv : 0 ≤ v)
    (hf : v < k + fuel) :
    0 ≤ subWhileGe k fuel v ∧ subWhileGe k fuel v < k ∧
      (subWhileGe k fuel v) % k = v % k := by
  induction fuel generalizing v with
  | zero =>
    exact ⟨hv, by unfold subWhileGe; simpa using hf, rfl⟩
  | succ n ih =>
    unfold subWhileGe
    split
    · rename_i hge
      have hstep := ih (v - k) (by omega) (by push_cast at hf; omega)
      refine ⟨hstep.1, hstep.2.1, ?_⟩
      rw [hstep.2.2]; simp
    · rename_i hlt
      exact ⟨hv, by omega, rfl⟩

theorem wrapInto_eq_emod (k : Int) (hk : 1 ≤ k) (v : Int) : wrapInto k v = v % k := by
  unfold wrapInto
  have hneg : -v ≤ (v.natAbs : Int) := by omega
  have h1 := addWhileNeg_spec k hk v.natAbs v hneg
  have hfuel : addWhileNeg k v.natAbs v < k + (v.natAbs : Int) := by
    by_cases hv : 0 ≤ v
    · rw [h1.2.2.1 hv]; omega
    · have hlt := h1.2.2.2 (by omega)
      omega
  have h2 := subWhileGe_spec k hk v.natAbs _ h1.1 hfuel
  have h3 : (subWhileGe k v.natAbs (addWhileNeg k v.natAbs v)) % k = v % k := by
    rw [h2.2.2, h1.2.1]
  rw [← h3]
  exact (Int.emod_eq_of_lt h2.1 h2.2.1).symm

/-! ## Loops, one round at a time -/

theorem forEach_zero {α : Type} (body : Nat → α → α) (a : α) : forEach 0 body a = a := rfl

theorem forEach_succ {α : Type} (n : Nat) (body : Nat → α → α) (a : α) :
    forEach (n + 1) body a = body n (forEach n body a) := by
  unfold forEach
  rw [List.range_succ, List.foldl_append]
  rfl

theorem forRange_self {α : Type} (lo : Nat) (body : Nat → α → α) (a : α) :
    forRange lo lo body a = a := by
  unfold forRange
  simp

theorem forRange_succ {α : Type} (lo n : Nat) (body : Nat → α → α) (a : α) :
    forRange lo (lo + (n + 1)) body a = body (lo + n) (forRange lo (lo + n) body a) := by
  unfold forRange
  have h1 : lo + (n + 1) - lo = n + 1 := by omega
  have h2 : lo + n - lo = n := by omega
  rw [h1, h2, List.range'_1_concat, List.foldl_append]
  rfl

/-- A property kept by every round of a `forEach` loop holds after the loop. -/
theorem forEach_induction {α : Type} (P : α → Prop) (n : Nat) (body : Nat → α → α) (a : α)
    (h0 : P a) (hstep : ∀ i b, i < n → P b → P (body i b)) : P (forEach n body a) := by
  induction n with
  | zero => exact h0
  | succ k ih =>
    rw [forEach_succ]
    exact hstep k _ (Nat.lt_succ_self k) (ih (fun i b hi hb => hstep i b (Nat.lt_succ_of_lt hi) hb))

/-- A property kept by every round of a `forRange` loop holds after the loop. -/
theorem forRange_induction {α : Type} (P : α → Prop) (lo hi : Nat) (hle : lo ≤ hi)
    (body : Nat → α → α) (a : α)
    (h0 : P a) (hstep : ∀ i b, lo ≤ i → i < hi → P b → P (body i b)) :
    P (forRange lo hi body a) := by
  obtain ⟨n, rfl⟩ := Nat.exists_eq_add_of_le hle
  induction n with
  | zero => simpa [forRange_self] using h0
  | succ k ih =>
    rw [forRange_succ]
    exact hstep (lo + k) _ (Nat.le_add_right lo k) (by omega)
      (ih (Nat.le_add_right lo k) (fun i b h1 h2 hb => hstep i b h1 (by omega) hb))

/-! ## Bits of the dot bitmap -/

theorem dotMask_eq (x : Nat) : dotMask x = 2 ^ (7 - x % 8) := by
  unfold dotMask
  have h : x &&& 7 = x % 8 := Nat.and_pow_two_sub_one_eq_mod x 3
  rw [h]
  have hlt : x % 8 < 8 := Nat.mod_lt _ (by decide)
  generalize x % 8 = k at hlt
  interval_cases k <;> rfl

theorem and_two_pow_ne_zero (m k : Nat) : m &&& 2 ^ k ≠ 0 ↔ m.testBit k = true := by
  rw [Nat.and_two_pow]
  cases h : m.testBit k <;> simp

theorem GetDot_eq_testBit (g : Game) (x y : Nat) :
    GetDot g x y = (g._dotMap (dotIndex x y)).testBit (7 - x % 8) := by
  unfold GetDot
  rw [dotMask_eq]
  cases h : (g._dotMap (dotIndex x y)).testBit (7 - x % 8)
  · have := (and_two_pow_ne_zero (g._dotMap (dotIndex x y)) (7 - x % 8)).not.mpr (by simp [h])
    simpa using this
  · have := (and_two_pow_ne_zero (g._dotMap (dotIndex x y)) (7 - x % 8)).mpr h
    simpa using this

theorem dotIndex_eq (x y : Nat) : dotIndex x y = ((y : Int) - 3) * 4 + ((x / 8 : Nat) : Int) := by
  unfold dotIndex
  rw [Nat.shiftRight_eq_div_pow]
  rfl

/-- Two cells in columns below 32 that share their byte and their bit are the
same cell. -/
theorem dot_cell_inj (x y x1 y1 : Nat) (hx : x < 32) (hx1 : x1 < 32)
    (hi : dotIndex x1 y1 = dotIndex x y) (hb : 7 - x1 % 8 = 7 - x % 8) : x1 = x ∧ y1 = y := by
  rw [dotIndex_eq, dotIndex_eq] at hi
  omega

theorem GetTile_congr (env : Env) (g g1 : Game) (hs : g1._state = g._state)
    (hl : g1.LEVEL = g.LEVEL) (cx ty : Int) : GetTile env g1 cx ty = GetTile env g cx ty := by
  unfold GetTile
  rw [hs, hl]

/-! ## The dot loops of `Init` -/

theorem sameButDots_refl (g : Game) : sameButDots g g := rfl

theorem sameButDots_trans {a b c : Game} (h1 : sameButDots a b) (h2 : sameButDots b c) :
    sameButDots a c := by
  unfold sameButDots at *
  rw [h2, h1]

theorem sameButDots_tile (env : Env) {g b : Game} (h : sameButDots g b) (cx ty : Int) :
    GetTile env b cx ty = GetTile env g cx ty := by
  apply GetTile_congr
  · rw [h]
  · rw [h]

theorem initDot_frame (env : Env) (y x : Nat) (g : Game) :
    sameButDots g (initDot env y x g) := by
  unfold sameButDots initDot
  simp only []
  split <;> rfl

theorem initDot_bits (env : Env) (y x : Nat) (g : Game) (i : Int) (k : Nat) :
    ((initDot env y x g)._dotMap i).testBit k = true ↔
      ((g._dotMap i).testBit k = true ∨
        (dotIndex x y = i ∧ 7 - x % 8 = k ∧ (GetTile env g x y = 7 ∨ GetTile env g x y = 14))) := by
  unfold initDot
  simp only []
  by_cases ht : GetTile env g x y = 7 ∨ GetTile env g x y = 14
  · rw [if_pos ht]
    simp only []
    by_cases hi : i = dotIndex x y
    · subst hi
      rw [if_pos rfl, Nat.testBit_or, dotMask_eq, Nat.testBit_two_pow]
      simp [ht]
    · rw [if_neg hi]
      constructor
      · exact fun h => Or.inl h
      · rintro (h | ⟨h, _⟩)
        · exact h
        · exact absurd h.symm hi
  · rw [if_neg ht]
    constructor
    · exact fun h => Or.inl h
    · rintro (h | ⟨_, _, h⟩)
      · exact h
      · exact absurd h ht

theorem initRow_spec (env : Env) (y n : Nat) (g : Game) :
    sameButDots g (forEach n (initDot env y) g) ∧
    ∀ (i : Int) (k : Nat), ((forEach n (initDot env y) g)._dotMap i).testBit k = true ↔
      ((g._dotMap i).testBit k = true ∨
        ∃ x, x < n ∧ dotIndex x y = i ∧ 7 - x % 8 = k ∧
          (GetTile env g x y = 7 ∨ GetTile env g x y = 14)) := by
  induction n with
  | zero =>
    refine ⟨sameButDots_refl g, fun i k => ?_⟩
    rw [forEach_zero]
    constructor
    · exact fun h => Or.inl h
    · rintro (h | ⟨x, hx, _⟩)
      · exact h
      · exact absurd hx (Nat.not_lt_zero x)
  | succ m ih =>
    rw [forEach_succ]
    refine ⟨sameButDots_trans ih.1 (initDot_frame env y m _), fun i k => ?_⟩
    rw [initDot_bits, ih.2, sameButDots_tile env ih.1]
    constructor
    · rintro ((h | ⟨x, hx, h⟩) | h)
      · exact Or.inl h
      · exact Or.inr ⟨x, Nat.lt_succ_of_lt hx, h⟩
      · exact Or.inr ⟨m, Nat.lt_succ_self m, h⟩
    · rintro (h | ⟨x, hx, h⟩)
      · exact Or.inl (Or.inl h)
      · rcases Nat.lt_succ_iff_lt_or_eq.mp hx with hlt | heq
        · exact Or.inl (Or.inr ⟨x, hlt, h⟩)
        · subst heq
          exact Or.inr h

theorem initRows_spec (env : Env) (r : Nat) (g : Game) :
    sameButDots g (forRange 3 (3 + r) (fun y b => forEach 28 (initDot env y) b) g) ∧
    ∀ (i : Int) (k : Nat),
      ((forRange 3 (3 + r) (fun y b => forEach 28 (initDot env y) b) g)._dotMap i).testBit k = true ↔
      ((g._dotMap i).testBit k = true ∨
        ∃ y x, 3 ≤ y ∧ y < 3 + r ∧ x < 28 ∧ dotIndex x y = i ∧ 7 - x % 8 = k ∧
          (GetTile env g x y = 7 ∨ GetTile env g x y = 14)) := by
  induction r with
  | zero =>
    refine ⟨by rw [Nat.add_zero, forRange_self]; exact sameButDots_refl g, fun i k => ?_⟩
    rw [Nat.add_zero, forRange_self]
    constructor
    · exact fun h => Or.inl h
    · rintro (h | ⟨y, x, h1, h2, _⟩)
      · exact h
      · omega
  | succ m ih =>
    rw [forRange_succ]
    have hrow := initRow_spec env (3 + m) 28
      (forRange 3 (3 + m) (fun y b => forEach 28 (initDot env y) b) g)
    refine ⟨sameButDots_trans ih.1 hrow.1, fun i k => ?_⟩
    rw [hrow.2, ih.2]
    constructor
    · rintro ((h | ⟨y, x, h1, h2, h⟩) | ⟨x, hx, h3, h4, h5⟩)
      · exact Or.inl h
      · exact Or.inr ⟨y, x, h1, by omega, h⟩
      · refine Or.inr ⟨3 + m, x, by omega, by omega, hx, h3, h4, ?_⟩
        rw [sameButDots_tile env ih.1] at h5
        exact h5
    · rintro (h | ⟨y, x, h1, h2, hx, h3, h4, h5⟩)
      · exact Or.inl (Or.inl h)
      · by_cases hy : y < 3 + m
        · exact Or.inl (Or.inr ⟨y, x, h1, hy, hx, h3, h4, h5⟩)
        · have hy2 : y = 3 + m := by omega
          subst hy2
          refine Or.inr ⟨x, hx, h3, h4, ?_⟩
          rw [sameButDots_tile env ih.1]
          exact h5

theorem initDots_frame (env : Env) (g : Game) : sameButDots g (initDots env g) := by
  unfold initDots
  simp only []
  have h := (initRows_spec env 30
    { g with _dotMap := fun i => if 0 ≤ i ∧ i < 240 then 0 else g._dotMap i }).1
  exact sameButDots_trans (b := { g with
    _dotMap := fun i => if 0 ≤ i ∧ i < 240 then 0 else g._dotMap i }) rfl h

/-- After the dot loops the bit of a maze cell is set exactly when the tile of
that cell is 7 or 14. -/
theorem initDots_def (env : Env) (g : Game) :
    initDots env g = forRange 3 (3 + 30) (fun y b => forEach 28 (initDot env y) b)
      { g with _dotMap := fun i => if 0 ≤ i ∧ i < 240 then 0 else g._dotMap i } := rfl

theorem GetDot_initDots (env : Env) (g : Game) (x y : Nat) (hx : x < 28) (hy : 3 ≤ y)
    (hy2 : y < 33) :
    GetDot (initDots env g) x y = true ↔ (GetTile env g x y = 7 ∨ GetTile env g x y = 14) := by
  rw [GetDot_eq_testBit, initDots_def]
  have h := (initRows_spec env 30
    { g with _dotMap := fun i => if 0 ≤ i ∧ i < 240 then 0 else g._dotMap i }).2
      (dotIndex x y) (7 - x % 8)
  have htile : ∀ (a b : Int), GetTile env
      { g with _dotMap := fun i => if 0 ≤ i ∧ i < 240 then 0 else g._dotMap i } a b =
      GetTile env g a b := fun a b => GetTile_congr env _ _ rfl rfl a b
  rw [h]
  have hrange : 0 ≤ dotIndex x y ∧ dotIndex x y < 240 := by
    rw [dotIndex_eq]; omega
  constructor
  · rintro (h0 | ⟨y1, x1, h1, h2, hx1, h3, h4, h5⟩)
    · simp only [] at h0
      rw [if_pos hrange] at h0
      simp at h0
    · have hinj := dot_cell_inj x y x1 y1 (by omega) (by omega) h3 h4
      rw [htile] at h5
      rw [← hinj.1, ← hinj.2]
      exact h5
  · intro ht
    refine Or.inr ⟨y, x, hy, by omega, hx, rfl, rfl, ?_⟩
    rw [htile]
    exact ht

theorem sameButDots_state {g b : Game} (h : sameButDots g b) : b._state = g._state := by
  rw [h]

theorem initSprites_state (env : Env) (g : Game) :
    (forEach 5 (initSpriteAt env) g)._state = g._state :=
  forEach_induction (fun b : Game => b._state = g._state) 5 (initSpriteAt env) g rfl
    (fun _ _ _ hb => hb)

theorem Init_def (env : Env) (g : Game) :
    Init env g = initDots env
      { initBonusSprite env (forEach 5 (initSpriteAt env) (initReset g)) with
        _BonusInactiveTimmer := BONUS_INACTIVE_TIME, _BonusActiveTimmer := 0
        _scIndex := 0, _scTimer := 1 } := rfl

theorem Init_state (env : Env) (g : Game) : (Init env g)._state = ReadyState := by
  rw [Init_def, sameButDots_state (initDots_frame env _)]
  show (forEach 5 (initSpriteAt env) (initReset g))._state = ReadyState
  rw [initSprites_state]
  rfl

/-! ## The dot bitmap outside `Init` -/

theorem dotsWithin_refl (g : Game) : dotsWithin g g := fun _ _ h => h

theorem dotsWithin_trans {a b c : Game} (h1 : dotsWithin a b) (h2 : dotsWithin b c) :
    dotsWithin a c := fun i k h => h2 i k (h1 i k h)

theorem dotsWithin_of_eq {b g : Game} (h : b._dotMap = g._dotMap) : dotsWithin b g := by
  intro i k hb
  rw [h] at hb
  exact hb

theorem forEach_dotMap (n : Nat) (body : Nat → Game → Game) (g : Game)
    (h : ∀ i b, (body i b)._dotMap = b._dotMap) :
    (forEach n body g)._dotMap = g._dotMap :=
  forEach_induction (fun b : Game => b._dotMap = g._dotMap) n body g rfl
    (fun i b _ hb => (h i b).trans hb)

theorem forEach_dotsWithin (n : Nat) (body : Nat → Game → Game) (g : Game)
    (h : ∀ i b, dotsWithin (body i b) b) : dotsWithin (forEach n body g) g :=
  forEach_induction (fun b : Game => dotsWithin b g) n body g (dotsWithin_refl g)
    (fun i b _ hb => dotsWithin_trans (h i b) hb)

theorem Score_dotMap (g : Game) (d : Int) : (Score g d)._dotMap = g._dotMap := by
  unfold Score
  simp only []
  split_ifs <;> rfl

theorem EatDot_dotMap (env : Env) (g : Game) (cx cy : Nat) :
    (EatDot env g cx cy)._dotMap =
      if GetDot g cx cy = true then
        fun i => if i = dotIndex cx cy then
          g._dotMap (dotIndex cx cy) &&& (255 ^^^ dotMask cx) else g._dotMap i
      else g._dotMap := by
  unfold EatDot
  by_cases h : GetDot g cx cy = true
  · rw [if_neg (not_not.mpr h), if_pos h]
    simp only []
    split
    · rw [Score_dotMap, forEach_dotMap]
      intro i b
      rfl
    · rw [Score_dotMap]
  · rw [if_pos h, if_neg h]

theorem xor_mask_testBit_self (k : Nat) (hk : k < 8) : (255 ^^^ 2 ^ k).testBit k = false := by
  interval_cases k <;> decide

theorem xor_mask_testBit_other (k j : Nat) (hk : k < 8) (hj : j < 8) (hne : j ≠ k) :
    (255 ^^^ 2 ^ k).testBit j = true := by
  interval_cases k <;> interval_cases j <;> first | exact absurd rfl hne | decide

theorem EatDot_dotsWithin (env : Env) (g : Game) (cx cy : Nat) :
    dotsWithin (EatDot env g cx cy) g := by
  intro i k hb
  rw [EatDot_dotMap] at hb
  split at hb
  · simp only [] at hb
    split at hb
    · rename_i hi
      rw [Nat.testBit_and] at hb
      rw [hi]
      exact (Bool.and_eq_true _ _ ▸ hb).1
    · exact hb
  · exact hb

theorem GetDot_EatDot_self (env : Env) (g : Game) (cx cy : Nat) :
    GetDot (EatDot env g cx cy) cx cy = false := by
  rw [GetDot_eq_testBit, EatDot_dotMap]
  by_cases h : GetDot g cx cy = true
  · rw [if_pos h]
    show (if dotIndex cx cy = dotIndex cx cy then
      g._dotMap (dotIndex cx cy) &&& (255 ^^^ dotMask cx)
      else g._dotMap (dotIndex cx cy)).testBit (7 - cx % 8) = false
    rw [if_pos rfl, Nat.testBit_and, dotMask_eq, xor_mask_testBit_self _ (by omega)]
    simp
  · rw [if_neg h, ← GetDot_eq_testBit]
    simpa using h

theorem GetDot_EatDot_other (env : Env) (g : Game) (cx cy x y : Nat) (hcx : cx < 32)
    (hx : x < 32) (hne : ¬ (x = cx ∧ y = cy)) :
    GetDot (EatDot env g cx cy) x y = GetDot g x y := by
  rw [GetDot_eq_testBit, GetDot_eq_testBit, EatDot_dotMap]
  by_cases h : GetDot g cx cy = true
  · rw [if_pos h]
    show (if dotIndex x y = dotIndex cx cy then
      g._dotMap (dotIndex cx cy) &&& (255 ^^^ dotMask cx)
      else g._dotMap (dotIndex x y)).testBit (7 - x % 8) = _
    by_cases hi : dotIndex x y = dotIndex cx cy
    · rw [if_pos hi, Nat.testBit_and, dotMask_eq, hi]
      have hbit : 7 - x % 8 ≠ 7 - cx % 8 := fun hb =>
        hne (dot_cell_inj cx cy x y hcx hx hi hb)
      rw [xor_mask_testBit_other _ _ (by omega) (by omega) hbit]
      simp
    · rw [if_neg hi]
  · rw [if_neg h]

theorem scatterChaseTick_dotMap (g : Game) : (scatterChaseTick g)._dotMap = g._dotMap := by
  unfold scatterChaseTick
  simp only []
  split_ifs <;> rfl

theorem bonusInactiveTick_dotMap (g : Game) : (bonusInactiveTick g)._dotMap = g._dotMap := by
  unfold bonusInactiveTick
  simp only []
  split_ifs <;> rfl

theorem bonusActiveTick_dotMap (g : Game) : (bonusActiveTick g)._dotMap = g._dotMap := by
  unfold bonusActiveTick
  simp only []
  split_ifs <;> rfl

theorem frightenedTick_dotMap (g : Game) : (frightenedTick g)._dotMap = g._dotMap := by
  unfold frightenedTick
  simp only []
  split_ifs
  · rw [forEach_dotMap]
    intro i b
    rfl
  · rfl
  · rfl

theorem UpdateTimers_dotMap (g : Game) : (UpdateTimers g)._dotMap = g._dotMap := by
  unfold UpdateTimers
  rw [frightenedTick_dotMap, bonusActiveTick_dotMap, bonusInactiveTick_dotMap,
    scatterChaseTick_dotMap]

theorem dotSearchCell_dotMap (y x : Nat) (st : Int × Game) :
    (dotSearchCell y x st).2._dotMap = st.2._dotMap := by
  unfold dotSearchCell
  simp only []
  split_ifs <;> rfl

theorem dotSearchLoop_dotMap (st : Int × Game) :
    (forRange 4 32 (fun y st => forRange 1 26 (dotSearchCell y) st) st).2._dotMap =
      st.2._dotMap := by
  apply forRange_induction (fun b : Int × Game => b.2._dotMap = st.2._dotMap) 4 32 (by decide)
  · rfl
  · intro y b _ _ hb
    apply forRange_induction (fun c : Int × Game => c.2._dotMap = st.2._dotMap) 1 26 (by decide)
    · exact hb
    · intro x c _ _ hc
      show (dotSearchCell y x c).2._dotMap = st.2._dotMap
      rw [dotSearchCell_dotMap]
      exact hc

theorem dotSearch_result_dotMap (g : Game) (st : Int × Game) (h : st.2._dotMap = g._dotMap) :
    (if st.1 = 0x7FFF then { st.2 with GAMEWIN := 1 } else st.2)._dotMap = g._dotMap := by
  split_ifs
  · exact h
  · exact h

theorem dotSearch_dotMap (g : Game) : (dotSearch g)._dotMap = g._dotMap :=
  dotSearch_result_dotMap g _ (dotSearchLoop_dotMap (0x7FFF, g))

theorem pacmanForage_dotMap (g : Game) : (pacmanForage g)._dotMap = g._dotMap := by
  unfold pacmanForage
  simp only []
  split_ifs
  · rfl
  · rfl
  · rfl
  · rfl
  · exact dotSearch_dotMap g

theorem PacmanAI_dotMap (g : Game) : (PacmanAI g)._dotMap = g._dotMap := by
  unfold PacmanAI
  simp only []
  split_ifs
  · rfl
  · rfl
  · rfl
  · rfl
  · exact pacmanForage_dotMap _

theorem targetGhost_dotMap (scatter : Bool) (i : Nat) (g : Game) :
    (targetGhost scatter i g)._dotMap = g._dotMap := by
  unfold targetGhost
  simp only []
  split_ifs <;> rfl

theorem UpdateTargets_dotMap (g : Game) : (UpdateTargets g)._dotMap = g._dotMap := by
  unfold UpdateTargets
  simp only []
  split_ifs
  · rfl
  · rw [forEach_dotMap, PacmanAI_dotMap]
    intro i b
    exact targetGhost_dotMap _ i b

theorem chooseFrom_dotMap (choice : List Int) (g : Game) (dir : Int) (s : Sprite) :
    (chooseFrom choice g dir s).2._dotMap = g._dotMap := by
  unfold chooseFrom
  simp only []
  split_ifs <;> rfl

theorem ChooseDir_dotMap (env : Env) (g : Game) (dir : Int) (s : Sprite) :
    (ChooseDir env g dir s).2._dotMap = g._dotMap :=
  chooseFrom_dotMap _ g dir s

theorem chooseAt_dotMap (env : Env) (i : Nat) (g : Game) :
    (chooseAt env i g)._dotMap = g._dotMap := by
  unfold chooseAt
  simp only []
  split_ifs
  · exact ChooseDir_dotMap env g _ _
  · rfl

theorem advanceSprite_dotsWithin (env : Env) (i : Nat) (g : Game) :
    dotsWithin (advanceSprite env i g) g := by
  unfold advanceSprite
  simp only []
  split_ifs
  · refine dotsWithin_trans (EatDot_dotsWithin env _ _ _) (dotsWithin_of_eq ?_)
    exact chooseAt_dotMap env i _
  · exact dotsWithin_of_eq (chooseAt_dotMap env i _)

theorem moveSprite_dotsWithin (env : Env) (i : Nat) (g : Game) :
    dotsWithin (moveSprite env i g) g := by
  unfold moveSprite
  simp only []
  split_ifs
  · exact dotsWithin_refl g
  · exact dotsWithin_of_eq rfl
  · exact dotsWithin_trans (advanceSprite_dotsWithin env i _) (dotsWithin_of_eq rfl)

theorem bonusAdvance_dotMap (g : Game) : (bonusAdvance g)._dotMap = g._dotMap := by
  unfold bonusAdvance
  simp only []
  split_ifs <;> rfl

theorem collideBonus_dotMap (g : Game) : (collideBonus g)._dotMap = g._dotMap := by
  unfold collideBonus
  simp only []
  split_ifs
  · show (bonusAdvance _)._dotMap = _
    rw [bonusAdvance_dotMap, Score_dotMap]
  · rfl

theorem initSprites_dotMap (env : Env) (g : Game) :
    (forEach 5 (initSpriteAt env) g)._dotMap = g._dotMap :=
  forEach_dotMap 5 (initSpriteAt env) g (fun _ _ => rfl)

theorem restartLevel_dotMap (env : Env) (g : Game) :
    (restartLevel env g)._dotMap = g._dotMap :=
  initSprites_dotMap env
    { g with
      LIFES := g.LIFES - 1, _inited := true, _state := ReadyState, _stateTimer := FPS / 2
      _frightenedCount := 0, _frightenedTimer := 0 }

/-- `PackmanDiedWith` keeps every property of the game that survives the loss
of dot bits and survives `init`. -/
theorem PackmanDiedWith_closed (P : Game → Prop)
    (hdown : ∀ b c, P b → dotsWithin c b → P c) (init : Game → Game)
    (hinit : ∀ b, P b → P (init b)) (env : Env) (g : Game) (hg : P g) :
    P (PackmanDiedWith init env g) := by
  unfold PackmanDiedWith
  split_ifs
  · exact hinit _ (hdown g _ hg (dotsWithin_of_eq rfl))
  · exact hdown g _ hg (dotsWithin_of_eq (restartLevel_dotMap env g))

theorem collideGhostWith_closed (P : Game → Prop)
    (hdown : ∀ b c, P b → dotsWithin c b → P c) (init : Game → Game)
    (hinit : ∀ b, P b → P (init b)) (env : Env) (i : Nat) (g : Game) (hg : P g) :
    P (collideGhostWith init env i g) := by
  unfold collideGhostWith
  simp only []
  split_ifs
  · exact hdown g _ hg (dotsWithin_of_eq (Score_dotMap _ _))
  · exact hg
  · exact PackmanDiedWith_closed P hdown init hinit env g hg
  · exact hg

theorem moveAndCollideWith_closed (P : Game → Prop)
    (hdown : ∀ b c, P b → dotsWithin c b → P c) (init : Game → Game)
    (hinit : ∀ b, P b → P (init b)) (env : Env) (g : Game) (hg : P g) :
    P (moveAndCollideWith init env g) := by
  unfold moveAndCollideWith
  simp only []
  apply forEach_induction P 4
  · refine hdown g _ hg (dotsWithin_trans (dotsWithin_of_eq (collideBonus_dotMap _)) ?_)
    exact forEach_dotsWithin 5 _ _ (fun i b => moveSprite_dotsWithin env i b)
  · intro i b _ hb
    exact collideGhostWith_closed P hdown init hinit env i b hb

theorem stateTimeout_dotMap (g : Game) : (stateTimeout g)._dotMap = g._dotMap := by
  unfold stateTimeout
  split
  · rfl
  · rw [forEach_dotMap]
    intro i b
    split_ifs <;> rfl
  · rfl

theorem MoveAllWith_closed (P : Game → Prop)
    (hdown : ∀ b c, P b → dotsWithin c b → P c) (init : Game → Game)
    (hinit : ∀ b, P b → P (init b)) (env : Env) (g : Game) (hg : P g) :
    P (MoveAllWith init env g) := by
  have htt : (UpdateTargets (UpdateTimers g))._dotMap = g._dotMap := by
    rw [UpdateTargets_dotMap, UpdateTimers_dotMap]
  unfold MoveAllWith
  simp only []
  split_ifs
  · apply moveAndCollideWith_closed P hdown init hinit env
    refine hdown g _ hg (dotsWithin_of_eq ?_)
    rw [stateTimeout_dotMap]
    exact htt
  · exact hdown g _ hg (dotsWithin_of_eq htt)
  · apply moveAndCollideWith_closed P hdown init hinit env
    exact hdown g _ hg (dotsWithin_of_eq htt)
  · apply moveAndCollideWith_closed P hdown init hinit env
    exact hdown g _ hg (dotsWithin_of_eq htt)

theorem DrawAll_dotMap (g : Game) : (DrawAll g)._dotMap = g._dotMap := by
  unfold DrawAll
  simp only []
  rw [forEach_dotMap]
  intro i b
  rfl

theorem stepGameWin_closed (P : Game → Prop)
    (hdown : ∀ b c, P b → dotsWithin c b → P c) (init : Game → Game)
    (hinit : ∀ b, P b → P (init b)) (g : Game) (hg : P g) : P (stepGameWin init g) := by
  unfold stepGameWin
  split_ifs
  · exact hinit _ (hdown g _ hg (dotsWithin_of_eq rfl))
  · exact hg

theorem stepButtonA_closed (P : Game → Prop)
    (hdown : ∀ b c, P b → dotsWithin c b → P c) (init : Game → Game)
    (hinit : ∀ b, P b → P (init b)) (g : Game) (hg : P g) : P (stepButtonA init g) := by
  unfold stepButtonA
  split_ifs
  · exact hinit _ (hdown g _ hg (dotsWithin_of_eq rfl))
  · exact hdown g _ hg (dotsWithin_of_eq rfl)
  · exact hg

theorem stepResume_dotMap (g : Game) : (stepResume g)._dotMap = g._dotMap := by
  unfold stepResume
  split_ifs <;> rfl

theorem stepButtonB_closed (P : Game → Prop)
    (hdown : ∀ b c, P b → dotsWithin c b → P c) (init : Game → Game)
    (hinit : ∀ b, P b → P (init b)) (g : Game) (hg : P g) : P (stepButtonB init g) := by
  unfold stepButtonB
  split_ifs
  · exact hinit _ (hdown g _ hg (dotsWithin_of_eq rfl))
  · exact hinit _ (hdown g _ hg (dotsWithin_of_eq rfl))
  · exact hg

/-- `StepWith` keeps every property of the game that survives the loss of dot
bits and survives `init`. -/
theorem StepWith_closed (P : Game → Prop)
    (hdown : ∀ b c, P b → dotsWithin c b → P c) (init : Game → Game)
    (hinit : ∀ b, P b → P (init b)) (env : Env) (g : Game) (hg : P g) :
    P (StepWith init env g) := by
  unfold StepWith
  simp only []
  have hpre : P (stepButtonB init (stepResume (stepButtonA init (stepGameWin init g)))) := by
    apply stepButtonB_closed P hdown init hinit
    refine hdown _ _ ?_ (dotsWithin_of_eq (stepResume_dotMap _))
    apply stepButtonA_closed P hdown init hinit
    exact stepGameWin_closed P hdown init hinit g hg
  refine hdown _ _ ?_ (dotsWithin_of_eq (DrawAll_dotMap _))
  split_ifs
  · exact MoveAllWith_closed P hdown init hinit env _ hpre
  · exact hpre

/-- With calls of `init` that set no dot bit, `StepWith` sets no dot bit. -/
theorem StepWith_dotsWithin (init : Game → Game) (hinit : ∀ b, dotsWithin (init b) b)
    (env : Env) (g : Game) : dotsWithin (StepWith init env g) g :=
  StepWith_closed (fun b => dotsWithin b g) (fun _ _ hb hc => dotsWithin_trans hc hb) init
    (fun b hb => dotsWithin_trans (hinit b) hb) env g (dotsWithin_refl g)

/-- After a `Step` every dot bit that is set was set before the `Step` or is
set in a bitmap that a call of `Init` returned. -/
theorem Step_dots (env : Env) (g : Game) :
    dotsWithin (Step env g) g ∨ ∃ g0, dotsWithin (Step env g) (Init env g0) :=
  StepWith_closed (fun b => dotsWithin b g ∨ ∃ g0, dotsWithin b (Init env g0))
    (fun _ _ hb hc => hb.elim (fun h => Or.inl (dotsWithin_trans hc h))
      (fun ⟨g0, h⟩ => Or.inr ⟨g0, dotsWithin_trans hc h⟩))
    (Init env) (fun b _ => Or.inr ⟨b, dotsWithin_refl _⟩) env g (Or.inl (dotsWithin_refl g))

/-! ## `Score` and the ghost loops, field by field -/

theorem Score_score (g : Game) (d : Int) :
    (Score g d)._score =
      if g._lifescore < g._score + d ∧ 0 < Int.tmod (g._score + d) 10000
      then g._score + d + 100 else g._score + d := by
  unfold Score
  simp only []
  split_ifs <;> rfl

theorem Score_LIFES (g : Game) (d : Int) :
    (Score g d).LIFES =
      if g._lifescore < g._score + d ∧ 0 < Int.tmod (g._score + d) 10000
      then (g.LIFES + 1) % 256 else g.LIFES := by
  unfold Score
  simp only []
  split_ifs <;> rfl

theorem Score_sprites (g : Game) (d : Int) : (Score g d)._sprites = g._sprites := by
  unfold Score
  simp only []
  split_ifs <;> rfl

theorem Score_state (g : Game) (d : Int) : (Score g d)._state = g._state := by
  unfold Score
  simp only []
  split_ifs <;> rfl

theorem Score_ACTUALBONUS (g : Game) (d : Int) : (Score g d).ACTUALBONUS = g.ACTUALBONUS := by
  unfold Score
  simp only []
  split_ifs <;> rfl

/-- A loop that rewrites each of the first `n` sprites by `f` rewrites exactly
those, each from its value before the loop. -/
theorem forEach_mapSprites (f : Sprite → Sprite) (n : Nat) (g : Game) :
    forEach n (fun i b => b.setSprite i (f (b._sprites i))) g =
      { g with _sprites := fun j => if j < n then f (g._sprites j) else g._sprites j } := by
  induction n with
  | zero => rfl
  | succ k ih =>
    rw [forEach_succ, ih]
    unfold Game.setSprite
    simp only [Nat.lt_irrefl, if_false]
    congr 1
    funext j
    by_cases hj : j = k
    · subst hj
      simp
    · rw [if_neg hj]
      by_cases hlt : j < k
      · rw [if_pos hlt, if_pos (Nat.lt_succ_of_lt hlt)]
      · rw [if_neg hlt, if_neg (by omega)]

/-- What `EatDot` returns on a cell whose dot bit is set and whose tile is
PILL. -/
theorem EatDot_pill (env : Env) (g : Game) (cx cy : Nat) (hdot : GetDot g cx cy = true)
    (hpill : GetTile env g cx cy = PILL) :
    EatDot env g cx cy =
      Score
        { g with
          _dotMap := fun i => if i = dotIndex cx cy then
            g._dotMap (dotIndex cx cy) &&& (255 ^^^ dotMask cx) else g._dotMap i
          _frightenedTimer := 10 * FPS
          _frightenedCount := 0
          _sprites := fun j => if j < 4 then frighten (g._sprites j) else g._sprites j } 50 := by
  unfold EatDot
  rw [if_neg (not_not.mpr hdot)]
  simp only []
  have ht : GetTile env { g with
      _dotMap := fun i => if i = dotIndex cx cy then
        g._dotMap (dotIndex cx cy) &&& (255 ^^^ dotMask cx) else g._dotMap i } cx cy = PILL := by
    rw [GetTile_congr env g { g with
      _dotMap := fun i => if i = dotIndex cx cy then
        g._dotMap (dotIndex cx cy) &&& (255 ^^^ dotMask cx) else g._dotMap i } rfl rfl cx cy]
    exact hpill
  rw [if_pos ht, forEach_mapSprites]

/-- What `EatDot` returns on a cell whose dot bit is set and whose tile is not
PILL. -/
theorem EatDot_dot (env : Env) (g : Game) (cx cy : Nat) (hdot : GetDot g cx cy = true)
    (hpill : GetTile env g cx cy ≠ PILL) :
    EatDot env g cx cy =
      Score
        { g with
          _dotMap := fun i => if i = dotIndex cx cy then
            g._dotMap (dotIndex cx cy) &&& (255 ^^^ dotMask cx) else g._dotMap i } 10 := by
  unfold EatDot
  rw [if_neg (not_not.mpr hdot)]
  simp only []
  have ht : GetTile env { g with
      _dotMap := fun i => if i = dotIndex cx cy then
        g._dotMap (dotIndex cx cy) &&& (255 ^^^ dotMask cx) else g._dotMap i } cx cy ≠ PILL := by
    rw [GetTile_congr env g { g with
      _dotMap := fun i => if i = dotIndex cx cy then
        g._dotMap (dotIndex cx cy) &&& (255 ^^^ dotMask cx) else g._dotMap i } rfl rfl cx cy]
    exact hpill
  rw [if_neg ht]

theorem EatDot_clear (env : Env) (g : Game) (cx cy : Nat) (hdot : GetDot g cx cy = false) :
    EatDot env g cx cy = g := by
  unfold EatDot
  rw [if_pos (by simp [hdot])]

/-! ## Collisions -/

/-- What the bonus collision returns when the bonus is on display in Pac-Man's
cell. -/
theorem collideBonus_hit (g : Game) (hact : g.ACTIVEBONUS = 1)
    (hcx : g._BonusSprite.cx = (g._sprites PACMAN).cx)
    (hcy : g._BonusSprite.cy = (g._sprites PACMAN).cy) :
    collideBonus g =
      { bonusAdvance (Score g (toInt16 ((g.ACTUALBONUS : Int) * 50))) with
        ACTIVEBONUS := 0, _BonusInactiveTimmer := BONUS_INACTIVE_TIME } := by
  unfold collideBonus
  simp only []
  rw [if_pos ⟨hact, hcx, hcy⟩]

theorem bonusAdvance_ACTUALBONUS (g : Game) (h : g.ACTUALBONUS ≤ 7) :
    (bonusAdvance g).ACTUALBONUS = if g.ACTUALBONUS = 7 then 0 else g.ACTUALBONUS + 1 := by
  unfold bonusAdvance
  simp only []
  have hmod : (g.ACTUALBONUS + 1) % 256 = g.ACTUALBONUS + 1 := by omega
  rw [hmod]
  by_cases h7 : g.ACTUALBONUS = 7
  · rw [if_pos (by omega), if_pos h7]
    split_ifs <;> rfl
  · rw [if_neg (by omega), if_neg h7]

theorem bonusAdvance_LIFES (g : Game) (h : g.ACTUALBONUS ≤ 7) :
    (bonusAdvance g).LIFES =
      if g.ACTUALBONUS = 7 ∧ g.LIFES < MAXLIFES then g.LIFES + 1 else g.LIFES := by
  unfold bonusAdvance
  simp only []
  have hmod : (g.ACTUALBONUS + 1) % 256 = g.ACTUALBONUS + 1 := by omega
  rw [hmod]
  by_cases h7 : g.ACTUALBONUS = 7
  · rw [if_pos (by omega)]
    by_cases hl : g.LIFES < MAXLIFES
    · rw [if_pos hl, if_pos ⟨h7, hl⟩]
      have : g.LIFES < 5 := hl
      show (g.LIFES + 1) % 256 = g.LIFES + 1
      omega
    · rw [if_neg hl, if_neg (fun hc => hl hc.2)]
  · rw [if_neg (by omega), if_neg (fun hc => h7 hc.1)]

theorem bonusAdvance_score (g : Game) : (bonusAdvance g)._score = g._score := by
  unfold bonusAdvance
  simp only []
  split_ifs <;> rfl

/-! ## `Chase`: the sentinel and the distance -/

theorem sq_emod_four (a : Int) : a * a % 4 = 0 ∨ a * a % 4 = 1 := by
  rcases Int.even_or_odd' a with ⟨q, hq | hq⟩
  · left
    subst hq
    have h : 2 * q * (2 * q) = 4 * (q * q) := by ring
    rw [h]; simp
  · right
    subst hq
    have h : (2 * q + 1) * (2 * q + 1) = 1 + 4 * (q * q + q) := by ring
    rw [h]; simp

theorem toInt16_sum_sq_ne_sentinel (a b : Int) : toInt16 (a * a + b * b) ≠ 0x7FFF := by
  unfold toInt16
  have ha := sq_emod_four a
  have hb := sq_emod_four b
  omega

/-- `Chase` returns the sentinel 0x7FFF exactly for an impassable cell: a tile
`t` other than empty, DOT, PILL and PENGATE, or the PENGATE tile for Pac-Man
and for a ghost that is neither in the pen nor in DeadEyesState. -/
theorem Chase_eq_sentinel_iff (env : Env) (g : Game) (s : Sprite) (cx cy : Int) (t : Nat)
    (ht : t = GetTile env g (cx % 28) cy) :
    Chase env g s cx cy = 0x7FFF ↔
      (¬ (t = 0 ∨ t = DOT ∨ t = PILL ∨ t = PENGATE) ∨
       (t = PENGATE ∧ (s.who = PACMAN ∨
          ¬ (InPen s.cx s.cy = true ∨ s.state = DeadEyesState)))) := by
  unfold Chase
  rw [wrapInto_eq_emod 28 (by decide)]
  simp only []
  rw [← ht]
  by_cases h1 : t = 0 ∨ t = DOT ∨ t = PILL ∨ t = PENGATE
  · rw [if_neg (not_not.mpr h1)]
    by_cases h2 : t = PENGATE ∧ s.who = PACMAN
    · rw [if_pos h2]
      exact ⟨fun _ => Or.inr ⟨h2.1, Or.inl h2.2⟩, fun _ => rfl⟩
    · rw [if_neg h2]
      by_cases h3 : t = PENGATE ∧ ¬ (InPen s.cx s.cy = true ∨ s.state = DeadEyesState)
      · rw [if_pos h3]
        exact ⟨fun _ => Or.inr ⟨h3.1, Or.inr h3.2⟩, fun _ => rfl⟩
      · rw [if_neg h3]
        constructor
        · intro h
          exact absurd h (toInt16_sum_sq_ne_sentinel _ _)
        · rintro (h | ⟨hp, hw | hn⟩)
          · exact absurd h1 h
          · exact absurd ⟨hp, hw⟩ h2
          · exact absurd ⟨hp, hn⟩ h3
  · rw [if_pos h1]
    exact ⟨fun _ => Or.inl h1, fun _ => rfl⟩

/-- On a passable cell `Chase` returns the squared distance from the folded
cell to the target, narrowed to `int16_t`. -/
theorem Chase_passable (env : Env) (g : Game) (s : Sprite) (cx cy : Int)
    (h : Chase env g s cx cy ≠ 0x7FFF) :
    Chase env g s cx cy =
      toInt16 (toInt16 ((s.tx : Int) - cx % 28) * toInt16 ((s.tx : Int) - cx % 28) +
        toInt16 ((s.ty : Int) - cy) * toInt16 ((s.ty : Int) - cy)) := by
  unfold Chase at h ⊢
  rw [wrapInto_eq_emod 28 (by decide)] at h ⊢
  simp only [] at h ⊢
  by_cases h1 : ¬ (GetTile env g (cx % 28) cy = 0 ∨ GetTile env g (cx % 28) cy = DOT ∨
      GetTile env g (cx % 28) cy = PILL ∨ GetTile env g (cx % 28) cy = PENGATE)
  · rw [if_pos h1] at h
    exact absurd rfl h
  · rw [if_neg h1] at h ⊢
    by_cases h2 : GetTile env g (cx % 28) cy = PENGATE ∧ s.who = PACMAN
    · rw [if_pos h2] at h
      exact absurd rfl h
    · rw [if_neg h2] at h ⊢
      by_cases h3 : GetTile env g (cx % 28) cy = PENGATE ∧
          ¬ (InPen s.cx s.cy = true ∨ s.state = DeadEyesState)
      · rw [if_pos h3] at h
        exact absurd rfl h
      · rw [if_neg h3]

/-! ## Operations that neither score nor move -/

theorem Sprite.sameBody_refl (s : Sprite) : s.sameBody s :=
  ⟨rfl, rfl, rfl, rfl, rfl, rfl, rfl, rfl, rfl⟩

theorem Sprite.sameBody_trans {s t u : Sprite} (h1 : s.sameBody t) (h2 : t.sameBody u) :
    s.sameBody u :=
  ⟨h2.x.trans h1.x, h2.y.trans h1.y, h2.lastx.trans h1.lastx, h2.lasty.trans h1.lasty,
    h2.cx.trans h1.cx, h2.cy.trans h1.cy, h2.who.trans h1.who, h2.speed.trans h1.speed,
    h2.phase.trans h1.phase⟩

theorem Frame_refl (g : Game) : Frame g g :=
  ⟨rfl, rfl, rfl, rfl, rfl, rfl, rfl, rfl, rfl, fun _ => Sprite.sameBody_refl _,
    Sprite.sameBody_refl _, fun _ h => h⟩

theorem Frame_trans {a b c : Game} (h1 : Frame a b) (h2 : Frame b c) : Frame a c :=
  ⟨h2.score.trans h1.score, h2.hiscore.trans h1.hiscore, h2.lifescore.trans h1.lifescore,
    h2.lifes.trans h1.lifes, h2.level.trans h1.level, h2.bonus.trans h1.bonus,
    h2.count.trans h1.count, h2.demo.trans h1.demo, h2.dots.trans h1.dots,
    fun j => Sprite.sameBody_trans (h1.body j) (h2.body j),
    Sprite.sameBody_trans h1.bonusBody h2.bonusBody,
    fun j h => h1.fright j (h2.fright j h)⟩

/-- A game that differs from `g` only in game state, timers, scatter index,
flags and buttons is within the frame of `g`. -/
theorem Frame_of_neutral (g b : Game)
    (h : b = { g with
      _state := b._state, _stateTimer := b._stateTimer, _frightenedTimer := b._frightenedTimer
      _scIndex := b._scIndex, _scTimer := b._scTimer, GAMEWIN := b.GAMEWIN
      GAMEPAUSED := b.GAMEPAUSED, PACMANFALLBACK := b.PACMANFALLBACK
      ACTIVEBONUS := b.ACTIVEBONUS, _BonusInactiveTimmer := b._BonusInactiveTimmer
      _BonusActiveTimmer := b._BonusActiveTimmer, but_A := b.but_A, but_B := b.but_B
      but_UP := b.but_UP, but_DOWN := b.but_DOWN, but_LEFT := b.but_LEFT
      but_RIGHT := b.but_RIGHT }) : Frame g b := by
  rw [h]
  exact ⟨rfl, rfl, rfl, rfl, rfl, rfl, rfl, rfl, rfl, fun _ => Sprite.sameBody_refl _,
    Sprite.sameBody_refl _, fun _ hf => hf⟩

theorem Frame_setSprite (g : Game) (i : Nat) (s : Sprite) (hb : (g._sprites i).sameBody s)
    (hf : s.state = FrightenedState → (g._sprites i).state = FrightenedState) :
    Frame g (g.setSprite i s) := by
  refine ⟨rfl, rfl, rfl, rfl, rfl, rfl, rfl, rfl, rfl, fun j => ?_, Sprite.sameBody_refl _,
    fun j h => ?_⟩
  · show (g._sprites j).sameBody (if j = i then s else g._sprites j)
    by_cases hj : j = i
    · rw [if_pos hj, hj]; exact hb
    · rw [if_neg hj]; exact Sprite.sameBody_refl _
  · have h2 : (if j = i then s else g._sprites j).state = FrightenedState := h
    by_cases hj : j = i
    · rw [if_pos hj] at h2; rw [hj]; exact hf h2
    · rw [if_neg hj] at h2; exact h2

theorem Frame_forEach (n : Nat) (body : Nat → Game → Game) (g : Game)
    (h : ∀ i b, Frame b (body i b)) : Frame g (forEach n body g) :=
  forEach_induction (fun b : Game => Frame g b) n body g (Frame_refl g)
    (fun i b _ hb => Frame_trans hb (h i b))

theorem Target_sameBody (s : Sprite) (x y : Nat) : s.sameBody (s.Target x y) :=
  ⟨rfl, rfl, rfl, rfl, rfl, rfl, rfl, rfl, rfl⟩

theorem Frame_target (g : Game) (i : Nat) (x y : Nat) :
    Frame g (g.setSprite i ((g._sprites i).Target x y)) :=
  Frame_setSprite g i _ (Target_sameBody _ x y) (fun h => h)

theorem scatterChaseTick_frame (g : Game) : Frame g (scatterChaseTick g) := by
  unfold scatterChaseTick
  simp only []
  split_ifs <;> exact Frame_of_neutral _ _ rfl

theorem bonusInactiveTick_frame (g : Game) : Frame g (bonusInactiveTick g) := by
  unfold bonusInactiveTick
  simp only []
  split_ifs <;> exact Frame_of_neutral _ _ rfl

theorem bonusActiveTick_frame (g : Game) : Frame g (bonusActiveTick g) := by
  unfold bonusActiveTick
  simp only []
  split_ifs <;> exact Frame_of_neutral _ _ rfl

theorem releaseFrightened_frame (i : Nat) (g : Game) :
    Frame g (g.setSprite i (releaseFrightened (g._sprites i))) := by
  apply Frame_setSprite
  · unfold releaseFrightened
    split_ifs
    · exact ⟨rfl, rfl, rfl, rfl, rfl, rfl, rfl, rfl, rfl⟩
    · exact Sprite.sameBody_refl _
  · unfold releaseFrightened
    split_ifs with h
    · intro hc
      exact h
    · exact fun hc => hc

theorem frightenedTick_frame (g : Game) : Frame g (frightenedTick g) := by
  unfold frightenedTick
  simp only []
  split_ifs
  · exact Frame_trans (Frame_of_neutral g _ rfl)
      (Frame_forEach 4 _ _ (fun i b => releaseFrightened_frame i b))
  · exact Frame_of_neutral _ _ rfl
  · exact Frame_refl g

theorem UpdateTimers_frame (g : Game) : Frame g (UpdateTimers g) := by
  unfold UpdateTimers
  exact Frame_trans (Frame_trans (Frame_trans (scatterChaseTick_frame g)
    (bonusInactiveTick_frame _)) (bonusActiveTick_frame _)) (frightenedTick_frame _)

theorem dotSearchCell_frame (y x : Nat) (st : Int × Game) : Frame st.2 (dotSearchCell y x st).2 := by
  unfold dotSearchCell
  simp only []
  split_ifs
  · exact Frame_target _ _ _ _
  · exact Frame_refl _
  · exact Frame_refl _

theorem dotSearchLoop_frame (st : Int × Game) :
    Frame st.2 (forRange 4 32 (fun y st => forRange 1 26 (dotSearchCell y) st) st).2 := by
  apply forRange_induction (fun b : Int × Game => Frame st.2 b.2) 4 32 (by decide)
  · exact Frame_refl _
  · intro y b _ _ hb
    apply forRange_induction (fun c : Int × Game => Frame st.2 c.2) 1 26 (by decide)
    · exact hb
    · intro x c _ _ hc
      exact Frame_trans hc (dotSearchCell_frame y x c)

theorem dotSearch_result_frame (g : Game) (st : Int × Game) (h : Frame g st.2) :
    Frame g (if st.1 = 0x7FFF then { st.2 with GAMEWIN := 1 } else st.2) := by
  split_ifs
  · exact Frame_trans h (Frame_of_neutral _ _ rfl)
  · exact h

theorem dotSearch_frame (g : Game) : Frame g (dotSearch g) :=
  dotSearch_result_frame g _ (dotSearchLoop_frame (0x7FFF, g))

theorem pacmanForage_frame (g : Game) : Frame g (pacmanForage g) := by
  unfold pacmanForage
  simp only []
  split_ifs
  · exact Frame_target _ _ _ _
  · exact Frame_target _ _ _ _
  · exact Frame_target _ _ _ _
  · exact Frame_target _ _ _ _
  · exact dotSearch_frame g

theorem PacmanAI_frame (g : Game) : Frame g (PacmanAI g) := by
  have h0 : Frame g { g with PACMANFALLBACK := 0 } := Frame_of_neutral _ _ rfl
  unfold PacmanAI
  simp only []
  split_ifs
  · exact Frame_trans h0 (Frame_target _ PACMAN _ _)
  · exact Frame_trans (Frame_trans h0 (Frame_target _ PACMAN _ _)) (Frame_of_neutral _ _ rfl)
  · exact Frame_trans h0 (Frame_target _ PACMAN _ _)
  · exact Frame_trans h0 (Frame_target _ PACMAN _ _)
  · exact Frame_trans h0 (pacmanForage_frame _)

theorem Frame_retarget (g : Game) (i : Nat) (s : Sprite) (x y : Nat)
    (h : Frame g (g.setSprite i s)) : Frame g ((g.setSprite i s).setSprite i (s.Target x y)) := by
  refine Frame_trans h (Frame_setSprite _ i _ ?_ ?_)
  · show (if i = i then s else g._sprites i).sameBody (s.Target x y)
    rw [if_pos rfl]
    exact Target_sameBody s x y
  · show (s.Target x y).state = FrightenedState →
      (if i = i then s else g._sprites i).state = FrightenedState
    rw [if_pos rfl]
    exact fun hc => hc

theorem targetGhost_frame (scatter : Bool) (i : Nat) (g : Game) :
    Frame g (targetGhost scatter i g) := by
  have hrun : Frame g (g.setSprite i
      (if (g._sprites i).pentimer ≠ 0 then
        { g._sprites i with pentimer := (g._sprites i).pentimer - 1, state := RunState }
       else g._sprites i)) := by
    apply Frame_setSprite
    · split_ifs
      · exact ⟨rfl, rfl, rfl, rfl, rfl, rfl, rfl, rfl, rfl⟩
      · exact Sprite.sameBody_refl _
    · split_ifs
      · intro hc
        cases hc
      · exact fun hc => hc
  unfold targetGhost
  simp only []
  by_cases h1 : (g._sprites i).state = DeadEyesState
  · rw [if_pos h1]
    split_ifs
    · exact Frame_setSprite _ _ _ ⟨rfl, rfl, rfl, rfl, rfl, rfl, rfl, rfl, rfl⟩
        (fun hc => by cases hc)
    · exact Frame_target _ _ _ _
  · rw [if_neg h1]
    by_cases h2 : (g._sprites i).pentimer ≠ 0 ∧ (g._sprites i).pentimer - 1 ≠ 0
    · rw [if_pos h2]
      exact Frame_setSprite _ _ _ ⟨rfl, rfl, rfl, rfl, rfl, rfl, rfl, rfl, rfl⟩ (fun hc => hc)
    · rw [if_neg h2]
      generalize (if (g._sprites i).pentimer ≠ 0 then
        ({ g._sprites i with pentimer := (g._sprites i).pentimer - 1, state := RunState } : Sprite)
       else g._sprites i) = s1 at hrun ⊢
      split_ifs
      · exact Frame_retarget g i _ _ _ hrun
      · exact Frame_retarget g i _ _ _ hrun
      · exact Frame_retarget g i _ _ _ hrun

theorem UpdateTargets_frame (g : Game) : Frame g (UpdateTargets g) := by
  unfold UpdateTargets
  simp only []
  split_ifs
  · exact Frame_refl g
  · exact Frame_trans (PacmanAI_frame g) (Frame_forEach 4 _ _ (fun i b => targetGhost_frame _ i b))

theorem chooseFrom_frame (choice : List Int) (g : Game) (dir : Int) (s : Sprite) :
    Frame g (chooseFrom choice g dir s).2 := by
  unfold chooseFrom
  simp only []
  split_ifs <;> first | exact Frame_refl g | exact Frame_of_neutral _ _ rfl

theorem chooseFrom_sprites (choice : List Int) (g : Game) (dir : Int) (s : Sprite) :
    (chooseFrom choice g dir s).2._sprites = g._sprites := by
  unfold chooseFrom
  simp only []
  split_ifs <;> rfl

theorem chooseAt_frame (env : Env) (i : Nat) (g : Game) : Frame g (chooseAt env i g) := by
  unfold chooseAt
  simp only []
  split_ifs
  · refine Frame_trans (chooseFrom_frame _ g _ _) (Frame_setSprite _ i _ ?_ ?_)
    · unfold ChooseDir
      rw [chooseFrom_sprites]
      exact ⟨rfl, rfl, rfl, rfl, rfl, rfl, rfl, rfl, rfl⟩
    · unfold ChooseDir
      rw [chooseFrom_sprites]
      exact fun hc => hc
  · exact Frame_refl g

theorem stateTimeout_frame (g : Game) : Frame g (stateTimeout g) := by
  unfold stateTimeout
  split
  · exact Frame_of_neutral _ _ rfl
  · refine Frame_trans (Frame_of_neutral g { g with _state := PlayState } rfl)
      (Frame_forEach 4 _ _ (fun i b => ?_))
    simp only []
    split_ifs
    · exact Frame_setSprite _ _ _ ⟨rfl, rfl, rfl, rfl, rfl, rfl, rfl, rfl, rfl⟩
        (fun hc => by cases hc)
    · exact Frame_refl b
  · exact Frame_refl g

theorem SetupDraw_sameBody (ab : Nat) (st : GameState) (idx : Nat) (s : Sprite) :
    s.sameBody (s.SetupDraw ab st idx) ∧ (s.SetupDraw ab st idx).state = s.state ∧
      (s.SetupDraw ab st idx).dir = s.dir := by
  unfold Sprite.SetupDraw
  simp only []
  split_ifs
  all_goals first
    | exact ⟨⟨rfl, rfl, rfl, rfl, rfl, rfl, rfl, rfl, rfl⟩, rfl, rfl⟩
    | (split <;> exact ⟨⟨rfl, rfl, rfl, rfl, rfl, rfl, rfl, rfl, rfl⟩, rfl, rfl⟩)

theorem Frame_setBonus (g : Game) (s : Sprite) (h : g._BonusSprite.sameBody s) :
    Frame g { g with _BonusSprite := s } :=
  ⟨rfl, rfl, rfl, rfl, rfl, rfl, rfl, rfl, rfl, fun _ => Sprite.sameBody_refl _, h,
    fun _ hc => hc⟩

theorem DrawAll_frame (g : Game) : Frame g (DrawAll g) := by
  unfold DrawAll
  simp only []
  have h5 : Frame g (forEach 5 (fun i b => b.setSprite i
      ((b._sprites i).SetupDraw b.ACTUALBONUS b._state
        (toU8 ((g._frightenedCount : Int) - 1)))) g) :=
    Frame_forEach 5 _ g (fun i b => Frame_setSprite b i _ (SetupDraw_sameBody _ _ _ _).1
      (fun hc => (SetupDraw_sameBody _ _ _ _).2.1 ▸ hc))
  exact Frame_trans h5 (Frame_setBonus _ _ (SetupDraw_sameBody _ _ _ _).1)

theorem stepResume_frame (g : Game) : Frame g (stepResume g) := by
  unfold stepResume
  split_ifs
  · exact Frame_of_neutral _ _ rfl
  · exact Frame_refl g

theorem press_frame (b : Button) (g : Game) : Frame g (press b g) := by
  cases b <;> exact Frame_of_neutral _ _ rfl

/-! ## The sprite loops of `Init` and `PackmanDied` -/

/-- The loop `for (i = 0; i <= n; i++) _sprites[i].Init(s + i * 5)`: the keys
are cleared, sprite `j` up to `n` is initialised from row `j` with the two
`rand()` values that follow the `2 * j` drawn before it. -/
theorem initSprites_eq (env : Env) (n : Nat) (g : Game) :
    forEach (n + 1) (initSpriteAt env) g =
      { ClearKeys g with
        _sprites := fun j =>
          if j < n + 1 then Sprite.Init env (g.randCalls + 2 * j) (j * 5) (g._sprites j)
          else g._sprites j
        randCalls := g.randCalls + 2 * (n + 1) } := by
  induction n with
  | zero =>
    rw [forEach_succ, forEach_zero]
    unfold initSpriteAt Game.setSprite ClearKeys
    simp only []
    congr 1
    funext j
    by_cases hj : j = 0
    · subst hj
      simp
    · rw [if_neg hj, if_neg (by omega)]
  | succ k ih =>
    rw [forEach_succ, ih]
    unfold initSpriteAt Game.setSprite ClearKeys
    simp only []
    congr 1
    funext j
    by_cases hj : j = k + 1
    · subst hj
      simp
    · rw [if_neg hj]
      by_cases hlt : j < k + 1
      · rw [if_pos hlt, if_pos (by omega)]
      · rw [if_neg hlt, if_neg (by omega)]

/-- The six sprites after the sprite loop and the call for the bonus sprite. -/
theorem initSprites_bonus_eq (env : Env) (g : Game) :
    initBonusSprite env (forEach 5 (initSpriteAt env) g) =
      { ClearKeys g with
        _sprites := fun j =>
          if j < 5 then Sprite.Init env (g.randCalls + 2 * j) (j * 5) (g._sprites j)
          else g._sprites j
        _BonusSprite := Sprite.Init env (g.randCalls + 10) 25 g._BonusSprite
        randCalls := g.randCalls + 12 } := by
  rw [initSprites_eq env 4 g]
  rfl

/-- `restartLevel`, field by field. -/
theorem restartLevel_eq (env : Env) (g : Game) :
    restartLevel env g =
      { ClearKeys g with
        LIFES := g.LIFES - 1, _inited := true, _state := ReadyState, _stateTimer := FPS / 2
        _frightenedCount := 0, _frightenedTimer := 0, _scIndex := 0, _scTimer := 1
        _BonusInactiveTimmer := BONUS_INACTIVE_TIME, _BonusActiveTimmer := 0
        _sprites := fun j =>
          if j < 5 then Sprite.Init env (g.randCalls + 2 * j) (j * 5) (g._sprites j)
          else g._sprites j
        _BonusSprite := Sprite.Init env (g.randCalls + 10) 25 g._BonusSprite
        randCalls := g.randCalls + 12 } := by
  unfold restartLevel
  simp only []
  rw [initSprites_eq env 4]
  rfl

/-- `Init`, field by field, up to the dot bitmap. -/
theorem Init_eq (env : Env) (g : Game) :
    Init env g =
      { ClearKeys (initReset g) with
        _scIndex := 0, _scTimer := 1
        _BonusInactiveTimmer := BONUS_INACTIVE_TIME, _BonusActiveTimmer := 0
        _sprites := fun j =>
          if j < 5 then Sprite.Init env (g.randCalls + 2 * j) (j * 5) (g._sprites j)
          else g._sprites j
        _BonusSprite := Sprite.Init env (g.randCalls + 10) 25 g._BonusSprite
        randCalls := g.randCalls + 12
        _dotMap := (Init env g)._dotMap } := by
  have h := initDots_frame env
    { initBonusSprite env (forEach 5 (initSpriteAt env) (initReset g)) with
      _BonusInactiveTimmer := BONUS_INACTIVE_TIME, _BonusActiveTimmer := 0
      _scIndex := 0, _scTimer := 1 }
  rw [← Init_def] at h
  unfold sameButDots at h
  rw [initSprites_bonus_eq] at h
  have hr : (initReset g).randCalls = g.randCalls := by
    unfold initReset
    split_ifs <;> rfl
  have hs : (initReset g)._sprites = g._sprites := by
    unfold initReset
    split_ifs <;> rfl
  have hb : (initReset g)._BonusSprite = g._BonusSprite := by
    unfold initReset
    split_ifs <;> rfl
  rw [hr, hs, hb] at h
  exact h

/-- The dot bitmap `Init` builds: the bit of a maze cell is set exactly when
the tile of that cell, read for the level `Init` leaves, is 7 or 14. -/
theorem GetDot_Init (env : Env) (g : Game) (x y : Nat) (hx : x < 28) (hy : 3 ≤ y)
    (hy2 : y < 33) :
    GetDot (Init env g) x y = true ↔
      (GetTile env (Init env g) x y = 7 ∨ GetTile env (Init env g) x y = 14) := by
  rw [Init_def, GetDot_initDots env _ x y hx hy hy2]
  rw [GetTile_congr env _ _ (sameButDots_state (initDots_frame env _)) (by
    rw [initDots_frame env _]) x y]

/-- In ReadyState on a level that is 1 modulo 5, `GetTile` reads the first maze
table. -/
theorem GetTile_ready_level1 (env : Env) (g : Game) (hs : g._state = ReadyState)
    (hl : g.LEVEL % 5 = 1) (cx ty : Int) :
    GetTile env g cx ty = env.playMap1 (ty * 28 + cx) % 256 := by
  unfold GetTile
  rw [if_neg (fun h => h.1 hs), if_pos hl]

/-- What `Init` leaves alone whatever GAMEWIN is: GAMEOVER, DEMO, the high
score and GAMEPAUSED. -/
theorem Init_kept (env : Env) (g : Game) :
    (Init env g).GAMEOVER = g.GAMEOVER ∧ (Init env g).DEMO = g.DEMO ∧
      (Init env g)._hiscore = g._hiscore ∧ (Init env g).GAMEPAUSED = g.GAMEPAUSED := by
  rw [Init_eq]
  unfold initReset
  split_ifs <;> exact ⟨rfl, rfl, rfl, rfl⟩

/-- `Init` without a win behind it starts the game anew. -/
theorem Init_fresh (env : Env) (g : Game) (h : g.GAMEWIN ≠ 1) :
    (Init env g).LEVEL = 1 ∧ (Init env g).LIFES = START_LIFES ∧ (Init env g)._score = 0 ∧
      (Init env g)._lifescore = 10000 ∧ (Init env g).ACTUALBONUS = 0 ∧
      (Init env g).ACTIVEBONUS = 0 := by
  rw [Init_eq]
  unfold initReset
  rw [if_neg h]
  exact ⟨rfl, rfl, rfl, rfl, rfl, rfl⟩

/-- A property kept by the movement of each sprite, by the bonus collision and
by each ghost collision is kept by the part of `MoveAll` after the state
timer. -/
theorem moveAndCollideWith_preserves (P : Game → Prop) (init : Game → Game) (env : Env)
    (hmove : ∀ i b, i < 5 → P b → P (moveSprite env i b))
    (hbonus : ∀ b, P b → P (collideBonus b))
    (hghost : ∀ i b, i < 4 → P b → P (collideGhostWith init env i b))
    (g : Game) (hg : P g) : P (moveAndCollideWith init env g) := by
  unfold moveAndCollideWith
  simp only []
  apply forEach_induction P 4
  · apply hbonus
    exact forEach_induction P 5 (moveSprite env) g hg hmove
  · exact hghost

/-- A property kept by the operations that neither score nor move, and by the
movement and the collisions, is kept by `MoveAll`. -/
theorem MoveAllWith_preserves (P : Game → Prop) (init : Game → Game) (env : Env)
    (hframe : ∀ a b, Frame a b → P a → P b)
    (hmove : ∀ i b, i < 5 → P b → P (moveSprite env i b))
    (hbonus : ∀ b, P b → P (collideBonus b))
    (hghost : ∀ i b, i < 4 → P b → P (collideGhostWith init env i b))
    (g : Game) (hg : P g) : P (MoveAllWith init env g) := by
  have htt : P (UpdateTargets (UpdateTimers g)) :=
    hframe _ _ (Frame_trans (UpdateTimers_frame g) (UpdateTargets_frame _)) hg
  have hdec : P { UpdateTargets (UpdateTimers g) with
      _stateTimer := (UpdateTargets (UpdateTimers g))._stateTimer - 1 } :=
    hframe _ _ (Frame_of_neutral _ _ rfl) htt
  unfold MoveAllWith
  simp only []
  split_ifs
  · apply moveAndCollideWith_preserves P init env hmove hbonus hghost
    exact hframe _ _ (stateTimeout_frame _) hdec
  · exact hdec
  · exact moveAndCollideWith_preserves P init env hmove hbonus hghost _ hdec
  · exact moveAndCollideWith_preserves P init env hmove hbonus hghost _ htt

/-- A property kept by every block of `Step` is kept by `Step`. -/
theorem StepWith_preserves (P : Game → Prop) (init : Game → Game) (env : Env)
    (hframe : ∀ a b, Frame a b → P a → P b)
    (hwin : ∀ b, P b → P (stepGameWin init b))
    (hbutA : ∀ b, P b → P (stepButtonA init b))
    (hbutB : ∀ b, P b → P (stepButtonB init b))
    (hmove : ∀ i b, i < 5 → P b → P (moveSprite env i b))
    (hbonus : ∀ b, P b → P (collideBonus b))
    (hghost : ∀ i b, i < 4 → P b → P (collideGhostWith init env i b))
    (g : Game) (hg : P g) : P (StepWith init env g) := by
  unfold StepWith
  simp only []
  have hpre : P (stepButtonB init (stepResume (stepButtonA init (stepGameWin init g)))) :=
    hbutB _ (hframe _ _ (stepResume_frame _) (hbutA _ (hwin _ hg)))
  refine hframe _ _ (DrawAll_frame _) ?_
  split_ifs
  · exact MoveAllWith_preserves P init env hframe hmove hbonus hghost _ hpre
  · exact hpre

/-! ## The score never goes down -/

theorem bonusAdvance_sprites (g : Game) :
    (bonusAdvance g)._sprites = g._sprites ∧ (bonusAdvance g)._BonusSprite = g._BonusSprite ∧
      (bonusAdvance g)._frightenedCount = g._frightenedCount := by
  unfold bonusAdvance
  simp only []
  split_ifs <;> exact ⟨rfl, rfl, rfl⟩

theorem Score_BonusSprite (g : Game) (d : Int) : (Score g d)._BonusSprite = g._BonusSprite := by
  unfold Score
  simp only []
  split_ifs <;> rfl

/-- `EatDot` leaves a sprite as it is or, for one of the four ghosts when a pill
is eaten, applies `frighten` to it. -/
theorem EatDot_sprites (env : Env) (g : Game) (cx cy : Nat) (j : Nat) :
    (EatDot env g cx cy)._sprites j = g._sprites j ∨
      (j < 4 ∧ (EatDot env g cx cy)._sprites j = frighten (g._sprites j)) := by
  by_cases hdot : GetDot g cx cy = true
  · by_cases hpill : GetTile env g cx cy = PILL
    · rw [EatDot_pill env g cx cy hdot hpill, Score_sprites]
      by_cases hj : j < 4
      · exact Or.inr ⟨hj, if_pos hj⟩
      · exact Or.inl (if_neg hj)
    · rw [EatDot_dot env g cx cy hdot hpill, Score_sprites]
      exact Or.inl rfl
  · rw [EatDot_clear env g cx cy (by simpa using hdot)]
    exact Or.inl rfl

theorem EatDot_BonusSprite (env : Env) (g : Game) (cx cy : Nat) :
    (EatDot env g cx cy)._BonusSprite = g._BonusSprite := by
  by_cases hdot : GetDot g cx cy = true
  · by_cases hpill : GetTile env g cx cy = PILL
    · rw [EatDot_pill env g cx cy hdot hpill, Score_BonusSprite]
    · rw [EatDot_dot env g cx cy hdot hpill, Score_BonusSprite]
  · rw [EatDot_clear env g cx cy (by simpa using hdot)]

theorem EatDot_state (env : Env) (g : Game) (cx cy : Nat) :
    (EatDot env g cx cy)._state = g._state := by
  by_cases hdot : GetDot g cx cy = true
  · by_cases hpill : GetTile env g cx cy = PILL
    · rw [EatDot_pill env g cx cy hdot hpill, Score_state]
    · rw [EatDot_dot env g cx cy hdot hpill, Score_state]
  · rw [EatDot_clear env g cx cy (by simpa using hdot)]

/-- `frighten` changes the state and the direction only. -/
theorem frighten_sameBody (s : Sprite) : s.sameBody (frighten s) := by
  unfold frighten
  split_ifs <;> exact ⟨rfl, rfl, rfl, rfl, rfl, rfl, rfl, rfl, rfl⟩

theorem cellOK_of_sameBody (s t : Sprite) (h : s.sameBody t) (hs : s.cellOK) : t.cellOK := by
  obtain ⟨h1, h2, h3, h4⟩ := hs
  refine ⟨?_, ?_, ?_, ?_⟩
  · rw [h.x]; exact h1
  · rw [h.x]; exact h2
  · rw [h.x, h.cx]; exact h3
  · rw [h.y, h.cy]; exact h4

theorem CellInv_frame (g b : Game) (h : Frame g b) (hg : CellInv g) : CellInv b :=
  ⟨fun j => cellOK_of_sameBody _ _ (h.body j) (hg.1 j),
    cellOK_of_sameBody _ _ h.bonusBody hg.2⟩

theorem CellInv_setSprite (g : Game) (i : Nat) (s : Sprite) (hs : s.cellOK) (hg : CellInv g) :
    CellInv (g.setSprite i s) := by
  refine ⟨fun j => ?_, hg.2⟩
  show (if j = i then s else g._sprites j).cellOK
  split_ifs
  · exact hs
  · exact hg.1 j

/-- After the move of `MoveAll` x is in 0..223 and the cell is the one derived
from the position, with no reduction of the column modulo 28. -/
theorem stepPixel_cellOK (s : Sprite) : (stepPixel s).cellOK := by
  unfold stepPixel
  simp only []
  rw [wrapInto_eq_emod 224 (by decide)]
  exact ⟨Int.emod_nonneg _ (by decide), Int.emod_lt_of_pos _ (by decide), rfl, rfl⟩

theorem EatDot_cellInv (env : Env) (g : Game) (cx cy : Nat) (hg : CellInv g) :
    CellInv (EatDot env g cx cy) := by
  refine ⟨fun j => ?_, ?_⟩
  · rcases EatDot_sprites env g cx cy j with h | ⟨_, h⟩
    · rw [h]; exact hg.1 j
    · rw [h]; exact cellOK_of_sameBody _ _ (frighten_sameBody _) (hg.1 j)
  · rw [EatDot_BonusSprite]; exact hg.2

theorem advanceSprite_cellInv (env : Env) (i : Nat) (g : Game) (hg : CellInv g) :
    CellInv (advanceSprite env i g) := by
  unfold advanceSprite
  simp only []
  split_ifs
  · exact EatDot_cellInv env _ _ _ (CellInv_setSprite _ i _ (stepPixel_cellOK _) (by
      apply CellInv_frame _ _ (chooseAt_frame env i _)
      exact CellInv_setSprite g i _ ⟨(hg.1 i).x0, (hg.1 i).x1, (hg.1 i).cx, (hg.1 i).cy⟩ hg))
  · exact CellInv_setSprite _ i _ (stepPixel_cellOK _) (by
      apply CellInv_frame _ _ (chooseAt_frame env i _)
      exact CellInv_setSprite g i _ ⟨(hg.1 i).x0, (hg.1 i).x1, (hg.1 i).cx, (hg.1 i).cy⟩ hg)

theorem moveSprite_cellInv (env : Env) (i : Nat) (g : Game) (hg : CellInv g) :
    CellInv (moveSprite env i g) := by
  have h1 : CellInv (g.setSprite i { g._sprites i with
      _speed := ((g._sprites i)._speed + GetSpeed g (g._sprites i)) % 256 }) :=
    CellInv_setSprite g i _ ⟨(hg.1 i).x0, (hg.1 i).x1, (hg.1 i).cx, (hg.1 i).cy⟩ hg
  unfold moveSprite
  simp only []
  split_ifs
  · exact hg
  · exact h1
  · exact advanceSprite_cellInv env i _ h1

theorem collideBonus_cellInv (g : Game) (hg : CellInv g) : CellInv (collideBonus g) := by
  unfold collideBonus
  simp only []
  split_ifs
  · have hb := bonusAdvance_sprites (Score g (toInt16 ((g.ACTUALBONUS : Int) * 50)))
    refine ⟨fun j => ?_, ?_⟩
    · show ((bonusAdvance _)._sprites j).cellOK
      rw [hb.1, Score_sprites]
      exact hg.1 j
    · show (bonusAdvance _)._BonusSprite.cellOK
      rw [hb.2.1, Score_BonusSprite]
      exact hg.2
  · exact hg

/-- Each of the six rows of `_initSprites` names a cell whose pixel position,
`(cx * 8 - 4, cy * 8)`, is on the screen and gives back the cell. -/
theorem initRow_cell (j : Nat) (hj : j ≤ 5) :
    0 ≤ ((_initSprites.getD (j * 5 + 1) 0 : Nat) : Int) * 8 - 4 ∧
      ((_initSprites.getD (j * 5 + 1) 0 : Nat) : Int) * 8 - 4 < 224 ∧
      _initSprites.getD (j * 5 + 1) 0 =
        toU8 ((((_initSprites.getD (j * 5 + 1) 0 : Nat) : Int) * 8 - 4 + 4) / 8) ∧
      _initSprites.getD (j * 5 + 2) 0 =
        toU8 ((((_initSprites.getD (j * 5 + 2) 0 : Nat) : Int) * 8 + 4) / 8) := by
  interval_cases j <;> decide

/-- A sprite initialised from one of the six rows of `_initSprites` stands in
the cell of that row. -/
theorem Init_cellOK (env : Env) (calls : Nat) (j : Nat) (hj : j ≤ 5) (s : Sprite) :
    (Sprite.Init env calls (j * 5) s).cellOK :=
  ⟨(initRow_cell j hj).1, (initRow_cell j hj).2.1, (initRow_cell j hj).2.2.1,
    (initRow_cell j hj).2.2.2⟩

theorem seeded_cellInv (g b : Game) (calls : Nat → Nat) (env : Env)
    (hs : b._sprites = fun j =>
      if j < 5 then Sprite.Init env (calls j) (j * 5) (g._sprites j) else g._sprites j)
    (hb : b._BonusSprite = Sprite.Init env (calls 5) 25 g._BonusSprite) (hg : CellInv g) :
    CellInv b := by
  refine ⟨fun j => ?_, ?_⟩
  · rw [hs]
    show (if j < 5 then Sprite.Init env (calls j) (j * 5) (g._sprites j)
      else g._sprites j).cellOK
    split_ifs with hj
    · exact Init_cellOK env _ j (by omega) _
    · exact hg.1 j
  · rw [hb]
    exact Init_cellOK env _ 5 (le_refl _) _

theorem restartLevel_cellInv (env : Env) (g : Game) (hg : CellInv g) :
    CellInv (restartLevel env g) := by
  rw [restartLevel_eq]
  exact seeded_cellInv g _ (fun j => g.randCalls + 2 * j) env rfl rfl hg

theorem Init_cellInv (env : Env) (g : Game) (hg : CellInv g) : CellInv (Init env g) := by
  rw [Init_eq]
  exact seeded_cellInv g _ (fun j => g.randCalls + 2 * j) env rfl rfl hg

theorem collideGhostWith_cellInv (init : Game → Game) (hinit : ∀ a, CellInv a → CellInv (init a))
    (env : Env) (i : Nat) (g : Game) (hg : CellInv g) :
    CellInv (collideGhostWith init env i g) := by
  unfold collideGhostWith
  simp only []
  split_ifs
  · refine ⟨fun j => ?_, ?_⟩
    · rw [Score_sprites]
      exact (CellInv_setSprite g i { g._sprites i with state := DeadNumberState }
        ⟨(hg.1 i).x0, (hg.1 i).x1, (hg.1 i).cx, (hg.1 i).cy⟩ hg).1 j
    · rw [Score_BonusSprite]
      exact hg.2
  · exact hg
  · unfold PackmanDiedWith
    split_ifs
    · exact hinit _ hg
    · exact restartLevel_cellInv env g hg
  · exact hg

/-- With calls of `init` that keep the sprites in their cells, `StepWith` does
so. -/
theorem StepWith_cellInv (init : Game → Game) (hinit : ∀ a, CellInv a → CellInv (init a))
    (env : Env) (g : Game) (hg : CellInv g) : CellInv (StepWith init env g) := by
  apply StepWith_preserves CellInv init env CellInv_frame ?_ ?_ ?_
    (fun i b _ hb => moveSprite_cellInv env i b hb) collideBonus_cellInv
    (fun i b _ hb => collideGhostWith_cellInv init hinit env i b hb) g hg
  · intro b hb
    unfold stepGameWin
    split_ifs
    · exact hinit _ hb
    · exact hb
  · intro b hb
    unfold stepButtonA
    split_ifs
    · exact hinit _ hb
    · exact hb
    · exact hb
  · intro b hb
    unfold stepButtonB
    split_ifs
    · exact hinit _ hb
    · exact hinit _ hb
    · exact hb

theorem zero_cellOK : Sprite.zero.cellOK :=
  ⟨by decide, by decide, by decide, by decide⟩

theorem boot_cellInv : CellInv Game.boot :=
  ⟨fun _ => zero_cellOK, zero_cellOK⟩

/-- In every reachable state every sprite has x in 0..223 and stands in the
cell derived from its position. -/
theorem Reachable_cellInv (env : Env) (g : Game) (h : Reachable env g) : CellInv g := by
  induction h with
  | boot => exact boot_cellInv
  | step _ ih => exact StepWith_cellInv (Init env) (Init_cellInv env) env _ ih
  | press b _ ih => exact CellInv_frame _ _ (press_frame b _) ih

/-- For x in 0..223 the column `(x + 4) >> 3` is 28 at most, and is 28 exactly
from x = 220 on. -/
theorem cellOK_column (s : Sprite) (h : s.cellOK) :
    (s.cx : Int) = (s._x + 4) / 8 ∧ s.cx ≤ 28 ∧ (s.cx = 28 ↔ 220 ≤ s._x) ∧
      (-4 ≤ s._y ∧ s._y < 284 → s.cy < 36) := by
  obtain ⟨h0, h1, hcx, hcy⟩ := h
  have hq0 : 0 ≤ (s._x + 4) / 8 := by omega
  have hq1 : (s._x + 4) / 8 ≤ 28 := by omega
  have hx : (s.cx : Int) = (s._x + 4) / 8 := by
    rw [hcx]
    unfold toU8
    rw [Int.emod_eq_of_lt hq0 (by omega), Int.toNat_of_nonneg hq0]
  refine ⟨hx, by omega, ⟨fun h => by omega, fun h => by omega⟩, fun hy => ?_⟩
  have hr0 : 0 ≤ (s._y + 4) / 8 := by omega
  have hr1 : (s._y + 4) / 8 < 36 := by omega
  have hy2 : (s.cy : Int) = (s._y + 4) / 8 := by
    rw [hcy]
    unfold toU8
    rw [Int.emod_eq_of_lt hr0 (by omega), Int.toNat_of_nonneg hr0]
  omega

/-! ## Directions and positions in the movement loop -/

theorem sameDirs_refl (g : Game) : sameDirs g g := fun _ => rfl

theorem sameDirs_trans {a b c : Game} (h1 : sameDirs a b) (h2 : sameDirs b c) : sameDirs a c :=
  fun j => (h2 j).trans (h1 j)

theorem sameDirs_of_sprites (g b : Game) (h : b._sprites = g._sprites) : sameDirs g b := by
  intro j
  rw [h]

theorem sameDirs_setSprite (g : Game) (i : Nat) (s : Sprite) (h : s.dir = (g._sprites i).dir) :
    sameDirs g (g.setSprite i s) := by
  intro j
  show (if j = i then s else g._sprites j).dir = (g._sprites j).dir
  by_cases hj : j = i
  · rw [if_pos hj, hj]; exact h
  · rw [if_neg hj]

theorem sameDirs_forEach (n : Nat) (body : Nat → Game → Game) (g : Game)
    (h : ∀ i b, sameDirs b (body i b)) : sameDirs g (forEach n body g) :=
  forEach_induction (fun b : Game => sameDirs g b) n body g (sameDirs_refl g)
    (fun i b _ hb => sameDirs_trans hb (h i b))

theorem dotSearchCell_dirs (y x : Nat) (st : Int × Game) :
    sameDirs st.2 (dotSearchCell y x st).2 := by
  unfold dotSearchCell
  simp only []
  split_ifs
  · exact sameDirs_setSprite _ _ _ rfl
  · exact sameDirs_refl _
  · exact sameDirs_refl _

theorem dotSearch_dirs (g : Game) : sameDirs g (dotSearch g) := by
  have hloop : ∀ st : Int × Game,
      sameDirs st.2 (forRange 4 32 (fun y st => forRange 1 26 (dotSearchCell y) st) st).2 := by
    intro st
    apply forRange_induction (fun b : Int × Game => sameDirs st.2 b.2) 4 32 (by decide)
    · exact sameDirs_refl _
    · intro y b _ _ hb
      apply forRange_induction (fun c : Int × Game => sameDirs st.2 c.2) 1 26 (by decide)
      · exact hb
      · intro x c _ _ hc
        exact sameDirs_trans hc (dotSearchCell_dirs y x c)
  have hres : ∀ st : Int × Game, sameDirs g st.2 →
      sameDirs g (if st.1 = 0x7FFF then { st.2 with GAMEWIN := 1 } else st.2) := by
    intro st h
    split_ifs
    · exact h
    · exact h
  exact hres _ (hloop (0x7FFF, g))

theorem PacmanAI_dirs (g : Game) : sameDirs g (PacmanAI g) := by
  have hforage : ∀ b : Game, sameDirs b (pacmanForage b) := by
    intro b
    unfold pacmanForage
    simp only []
    split_ifs
    · exact sameDirs_setSprite _ _ _ rfl
    · exact sameDirs_setSprite _ _ _ rfl
    · exact sameDirs_setSprite _ _ _ rfl
    · exact sameDirs_setSprite _ _ _ rfl
    · exact dotSearch_dirs b
  have htarget : ∀ x y : Nat, sameDirs g
      (({ g with PACMANFALLBACK := 0 } : Game).setSprite PACMAN
        ((g._sprites PACMAN).Target x y)) := fun x y =>
    sameDirs_setSprite { g with PACMANFALLBACK := 0 } PACMAN _ rfl
  unfold PacmanAI
  simp only []
  split_ifs
  · exact htarget _ _
  · exact htarget _ _
  · exact htarget _ _
  · exact htarget _ _
  · exact hforage { g with PACMANFALLBACK := 0 }

theorem targetGhost_dirs (scatter : Bool) (i : Nat) (g : Game) :
    sameDirs g (targetGhost scatter i g) := by
  have hrun : sameDirs g (g.setSprite i
      (if (g._sprites i).pentimer ≠ 0 then
        { g._sprites i with pentimer := (g._sprites i).pentimer - 1, state := RunState }
       else g._sprites i)) := by
    apply sameDirs_setSprite
    split_ifs <;> rfl
  have hre : ∀ (s : Sprite) (x y : Nat), sameDirs g (g.setSprite i s) →
      sameDirs g ((g.setSprite i s).setSprite i (s.Target x y)) := by
    intro s x y h
    refine sameDirs_trans h (sameDirs_setSprite _ i _ ?_)
    show s.dir = (if i = i then s else g._sprites i).dir
    rw [if_pos rfl]
  unfold targetGhost
  simp only []
  by_cases h1 : (g._sprites i).state = DeadEyesState
  · rw [if_pos h1]
    split_ifs
    · exact sameDirs_setSprite _ _ _ rfl
    · exact sameDirs_setSprite _ _ _ rfl
  · rw [if_neg h1]
    by_cases h2 : (g._sprites i).pentimer ≠ 0 ∧ (g._sprites i).pentimer - 1 ≠ 0
    · rw [if_pos h2]
      exact sameDirs_setSprite _ _ _ rfl
    · rw [if_neg h2]
      generalize (if (g._sprites i).pentimer ≠ 0 then
        ({ g._sprites i with pentimer := (g._sprites i).pentimer - 1, state := RunState } : Sprite)
       else g._sprites i) = s1 at hrun ⊢
      split_ifs
      · exact hre _ _ _ hrun
      · exact hre _ _ _ hrun
      · exact hre _ _ _ hrun

theorem UpdateTargets_dirs (g : Game) : sameDirs g (UpdateTargets g) := by
  unfold UpdateTargets
  simp only []
  split_ifs
  · exact sameDirs_refl g
  · exact sameDirs_trans (PacmanAI_dirs g)
      (sameDirs_forEach 4 _ _ (fun i b => targetGhost_dirs _ i b))

theorem stateTimeout_dirs (g : Game) : sameDirs g (stateTimeout g) := by
  unfold stateTimeout
  split
  · exact sameDirs_refl g
  · refine sameDirs_trans (b := { g with _state := PlayState }) (sameDirs_refl g)
      (sameDirs_forEach 4 _ _ (fun i b => ?_))
    simp only []
    split_ifs
    · exact sameDirs_setSprite _ _ _ rfl
    · exact sameDirs_refl b
  · exact sameDirs_refl g

theorem DrawAll_dirs (g : Game) : sameDirs g (DrawAll g) := by
  unfold DrawAll
  simp only []
  exact sameDirs_forEach 5 _ g
    (fun i b => sameDirs_setSprite b i _ (SetupDraw_sameBody _ _ _ _).2.2)

theorem collideBonus_dirs (g : Game) : sameDirs g (collideBonus g) := by
  unfold collideBonus
  simp only []
  split_ifs
  · apply sameDirs_of_sprites
    show (bonusAdvance _)._sprites = g._sprites
    rw [(bonusAdvance_sprites _).1, Score_sprites]
  · exact sameDirs_refl g

/-- A ghost collision keeps every direction, unless it is Pac-Man's death. -/
theorem collideGhostWith_dirs (init : Game → Game) (env : Env) (i : Nat) (g : Game) :
    sameDirs g (collideGhostWith init env i g) ∨
      collideGhostWith init env i g = PackmanDiedWith init env g := by
  unfold collideGhostWith
  simp only []
  split_ifs
  · left
    intro j
    rw [Score_sprites]
    exact sameDirs_setSprite g i { g._sprites i with state := DeadNumberState } rfl j
  · exact Or.inl (sameDirs_refl g)
  · exact Or.inr rfl
  · exact Or.inl (sameDirs_refl g)

/-- `ChooseDir` is called for sprite `i` only, and only when it is
cell-aligned: every other sprite, and sprite `i` off the grid, is left as it
is. -/
theorem chooseAt_other (env : Env) (i : Nat) (g : Game) (j : Nat)
    (h : ¬ (j = i ∧ (g._sprites i).aligned)) :
    (chooseAt env i g)._sprites j = g._sprites j := by
  unfold chooseAt
  simp only []
  by_cases ha : (g._sprites i)._x % 8 = 0 ∧ (g._sprites i)._y % 8 = 0
  · rw [if_pos ha]
    have hj : j ≠ i := fun hc => h ⟨hc, ha⟩
    show (if j = i then _ else (ChooseDir env g _ _).2._sprites j) = g._sprites j
    rw [if_neg hj]
    unfold ChooseDir
    rw [chooseFrom_sprites]
  · rw [if_neg ha]

theorem chooseFrom_state (choice : List Int) (g : Game) (dir : Int) (s : Sprite) :
    (chooseFrom choice g dir s).2._state = g._state := by
  unfold chooseFrom
  simp only []
  split_ifs <;> rfl

theorem chooseAt_state (env : Env) (i : Nat) (g : Game) :
    (chooseAt env i g)._state = g._state := by
  unfold chooseAt
  simp only []
  split_ifs
  · show (ChooseDir env g _ _).2._state = g._state
    unfold ChooseDir
    exact chooseFrom_state _ g _ _
  · rfl

theorem stepPixel_dir (s : Sprite) : (stepPixel s).dir = s.dir ∧ (stepPixel s).state = s.state :=
  ⟨rfl, rfl⟩

/-- What `frighten` does to the direction. -/
theorem frighten_dir (s : Sprite) :
    (frighten s).dir = s.dir ∨
      (s.state = RunState ∧ (frighten s).dir = OppositeDirection s.dir) := by
  unfold frighten
  split_ifs with h
  · exact Or.inr ⟨h, rfl⟩
  · exact Or.inl rfl

/-- What `releaseFrightened` does to the direction. -/
theorem releaseFrightened_dir (s : Sprite) :
    (releaseFrightened s).dir = s.dir ∨
      (s.state = FrightenedState ∧ (releaseFrightened s).dir = OppositeDirection s.dir) := by
  unfold releaseFrightened
  split_ifs with h
  · exact Or.inr ⟨h, rfl⟩
  · exact Or.inl rfl

/-- The sprites after `advanceSprite`: those before the call of `EatDot`, each
as it is or, for a ghost when a pill is eaten, after `frighten`. -/
theorem advanceSprite_sprites (env : Env) (i : Nat) (g : Game) (j : Nat) :
    (advanceSprite env i g)._sprites j =
        ((chooseAt env i (g.setSprite i { g._sprites i with
            _speed := (g._sprites i)._speed - 100, lastx := (g._sprites i)._x
            lasty := (g._sprites i)._y, phase := ((g._sprites i).phase + 1) % 256 })).setSprite i
          (stepPixel ((chooseAt env i (g.setSprite i { g._sprites i with
            _speed := (g._sprites i)._speed - 100, lastx := (g._sprites i)._x
            lasty := (g._sprites i)._y, phase := ((g._sprites i).phase + 1) % 256 }))._sprites
              i)))._sprites j ∨
      (j < 4 ∧ (advanceSprite env i g)._sprites j =
        frighten (((chooseAt env i (g.setSprite i { g._sprites i with
            _speed := (g._sprites i)._speed - 100, lastx := (g._sprites i)._x
            lasty := (g._sprites i)._y, phase := ((g._sprites i).phase + 1) % 256 })).setSprite i
          (stepPixel ((chooseAt env i (g.setSprite i { g._sprites i with
            _speed := (g._sprites i)._speed - 100, lastx := (g._sprites i)._x
            lasty := (g._sprites i)._y, phase := ((g._sprites i).phase + 1) % 256 }))._sprites
              i)))._sprites j)) := by
  unfold advanceSprite
  simp only []
  split_ifs
  · exact EatDot_sprites env _ _ _ j
  · exact Or.inl rfl

theorem advanceSprite_state (env : Env) (i : Nat) (g : Game) :
    (advanceSprite env i g)._state = g._state := by
  unfold advanceSprite
  simp only []
  split_ifs
  · rw [EatDot_state]
    exact chooseAt_state env i _
  · exact chooseAt_state env i _

/-- A sprite other than the one that moves is left as it is by `advanceSprite`,
or is a ghost that Pac-Man's pill frightens. -/
theorem advanceSprite_other (env : Env) (i : Nat) (g : Game) (j : Nat) (hj : j ≠ i) :
    (advanceSprite env i g)._sprites j = g._sprites j ∨
      (j < 4 ∧ (advanceSprite env i g)._sprites j = frighten (g._sprites j)) := by
  have hc := chooseAt_other env i (g.setSprite i { g._sprites i with
    _speed := (g._sprites i)._speed - 100, lastx := (g._sprites i)._x
    lasty := (g._sprites i)._y, phase := ((g._sprites i).phase + 1) % 256 }) j (fun h => hj h.1)
  have hs : (g.setSprite i { g._sprites i with
      _speed := (g._sprites i)._speed - 100, lastx := (g._sprites i)._x
      lasty := (g._sprites i)._y, phase := ((g._sprites i).phase + 1) % 256 })._sprites j =
      g._sprites j := if_neg hj
  have h := advanceSprite_sprites env i g j
  unfold Game.setSprite at h hc hs
  simp only [if_neg hj] at h hc hs
  rw [hc] at h
  exact h

theorem moveSprite_state (env : Env) (i : Nat) (g : Game) :
    (moveSprite env i g)._state = g._state := by
  unfold moveSprite
  simp only []
  split_ifs
  · rfl
  · rfl
  · exact advanceSprite_state env i _

/-- A sprite other than the one whose turn it is is left as it is by
`moveSprite`, or is a ghost that Pac-Man's pill frightens. -/
theorem moveSprite_other (env : Env) (i : Nat) (g : Game) (j : Nat) (hj : j ≠ i) :
    (moveSprite env i g)._sprites j = g._sprites j ∨
      (j < 4 ∧ (moveSprite env i g)._sprites j = frighten (g._sprites j)) := by
  have hs : (g.setSprite i { g._sprites i with
      _speed := ((g._sprites i)._speed + GetSpeed g (g._sprites i)) % 256 })._sprites j =
      g._sprites j := if_neg hj
  unfold moveSprite
  simp only []
  split_ifs
  · exact Or.inl rfl
  · exact Or.inl hs
  · have h := advanceSprite_other env i (g.setSprite i { g._sprites i with
      _speed := ((g._sprites i)._speed + GetSpeed g (g._sprites i)) % 256 }) j hj
    rw [hs] at h
    exact h

/-- The sprite whose turn it is, when it is off the grid, keeps its direction
in `moveSprite`, or is a ghost in RunState that a pill reverses. -/
theorem moveSprite_self_dir (env : Env) (i : Nat) (g : Game)
    (ha : ¬ (g._sprites i).aligned) :
    ((moveSprite env i g)._sprites i).dir = (g._sprites i).dir ∨
      (i < 4 ∧ (g._sprites i).state = RunState ∧
        ((moveSprite env i g)._sprites i).dir = OppositeDirection (g._sprites i).dir) := by
  have hadv : ∀ b : Game, ¬ (b._sprites i).aligned →
      ((advanceSprite env i b)._sprites i).dir = (b._sprites i).dir ∨
        (i < 4 ∧ (b._sprites i).state = RunState ∧
          ((advanceSprite env i b)._sprites i).dir = OppositeDirection (b._sprites i).dir) := by
    intro b hb
    have hset : (b.setSprite i { b._sprites i with
        _speed := (b._sprites i)._speed - 100, lastx := (b._sprites i)._x
        lasty := (b._sprites i)._y, phase := ((b._sprites i).phase + 1) % 256 })._sprites i =
        { b._sprites i with
          _speed := (b._sprites i)._speed - 100, lastx := (b._sprites i)._x
          lasty := (b._sprites i)._y, phase := ((b._sprites i).phase + 1) % 256 } := if_pos rfl
    have hc := chooseAt_other env i (b.setSprite i { b._sprites i with
      _speed := (b._sprites i)._speed - 100, lastx := (b._sprites i)._x
      lasty := (b._sprites i)._y, phase := ((b._sprites i).phase + 1) % 256 }) i (fun h => by
        rw [hset] at h
        exact hb h.2)
    have h := advanceSprite_sprites env i b i
    unfold Game.setSprite at h hc hset
    simp only [if_true] at h hc hset
    rw [hc] at h
    rcases h with h | ⟨h4, h⟩
    · left
      rw [h]
      rfl
    · rw [h]
      rcases frighten_dir (stepPixel { b._sprites i with
        _speed := (b._sprites i)._speed - 100, lastx := (b._sprites i)._x
        lasty := (b._sprites i)._y, phase := ((b._sprites i).phase + 1) % 256 }) with hd | ⟨hr, hd⟩
      · left
        rw [hd]
        rfl
      · right
        exact ⟨h4, hr, hd⟩
  have hs : (g.setSprite i { g._sprites i with
      _speed := ((g._sprites i)._speed + GetSpeed g (g._sprites i)) % 256 })._sprites i =
      { g._sprites i with
        _speed := ((g._sprites i)._speed + GetSpeed g (g._sprites i)) % 256 } := if_pos rfl
  unfold moveSprite
  simp only []
  split_ifs
  · exact Or.inl rfl
  · left
    rw [hs]
  · have h := hadv (g.setSprite i { g._sprites i with
      _speed := ((g._sprites i)._speed + GetSpeed g (g._sprites i)) % 256 }) (by
        rw [hs]
        exact ha)
    rw [hs] at h
    exact h

/-- The sprites after `UpdateTimers`: the four ghosts may have gone through
`releaseFrightened`, nothing else changes. -/
theorem UpdateTimers_sprites (g : Game) (j : Nat) :
    (UpdateTimers g)._sprites j = g._sprites j ∨
      (j < 4 ∧ (UpdateTimers g)._sprites j = releaseFrightened (g._sprites j)) := by
  have h1 : (scatterChaseTick g)._sprites = g._sprites := by
    unfold scatterChaseTick
    simp only []
    split_ifs <;> rfl
  have h2 : ∀ b : Game, (bonusInactiveTick b)._sprites = b._sprites := by
    intro b
    unfold bonusInactiveTick
    simp only []
    split_ifs <;> rfl
  have h3 : ∀ b : Game, (bonusActiveTick b)._sprites = b._sprites := by
    intro b
    unfold bonusActiveTick
    simp only []
    split_ifs <;> rfl
  have h4 : ∀ b : Game, (frightenedTick b)._sprites j = b._sprites j ∨
      (j < 4 ∧ (frightenedTick b)._sprites j = releaseFrightened (b._sprites j)) := by
    intro b
    unfold frightenedTick
    simp only []
    split_ifs
    · rw [forEach_mapSprites]
      by_cases hj : j < 4
      · exact Or.inr ⟨hj, if_pos hj⟩
      · exact Or.inl (if_neg hj)
    · exact Or.inl rfl
    · exact Or.inl rfl
  unfold UpdateTimers
  have h := h4 (bonusActiveTick (bonusInactiveTick (scatterChaseTick g)))
  rw [h3, h2, h1] at h
  exact h

theorem frighten_not_eyes (s : Sprite) (h : s.state ≠ DeadEyesState) :
    (frighten s).state ≠ DeadEyesState := by
  unfold frighten
  split_ifs
  · exact fun hc => by cases hc
  · exact h

/-- In DeadGhostState `moveSprite` does nothing for a sprite that is not in
DeadEyesState. -/
theorem moveSprite_frozen (env : Env) (i : Nat) (g : Game) (hs : g._state = DeadGhostState)
    (hi : (g._sprites i).state ≠ DeadEyesState) : moveSprite env i g = g := by
  unfold moveSprite
  simp only []
  rw [if_pos ⟨hs, hi⟩]

/-- In DeadGhostState the first `n` rounds of the movement loop leave the game
in DeadGhostState and a sprite that is not in DeadEyesState in its place. -/
theorem moveLoop_frozen (env : Env) (g : Game) (j : Nat) (hs : g._state = DeadGhostState)
    (hj : (g._sprites j).state ≠ DeadEyesState) (n : Nat) :
    (forEach n (moveSprite env) g)._state = DeadGhostState ∧
      ((forEach n (moveSprite env) g)._sprites j).state ≠ DeadEyesState ∧
      (g._sprites j).sameBody ((forEach n (moveSprite env) g)._sprites j) := by
  apply forEach_induction (fun b : Game => b._state = DeadGhostState ∧
    (b._sprites j).state ≠ DeadEyesState ∧ (g._sprites j).sameBody (b._sprites j)) n
    (moveSprite env) g ⟨hs, hj, Sprite.sameBody_refl _⟩
  intro i b _ hb
  obtain ⟨h1, h2, h3⟩ := hb
  by_cases hij : j = i
  · rw [← hij, moveSprite_frozen env j b h1 h2]
    exact ⟨h1, h2, h3⟩
  · refine ⟨(moveSprite_state env i b).trans h1, ?_, ?_⟩
    · rcases moveSprite_other env i b j hij with h | ⟨_, h⟩
      · rw [h]; exact h2
      · rw [h]; exact frighten_not_eyes _ h2
    · rcases moveSprite_other env i b j hij with h | ⟨_, h⟩
      · rw [h]; exact h3
      · rw [h]; exact Sprite.sameBody_trans h3 (frighten_sameBody _)

/-! ## Chase targets -/

theorem setSprite_self (g : Game) (i : Nat) : g.setSprite i (g._sprites i) = g := by
  unfold Game.setSprite
  have h : (fun j => if j = i then g._sprites i else g._sprites j) = g._sprites := by
    funext j
    split_ifs with hj
    · rw [hj]
    · rfl
  rw [h]

/-- In chase mode (`scatter` false) a ghost that is neither dead nor frightened,
whose pen timer is 0 and whose cell is outside the pen, gets the target of the
chase block. -/
theorem targetGhost_chase (i : Nat) (g : Game) (he : (g._sprites i).state ≠ DeadEyesState)
    (hf : (g._sprites i).state ≠ FrightenedState) (hp : (g._sprites i).pentimer = 0)
    (hin : InPen (g._sprites i).cx (g._sprites i).cy = false) :
    targetGhost false i g =
      g.setSprite i ((g._sprites i).Target (toU8 (chaseTarget g (g._sprites i)).1)
        (toU8 (chaseTarget g (g._sprites i)).2)) := by
  have hs1 : (if (g._sprites i).pentimer ≠ 0 then
      ({ g._sprites i with pentimer := (g._sprites i).pentimer - 1, state := RunState } : Sprite)
      else g._sprites i) = g._sprites i := if_neg (fun h => h hp)
  unfold targetGhost
  simp only []
  rw [if_neg he, if_neg (fun h => h.1 hp), hs1, setSprite_self,
    if_neg (by rw [hin]; exact Bool.false_ne_true),
    if_neg (by
      rintro (h | h)
      · exact Bool.false_ne_true h
      · exact hf h)]

/-- The target the chase block gives to PINKY. -/
theorem chaseTarget_pinky (g : Game) (s : Sprite) (hw : s.who = PINKY) (d : Nat)
    (hd : (g._sprites PACMAN).dir = d) (h1 : 1 ≤ d) (h4 : d ≤ 4) :
    ((toU8 (chaseTarget g s).1 : Nat) : Int) =
        (((g._sprites PACMAN).cx : Int) + (pinkyOffset d).1) % 256 ∧
      ((toU8 (chaseTarget g s).2 : Nat) : Int) =
        (((g._sprites PACMAN).cy : Int) + (pinkyOffset d).2) % 256 := by
  unfold chaseTarget
  simp only []
  rw [if_pos hw, hd]
  unfold toU8 toInt8
  have hd4 : d = 1 ∨ d = 2 ∨ d = 3 ∨ d = 4 := by omega
  rcases hd4 with h | h | h | h <;> subst h <;>
    simp [tableAt, _pinkyTargetOffset, pinkyOffset, MRight, MDown, MLeft, MUp] <;> omega

/-- The target the chase block gives to INKY: twice the point half the PINKY
offset away from Pac-Man, minus BINKY's cell, modulo 256. -/
theorem chaseTarget_inky (g : Game) (s : Sprite) (hw : s.who = INKY) (d : Nat)
    (hd : (g._sprites PACMAN).dir = d) (h1 : 1 ≤ d) (h4 : d ≤ 4) :
    ((toU8 (chaseTarget g s).1 : Nat) : Int) =
        (2 * (((g._sprites PACMAN).cx : Int) + (pinkyOffset d).1 / 2) -
          ((g._sprites BINKY).cx : Int)) % 256 ∧
      ((toU8 (chaseTarget g s).2 : Nat) : Int) =
        (2 * (((g._sprites PACMAN).cy : Int) + (pinkyOffset d).2 / 2) -
          ((g._sprites BINKY).cy : Int)) % 256 := by
  unfold chaseTarget
  simp only []
  rw [if_neg (by rw [hw]; decide), if_pos hw, hd]
  unfold toU8 toInt8
  have hd4 : d = 1 ∨ d = 2 ∨ d = 3 ∨ d = 4 := by omega
  rcases hd4 with h | h | h | h <;> subst h <;>
    simp [tableAt, _pinkyTargetOffset, pinkyOffset, MRight, MDown, MLeft, MUp] <;> omega

/-- The target the chase block gives to BINKY, and to any sprite that is none
of PINKY, INKY and CLYDE. -/
theorem chaseTarget_binky (g : Game) (s : Sprite) (h1 : s.who ≠ PINKY) (h2 : s.who ≠ INKY)
    (h3 : s.who ≠ CLYDE) :
    ((toU8 (chaseTarget g s).1 : Nat) : Int) = ((g._sprites PACMAN).cx : Int) % 256 ∧
      ((toU8 (chaseTarget g s).2 : Nat) : Int) = ((g._sprites PACMAN).cy : Int) % 256 := by
  unfold chaseTarget
  simp only []
  rw [if_neg h1, if_neg h2, if_neg h3]
  unfold toU8 toInt8
  constructor <;> omega

/-- Between cells below 128 the squared distance fits the `int16_t` that
`Distance` returns. -/
theorem Distance_exact (s : Sprite) (x y : Nat) (hsx : s.cx < 128) (hsy : s.cy < 128)
    (hx : x < 128) (hy : y < 128) :
    s.Distance x y = ((s.cx : Int) - x) * ((s.cx : Int) - x) +
      ((s.cy : Int) - y) * ((s.cy : Int) - y) := by
  unfold Sprite.Distance
  simp only []
  have hdx : toInt16 ((s.cx : Int) - x) = (s.cx : Int) - x := by
    unfold toInt16
    omega
  have hdy : toInt16 ((s.cy : Int) - y) = (s.cy : Int) - y := by
    unfold toInt16
    omega
  rw [hdx, hdy]
  have hq1 : ((s.cx : Int) - x) * ((s.cx : Int) - x) ≤ 127 * 127 := by nlinarith
  have hq2 : ((s.cy : Int) - y) * ((s.cy : Int) - y) ≤ 127 * 127 := by nlinarith
  have hq3 : 0 ≤ ((s.cx : Int) - x) * ((s.cx : Int) - x) := mul_self_nonneg _
  have hq4 : 0 ≤ ((s.cy : Int) - y) * ((s.cy : Int) - y) := mul_self_nonneg _
  generalize ((s.cx : Int) - x) * ((s.cx : Int) - x) = a at hq1 hq3 ⊢
  generalize ((s.cy : Int) - y) * ((s.cy : Int) - y) = b at hq2 hq4 ⊢
  unfold toInt16
  omega

/-- The target the chase block gives to CLYDE. -/
theorem chaseTarget_clyde (g : Game) (s : Sprite) (hw : s.who = CLYDE) :
    (s.Distance (g._sprites PACMAN).cx (g._sprites PACMAN).cy < 64 →
      toU8 (chaseTarget g s).1 = 27 ∧ toU8 (chaseTarget g s).2 = 35) ∧
    (¬ s.Distance (g._sprites PACMAN).cx (g._sprites PACMAN).cy < 64 →
      ((toU8 (chaseTarget g s).1 : Nat) : Int) = ((g._sprites PACMAN).cx : Int) % 256 ∧
        ((toU8 (chaseTarget g s).2 : Nat) : Int) = ((g._sprites PACMAN).cy : Int) % 256) := by
  unfold chaseTarget
  simp only []
  rw [if_neg (by rw [hw]; decide), if_neg (by rw [hw]; decide), if_pos hw]
  refine ⟨fun h => ?_, fun h => ?_⟩
  · rw [if_pos h]
    exact ⟨by decide, by decide⟩
  · rw [if_neg h]
    unfold toU8 toInt8
    constructor <;> omega

/-! ## `ChooseDir` -/

/-- The choice of the specification as a chain of tests, for given latches
`u l d r` and passability `p0 p1 p2 p3` of Up, Left, Down, Right. -/
theorem playerChoice_chain (isLatched isPassable : Nat → Bool) (dir : Int) :
    playerChoice isLatched isPassable dir =
      if isLatched MUp = true ∧ isPassable MUp = true then MUp
      else if isLatched MLeft = true ∧ isPassable MLeft = true then MLeft
      else if isLatched MDown = true ∧ isPassable MDown = true then MDown
      else if isLatched MRight = true ∧ isPassable MRight = true then MRight
      else if dir = MUp ∧ isPassable MUp = true then MUp
      else if dir = MLeft ∧ isPassable MLeft = true then MLeft
      else if dir = MDown ∧ isPassable MDown = true then MDown
      else if dir = MRight ∧ isPassable MRight = true then MRight
      else MStopped := by
  unfold playerChoice
  by_cases h4 : isLatched MUp = true ∧ isPassable MUp = true
  · rw [if_pos h4, List.find?_cons_of_pos _ (by simp [h4.1, h4.2])]
  rw [if_neg h4, List.find?_cons_of_neg _ (by simpa using h4)]
  by_cases h3 : isLatched MLeft = true ∧ isPassable MLeft = true
  · rw [if_pos h3, List.find?_cons_of_pos _ (by simp [h3.1, h3.2])]
  rw [if_neg h3, List.find?_cons_of_neg _ (by simpa using h3)]
  by_cases h2 : isLatched MDown = true ∧ isPassable MDown = true
  · rw [if_pos h2, List.find?_cons_of_pos _ (by simp [h2.1, h2.2])]
  rw [if_neg h2, List.find?_cons_of_neg _ (by simpa using h2)]
  by_cases h1 : isLatched MRight = true ∧ isPassable MRight = true
  · rw [if_pos h1, List.find?_cons_of_pos _ (by simp [h1.1, h1.2])]
  rw [if_neg h1, List.find?_cons_of_neg _ (by simpa using h1)]
  simp only [List.find?_nil]
  by_cases d4 : dir = MUp
  · subst d4
    by_cases p : isPassable MUp = true <;> simp [p, MUp, MLeft, MDown, MRight, MStopped]
  by_cases d3 : dir = MLeft
  · subst d3
    by_cases p : isPassable MLeft = true <;> simp [p, MUp, MLeft, MDown, MRight, MStopped]
  by_cases d2 : dir = MDown
  · subst d2
    by_cases p : isPassable MDown = true <;> simp [p, MUp, MLeft, MDown, MRight, MStopped]
  by_cases d1 : dir = MRight
  · subst d1
    by_cases p : isPassable MRight = true <;> simp [p, MUp, MLeft, MDown, MRight, MStopped]
  rw [if_neg (fun h => by
    rcases h.1 with h | h | h | h
    · exact d4 h
    · exact d3 h
    · exact d2 h
    · exact d1 h), if_neg (fun h => d4 h.1), if_neg (fun h => d3 h.1), if_neg (fun h => d2 h.1),
    if_neg (fun h => d1 h.1)]

/-- The direction `chooseFrom` returns in player mode, as one chain of tests. -/
theorem chooseFrom_player (choice : List Int) (g : Game) (dir : Int) (s : Sprite)
    (hd : g.DEMO = 0) (hw : s.who = PACMAN) :
    (chooseFrom choice g dir s).1 =
      if g.but_UP = true ∧ choiceAt choice 0 < 0x7FFF then MUp
      else if g.but_LEFT = true ∧ choiceAt choice 1 < 0x7FFF then MLeft
      else if g.but_DOWN = true ∧ choiceAt choice 2 < 0x7FFF then MDown
      else if g.but_RIGHT = true ∧ choiceAt choice 3 < 0x7FFF then MRight
      else if dir = MUp ∧ choiceAt choice 0 < 0x7FFF then MUp
      else if dir = MLeft ∧ choiceAt choice 1 < 0x7FFF then MLeft
      else if dir = MDown ∧ choiceAt choice 2 < 0x7FFF then MDown
      else if dir = MRight ∧ choiceAt choice 3 < 0x7FFF then MRight
      else MStopped := by
  have hne : ¬ ((g.DEMO = 0 ∧ s.who ≠ PACMAN) ∨ g.DEMO = 1) := by
    rintro (h | h)
    · exact h.2 hw
    · rw [hd] at h
      exact absurd h (by decide)
  unfold chooseFrom
  simp only []
  by_cases h1 : g.but_UP = true ∧ choiceAt choice 0 < 0x7FFF
  · rw [if_pos ⟨hd, hw, h1.2, h1.1⟩, if_pos h1]
  rw [if_neg (fun h => h1 ⟨h.2.2.2, h.2.2.1⟩), if_neg h1]
  by_cases h2 : g.but_LEFT = true ∧ choiceAt choice 1 < 0x7FFF
  · rw [if_pos ⟨hd, hw, h2.2, h2.1⟩, if_pos h2]
  rw [if_neg (fun h => h2 ⟨h.2.2.2, h.2.2.1⟩), if_neg h2]
  by_cases h3 : g.but_DOWN = true ∧ choiceAt choice 2 < 0x7FFF
  · rw [if_pos ⟨hd, hw, h3.2, h3.1⟩, if_pos h3]
  rw [if_neg (fun h => h3 ⟨h.2.2.2, h.2.2.1⟩), if_neg h3]
  by_cases h4 : g.but_RIGHT = true ∧ choiceAt choice 3 < 0x7FFF
  · rw [if_pos ⟨hd, hw, h4.2, h4.1⟩, if_pos h4]
  rw [if_neg (fun h => h4 ⟨h.2.2.2, h.2.2.1⟩), if_neg h4]
  by_cases h5 : dir = MUp ∧ choiceAt choice 0 < 0x7FFF
  · rw [if_pos ⟨hd, h5.2, hw, h5.1⟩, if_pos h5]
  rw [if_neg (fun h => h5 ⟨h.2.2.2, h.2.1⟩), if_neg h5]
  by_cases h6 : dir = MLeft ∧ choiceAt choice 1 < 0x7FFF
  · rw [if_pos ⟨hd, h6.2, hw, h6.1⟩, if_pos h6]
  rw [if_neg (fun h => h6 ⟨h.2.2.2, h.2.1⟩), if_neg h6]
  by_cases h7 : dir = MDown ∧ choiceAt choice 2 < 0x7FFF
  · rw [if_pos ⟨hd, h7.2, hw, h7.1⟩, if_pos h7]
  rw [if_neg (fun h => h7 ⟨h.2.2.2, h.2.1⟩), if_neg h7]
  by_cases h8 : dir = MRight ∧ choiceAt choice 3 < 0x7FFF
  · rw [if_pos ⟨hd, h8.2, hw, h8.1⟩, if_pos h8]
  rw [if_neg (fun h => h8 ⟨h.2.2.2, h.2.1⟩), if_neg h8, if_neg hne]

/-- In player mode `ChooseDir` returns the choice of the specification. -/
theorem ChooseDir_player (env : Env) (g : Game) (dir : Int) (s : Sprite)
    (hd : g.DEMO = 0) (hw : s.who = PACMAN) :
    (ChooseDir env g dir s).1 = playerChoice (latched g) (passable env g s) dir := by
  unfold ChooseDir
  rw [chooseFrom_player _ g dir s hd hw, playerChoice_chain]
  have hp : ∀ d, passable env g s d = true ↔ neighbourChase env g s d < 0x7FFF := by
    intro d
    unfold passable
    exact decide_eq_true_iff
  simp only [hp]
  rfl


/-- In AI mode `chooseFrom` is the loop over the four directions. -/
theorem chooseFrom_ai (choice : List Int) (g : Game) (dir : Int) (s : Sprite)
    (hai : (g.DEMO = 0 ∧ s.who ≠ PACMAN) ∨ g.DEMO = 1) :
    chooseFrom choice g dir s =
      (toU8 (forEach 4 (pickStep choice (tableAt _opposite dir) s.who)
          ⟨choiceAt choice (4 - dir), dir, g.PACMANFALLBACK⟩).dir,
        { g with PACMANFALLBACK :=
          (forEach 4 (pickStep choice (tableAt _opposite dir) s.who)
            ⟨choiceAt choice (4 - dir), dir, g.PACMANFALLBACK⟩).fallback }) := by
  have hno : ¬ (g.DEMO = 0 ∧ s.who = PACMAN) := by
    rintro ⟨h0, hw⟩
    rcases hai with h | h
    · exact h.2 hw
    · rw [h0] at h
      exact absurd h (by decide)
  unfold chooseFrom
  rw [if_neg (fun h => hno ⟨h.1, h.2.1⟩), if_neg (fun h => hno ⟨h.1, h.2.1⟩),
    if_neg (fun h => hno ⟨h.1, h.2.1⟩), if_neg (fun h => hno ⟨h.1, h.2.1⟩),
    if_neg (fun h => hno ⟨h.1, h.2.2.1⟩), if_neg (fun h => hno ⟨h.1, h.2.2.1⟩),
    if_neg (fun h => hno ⟨h.1, h.2.2.1⟩), if_neg (fun h => hno ⟨h.1, h.2.2.1⟩), if_pos hai]

/-- One round of the loop of `ChooseDir` when PACMANFALLBACK does not apply. -/
theorem pickStep_plain (choice : List Int) (opposite who i : Nat) (p : Pick)
    (hfb : ¬ (who = PACMAN ∧ p.fallback ≠ 0)) :
    pickStep choice opposite who i p =
      if 4 - i ≠ opposite ∧ choiceAt choice i < p.dist then
        { dist := choiceAt choice i, dir := ((4 - i : Nat) : Int), fallback := p.fallback }
      else p := by
  unfold pickStep
  simp only []
  by_cases h : 4 - i ≠ opposite ∧ choiceAt choice i < p.dist
  · rw [if_pos (Or.inl h), if_pos h, if_neg hfb]
  · rw [if_neg (by
      rintro (h1 | h1)
      · exact h h1
      · exact hfb ⟨h1.1, h1.2.1⟩), if_neg h]

/-- A property that depends on the round, kept from round to round of a
`forEach` loop, holds after the loop. -/
theorem forEach_induction_idx {α : Type} (P : Nat → α → Prop) (n : Nat) (body : Nat → α → α)
    (a : α) (h0 : P 0 a) (hstep : ∀ i b, i < n → P i b → P (i + 1) (body i b)) :
    P n (forEach n body a) := by
  induction n with
  | zero => exact h0
  | succ k ih =>
    rw [forEach_succ]
    exact hstep k _ (Nat.lt_succ_self k) (ih (fun i b hi hb => hstep i b (Nat.lt_succ_of_lt hi) hb))

/-- What the loop of `ChooseDir` has found after `n` rounds, when
PACMANFALLBACK does not apply: the direction `r` kept so far is not `opposite`
and `dist` is its value; either it is still the start direction `d`, and none
of the directions tried so far (4 down to 5 - n) is better, or it is the first
of the directions tried so far that has the least value among them, and that
value is below the one of `d`. -/
theorem pickLoop_inv (choice : List Int) (opposite who : Nat) (fb : Nat) (d : Nat)
    (hd1 : 1 ≤ d) (hd4 : d ≤ 4) (hdo : d ≠ opposite) (hfb : ¬ (who = PACMAN ∧ fb ≠ 0))
    (n : Nat) (hn : n ≤ 4) :
    (forEach n (pickStep choice opposite who)
        ⟨choiceAt choice (4 - (d : Int)), d, fb⟩).fallback = fb ∧
    ∃ r : Nat,
      (forEach n (pickStep choice opposite who) ⟨choiceAt choice (4 - (d : Int)), d, fb⟩).dir =
          (r : Int) ∧
        1 ≤ r ∧ r ≤ 4 ∧ r ≠ opposite ∧
        (forEach n (pickStep choice opposite who) ⟨choiceAt choice (4 - (d : Int)), d, fb⟩).dist =
          choiceAt choice (4 - (r : Int)) ∧
        ((r = d ∧ ∀ k : Nat, 5 - n ≤ k → k ≤ 4 → k ≠ opposite →
            choiceAt choice (4 - (d : Int)) ≤ choiceAt choice (4 - (k : Int))) ∨
          (choiceAt choice (4 - (r : Int)) < choiceAt choice (4 - (d : Int)) ∧ 5 - n ≤ r ∧
            ∀ k : Nat, 5 - n ≤ k → k ≤ 4 → k ≠ opposite →
              choiceAt choice (4 - (r : Int)) ≤ choiceAt choice (4 - (k : Int)) ∧
                (r < k → choiceAt choice (4 - (r : Int)) < choiceAt choice (4 - (k : Int))))) := by
  induction n with
  | zero =>
    refine ⟨rfl, d, rfl, hd1, hd4, hdo, rfl, Or.inl ⟨rfl, fun k h5 h4 _ => ?_⟩⟩
    omega
  | succ i ih =>
    obtain ⟨hf, r, hr, hr1, hr4, hro, hdist, hcase⟩ := ih (by omega)
    rw [forEach_succ]
    generalize forEach i (pickStep choice opposite who)
      ⟨choiceAt choice (4 - (d : Int)), d, fb⟩ = p at hf hr hdist ⊢
    rw [pickStep_plain choice opposite who i p (by rw [hf]; exact hfb)]
    have hidx : (4 : Int) - ((4 - i : Nat) : Int) = (i : Int) := by omega
    by_cases hpick : 4 - i ≠ opposite ∧ choiceAt choice i < p.dist
    · rw [if_pos hpick]
      refine ⟨hf, 4 - i, rfl, by omega, by omega, hpick.1, ?_, Or.inr ⟨?_, by omega, ?_⟩⟩
      · show choiceAt choice i = choiceAt choice (4 - ((4 - i : Nat) : Int))
        rw [hidx]
      · rw [hidx]
        rcases hcase with ⟨hrd, _⟩ | ⟨hlt, _, _⟩
        · rw [hrd] at hdist
          rw [← hdist]
          exact hpick.2
        · rw [← hdist] at hlt
          exact lt_trans hpick.2 hlt
      · intro k h5 h4 hko
        rw [hidx]
        by_cases hk : k = 4 - i
        · subst hk
          rw [hidx]
          exact ⟨le_refl _, fun h => absurd h (lt_irrefl _)⟩
        · have hold : 5 - i ≤ k := by omega
          have hlt : choiceAt choice i < choiceAt choice (4 - (k : Int)) := by
            rcases hcase with ⟨hrd, hall⟩ | ⟨_, _, hall⟩
            · have := hall k hold h4 hko
              rw [hrd] at hdist
              rw [hdist] at hpick
              exact lt_of_lt_of_le hpick.2 this
            · have := (hall k hold h4 hko).1
              rw [hdist] at hpick
              exact lt_of_lt_of_le hpick.2 this
          exact ⟨le_of_lt hlt, fun _ => hlt⟩
    · rw [if_neg hpick]
      refine ⟨hf, r, hr, hr1, hr4, hro, hdist, ?_⟩
      rcases hcase with ⟨hrd, hall⟩ | ⟨hlt, hge, hall⟩
      · refine Or.inl ⟨hrd, fun k h5 h4 hko => ?_⟩
        by_cases hk : k = 4 - i
        · subst hk
          rw [hidx]
          rw [hrd] at hdist
          rw [← hdist]
          exact not_lt.mp (fun h => hpick ⟨hko, h⟩)
        · exact hall k (by omega) h4 hko
      · refine Or.inr ⟨hlt, by omega, fun k h5 h4 hko => ?_⟩
        by_cases hk : k = 4 - i
        · subst hk
          rw [hidx, ← hdist]
          exact ⟨not_lt.mp (fun h => hpick ⟨hko, h⟩), fun h => by omega⟩
        · exact hall k (by omega) h4 hko

/-! ## What play leaves alone -/

theorem Quiet_refl (g : Game) : Quiet g g :=
  ⟨rfl, rfl, rfl, rfl, rfl, rfl, rfl, rfl, rfl, rfl⟩

theorem Quiet_trans {a b c : Game} (h1 : Quiet a b) (h2 : Quiet b c) : Quiet a c :=
  ⟨h2.scIndex.trans h1.scIndex, h2.scTimer.trans h1.scTimer, h2.inited.trans h1.inited,
    h2.paused.trans h1.paused, h2.butA.trans h1.butA, h2.butB.trans h1.butB,
    h2.butUP.trans h1.butUP, h2.butDOWN.trans h1.butDOWN, h2.butLEFT.trans h1.butLEFT,
    h2.butRIGHT.trans h1.butRIGHT⟩

theorem Quiet_setSprite (g : Game) (i : Nat) (s : Sprite) : Quiet g (g.setSprite i s) :=
  ⟨rfl, rfl, rfl, rfl, rfl, rfl, rfl, rfl, rfl, rfl⟩

theorem Quiet_forEach (n : Nat) (body : Nat → Game → Game) (g : Game)
    (h : ∀ i b, Quiet b (body i b)) : Quiet g (forEach n body g) :=
  forEach_induction (fun b : Game => Quiet g b) n body g (Quiet_refl g)
    (fun i b _ hb => Quiet_trans hb (h i b))

theorem bonusInactiveTick_quiet (g : Game) : Quiet g (bonusInactiveTick g) := by
  unfold bonusInactiveTick
  simp only []
  split_ifs <;> exact ⟨rfl, rfl, rfl, rfl, rfl, rfl, rfl, rfl, rfl, rfl⟩

theorem bonusActiveTick_quiet (g : Game) : Quiet g (bonusActiveTick g) := by
  unfold bonusActiveTick
  simp only []
  split_ifs <;> exact ⟨rfl, rfl, rfl, rfl, rfl, rfl, rfl, rfl, rfl, rfl⟩

theorem frightenedTick_quiet (g : Game) : Quiet g (frightenedTick g) := by
  unfold frightenedTick
  simp only []
  split_ifs
  · exact Quiet_trans (b := { g with _frightenedTimer := g._frightenedTimer - 1 })
      ⟨rfl, rfl, rfl, rfl, rfl, rfl, rfl, rfl, rfl, rfl⟩
      (Quiet_forEach 4 _ _ (fun i b => Quiet_setSprite b i _))
  · exact ⟨rfl, rfl, rfl, rfl, rfl, rfl, rfl, rfl, rfl, rfl⟩
  · exact Quiet_refl g

/-- After the scatter/chase block the rest of `UpdateTimers` leaves the index
and the timer alone. -/
theorem UpdateTimers_quiet (g : Game) : Quiet (scatterChaseTick g) (UpdateTimers g) := by
  unfold UpdateTimers
  exact Quiet_trans (Quiet_trans (bonusInactiveTick_quiet _) (bonusActiveTick_quiet _))
    (frightenedTick_quiet _)

theorem dotSearchCell_quiet (y x : Nat) (st : Int × Game) :
    Quiet st.2 (dotSearchCell y x st).2 := by
  unfold dotSearchCell
  simp only []
  split_ifs
  · exact Quiet_setSprite _ _ _
  · exact Quiet_refl _
  · exact Quiet_refl _

theorem dotSearch_quiet (g : Game) : Quiet g (dotSearch g) := by
  have hloop : ∀ st : Int × Game,
      Quiet st.2 (forRange 4 32 (fun y st => forRange 1 26 (dotSearchCell y) st) st).2 := by
    intro st
    apply forRange_induction (fun b : Int × Game => Quiet st.2 b.2) 4 32 (by decide)
    · exact Quiet_refl _
    · intro y b _ _ hb
      apply forRange_induction (fun c : Int × Game => Quiet st.2 c.2) 1 26 (by decide)
      · exact hb
      · intro x c _ _ hc
        exact Quiet_trans hc (dotSearchCell_quiet y x c)
  have hres : ∀ st : Int × Game, Quiet g st.2 →
      Quiet g (if st.1 = 0x7FFF then { st.2 with GAMEWIN := 1 } else st.2) := by
    intro st h
    split_ifs
    · exact Quiet_trans h ⟨rfl, rfl, rfl, rfl, rfl, rfl, rfl, rfl, rfl, rfl⟩
    · exact h
  exact hres _ (hloop (0x7FFF, g))

theorem PacmanAI_quiet (g : Game) : Quiet g (PacmanAI g) := by
  have hforage : ∀ b : Game, Quiet b (pacmanForage b) := by
    intro b
    unfold pacmanForage
    simp only []
    split_ifs
    · exact Quiet_setSprite _ _ _
    · exact Quiet_setSprite _ _ _
    · exact Quiet_setSprite _ _ _
    · exact Quiet_setSprite _ _ _
    · exact dotSearch_quiet b
  have h0 : Quiet g { g with PACMANFALLBACK := 0 } :=
    ⟨rfl, rfl, rfl, rfl, rfl, rfl, rfl, rfl, rfl, rfl⟩
  unfold PacmanAI
  simp only []
  split_ifs
  · exact ⟨rfl, rfl, rfl, rfl, rfl, rfl, rfl, rfl, rfl, rfl⟩
  · exact ⟨rfl, rfl, rfl, rfl, rfl, rfl, rfl, rfl, rfl, rfl⟩
  · exact ⟨rfl, rfl, rfl, rfl, rfl, rfl, rfl, rfl, rfl, rfl⟩
  · exact ⟨rfl, rfl, rfl, rfl, rfl, rfl, rfl, rfl, rfl, rfl⟩
  · exact Quiet_trans h0 (hforage _)

theorem targetGhost_quiet (scatter : Bool) (i : Nat) (g : Game) :
    Quiet g (targetGhost scatter i g) := by
  unfold targetGhost
  simp only []
  split_ifs <;> exact ⟨rfl, rfl, rfl, rfl, rfl, rfl, rfl, rfl, rfl, rfl⟩

theorem UpdateTargets_quiet (g : Game) : Quiet g (UpdateTargets g) := by
  unfold UpdateTargets
  simp only []
  split_ifs
  · exact Quiet_refl g
  · exact Quiet_trans (PacmanAI_quiet g)
      (Quiet_forEach 4 _ _ (fun i b => targetGhost_quiet _ i b))

theorem stateTimeout_quiet (g : Game) : Quiet g (stateTimeout g) := by
  unfold stateTimeout
  split
  · exact ⟨rfl, rfl, rfl, rfl, rfl, rfl, rfl, rfl, rfl, rfl⟩
  · refine Quiet_trans (b := { g with _state := PlayState })
      ⟨rfl, rfl, rfl, rfl, rfl, rfl, rfl, rfl, rfl, rfl⟩ (Quiet_forEach 4 _ _ (fun i b => ?_))
    simp only []
    split_ifs
    · exact Quiet_setSprite _ _ _
    · exact Quiet_refl b
  · exact Quiet_refl g

theorem Score_quiet (g : Game) (d : Int) : Quiet g (Score g d) := by
  unfold Score
  simp only []
  split_ifs <;> exact ⟨rfl, rfl, rfl, rfl, rfl, rfl, rfl, rfl, rfl, rfl⟩

theorem EatDot_quiet (env : Env) (g : Game) (cx cy : Nat) : Quiet g (EatDot env g cx cy) := by
  by_cases hdot : GetDot g cx cy = true
  · by_cases hpill : GetTile env g cx cy = PILL
    · rw [EatDot_pill env g cx cy hdot hpill]
      exact Quiet_trans (b := { g with
        _dotMap := fun i => if i = dotIndex cx cy then
          g._dotMap (dotIndex cx cy) &&& (255 ^^^ dotMask cx) else g._dotMap i
        _frightenedTimer := 10 * FPS
        _frightenedCount := 0
        _sprites := fun j => if j < 4 then frighten (g._sprites j) else g._sprites j })
        ⟨rfl, rfl, rfl, rfl, rfl, rfl, rfl, rfl, rfl, rfl⟩ (Score_quiet _ _)
    · rw [EatDot_dot env g cx cy hdot hpill]
      exact Quiet_trans (b := { g with
        _dotMap := fun i => if i = dotIndex cx cy then
          g._dotMap (dotIndex cx cy) &&& (255 ^^^ dotMask cx) else g._dotMap i })
        ⟨rfl, rfl, rfl, rfl, rfl, rfl, rfl, rfl, rfl, rfl⟩ (Score_quiet _ _)
  · rw [EatDot_clear env g cx cy (by simpa using hdot)]
    exact Quiet_refl g

theorem chooseFrom_quiet (choice : List Int) (g : Game) (dir : Int) (s : Sprite) :
    Quiet g (chooseFrom choice g dir s).2 := by
  unfold chooseFrom
  simp only []
  split_ifs <;> exact ⟨rfl, rfl, rfl, rfl, rfl, rfl, rfl, rfl, rfl, rfl⟩

theorem chooseAt_quiet (env : Env) (i : Nat) (g : Game) : Quiet g (chooseAt env i g) := by
  unfold chooseAt
  simp only []
  split_ifs
  · exact Quiet_trans (b := (ChooseDir env g (g._sprites i).dir (g._sprites i)).2)
      (by unfold ChooseDir; exact chooseFrom_quiet _ g _ _) (Quiet_setSprite _ _ _)
  · exact Quiet_refl g

theorem advanceSprite_quiet (env : Env) (i : Nat) (g : Game) :
    Quiet g (advanceSprite env i g) := by
  have h3 : Quiet g ((chooseAt env i (g.setSprite i { g._sprites i with
      _speed := (g._sprites i)._speed - 100, lastx := (g._sprites i)._x
      lasty := (g._sprites i)._y, phase := ((g._sprites i).phase + 1) % 256 })).setSprite i
      (stepPixel ((chooseAt env i (g.setSprite i { g._sprites i with
        _speed := (g._sprites i)._speed - 100, lastx := (g._sprites i)._x
        lasty := (g._sprites i)._y, phase := ((g._sprites i).phase + 1) % 256 }))._sprites
          i))) :=
    Quiet_trans (Quiet_trans (Quiet_setSprite g i _) (chooseAt_quiet env i _))
      (Quiet_setSprite _ i _)
  unfold advanceSprite
  simp only []
  split_ifs
  · exact Quiet_trans h3 (EatDot_quiet env _ _ _)
  · exact h3

theorem moveSprite_quiet (env : Env) (i : Nat) (g : Game) : Quiet g (moveSprite env i g) := by
  unfold moveSprite
  simp only []
  split_ifs
  · exact Quiet_refl g
  · exact Quiet_setSprite g i _
  · exact Quiet_trans (Quiet_setSprite g i _) (advanceSprite_quiet env i _)

theorem collideBonus_quiet (g : Game) : Quiet g (collideBonus g) := by
  have hb : ∀ b : Game, Quiet b (bonusAdvance b) := by
    intro b
    unfold bonusAdvance
    simp only []
    split_ifs <;> exact ⟨rfl, rfl, rfl, rfl, rfl, rfl, rfl, rfl, rfl, rfl⟩
  unfold collideBonus
  simp only []
  split_ifs
  · exact Quiet_trans (Quiet_trans (Score_quiet g _) (hb _))
      ⟨rfl, rfl, rfl, rfl, rfl, rfl, rfl, rfl, rfl, rfl⟩
  · exact Quiet_refl g

theorem Quiet_setBonus (g : Game) (s : Sprite) : Quiet g { g with _BonusSprite := s } :=
  ⟨rfl, rfl, rfl, rfl, rfl, rfl, rfl, rfl, rfl, rfl⟩

theorem DrawAll_quiet (g : Game) : Quiet g (DrawAll g) := by
  unfold DrawAll
  simp only []
  have h5 : Quiet g (forEach 5 (fun i b => b.setSprite i
      ((b._sprites i).SetupDraw b.ACTUALBONUS b._state
        (toU8 ((g._frightenedCount : Int) - 1)))) g) :=
    Quiet_forEach 5 _ g (fun i b => Quiet_setSprite b i _)
  exact Quiet_trans h5 (Quiet_setBonus _ _)

/-- A ghost collision is quiet, unless it is Pac-Man's death. -/
theorem collideGhostWith_quiet (init : Game → Game) (env : Env) (i : Nat) (g : Game) :
    Quiet g (collideGhostWith init env i g) ∨
      collideGhostWith init env i g = PackmanDiedWith init env g := by
  unfold collideGhostWith
  simp only []
  split_ifs
  · exact Or.inl (Quiet_trans (b := { (g.setSprite i
      { g._sprites i with state := DeadNumberState }) with
        _frightenedCount := (g._frightenedCount + 1) % 256
        _state := DeadGhostState, _stateTimer := 10 })
      ⟨rfl, rfl, rfl, rfl, rfl, rfl, rfl, rfl, rfl, rfl⟩ (Score_quiet _ _))
  · exact Or.inl (Quiet_refl g)
  · exact Or.inr rfl
  · exact Or.inl (Quiet_refl g)

/-! ## The phase of `UpdateTargets` -/

/-- With `scatter` true a ghost that is not dead, whose pen timer is 0 and whose
cell is outside the pen, gets its scatter corner. -/
theorem targetGhost_scatter (i : Nat) (g : Game) (he : (g._sprites i).state ≠ DeadEyesState)
    (hp : (g._sprites i).pentimer = 0)
    (hin : InPen (g._sprites i).cx (g._sprites i).cy = false) :
    targetGhost true i g = g.setSprite i (Scatter (g._sprites i)) := by
  have hs1 : (if (g._sprites i).pentimer ≠ 0 then
      ({ g._sprites i with pentimer := (g._sprites i).pentimer - 1, state := RunState } : Sprite)
      else g._sprites i) = g._sprites i := if_neg (fun h => h hp)
  unfold targetGhost
  simp only []
  rw [if_neg he, if_neg (fun h => h.1 hp), hs1, setSprite_self,
    if_neg (by rw [hin]; exact Bool.false_ne_true), if_pos (Or.inl trivial)]

/-- The flag `scatter` of `UpdateTargets` is the low bit of `_scIndex`: set
when the index is odd. -/
theorem UpdateTargets_phase (g : Game) (hs : g._state ≠ ReadyState) :
    UpdateTargets g = forEach 4 (targetGhost (decide (g._scIndex % 2 = 1))) (PacmanAI g) := by
  unfold UpdateTargets
  simp only []
  rw [if_neg hs, (PacmanAI_quiet g).scIndex, Nat.and_one_is_mod]
  congr 2
  have h2 : g._scIndex % 2 = 0 ∨ g._scIndex % 2 = 1 := by omega
  rcases h2 with h | h <;> simp [h]

/-! ## `ChooseDir` in AI mode -/

theorem tableAt_opposite (d : Nat) : tableAt _opposite (d : Int) = OppositeDirection d := by
  unfold tableAt OppositeDirection
  rw [if_pos (Int.ofNat_nonneg d)]
  rfl

theorem opposite_ne_self (d : Nat) (h1 : 1 ≤ d) (h4 : d ≤ 4) : d ≠ OppositeDirection d := by
  interval_cases d <;> decide

/-- The entry of `choice` for direction `k` is the `Chase` value of the
neighbour in that direction. -/
theorem choiceAt_neighbour (env : Env) (g : Game) (s : Sprite) (k : Nat) (h1 : 1 ≤ k)
    (h4 : k ≤ 4) :
    choiceAt [Chase env g s s.cx ((s.cy : Int) - 1), Chase env g s ((s.cx : Int) - 1) s.cy,
        Chase env g s s.cx ((s.cy : Int) + 1), Chase env g s ((s.cx : Int) + 1) s.cy]
        (4 - (k : Int)) = neighbourChase env g s k := by
  interval_cases k <;> rfl

/-- In AI mode, when PACMANFALLBACK does not apply and the current direction
`d` is one of the four, `ChooseDir` returns a direction `r` of the four that is
not the opposite of `d`: `d` itself when no direction other than the opposite
has a smaller `Chase` value than `d`, and otherwise the first in the order Up,
Left, Down, Right of those of least `Chase` value. -/
theorem ChooseDir_ai (env : Env) (g : Game) (s : Sprite) (d : Nat)
    (hai : (g.DEMO = 0 ∧ s.who ≠ PACMAN) ∨ g.DEMO = 1)
    (hfb : ¬ (s.who = PACMAN ∧ g.PACMANFALLBACK ≠ 0)) (h1 : 1 ≤ d) (h4 : d ≤ 4) :
    1 ≤ (ChooseDir env g d s).1 ∧ (ChooseDir env g d s).1 ≤ 4 ∧
      (ChooseDir env g d s).1 ≠ OppositeDirection d ∧
      (((ChooseDir env g d s).1 = d ∧
          ∀ k : Nat, 1 ≤ k → k ≤ 4 → k ≠ OppositeDirection d →
            neighbourChase env g s d ≤ neighbourChase env g s k) ∨
        (neighbourChase env g s (ChooseDir env g d s).1 < neighbourChase env g s d ∧
          ∀ k : Nat, 1 ≤ k → k ≤ 4 → k ≠ OppositeDirection d →
            neighbourChase env g s (ChooseDir env g d s).1 ≤ neighbourChase env g s k ∧
              ((ChooseDir env g d s).1 < k →
                neighbourChase env g s (ChooseDir env g d s).1 < neighbourChase env g s k))) := by
  have hinv := pickLoop_inv
    [Chase env g s s.cx ((s.cy : Int) - 1), Chase env g s ((s.cx : Int) - 1) s.cy,
      Chase env g s s.cx ((s.cy : Int) + 1), Chase env g s ((s.cx : Int) + 1) s.cy]
    (OppositeDirection d) s.who g.PACMANFALLBACK d h1 h4 (opposite_ne_self d h1 h4) hfb 4
    (le_refl _)
  obtain ⟨_, r, hr, hr1, hr4, hro, _, hcase⟩ := hinv
  have hres : (ChooseDir env g d s).1 = r := by
    unfold ChooseDir
    rw [chooseFrom_ai _ g d s hai, tableAt_opposite]
    show toU8 _ = r
    rw [hr]
    unfold toU8
    omega
  rw [hres]
  refine ⟨hr1, hr4, hro, ?_⟩
  rcases hcase with ⟨hrd, hall⟩ | ⟨hlt, _, hall⟩
  · refine Or.inl ⟨hrd, fun k hk1 hk4 hko => ?_⟩
    have := hall k (by omega) hk4 hko
    rw [choiceAt_neighbour env g s d h1 h4, choiceAt_neighbour env g s k hk1 hk4] at this
    exact this
  · refine Or.inr ⟨?_, fun k hk1 hk4 hko => ?_⟩
    · rw [choiceAt_neighbour env g s r hr1 hr4, choiceAt_neighbour env g s d h1 h4] at hlt
      exact hlt
    · have := hall k (by omega) hk4 hko
      rw [choiceAt_neighbour env g s r hr1 hr4, choiceAt_neighbour env g s k hk1 hk4] at this
      exact this

/-- With DEMO = 1 `ChooseDir` does not read the four direction latches. -/
theorem ChooseDir_demo_buttons (env : Env) (g : Game) (dir : Int) (s : Sprite)
    (u d l r : Bool) (hdemo : g.DEMO = 1) :
    (ChooseDir env { g with but_UP := u, but_DOWN := d, but_LEFT := l, but_RIGHT := r } dir s).1 =
        (ChooseDir env g dir s).1 ∧
      (ChooseDir env { g with but_UP := u, but_DOWN := d, but_LEFT := l, but_RIGHT := r }
        dir s).2.PACMANFALLBACK = (ChooseDir env g dir s).2.PACMANFALLBACK := by
  unfold ChooseDir
  rw [chooseFrom_ai _ g dir s (Or.inr hdemo),
    chooseFrom_ai _ { g with but_UP := u, but_DOWN := d, but_LEFT := l, but_RIGHT := r } dir s
      (Or.inr hdemo)]
  exact ⟨rfl, rfl⟩

/-! ## `UpdateTimers` and `DrawAll`, field by field -/

theorem onlyClocks_refl (g : Game) : onlyClocks g g := rfl

theorem onlyClocks_trans {a b c : Game} (h1 : onlyClocks a b) (h2 : onlyClocks b c) :
    onlyClocks a c := by
  unfold onlyClocks at *
  rw [h2, h1]

theorem scatterChaseTick_clocks (g : Game) : onlyClocks g (scatterChaseTick g) := by
  unfold scatterChaseTick
  simp only []
  split_ifs <;> rfl

theorem bonusInactiveTick_clocks (g : Game) : onlyClocks g (bonusInactiveTick g) := by
  unfold bonusInactiveTick
  simp only []
  split_ifs <;> rfl

theorem bonusActiveTick_clocks (g : Game) : onlyClocks g (bonusActiveTick g) := by
  unfold bonusActiveTick
  simp only []
  split_ifs <;> rfl

theorem frightenedTick_idle (g : Game) (h : g._frightenedTimer = 0) : frightenedTick g = g := by
  unfold frightenedTick
  rw [if_neg (fun hc => hc h)]

theorem onlyClocks_frightenedTimer {g b : Game} (h : onlyClocks g b) :
    b._frightenedTimer = g._frightenedTimer := by
  rw [h]

/-- While the frightened timer is 0, `UpdateTimers` changes clocks only. -/
theorem UpdateTimers_idle (g : Game) (h : g._frightenedTimer = 0) :
    onlyClocks g (UpdateTimers g) := by
  have h3 : onlyClocks g (bonusActiveTick (bonusInactiveTick (scatterChaseTick g))) :=
    onlyClocks_trans (onlyClocks_trans (scatterChaseTick_clocks g)
      (bonusInactiveTick_clocks _)) (bonusActiveTick_clocks _)
  unfold UpdateTimers
  rw [frightenedTick_idle _ ((onlyClocks_frightenedTimer h3).trans h)]
  exact h3

/-- `SetupDraw` writes `sy`, `palette2` and `bits` only. -/
theorem SetupDraw_only (ab : Nat) (st : GameState) (idx : Nat) (s : Sprite) :
    s.SetupDraw ab st idx =
      { s with
        sy := (s.SetupDraw ab st idx).sy, palette2 := (s.SetupDraw ab st idx).palette2
        bits := (s.SetupDraw ab st idx).bits } := by
  unfold Sprite.SetupDraw
  simp only []
  split_ifs
  all_goals first
    | rfl
    | (split <;> rfl)

/-- `DrawAll`, field by field. -/
theorem DrawAll_eq (g : Game) :
    DrawAll g =
      { g with
        _sprites := fun j =>
          if j < 5 then
            (g._sprites j).SetupDraw g.ACTUALBONUS g._state (toU8 ((g._frightenedCount : Int) - 1))
          else g._sprites j
        _BonusSprite :=
          g._BonusSprite.SetupDraw g.ACTUALBONUS g._state
            (toU8 ((g._frightenedCount : Int) - 1)) } := by
  have hloop : ∀ n : Nat, forEach n (fun i b => b.setSprite i
      ((b._sprites i).SetupDraw b.ACTUALBONUS b._state
        (toU8 ((g._frightenedCount : Int) - 1)))) g =
      { g with _sprites := fun j =>
          if j < n then
            (g._sprites j).SetupDraw g.ACTUALBONUS g._state (toU8 ((g._frightenedCount : Int) - 1))
          else g._sprites j } := by
    intro n
    induction n with
    | zero => rfl
    | succ k ih =>
      rw [forEach_succ, ih]
      unfold Game.setSprite
      simp only [Nat.lt_irrefl, if_false]
      congr 1
      funext j
      by_cases hj : j = k
      · subst hj
        simp
      · rw [if_neg hj]
        by_cases hlt : j < k
        · rw [if_pos hlt, if_pos (Nat.lt_succ_of_lt hlt)]
        · rw [if_neg hlt, if_neg (by omega)]
  unfold DrawAll
  simp only []
  rw [hloop 5]

/-- In ReadyState with more than one tick to go, `MoveAll` runs the clocks and
counts the state timer down, and returns. -/
theorem MoveAllWith_ready (init : Game → Game) (env : Env) (g : Game)
    (hs : g._state = ReadyState) (ht : 1 < g._stateTimer) (hf : g._frightenedTimer = 0) :
    MoveAllWith init env g = { UpdateTimers g with _stateTimer := g._stateTimer - 1 } := by
  have hc := UpdateTimers_idle g hf
  have hst : (UpdateTimers g)._state = ReadyState := by rw [hc]; exact hs
  have htm : (UpdateTimers g)._stateTimer = g._stateTimer := by rw [hc]
  have hut : UpdateTargets (UpdateTimers g) = UpdateTimers g := by
    unfold UpdateTargets
    rw [if_pos hst]
  unfold MoveAllWith
  simp only []
  rw [hut, htm, if_pos (by omega), if_neg (by show ¬ (g._stateTimer - 1 ≤ 0); omega), if_pos hst]

/-! ## Properties established stage by stage in `Step` -/

/-- Stage-wise form of `MoveAllWith_preserves`: `Q` holds on entry, `R` from
`UpdateTimers` on. -/
theorem MoveAllWith_stages (Q R : Game → Prop) (init : Game → Game) (env : Env)
    (htimers : ∀ b, Q b → R (UpdateTimers b))
    (htargets : ∀ b, R b → R (UpdateTargets b))
    (hdec : ∀ b, R b → R { b with _stateTimer := b._stateTimer - 1 })
    (htimeout : ∀ b, R b → R (stateTimeout b))
    (hmove : ∀ i b, i < 5 → R b → R (moveSprite env i b))
    (hbonus : ∀ b, R b → R (collideBonus b))
    (hghost : ∀ i b, i < 4 → R b → R (collideGhostWith init env i b))
    (g : Game) (hg : Q g) : R (MoveAllWith init env g) := by
  have htt : R (UpdateTargets (UpdateTimers g)) := htargets _ (htimers _ hg)
  have hd := hdec _ htt
  unfold MoveAllWith
  simp only []
  split_ifs
  · exact moveAndCollideWith_preserves R init env hmove hbonus hghost _ (htimeout _ hd)
  · exact hd
  · exact moveAndCollideWith_preserves R init env hmove hbonus hghost _ hd
  · exact moveAndCollideWith_preserves R init env hmove hbonus hghost _ htt

/-- Stage-wise form of `StepWith_preserves`: `P` holds before the four blocks
that read the buttons, `Q` after them, `R` from `UpdateTimers` on. -/
theorem StepWith_stages (P Q R : Game → Prop) (init : Game → Game) (env : Env)
    (hblocks : ∀ b, P b →
      Q (stepButtonB init (stepResume (stepButtonA init (stepGameWin init b)))))
    (hpaused : ∀ b, Q b → R b)
    (htimers : ∀ b, Q b → R (UpdateTimers b))
    (htargets : ∀ b, R b → R (UpdateTargets b))
    (hdec : ∀ b, R b → R { b with _stateTimer := b._stateTimer - 1 })
    (htimeout : ∀ b, R b → R (stateTimeout b))
    (hmove : ∀ i b, i < 5 → R b → R (moveSprite env i b))
    (hbonus : ∀ b, R b → R (collideBonus b))
    (hghost : ∀ i b, i < 4 → R b → R (collideGhostWith init env i b))
    (hdraw : ∀ b, R b → R (DrawAll b))
    (g : Game) (hg : P g) : R (StepWith init env g) := by
  unfold StepWith
  simp only []
  have hpre := hblocks g hg
  apply hdraw
  split_ifs
  · exact MoveAllWith_stages Q R init env htimers htargets hdec htimeout hmove hbonus hghost
      _ hpre
  · exact hpaused _ hpre

/-- What the four blocks of `Step` that read the buttons make of a game: they
leave `I`, when each call of `Init` establishes it, the writes of the pause
flag and of the A latch keep it, and it holds before on every game that has
been initialised. -/
theorem stepBlocks_establish (I : Game → Prop) (init : Game → Game)
    (hinit : ∀ a, I (init a))
    (hflags : ∀ (b : Game) (p : Nat), I b → I { b with but_A := false, GAMEPAUSED := p })
    (g : Game) (hg : g._inited = true → I g) :
    I (stepButtonB init (stepResume (stepButtonA init (stepGameWin init g)))) := by
  have h1 : (stepGameWin init g)._inited = true → I (stepGameWin init g) := by
    unfold stepGameWin
    split_ifs
    · exact fun _ => hinit _
    · exact hg
  have h2 : (stepButtonA init (stepGameWin init g))._inited = true →
      I (stepButtonA init (stepGameWin init g)) := by
    unfold stepButtonA
    split_ifs
    · exact fun _ => hinit _
    · exact fun hi => hflags _ 1 (h1 hi)
    · exact h1
  have h3 : (stepResume (stepButtonA init (stepGameWin init g)))._inited = true →
      I (stepResume (stepButtonA init (stepGameWin init g))) := by
    unfold stepResume
    split_ifs
    · exact fun hi => hflags _ 0 (h2 hi)
    · exact h2
  unfold stepButtonB
  split_ifs with hb hi
  · exact hinit _
  · exact hinit _
  · apply h3
    cases h : (stepResume (stepButtonA init (stepGameWin init g)))._inited
    · exact absurd h hi
    · rfl

/-! ## The scatter/chase schedule -/

theorem scatterChaseTick_advance (g : Game) (hi : g._scIndex < 8) (ht : g._scTimer = 0) :
    (scatterChaseTick g)._scIndex = g._scIndex + 1 ∧
      (scatterChaseTick g)._scTimer = tableAt _scatterChase g._scIndex * 60 := by
  have hd : tableAt _scatterChase (g._scIndex : Int) * FPS < 65536 := by
    have h8 : ∀ k : Nat, k < 8 → tableAt _scatterChase (k : Int) * FPS < 65536 := by decide
    exact h8 _ hi
  unfold scatterChaseTick
  rw [if_pos hi]
  simp only []
  rw [if_pos ht]
  exact ⟨Nat.mod_eq_of_lt (by omega), Nat.mod_eq_of_lt hd⟩

theorem scatterChaseTick_count (g : Game) (hi : g._scIndex < 8) (ht : g._scTimer ≠ 0) :
    (scatterChaseTick g)._scIndex = g._scIndex ∧
      (scatterChaseTick g)._scTimer = decU16 g._scTimer := by
  unfold scatterChaseTick
  rw [if_pos hi]
  simp only []
  rw [if_neg ht]
  exact ⟨rfl, rfl⟩

theorem scatterChaseTick_frozen (g : Game) (hi : 8 ≤ g._scIndex) : scatterChaseTick g = g := by
  unfold scatterChaseTick
  rw [if_neg (by omega)]

theorem scatterChaseTick_le (g : Game) (hi : g._scIndex ≤ 8) :
    (scatterChaseTick g)._scIndex ≤ 8 := by
  by_cases h8 : g._scIndex < 8
  · by_cases ht : g._scTimer = 0
    · rw [(scatterChaseTick_advance g h8 ht).1]
      omega
    · rw [(scatterChaseTick_count g h8 ht).1]
      exact hi
  · rw [scatterChaseTick_frozen g (by omega)]
    exact hi

theorem Init_schedule (env : Env) (g : Game) :
    (Init env g)._scIndex = 0 ∧ (Init env g)._scTimer = 1 := by
  rw [Init_eq]
  exact ⟨rfl, rfl⟩

theorem restartLevel_schedule (env : Env) (g : Game) :
    (restartLevel env g)._scIndex = 0 ∧ (restartLevel env g)._scTimer = 1 := by
  rw [restartLevel_eq]
  exact ⟨rfl, rfl⟩

/-- A property of the schedule `(_scIndex, _scTimer)` that holds of `(0, 1)` and
that the first block of `UpdateTimers` takes from `Q` to `R` is established by
`Step` from every state that has it, or has not been initialised. -/
theorem Step_schedule (env : Env) (Q R : Nat → Nat → Prop)
    (hstart : Q 0 1) (hQR : ∀ i t, Q i t → R i t)
    (htick : ∀ b : Game, Q b._scIndex b._scTimer →
      R (scatterChaseTick b)._scIndex (scatterChaseTick b)._scTimer)
    (g : Game) (hg : g._inited = true → Q g._scIndex g._scTimer) :
    R (Step env g)._scIndex (Step env g)._scTimer := by
  have hq : ∀ (a b : Game), Quiet a b → R a._scIndex a._scTimer → R b._scIndex b._scTimer := by
    intro a b h hr
    rw [h.scIndex, h.scTimer]
    exact hr
  have hi : ∀ a, Q (Init env a)._scIndex (Init env a)._scTimer := by
    intro a
    rw [(Init_schedule env a).1, (Init_schedule env a).2]
    exact hstart
  unfold Step
  apply StepWith_stages (fun b => b._inited = true → Q b._scIndex b._scTimer)
    (fun b => Q b._scIndex b._scTimer) (fun b => R b._scIndex b._scTimer) (Init env) env
  · intro b hb
    exact stepBlocks_establish (fun b => Q b._scIndex b._scTimer) (Init env) hi
      (fun b p h => h) b hb
  · exact fun b h => hQR _ _ h
  · intro b h
    exact hq _ _ (UpdateTimers_quiet b) (htick b h)
  · exact fun b h => hq _ _ (UpdateTargets_quiet b) h
  · exact fun b h => h
  · exact fun b h => hq _ _ (stateTimeout_quiet b) h
  · exact fun i b _ h => hq _ _ (moveSprite_quiet env i b) h
  · exact fun b h => hq _ _ (collideBonus_quiet b) h
  · intro i b _ h
    rcases collideGhostWith_quiet (Init env) env i b with hc | hc
    · exact hq _ _ hc h
    · rw [hc]
      unfold PackmanDiedWith
      split_ifs
      · exact hQR _ _ (hi _)
      · rw [(restartLevel_schedule env b).1, (restartLevel_schedule env b).2]
        exact hQR _ _ hstart
  · exact fun b h => hq _ _ (DrawAll_quiet b) h
  · exact hg

theorem Step_scIndex_le (env : Env) (g : Game) (hg : g._inited = true → g._scIndex ≤ 8) :
    (Step env g)._scIndex ≤ 8 :=
  Step_schedule env (fun i _ => i ≤ 8) (fun i _ => i ≤ 8) (by decide) (fun _ _ h => h)
    (fun b h => scatterChaseTick_le b h) g hg

theorem press_schedule (b : Button) (g : Game) :
    (press b g)._scIndex = g._scIndex ∧ (press b g)._scTimer = g._scTimer := by
  cases b <;> exact ⟨rfl, rfl⟩

theorem Reachable_scIndex (env : Env) (g : Game) (hg : Reachable env g) : g._scIndex ≤ 8 := by
  induction hg with
  | boot => decide
  | step _ ih => exact Step_scIndex_le env _ (fun _ => ih)
  | press b _ ih =>
    rw [(press_schedule b _).1]
    exact ih

/-- Once the schedule has run out, a `Step` leaves it as it is or restarts
it. -/
theorem Step_schedule_end (env : Env) (g : Game) (hi : 8 ≤ g._scIndex) :
    ((Step env g)._scIndex = g._scIndex ∧ (Step env g)._scTimer = g._scTimer) ∨
      ((Step env g)._scIndex = 0 ∧ (Step env g)._scTimer ≤ 1) := by
  apply Step_schedule env
    (fun i t => (i = g._scIndex ∧ t = g._scTimer) ∨ (i = 0 ∧ t = 1))
    (fun i t => (i = g._scIndex ∧ t = g._scTimer) ∨ (i = 0 ∧ t ≤ 1))
  · exact Or.inr ⟨rfl, rfl⟩
  · intro i t h
    rcases h with h | h
    · exact Or.inl h
    · exact Or.inr ⟨h.1, by omega⟩
  · intro b h
    rcases h with h | h
    · rw [scatterChaseTick_frozen b (by omega)]
      exact Or.inl h
    · right
      have h8 : b._scIndex < 8 := by omega
      have ht : b._scTimer ≠ 0 := by omega
      rw [(scatterChaseTick_count b h8 ht).1, (scatterChaseTick_count b h8 ht).2, h.1, h.2]
      exact ⟨rfl, by decide⟩
  · exact fun _ => Or.inl ⟨rfl, rfl⟩

/-! ## The frames in ReadyState -/

theorem Init_sprites (env : Env) (a : Game) (j : Nat) (hj : j < 5) :
    (Init env a)._sprites j = Sprite.Init env (a.randCalls + 2 * j) (j * 5) (a._sprites j) := by
  rw [Init_eq]
  exact if_pos hj

theorem Init_timers (env : Env) (a : Game) :
    (Init env a)._stateTimer = 30 ∧ (Init env a)._frightenedTimer = 0 ∧
      (Init env a)._frightenedCount = 0 ∧ (Init env a)._inited = true := by
  rw [Init_eq]
  unfold initReset
  split_ifs <;> exact ⟨rfl, rfl, rfl, rfl⟩

theorem DrawAll_drawn (g : Game) :
    DrawAll g = { g with _sprites := (DrawAll g)._sprites
                         _BonusSprite := (DrawAll g)._BonusSprite } ∧
      (∀ j, (g._sprites j).drawnFrom ((DrawAll g)._sprites j)) ∧
      g._BonusSprite.drawnFrom (DrawAll g)._BonusSprite := by
  refine ⟨?_, ?_, ?_⟩
  · rw [DrawAll_eq]
  · intro j
    rw [DrawAll_eq]
    show (g._sprites j).drawnFrom (if j < 5 then
      (g._sprites j).SetupDraw g.ACTUALBONUS g._state (toU8 ((g._frightenedCount : Int) - 1))
      else g._sprites j)
    split_ifs
    · exact SetupDraw_only g.ACTUALBONUS g._state (toU8 ((g._frightenedCount : Int) - 1))
        (g._sprites j)
    · rfl
  · rw [DrawAll_eq]
    exact SetupDraw_only g.ACTUALBONUS g._state (toU8 ((g._frightenedCount : Int) - 1))
      g._BonusSprite

/-- The rest of `Step`, after the four blocks that read the buttons, on a game
in ReadyState with more than one tick to go. -/
theorem stepTail_ready (init : Game → Game) (env : Env) (b : Game)
    (hs : b._state = ReadyState) (ht : 1 < b._stateTimer) (hf : b._frightenedTimer = 0) :
    readyFrame b (DrawAll (if b.GAMEPAUSED = 0 then MoveAllWith init env b else b)) := by
  by_cases hp : b.GAMEPAUSED = 0
  · rw [if_pos hp, MoveAllWith_ready init env b hs ht hf]
    have hc := UpdateTimers_idle b hf
    obtain ⟨u, hu⟩ : ∃ u, u = UpdateTimers b := ⟨_, rfl⟩
    rw [← hu] at hc ⊢
    have hd := DrawAll_drawn { u with _stateTimer := b._stateTimer - 1 }
    obtain ⟨r, hr⟩ : ∃ r, r = DrawAll { u with _stateTimer := b._stateTimer - 1 } := ⟨_, rfl⟩
    rw [← hr] at hd ⊢
    unfold onlyClocks at hc
    have hus : u._sprites = b._sprites := by rw [hc]
    have hub : u._BonusSprite = b._BonusSprite := by rw [hc]
    refine ⟨?_, Or.inl ⟨hp, ?_⟩, ?_, ?_⟩
    · rw [hd.1, hc]
    · rw [hd.1]
    · intro j
      have := hd.2.1 j
      rw [show ({ u with _stateTimer := b._stateTimer - 1 } : Game)._sprites j = b._sprites j
        from by rw [← hus]] at this
      exact this
    · have := hd.2.2
      rw [show ({ u with _stateTimer := b._stateTimer - 1 } : Game)._BonusSprite =
        b._BonusSprite from hub] at this
      exact this
  · rw [if_neg hp]
    have hd := DrawAll_drawn b
    refine ⟨?_, Or.inr ⟨hp, ?_⟩, hd.2.1, hd.2.2⟩
    · rw [hd.1]
    · rw [hd.1]

/-- `Init` never leaves GAMEWIN at 1. -/
theorem Init_GAMEWIN (env : Env) (a : Game) : (Init env a).GAMEWIN ≠ 1 := by
  rw [Init_eq]
  unfold initReset
  split_ifs with h
  · show (0 : Nat) ≠ 1
    decide
  · exact h

/-- When the test of the B latch is reached in `Step`, GAMEWIN is not 1. -/
theorem stepBlocks_GAMEWIN (env : Env) (g : Game) :
    (stepResume (stepButtonA (Init env) (stepGameWin (Init env) g))).GAMEWIN ≠ 1 := by
  have h1 : (stepGameWin (Init env) g).GAMEWIN ≠ 1 := by
    unfold stepGameWin
    split_ifs with h
    · exact Init_GAMEWIN env _
    · exact h
  have h2 : (stepButtonA (Init env) (stepGameWin (Init env) g)).GAMEWIN ≠ 1 := by
    unfold stepButtonA
    split_ifs
    · exact Init_GAMEWIN env _
    · exact h1
    · exact h1
  unfold stepResume
  split_ifs
  · exact h2
  · exact h2

/-- Without a win, and without button A starting a game, a latched B is still
latched when `Step` tests it. -/
theorem stepBlocks_but_B (init : Game → Game) (g : Game) (hb : g.but_B = true)
    (hw : g.GAMEWIN ≠ 1) (ha : ¬ (g.but_A = true ∧ g.DEMO = 1 ∧ g.GAMEPAUSED = 0)) :
    (stepResume (stepButtonA init (stepGameWin init g))).but_B = true := by
  have h1 : stepGameWin init g = g := by
    unfold stepGameWin
    rw [if_neg hw]
  rw [h1]
  have h2 : (stepButtonA init g).but_B = true := by
    unfold stepButtonA
    rw [if_neg ha]
    split_ifs
    · exact hb
    · exact hb
  unfold stepResume
  split_ifs
  · exact h2
  · exact h2

/-- A `Step` whose fourth block calls `Init` on `a`: the result is `Init env a`
after one frame in ReadyState. -/
theorem Step_fresh (env : Env) (g a : Game)
    (h4 : stepButtonB (Init env) (stepResume (stepButtonA (Init env)
      (stepGameWin (Init env) g))) = Init env a) :
    readyFrame (Init env a) (Step env g) := by
  have ht := Init_timers env a
  unfold Step StepWith
  simp only []
  rw [h4]
  exact stepTail_ready (Init env) env (Init env a) (Init_state env a)
    (by rw [ht.1]; decide) ht.2.1

/-- What a `Step` leaves that finds the B button latched when it tests it. -/
theorem Step_seen_B (env : Env) (g : Game)
    (hsee : (stepResume (stepButtonA (Init env) (stepGameWin (Init env) g))).but_B = true) :
    (Step env g).DEMO = 0 ∧ (Step env g).but_B = false ∧ (Step env g)._inited = true ∧
      (Step env g)._state = ReadyState ∧
      ((Step env g)._stateTimer = 29 ∨
        ((Step env g).GAMEPAUSED ≠ 0 ∧ (Step env g)._stateTimer = 30)) ∧
      (Step env g).LEVEL = START_LEVEL ∧ (Step env g).LIFES = START_LIFES ∧
      (Step env g)._score = 0 ∧ (Step env g)._lifescore = 10000 ∧
      (∀ x y : Nat, x < 28 → 3 ≤ y → y < 33 →
        (GetDot (Step env g) x y = true ↔
          (env.playMap1 ((y : Int) * 28 + x) % 256 = 7 ∨
            env.playMap1 ((y : Int) * 28 + x) % 256 = 14))) ∧
      ∀ j, j < 5 →
        ((Step env g)._sprites j).state = PenState ∧
          ((Step env g)._sprites j).cx = _initSprites.getD (j * 5 + 1) 0 ∧
          ((Step env g)._sprites j).cy = _initSprites.getD (j * 5 + 2) 0 ∧
          ((Step env g)._sprites j)._x = ((_initSprites.getD (j * 5 + 1) 0 : Nat) : Int) * 8 - 4 ∧
          ((Step env g)._sprites j)._y = ((_initSprites.getD (j * 5 + 2) 0 : Nat) : Int) * 8 ∧
          ((Step env g)._sprites j).dir = _initSprites.getD (j * 5 + 4) 0 := by
  obtain ⟨b3, hb3⟩ : ∃ b3, b3 = stepResume (stepButtonA (Init env) (stepGameWin (Init env) g)) :=
    ⟨_, rfl⟩
  have hw : b3.GAMEWIN ≠ 1 := by
    rw [hb3]
    exact stepBlocks_GAMEWIN env g
  rw [← hb3] at hsee
  have h4 : stepButtonB (Init env) (stepResume (stepButtonA (Init env)
      (stepGameWin (Init env) g))) = Init env { b3 with but_B := false, DEMO := 0 } := by
    rw [← hb3]
    unfold stepButtonB
    rw [if_pos hsee]
  have hr := Step_fresh env g _ h4
  obtain ⟨r, hrr⟩ : ∃ r, r = Step env g := ⟨_, rfl⟩
  rw [← hrr] at hr ⊢
  obtain ⟨a, ha⟩ : ∃ a : Game, a = { b3 with but_B := false, DEMO := 0 } := ⟨_, rfl⟩
  rw [← ha] at hr
  have haw : a.GAMEWIN ≠ 1 := by rw [ha]; exact hw
  have hk := Init_kept env a
  have hfr := Init_fresh env a haw
  have ht := Init_timers env a
  have hst := Init_state env a
  have hkeys : (Init env a).but_B = false := by rw [Init_eq]; rfl
  have hdots : ∀ x y : Nat, x < 28 → 3 ≤ y → y < 33 →
      (GetDot (Init env a) x y = true ↔
        (env.playMap1 ((y : Int) * 28 + x) % 256 = 7 ∨
          env.playMap1 ((y : Int) * 28 + x) % 256 = 14)) := by
    intro x y hx hy hy2
    rw [GetDot_Init env a x y hx hy hy2,
      GetTile_ready_level1 env (Init env a) hst (by rw [hfr.1]) x y]
  have hspr : ∀ j, j < 5 → (Init env a)._sprites j =
      Sprite.Init env (a.randCalls + 2 * j) (j * 5) (a._sprites j) := Init_sprites env a
  obtain ⟨ia, hia⟩ : ∃ ia, ia = Init env a := ⟨_, rfl⟩
  rw [← hia] at hr hk hfr ht hst hkeys hdots hspr
  have hrest := hr.rest
  have eDEMO : r.DEMO = ia.DEMO := by rw [hrest]
  have eB : r.but_B = ia.but_B := by rw [hrest]
  have eInited : r._inited = ia._inited := by rw [hrest]
  have eState : r._state = ia._state := by rw [hrest]
  have ePaused : r.GAMEPAUSED = ia.GAMEPAUSED := by rw [hrest]
  have eLevel : r.LEVEL = ia.LEVEL := by rw [hrest]
  have eLifes : r.LIFES = ia.LIFES := by rw [hrest]
  have eScore : r._score = ia._score := by rw [hrest]
  have eLife : r._lifescore = ia._lifescore := by rw [hrest]
  have eDots : r._dotMap = ia._dotMap := by rw [hrest]
  refine ⟨?_, ?_, ?_, ?_, ?_, ?_, ?_, ?_, ?_, ?_, ?_⟩
  · rw [eDEMO, hk.2.1, ha]
  · rw [eB]
    exact hkeys
  · rw [eInited]
    exact ht.2.2.2
  · rw [eState]
    exact hst
  · rcases hr.timer with h | h
    · left
      rw [h.2, ht.1]
    · right
      refine ⟨?_, ?_⟩
      · rw [ePaused]
        exact h.1
      · rw [h.2, ht.1]
  · rw [eLevel]
    exact hfr.1
  · rw [eLifes]
    exact hfr.2.1
  · rw [eScore]
    exact hfr.2.2.1
  · rw [eLife]
    exact hfr.2.2.2.1
  · intro x y hx hy hy2
    have hd : GetDot r x y = GetDot ia x y := by
      unfold GetDot
      rw [eDots]
    rw [hd]
    exact hdots x y hx hy hy2
  · intro j hj
    have hs := hr.sprites j
    unfold Sprite.drawnFrom at hs
    rw [hspr j hj] at hs
    rw [hs]
    exact ⟨rfl, rfl, rfl, rfl, rfl, rfl⟩

/-! ## Properties of the sprites kept by every write -/

theorem allSprites_of_sprites (Q : Nat → Sprite → Prop) (g b : Game)
    (h : b._sprites = g._sprites) (hg : allSprites Q g) : allSprites Q b := by
  intro j hj
  rw [h]
  exact hg j hj

theorem allSprites_setSprite (Q : Nat → Sprite → Prop) (g : Game) (i : Nat) (s : Sprite)
    (hg : allSprites Q g) (hs : i < 5 → Q i s) : allSprites Q (g.setSprite i s) := by
  intro j hj
  show Q j (if j = i then s else g._sprites j)
  by_cases hji : j = i
  · rw [if_pos hji, hji]
    exact hs (hji ▸ hj)
  · rw [if_neg hji]
    exact hg j hj

theorem UpdateTimers_all {env : Env} {Q : Nat → Sprite → Prop} (R : SpriteRule env Q)
    (g : Game) (hg : allSprites Q g) : allSprites Q (UpdateTimers g) := by
  intro j hj
  rcases UpdateTimers_sprites g j with h | ⟨h4, h⟩
  · rw [h]
    exact hg j hj
  · rw [h]
    exact R.onRelease j _ h4 (hg j hj)

theorem dotSearchCell_all {env : Env} {Q : Nat → Sprite → Prop} (R : SpriteRule env Q)
    (y x : Nat) (st : Int × Game) (hg : allSprites Q st.2) :
    allSprites Q (dotSearchCell y x st).2 := by
  unfold dotSearchCell
  simp only []
  split_ifs
  · exact allSprites_setSprite Q _ _ _ hg (fun h => R.onTarget _ _ _ _ (hg PACMAN h))
  · exact hg
  · exact hg

theorem dotSearch_all {env : Env} {Q : Nat → Sprite → Prop} (R : SpriteRule env Q)
    (g : Game) (hg : allSprites Q g) : allSprites Q (dotSearch g) := by
  have hloop : ∀ st : Int × Game, allSprites Q st.2 →
      allSprites Q (forRange 4 32 (fun y st => forRange 1 26 (dotSearchCell y) st) st).2 := by
    intro st hst
    apply forRange_induction (fun b : Int × Game => allSprites Q b.2) 4 32 (by decide)
    · exact hst
    · intro y b _ _ hb
      apply forRange_induction (fun c : Int × Game => allSprites Q c.2) 1 26 (by decide)
      · exact hb
      · intro x c _ _ hc
        exact dotSearchCell_all R y x c hc
  have hres : ∀ st : Int × Game, allSprites Q st.2 →
      allSprites Q (if st.1 = 0x7FFF then { st.2 with GAMEWIN := 1 } else st.2) := by
    intro st h
    split_ifs
    · exact h
    · exact h
  exact hres _ (hloop (0x7FFF, g) hg)

theorem PacmanAI_all {env : Env} {Q : Nat → Sprite → Prop} (R : SpriteRule env Q)
    (g : Game) (hg : allSprites Q g) : allSprites Q (PacmanAI g) := by
  have hforage : ∀ b : Game, allSprites Q b → allSprites Q (pacmanForage b) := by
    intro b hb
    have ht : ∀ x y : Nat,
        allSprites Q (b.setSprite PACMAN ((b._sprites PACMAN).Target x y)) := fun x y =>
      allSprites_setSprite Q _ _ _ hb (fun h => R.onTarget _ _ _ _ (hb PACMAN h))
    unfold pacmanForage
    simp only []
    split_ifs
    · exact ht _ _
    · exact ht _ _
    · exact ht _ _
    · exact ht _ _
    · exact dotSearch_all R b hb
  have hg0 : allSprites Q { g with PACMANFALLBACK := 0 } := hg
  have htarget : ∀ x y : Nat, allSprites Q
      (({ g with PACMANFALLBACK := 0 } : Game).setSprite PACMAN
        ((g._sprites PACMAN).Target x y)) := fun x y =>
    allSprites_setSprite Q _ _ _ hg0 (fun h => R.onTarget _ _ _ _ (hg PACMAN h))
  unfold PacmanAI
  simp only []
  split_ifs
  · exact htarget _ _
  · exact htarget _ _
  · exact htarget _ _
  · exact htarget _ _
  · exact hforage _ hg0

theorem targetGhost_all {env : Env} {Q : Nat → Sprite → Prop} (R : SpriteRule env Q)
    (scatter : Bool) (i : Nat) (hi : i < 4) (g : Game) (hg : allSprites Q g) :
    allSprites Q (targetGhost scatter i g) := by
  have hi5 : i < 5 := by omega
  have hq := hg i hi5
  unfold targetGhost
  simp only []
  by_cases h1 : (g._sprites i).state = DeadEyesState
  · rw [if_pos h1]
    split_ifs
    · exact allSprites_setSprite Q _ _ _ hg (fun _ => R.onRevive i _ hi h1 hq)
    · exact allSprites_setSprite Q _ _ _ hg (fun _ => R.onTarget i _ _ _ hq)
  · rw [if_neg h1]
    by_cases h2 : (g._sprites i).pentimer ≠ 0 ∧ (g._sprites i).pentimer - 1 ≠ 0
    · rw [if_pos h2]
      exact allSprites_setSprite Q _ _ _ hg (fun _ => R.onWait i _ hi h2.1 h2.2 hq)
    · rw [if_neg h2]
      have hs1 : Q i (if (g._sprites i).pentimer ≠ 0 then
          ({ g._sprites i with
            pentimer := (g._sprites i).pentimer - 1, state := RunState } : Sprite)
          else g._sprites i) := by
        split_ifs with h3
        · exact R.onLeave i _ hi h3 (fun h => h2 ⟨h3, h⟩) hq
        · exact hq
      generalize (if (g._sprites i).pentimer ≠ 0 then
        ({ g._sprites i with pentimer := (g._sprites i).pentimer - 1, state := RunState } : Sprite)
       else g._sprites i) = s1 at hs1 ⊢
      have hset : allSprites Q (g.setSprite i s1) :=
        allSprites_setSprite Q _ _ _ hg (fun _ => hs1)
      have hre : ∀ x y : Nat, allSprites Q ((g.setSprite i s1).setSprite i (s1.Target x y)) :=
        fun x y => allSprites_setSprite Q _ _ _ hset (fun _ => R.onTarget i _ _ _ hs1)
      split_ifs
      · exact hre _ _
      · exact hre _ _
      · exact hre _ _

theorem UpdateTargets_all {env : Env} {Q : Nat → Sprite → Prop} (R : SpriteRule env Q)
    (g : Game) (hg : allSprites Q g) : allSprites Q (UpdateTargets g) := by
  unfold UpdateTargets
  simp only []
  split_ifs
  · exact hg
  · exact forEach_induction (allSprites Q) 4 _ _ (PacmanAI_all R g hg)
      (fun i b hi hb => targetGhost_all R _ i hi b hb)

theorem stateTimeout_all {env : Env} {Q : Nat → Sprite → Prop} (R : SpriteRule env Q)
    (g : Game) (hg : allSprites Q g) : allSprites Q (stateTimeout g) := by
  unfold stateTimeout
  split
  · exact hg
  · apply forEach_induction (allSprites Q) 4
    · exact hg
    · intro i b hi hb
      simp only []
      split_ifs with h
      · exact allSprites_setSprite Q _ _ _ hb
          (fun h5 => R.onEyes i _ hi h (hb i h5))
      · exact hb
  · exact hg

theorem EatDot_all {env : Env} {Q : Nat → Sprite → Prop} (R : SpriteRule env Q)
    (g : Game) (cx cy : Nat) (hg : allSprites Q g) : allSprites Q (EatDot env g cx cy) := by
  intro j hj
  rcases EatDot_sprites env g cx cy j with h | ⟨h4, h⟩
  · rw [h]
    exact hg j hj
  · rw [h]
    exact R.onFrighten j _ h4 (hg j hj)

theorem chooseAt_all {env : Env} {Q : Nat → Sprite → Prop} (R : SpriteRule env Q)
    (i : Nat) (g : Game) (hg : allSprites Q g) : allSprites Q (chooseAt env i g) := by
  unfold chooseAt
  simp only []
  split_ifs with ha
  · refine allSprites_setSprite Q _ _ _ ?_ (fun h5 => R.onTurn i _ _ ha (hg i h5))
    exact allSprites_of_sprites Q g _ (by unfold ChooseDir; exact chooseFrom_sprites _ g _ _) hg
  · exact hg

theorem advanceSprite_all {env : Env} {Q : Nat → Sprite → Prop} (R : SpriteRule env Q)
    (i : Nat) (g : Game) (hg : allSprites Q g) : allSprites Q (advanceSprite env i g) := by
  have h1 : allSprites Q (g.setSprite i { g._sprites i with
      _speed := (g._sprites i)._speed - 100, lastx := (g._sprites i)._x
      lasty := (g._sprites i)._y, phase := ((g._sprites i).phase + 1) % 256 }) :=
    allSprites_setSprite Q _ _ _ hg (fun h5 => R.onAdvance i _ (hg i h5))
  have h2 := chooseAt_all R i _ h1
  have h3 : allSprites Q ((chooseAt env i (g.setSprite i { g._sprites i with
      _speed := (g._sprites i)._speed - 100, lastx := (g._sprites i)._x
      lasty := (g._sprites i)._y, phase := ((g._sprites i).phase + 1) % 256 })).setSprite i
      (stepPixel ((chooseAt env i (g.setSprite i { g._sprites i with
        _speed := (g._sprites i)._speed - 100, lastx := (g._sprites i)._x
        lasty := (g._sprites i)._y
        phase := ((g._sprites i).phase + 1) % 256 }))._sprites i))) :=
    allSprites_setSprite Q _ _ _ h2 (fun h5 => R.onPixel i _ (h2 i h5))
  unfold advanceSprite
  simp only []
  split_ifs
  · exact EatDot_all R _ _ _ h3
  · exact h3

theorem moveSprite_all {env : Env} {Q : Nat → Sprite → Prop} (R : SpriteRule env Q)
    (i : Nat) (g : Game) (hg : allSprites Q g) : allSprites Q (moveSprite env i g) := by
  have h1 : allSprites Q (g.setSprite i { g._sprites i with
      _speed := ((g._sprites i)._speed + GetSpeed g (g._sprites i)) % 256 }) :=
    allSprites_setSprite Q _ _ _ hg (fun h5 => R.onSpeed i _ _ (hg i h5))
  unfold moveSprite
  simp only []
  split_ifs
  · exact hg
  · exact h1
  · exact advanceSprite_all R i _ h1

theorem collideBonus_all (Q : Nat → Sprite → Prop) (g : Game) (hg : allSprites Q g) :
    allSprites Q (collideBonus g) := by
  unfold collideBonus
  simp only []
  split_ifs
  · refine allSprites_of_sprites Q g _ ?_ hg
    show (bonusAdvance _)._sprites = g._sprites
    rw [(bonusAdvance_sprites _).1, Score_sprites]
  · exact hg

theorem restartLevel_all {env : Env} {Q : Nat → Sprite → Prop} (R : SpriteRule env Q)
    (g : Game) : allSprites Q (restartLevel env g) := by
  intro j hj
  rw [restartLevel_eq]
  show Q j (if j < 5 then Sprite.Init env (g.randCalls + 2 * j) (j * 5) (g._sprites j)
    else g._sprites j)
  rw [if_pos hj]
  exact R.onInit j _ _ hj

theorem Init_all {env : Env} {Q : Nat → Sprite → Prop} (R : SpriteRule env Q)
    (g : Game) : allSprites Q (Init env g) := by
  intro j hj
  rw [Init_sprites env g j hj]
  exact R.onInit j _ _ hj

theorem collideGhostWith_all {env : Env} {Q : Nat → Sprite → Prop} (R : SpriteRule env Q)
    (init : Game → Game) (hinit : ∀ a, allSprites Q (init a)) (i : Nat) (hi : i < 4) (g : Game)
    (hg : allSprites Q g) : allSprites Q (collideGhostWith init env i g) := by
  unfold collideGhostWith
  simp only []
  split_ifs with h1 h2 h3
  · refine allSprites_of_sprites Q (g.setSprite i { g._sprites i with state := DeadNumberState })
      _ (Score_sprites _ _) ?_
    exact allSprites_setSprite Q _ _ _ hg (fun h5 => R.onEaten i _ hi h2 (hg i h5))
  · exact hg
  · unfold PackmanDiedWith
    split_ifs
    · exact hinit _
    · exact restartLevel_all R g
  · exact hg

theorem DrawAll_all {env : Env} {Q : Nat → Sprite → Prop} (R : SpriteRule env Q)
    (g : Game) (hg : allSprites Q g) : allSprites Q (DrawAll g) := by
  intro j hj
  rw [DrawAll_eq]
  show Q j (if j < 5 then
    (g._sprites j).SetupDraw g.ACTUALBONUS g._state (toU8 ((g._frightenedCount : Int) - 1))
    else g._sprites j)
  rw [if_pos hj]
  exact R.onDraw j _ _ _ _ (hg j hj)

/-- A sprite property with the rules of `SpriteRule` holds of the five sprites
after every `Step`, provided it held before on a game that has been
initialised. -/
theorem Step_all {env : Env} {Q : Nat → Sprite → Prop} (R : SpriteRule env Q) (g : Game)
    (hg : g._inited = true → allSprites Q g) : allSprites Q (Step env g) := by
  unfold Step
  apply StepWith_stages (fun b => b._inited = true → allSprites Q b) (allSprites Q)
    (allSprites Q) (Init env) env
  · intro b hb
    exact stepBlocks_establish (allSprites Q) (Init env) (Init_all R) (fun b p h => h) b hb
  · exact fun b h => h
  · exact UpdateTimers_all R
  · exact UpdateTargets_all R
  · exact fun b h => h
  · exact stateTimeout_all R
  · exact fun i b _ h => moveSprite_all R i b h
  · exact collideBonus_all Q
  · exact fun i b hi h => collideGhostWith_all R (Init env) (Init_all R) i hi b h
  · exact DrawAll_all R
  · exact hg

theorem press_inited (b : Button) (g : Game) :
    (press b g)._inited = g._inited ∧ (press b g)._sprites = g._sprites := by
  cases b <;> exact ⟨rfl, rfl⟩

/-- A sprite property with the rules of `SpriteRule` holds of the five sprites
in every reachable state in which `Init` has run. -/
theorem Reachable_all {env : Env} {Q : Nat → Sprite → Prop} (R : SpriteRule env Q) (g : Game)
    (hg : Reachable env g) (hi : g._inited = true) : allSprites Q g := by
  induction hg with
  | boot => exact absurd hi (by decide)
  | step _ ih => exact Step_all R _ ih
  | press b _ ih =>
    rw [(press_inited b _).1] at hi
    exact allSprites_of_sprites Q _ _ (press_inited b _).2 (ih hi)

/-- The rule set for: a ghost in PenState has a pen timer above 0. -/
theorem penTimer_rule (env : Env) :
    SpriteRule env (fun j s => j < 4 → s.state = PenState → 0 < s.pentimer) where
  onTarget := fun j s x y h => h
  onFrighten := by
    intro j s _ h hj hs
    unfold frighten at hs ⊢
    split_ifs at hs ⊢ with h1
    exact h hj hs
  onRelease := by
    intro j s _ h hj hs
    unfold releaseFrightened at hs ⊢
    split_ifs at hs ⊢ with h1
    exact h hj hs
  onRevive := fun j s _ _ _ _ _ => Nat.succ_pos 79
  onWait := fun j s _ _ h2 _ _ _ => Nat.pos_of_ne_zero h2
  onLeave := fun j s _ _ _ _ _ hs => by cases hs
  onEyes := fun j s _ _ _ _ hs => by cases hs
  onEaten := fun j s _ _ _ _ hs => by cases hs
  onSpeed := fun j s v h => h
  onAdvance := fun j s h => h
  onTurn := fun j s d _ h => h
  onPixel := fun j s h => h
  onDraw := by
    intro j s ab st idx h hj hs
    rw [SetupDraw_only ab st idx s] at hs ⊢
    exact h hj hs
  onInit := by
    intro j c s _ hj _
    have ht : ∀ k : Nat, k < 4 → 0 < _initSprites.getD (k * 5 + 3) 0 := by decide
    exact ht j hj

/-! ## The first `Step` -/

/-- The first `Step` ever, with no button latched: its fourth block calls
`Init` with DEMO set to 1. -/
theorem Step_first (env : Env) (g : Game) (hi : g._inited = false) (hb : g.but_B = false)
    (hw : g.GAMEWIN ≠ 1) (ha : g.but_A = false) :
    readyFrame (Init env { g with but_B := false, DEMO := 1 }) (Step env g) := by
  have hbt : ∀ x : Bool, x = false → ¬ (x = true) := by decide
  apply Step_fresh
  have h1 : stepGameWin (Init env) g = g := by
    unfold stepGameWin
    rw [if_neg hw]
  have h2 : stepButtonA (Init env) g = g := by
    unfold stepButtonA
    rw [if_neg (fun h => hbt _ ha h.1), if_neg (fun h => hbt _ ha h.1)]
  have h3 : stepResume g = g := by
    unfold stepResume
    rw [if_neg (fun h => hbt _ ha h.2.1)]
  rw [h1, h2, h3]
  unfold stepButtonB
  rw [if_neg (hbt _ hb), if_pos hi]

/-- After the first `Step` ever the game has been initialised and the five
sprites are where `_initSprites` has them, all in PenState, with the pen timers
of that table. -/
theorem Step_first_sprites (env : Env) (g : Game) (hi : g._inited = false)
    (hb : g.but_B = false) (hw : g.GAMEWIN ≠ 1) (ha : g.but_A = false) :
    (Step env g)._inited = true ∧
      ∀ j, j < 5 →
        ((Step env g)._sprites j).state = PenState ∧
          ((Step env g)._sprites j).cx = _initSprites.getD (j * 5 + 1) 0 ∧
          ((Step env g)._sprites j).cy = _initSprites.getD (j * 5 + 2) 0 ∧
          ((Step env g)._sprites j).pentimer = _initSprites.getD (j * 5 + 3) 0 := by
  have hr := Step_first env g hi hb hw ha
  obtain ⟨r, hrr⟩ : ∃ r, r = Step env g := ⟨_, rfl⟩
  obtain ⟨a, haa⟩ : ∃ a : Game, a = { g with but_B := false, DEMO := 1 } := ⟨_, rfl⟩
  rw [← hrr, ← haa] at hr
  rw [← hrr]
  have ht := Init_timers env a
  have hspr : ∀ j, j < 5 → (Init env a)._sprites j =
      Sprite.Init env (a.randCalls + 2 * j) (j * 5) (a._sprites j) := Init_sprites env a
  obtain ⟨ia, hia⟩ : ∃ ia, ia = Init env a := ⟨_, rfl⟩
  rw [← hia] at hr ht hspr
  have hrest := hr.rest
  have eInited : r._inited = ia._inited := by rw [hrest]
  refine ⟨eInited.trans ht.2.2.2, fun j hj => ?_⟩
  have hs := hr.sprites j
  unfold Sprite.drawnFrom at hs
  rw [hspr j hj] at hs
  rw [hs]
  exact ⟨rfl, rfl, rfl, rfl⟩

/-! ## The speed accumulator -/

theorem GetSpeed_le (g : Game) (s : Sprite) : GetSpeed g s ≤ 100 := by
  unfold GetSpeed
  split_ifs <;> decide

theorem SpeedInv_frame (g b : Game) (h : Frame g b) (hg : SpeedInv g) : SpeedInv b := by
  refine ⟨fun j => ?_, ?_⟩
  · rw [(h.body j).speed]
    exact hg.1 j
  · rw [h.bonusBody.speed]
    exact hg.2

theorem SpeedInv_setSprite (g : Game) (i : Nat) (s : Sprite) (hs : s._speed < 100)
    (hg : SpeedInv g) : SpeedInv (g.setSprite i s) := by
  refine ⟨fun j => ?_, hg.2⟩
  show (if j = i then s else g._sprites j)._speed < 100
  split_ifs
  · exact hs
  · exact hg.1 j

theorem EatDot_speedInv (env : Env) (g : Game) (cx cy : Nat) (hg : SpeedInv g) :
    SpeedInv (EatDot env g cx cy) := by
  refine ⟨fun j => ?_, ?_⟩
  · rcases EatDot_sprites env g cx cy j with h | ⟨_, h⟩
    · rw [h]
      exact hg.1 j
    · rw [h, (frighten_sameBody _).speed]
      exact hg.1 j
  · rw [EatDot_BonusSprite]
    exact hg.2

/-- The speed accumulator of the sprite that moves, after the move: 100 less
than on entry. -/
theorem advanceSprite_speed (env : Env) (i : Nat) (g : Game) :
    ((advanceSprite env i g)._sprites i)._speed = (g._sprites i)._speed - 100 := by
  have hc := chooseAt_frame env i (g.setSprite i { g._sprites i with
      _speed := (g._sprites i)._speed - 100, lastx := (g._sprites i)._x
      lasty := (g._sprites i)._y, phase := ((g._sprites i).phase + 1) % 256 })
  have h0 : ((g.setSprite i { g._sprites i with
      _speed := (g._sprites i)._speed - 100, lastx := (g._sprites i)._x
      lasty := (g._sprites i)._y, phase := ((g._sprites i).phase + 1) % 256 })._sprites i)._speed =
      (g._sprites i)._speed - 100 := by
    show (if i = i then _ else g._sprites i)._speed = _
    rw [if_pos rfl]
  have hx : (((chooseAt env i (g.setSprite i { g._sprites i with
      _speed := (g._sprites i)._speed - 100, lastx := (g._sprites i)._x
      lasty := (g._sprites i)._y, phase := ((g._sprites i).phase + 1) % 256 })).setSprite i
      (stepPixel ((chooseAt env i (g.setSprite i { g._sprites i with
        _speed := (g._sprites i)._speed - 100, lastx := (g._sprites i)._x
        lasty := (g._sprites i)._y
        phase := ((g._sprites i).phase + 1) % 256 }))._sprites i)))._sprites i)._speed =
      (g._sprites i)._speed - 100 := by
    show (if i = i then stepPixel _ else _)._speed = _
    rw [if_pos rfl]
    show ((chooseAt env i _)._sprites i)._speed = _
    rw [(hc.body i).speed, h0]
  rcases advanceSprite_sprites env i g i with h | ⟨_, h⟩
  · rw [h, hx]
  · rw [h, (frighten_sameBody _).speed, hx]

theorem advanceSprite_speedInv (env : Env) (i : Nat) (g : Game)
    (hi : (g._sprites i)._speed < 200) (ho : ∀ j, j ≠ i → (g._sprites j)._speed < 100)
    (hb : g._BonusSprite._speed < 100) : SpeedInv (advanceSprite env i g) := by
  have h1 : SpeedInv (g.setSprite i { g._sprites i with
      _speed := (g._sprites i)._speed - 100, lastx := (g._sprites i)._x
      lasty := (g._sprites i)._y, phase := ((g._sprites i).phase + 1) % 256 }) := by
    refine ⟨fun j => ?_, hb⟩
    show (if j = i then _ else g._sprites j)._speed < 100
    by_cases hj : j = i
    · rw [if_pos hj]
      show (g._sprites i)._speed - 100 < 100
      omega
    · rw [if_neg hj]
      exact ho j hj
  have h2 := SpeedInv_frame _ _ (chooseAt_frame env i _) h1
  have h3 : SpeedInv ((chooseAt env i (g.setSprite i { g._sprites i with
      _speed := (g._sprites i)._speed - 100, lastx := (g._sprites i)._x
      lasty := (g._sprites i)._y, phase := ((g._sprites i).phase + 1) % 256 })).setSprite i
      (stepPixel ((chooseAt env i (g.setSprite i { g._sprites i with
        _speed := (g._sprites i)._speed - 100, lastx := (g._sprites i)._x
        lasty := (g._sprites i)._y
        phase := ((g._sprites i).phase + 1) % 256 }))._sprites i))) :=
    SpeedInv_setSprite _ i _ (h2.1 i) h2
  unfold advanceSprite
  simp only []
  split_ifs
  · exact EatDot_speedInv env _ _ _ h3
  · exact h3

theorem moveSprite_speedInv (env : Env) (i : Nat) (g : Game) (hg : SpeedInv g) :
    SpeedInv (moveSprite env i g) := by
  have hs := GetSpeed_le g (g._sprites i)
  have hi := hg.1 i
  have hmod : ((g._sprites i)._speed + GetSpeed g (g._sprites i)) % 256 =
      (g._sprites i)._speed + GetSpeed g (g._sprites i) := Nat.mod_eq_of_lt (by omega)
  unfold moveSprite
  simp only []
  rw [hmod]
  split_ifs with h1 h2
  · exact hg
  · exact SpeedInv_setSprite g i _ h2 hg
  · apply advanceSprite_speedInv
    · show (if i = i then _ else g._sprites i)._speed < 200
      rw [if_pos rfl]
      show (g._sprites i)._speed + GetSpeed g (g._sprites i) < 200
      omega
    · intro j hj
      show (if j = i then _ else g._sprites j)._speed < 100
      rw [if_neg hj]
      exact hg.1 j
    · exact hg.2

theorem collideBonus_speedInv (g : Game) (hg : SpeedInv g) : SpeedInv (collideBonus g) := by
  unfold collideBonus
  simp only []
  split_ifs
  · have hb := bonusAdvance_sprites (Score g (toInt16 ((g.ACTUALBONUS : Int) * 50)))
    refine ⟨fun j => ?_, ?_⟩
    · show ((bonusAdvance _)._sprites j)._speed < 100
      rw [hb.1, Score_sprites]
      exact hg.1 j
    · show (bonusAdvance _)._BonusSprite._speed < 100
      rw [hb.2.1, Score_BonusSprite]
      exact hg.2
  · exact hg

theorem seeded_speedInv (g b : Game) (calls : Nat → Nat) (env : Env)
    (hs : b._sprites = fun j =>
      if j < 5 then Sprite.Init env (calls j) (j * 5) (g._sprites j) else g._sprites j)
    (hb : b._BonusSprite = Sprite.Init env (calls 5) 25 g._BonusSprite) (hg : SpeedInv g) :
    SpeedInv b := by
  refine ⟨fun j => ?_, ?_⟩
  · rw [hs]
    show (if j < 5 then Sprite.Init env (calls j) (j * 5) (g._sprites j)
      else g._sprites j)._speed < 100
    split_ifs
    · exact Nat.succ_pos 99
    · exact hg.1 j
  · rw [hb]
    exact Nat.succ_pos 99

theorem restartLevel_speedInv (env : Env) (g : Game) (hg : SpeedInv g) :
    SpeedInv (restartLevel env g) := by
  rw [restartLevel_eq]
  exact seeded_speedInv g _ (fun j => g.randCalls + 2 * j) env rfl rfl hg

theorem Init_speedInv (env : Env) (g : Game) (hg : SpeedInv g) : SpeedInv (Init env g) := by
  rw [Init_eq]
  exact seeded_speedInv g _ (fun j => g.randCalls + 2 * j) env rfl rfl hg

theorem collideGhostWith_speedInv (init : Game → Game)
    (hinit : ∀ a, SpeedInv a → SpeedInv (init a)) (env : Env) (i : Nat) (g : Game)
    (hg : SpeedInv g) : SpeedInv (collideGhostWith init env i g) := by
  unfold collideGhostWith
  simp only []
  split_ifs
  · refine ⟨fun j => ?_, ?_⟩
    · rw [Score_sprites]
      exact (SpeedInv_setSprite g i { g._sprites i with state := DeadNumberState }
        (hg.1 i) hg).1 j
    · rw [Score_BonusSprite]
      exact hg.2
  · exact hg
  · unfold PackmanDiedWith
    split_ifs
    · exact hinit _ hg
    · exact restartLevel_speedInv env g hg
  · exact hg

theorem MoveAllWith_speedInv (init : Game → Game) (hinit : ∀ a, SpeedInv a → SpeedInv (init a))
    (env : Env) (g : Game) (hg : SpeedInv g) : SpeedInv (MoveAllWith init env g) :=
  MoveAllWith_preserves SpeedInv init env SpeedInv_frame
    (fun i b _ hb => moveSprite_speedInv env i b hb) collideBonus_speedInv
    (fun i b _ hb => collideGhostWith_speedInv init hinit env i b hb) g hg

theorem StepWith_speedInv (init : Game → Game) (hinit : ∀ a, SpeedInv a → SpeedInv (init a))
    (env : Env) (g : Game) (hg : SpeedInv g) : SpeedInv (StepWith init env g) := by
  apply StepWith_preserves SpeedInv init env SpeedInv_frame ?_ ?_ ?_
    (fun i b _ hb => moveSprite_speedInv env i b hb) collideBonus_speedInv
    (fun i b _ hb => collideGhostWith_speedInv init hinit env i b hb) g hg
  · intro b hb
    unfold stepGameWin
    split_ifs
    · exact hinit _ hb
    · exact hb
  · intro b hb
    unfold stepButtonA
    split_ifs
    · exact hinit _ hb
    · exact hb
    · exact hb
  · intro b hb
    unfold stepButtonB
    split_ifs
    · exact hinit _ hb
    · exact hinit _ hb
    · exact hb

theorem Reachable_speedInv (env : Env) (g : Game) (h : Reachable env g) : SpeedInv g := by
  induction h with
  | boot => exact ⟨fun _ => Nat.succ_pos 99, Nat.succ_pos 99⟩
  | step _ ih => exact StepWith_speedInv (Init env) (Init_speedInv env) env _ ih
  | press b _ ih => exact SpeedInv_frame _ _ (press_frame b _) ih

/-- What the body of the movement loop does with the speed accumulator of a
sprite that is not frozen and enters with less than 100: the sum does not wrap;
below 100 only the accumulator changes, from 100 on the sprite moves and keeps
the rest. -/
theorem moveSprite_accumulate (env : Env) (i : Nat) (g : Game)
    (hv : (g._sprites i)._speed < 100)
    (hnf : ¬ (g._state = DeadGhostState ∧ (g._sprites i).state ≠ DeadEyesState)) :
    (g._sprites i)._speed + GetSpeed g (g._sprites i) ≤ 199 ∧
      ((g._sprites i)._speed + GetSpeed g (g._sprites i) < 100 →
        moveSprite env i g = g.setSprite i { g._sprites i with
          _speed := (g._sprites i)._speed + GetSpeed g (g._sprites i) }) ∧
      (100 ≤ (g._sprites i)._speed + GetSpeed g (g._sprites i) →
        moveSprite env i g = advanceSprite env i (g.setSprite i { g._sprites i with
            _speed := (g._sprites i)._speed + GetSpeed g (g._sprites i) }) ∧
          ((moveSprite env i g)._sprites i)._speed =
            (g._sprites i)._speed + GetSpeed g (g._sprites i) - 100) := by
  have hs := GetSpeed_le g (g._sprites i)
  have hmod : ((g._sprites i)._speed + GetSpeed g (g._sprites i)) % 256 =
      (g._sprites i)._speed + GetSpeed g (g._sprites i) := Nat.mod_eq_of_lt (by omega)
  have hm : moveSprite env i g =
      if (g._sprites i)._speed + GetSpeed g (g._sprites i) < 100 then
        g.setSprite i { g._sprites i with
          _speed := (g._sprites i)._speed + GetSpeed g (g._sprites i) }
      else advanceSprite env i (g.setSprite i { g._sprites i with
          _speed := (g._sprites i)._speed + GetSpeed g (g._sprites i) }) := by
    unfold moveSprite
    simp only []
    rw [if_neg hnf, hmod]
  refine ⟨by omega, fun h => ?_, fun h => ?_⟩
  · rw [hm, if_pos h]
  · have hm2 := hm
    rw [if_neg (by omega)] at hm2
    refine ⟨hm2, ?_⟩
    rw [hm2, advanceSprite_speed]
    show (if i = i then _ else g._sprites i)._speed - 100 = _
    rw [if_pos rfl]

/-! ## The count of eaten ghosts -/

theorem keepsDir_refl (s : Sprite) : s.keepsDir s := ⟨rfl, fun h => h⟩

theorem keepsDir_trans {s t u : Sprite} (h1 : s.keepsDir t) (h2 : t.keepsDir u) :
    s.keepsDir u := ⟨h2.1.trans h1.1, fun h => h2.2 (h1.2 h)⟩

theorem opposite_range (d : Nat) (h : 1 ≤ d ∧ d ≤ 4) :
    1 ≤ OppositeDirection d ∧ OppositeDirection d ≤ 4 := by
  obtain ⟨h1, h4⟩ := h
  interval_cases d <;> decide

theorem frighten_keepsDir (s : Sprite) : s.keepsDir (frighten s) := by
  unfold frighten
  split_ifs
  · exact ⟨rfl, opposite_range s.dir⟩
  · exact keepsDir_refl s

theorem releaseFrightened_keepsDir (s : Sprite) : s.keepsDir (releaseFrightened s) := by
  unfold releaseFrightened
  split_ifs
  · exact ⟨rfl, opposite_range s.dir⟩
  · exact keepsDir_refl s

theorem dirOK_keeps (demo j : Nat) (s t : Sprite) (h : s.keepsDir t) (hs : s.dirOK demo j) :
    t.dirOK demo j :=
  ⟨h.1.trans hs.1, fun hc => h.2 (hs.2 hc)⟩

/-- A game with the DEMO of `g` whose sprites keep `who` and a direction in
1..4 is in order when `g` is. -/
theorem DirOK_keeps (g b : Game) (hd : b.DEMO = g.DEMO)
    (hs : ∀ j, j < 5 → (g._sprites j).keepsDir (b._sprites j)) (hg : DirOK g) : DirOK b := by
  refine ⟨by rw [hd]; exact hg.1, fun j hj => ?_⟩
  rw [hd]
  exact dirOK_keeps _ _ _ _ (hs j hj) (hg.2 j hj)

theorem DirOK_frame (g b : Game) (hf : Frame g b) (hd : sameDirs g b) (hg : DirOK g) :
    DirOK b :=
  DirOK_keeps g b hf.demo
    (fun j _ => ⟨(hf.body j).who, fun h => by rw [hd j]; exact h⟩) hg

theorem UpdateTimers_dirOK (g : Game) (hg : DirOK g) : DirOK (UpdateTimers g) := by
  apply DirOK_keeps g _ (UpdateTimers_frame g).demo ?_ hg
  intro j _
  rcases UpdateTimers_sprites g j with h | ⟨_, h⟩
  · rw [h]
    exact keepsDir_refl _
  · rw [h]
    exact releaseFrightened_keepsDir _

theorem UpdateTargets_dirOK (g : Game) (hg : DirOK g) : DirOK (UpdateTargets g) :=
  DirOK_frame g _ (UpdateTargets_frame g) (UpdateTargets_dirs g) hg

theorem stateTimeout_dirOK (g : Game) (hg : DirOK g) : DirOK (stateTimeout g) :=
  DirOK_frame g _ (stateTimeout_frame g) (stateTimeout_dirs g) hg

theorem DrawAll_dirOK (g : Game) (hg : DirOK g) : DirOK (DrawAll g) :=
  DirOK_frame g _ (DrawAll_frame g) (DrawAll_dirs g) hg

theorem Score_DEMO (g : Game) (d : Int) : (Score g d).DEMO = g.DEMO := by
  unfold Score
  simp only []
  split_ifs <;> rfl

theorem EatDot_DEMO (env : Env) (g : Game) (cx cy : Nat) :
    (EatDot env g cx cy).DEMO = g.DEMO := by
  by_cases hdot : GetDot g cx cy = true
  · by_cases hpill : GetTile env g cx cy = PILL
    · rw [EatDot_pill env g cx cy hdot hpill, Score_DEMO]
    · rw [EatDot_dot env g cx cy hdot hpill, Score_DEMO]
  · rw [EatDot_clear env g cx cy (by simpa using hdot)]

theorem EatDot_dirOK (env : Env) (g : Game) (cx cy : Nat) (hg : DirOK g) :
    DirOK (EatDot env g cx cy) := by
  apply DirOK_keeps g _ (EatDot_DEMO env g cx cy) ?_ hg
  intro j _
  rcases EatDot_sprites env g cx cy j with h | ⟨_, h⟩
  · rw [h]
    exact keepsDir_refl _
  · rw [h]
    exact frighten_keepsDir _

theorem DirOK_setSprite (g : Game) (i : Nat) (s : Sprite)
    (hs : (g._sprites i).keepsDir s) (hg : DirOK g) : DirOK (g.setSprite i s) := by
  refine DirOK_keeps g (g.setSprite i s) rfl (fun j _ => ?_) hg
  show (g._sprites j).keepsDir (if j = i then s else g._sprites j)
  by_cases hj : j = i
  · rw [if_pos hj, hj]
    exact hs
  · rw [if_neg hj]
    exact keepsDir_refl _

/-- The loop in the last branch of `ChooseDir` leaves a direction in 1..4 when
it starts from one. -/
theorem pickLoop_range (choice : List Int) (opposite who : Nat) (p : Pick)
    (hp : 1 ≤ p.dir ∧ p.dir ≤ 4) :
    1 ≤ (forEach 4 (pickStep choice opposite who) p).dir ∧
      (forEach 4 (pickStep choice opposite who) p).dir ≤ 4 := by
  apply forEach_induction (fun q : Pick => 1 ≤ q.dir ∧ q.dir ≤ 4) 4 _ p hp
  intro i q hi hq
  unfold pickStep
  simp only []
  by_cases h : (4 - i ≠ opposite ∧ choiceAt choice i < q.dist) ∨
      (who = PACMAN ∧ q.fallback ≠ 0 ∧ choiceAt choice i < q.dist)
  · rw [if_pos h]
    show 1 ≤ ((4 - i : Nat) : Int) ∧ ((4 - i : Nat) : Int) ≤ 4
    omega
  · rw [if_neg h]
    exact hq

/-- In its last branch `ChooseDir` returns a direction in 1..4 when the current
direction is one. -/
theorem ChooseDir_range (env : Env) (g : Game) (s : Sprite) (d : Nat)
    (hai : (g.DEMO = 0 ∧ s.who ≠ PACMAN) ∨ g.DEMO = 1) (hd : 1 ≤ d ∧ d ≤ 4) :
    1 ≤ (ChooseDir env g d s).1 ∧ (ChooseDir env g d s).1 ≤ 4 := by
  unfold ChooseDir
  rw [chooseFrom_ai _ g d s hai]
  have h := pickLoop_range
    [Chase env g s s.cx ((s.cy : Int) - 1), Chase env g s ((s.cx : Int) - 1) s.cy,
      Chase env g s s.cx ((s.cy : Int) + 1), Chase env g s ((s.cx : Int) + 1) s.cy]
    (tableAt _opposite d) s.who
    ⟨choiceAt [Chase env g s s.cx ((s.cy : Int) - 1), Chase env g s ((s.cx : Int) - 1) s.cy,
      Chase env g s s.cx ((s.cy : Int) + 1), Chase env g s ((s.cx : Int) + 1) s.cy]
      (4 - (d : Int)), d, g.PACMANFALLBACK⟩ (by
        show 1 ≤ (d : Int) ∧ (d : Int) ≤ 4
        omega)
  generalize (forEach 4 _ _ : Pick).dir = r at h ⊢
  show 1 ≤ toU8 r ∧ toU8 r ≤ 4
  unfold toU8
  omega

/-- The condition of the last branch of `ChooseDir` holds for a ghost, and for
Pac-Man in attract mode. -/
theorem DirOK_ai (g : Game) (hg : DirOK g) (i : Nat) (hi : i < 5) (hc : i < 4 ∨ g.DEMO = 1) :
    (g.DEMO = 0 ∧ (g._sprites i).who ≠ PACMAN) ∨ g.DEMO = 1 := by
  rcases hg.1 with h0 | h1
  · rcases hc with h4 | h1
    · left
      refine ⟨h0, ?_⟩
      rw [(hg.2 i hi).1]
      unfold PACMAN
      omega
    · exact Or.inr h1
  · exact Or.inr h1

theorem chooseAt_dirOK (env : Env) (i : Nat) (hi : i < 5) (g : Game) (hg : DirOK g) :
    DirOK (chooseAt env i g) := by
  have hf := chooseAt_frame env i g
  refine ⟨by rw [hf.demo]; exact hg.1, fun j hj => ?_⟩
  rw [hf.demo]
  refine ⟨(hf.body j).who.trans (hg.2 j hj).1, fun hc => ?_⟩
  by_cases hsel : j = i ∧ (g._sprites i).aligned
  · obtain ⟨hji, ha⟩ := hsel
    subst hji
    have hcd : ((chooseAt env j g)._sprites j).dir =
        (ChooseDir env g (g._sprites j).dir (g._sprites j)).1 := by
      unfold chooseAt
      simp only []
      rw [if_pos (by exact ha)]
      show (if j = j then _ else _ : Sprite).dir = _
      rw [if_pos rfl]
    rw [hcd]
    exact ChooseDir_range env g _ _ (DirOK_ai g hg j hj hc) ((hg.2 j hj).2 hc)
  · rw [chooseAt_other env i g j hsel]
    exact (hg.2 j hj).2 hc

theorem advanceSprite_dirOK (env : Env) (i : Nat) (hi : i < 5) (g : Game) (hg : DirOK g) :
    DirOK (advanceSprite env i g) := by
  have h1 : DirOK (g.setSprite i { g._sprites i with
      _speed := (g._sprites i)._speed - 100, lastx := (g._sprites i)._x
      lasty := (g._sprites i)._y, phase := ((g._sprites i).phase + 1) % 256 }) :=
    DirOK_setSprite g i _ ⟨rfl, fun h => h⟩ hg
  have h2 := chooseAt_dirOK env i hi _ h1
  have h3 : DirOK ((chooseAt env i (g.setSprite i { g._sprites i with
      _speed := (g._sprites i)._speed - 100, lastx := (g._sprites i)._x
      lasty := (g._sprites i)._y, phase := ((g._sprites i).phase + 1) % 256 })).setSprite i
      (stepPixel ((chooseAt env i (g.setSprite i { g._sprites i with
        _speed := (g._sprites i)._speed - 100, lastx := (g._sprites i)._x
        lasty := (g._sprites i)._y
        phase := ((g._sprites i).phase + 1) % 256 }))._sprites i))) :=
    DirOK_setSprite _ i _ ⟨rfl, fun h => h⟩ h2
  unfold advanceSprite
  simp only []
  split_ifs
  · exact EatDot_dirOK env _ _ _ h3
  · exact h3

theorem moveSprite_dirOK (env : Env) (i : Nat) (hi : i < 5) (g : Game) (hg : DirOK g) :
    DirOK (moveSprite env i g) := by
  have h1 : DirOK (g.setSprite i { g._sprites i with
      _speed := ((g._sprites i)._speed + GetSpeed g (g._sprites i)) % 256 }) :=
    DirOK_setSprite g i _ ⟨rfl, fun h => h⟩ hg
  unfold moveSprite
  simp only []
  split_ifs
  · exact hg
  · exact h1
  · exact advanceSprite_dirOK env i hi _ h1

theorem collideBonus_dirOK (g : Game) (hg : DirOK g) : DirOK (collideBonus g) := by
  have hb : ∀ b : Game, (bonusAdvance b).DEMO = b.DEMO := by
    intro b
    unfold bonusAdvance
    simp only []
    split_ifs <;> rfl
  unfold collideBonus
  simp only []
  split_ifs
  · apply DirOK_keeps g _ ?_ ?_ hg
    · show (bonusAdvance _).DEMO = g.DEMO
      rw [hb, Score_DEMO]
    · intro j _
      show (g._sprites j).keepsDir ((bonusAdvance _)._sprites j)
      rw [(bonusAdvance_sprites _).1, Score_sprites]
      exact keepsDir_refl _
  · exact hg

/-- In `_initSprites` row `j` names sprite `j`, and its direction is in 1..4. -/
theorem initRow_dir (j : Nat) (hj : j < 5) :
    _initSprites.getD (j * 5) 0 = j ∧ 1 ≤ _initSprites.getD (j * 5 + 4) 0 ∧
      _initSprites.getD (j * 5 + 4) 0 ≤ 4 := by
  interval_cases j <;> decide

theorem restartLevel_dirOK (env : Env) (g : Game) (hd : g.DEMO = 0 ∨ g.DEMO = 1) :
    DirOK (restartLevel env g) := by
  rw [restartLevel_eq]
  refine ⟨hd, fun j hj => ?_⟩
  show (if j < 5 then Sprite.Init env (g.randCalls + 2 * j) (j * 5) (g._sprites j)
    else g._sprites j).dirOK g.DEMO j
  rw [if_pos hj]
  exact ⟨(initRow_dir j hj).1, fun _ => (initRow_dir j hj).2⟩

theorem Init_dirOK (env : Env) (g : Game) (hd : g.DEMO = 0 ∨ g.DEMO = 1) :
    DirOK (Init env g) := by
  have hk := (Init_kept env g).2.1
  refine ⟨by rw [hk]; exact hd, fun j hj => ?_⟩
  rw [Init_sprites env g j hj]
  exact ⟨(initRow_dir j hj).1, fun _ => (initRow_dir j hj).2⟩

theorem collideGhostWith_dirOK (env : Env) (i : Nat) (g : Game) (hg : DirOK g) :
    DirOK (collideGhostWith (Init env) env i g) := by
  unfold collideGhostWith
  simp only []
  split_ifs
  · refine DirOK_keeps g _ ?_ (fun j _ => ?_) hg
    · rw [Score_DEMO]
      rfl
    rw [Score_sprites]
    show (g._sprites j).keepsDir (if j = i then _ else g._sprites j)
    by_cases hj : j = i
    · rw [if_pos hj, hj]
      exact ⟨rfl, fun h => h⟩
    · rw [if_neg hj]
      exact keepsDir_refl _
  · exact hg
  · unfold PackmanDiedWith
    split_ifs
    · exact Init_dirOK env _ (Or.inr rfl)
    · exact restartLevel_dirOK env g hg.1
  · exact hg

/-- After the four blocks of `Step` that read the buttons the sprites are in
order, when DEMO is 0 or 1 and they were in order before on every game that has
been initialised. -/
theorem stepBlocks_dirOK (env : Env) (g : Game) (hd : g.DEMO = 0 ∨ g.DEMO = 1)
    (hg : g._inited = true → DirOK g) :
    DirOK (stepButtonB (Init env) (stepResume (stepButtonA (Init env)
      (stepGameWin (Init env) g)))) := by
  have hflag : ∀ (b : Game) (p : Nat), DirOK b →
      DirOK { b with but_A := false, GAMEPAUSED := p } := fun b p h => h
  have h1 : ((stepGameWin (Init env) g).DEMO = 0 ∨ (stepGameWin (Init env) g).DEMO = 1) ∧
      ((stepGameWin (Init env) g)._inited = true → DirOK (stepGameWin (Init env) g)) := by
    unfold stepGameWin
    split_ifs
    · have h := Init_dirOK env { g with LEVEL := (g.LEVEL + 1) % 256 } hd
      exact ⟨h.1, fun _ => h⟩
    · exact ⟨hd, hg⟩
  obtain ⟨b1, hb1⟩ : ∃ b1, b1 = stepGameWin (Init env) g := ⟨_, rfl⟩
  rw [← hb1] at h1 ⊢
  have h2 : ((stepButtonA (Init env) b1).DEMO = 0 ∨ (stepButtonA (Init env) b1).DEMO = 1) ∧
      ((stepButtonA (Init env) b1)._inited = true → DirOK (stepButtonA (Init env) b1)) := by
    unfold stepButtonA
    split_ifs
    · have h := Init_dirOK env { b1 with but_A := false, DEMO := 0 } (Or.inl rfl)
      exact ⟨h.1, fun _ => h⟩
    · exact ⟨h1.1, fun hi => hflag b1 1 (h1.2 hi)⟩
    · exact h1
  obtain ⟨b2, hb2⟩ : ∃ b2, b2 = stepButtonA (Init env) b1 := ⟨_, rfl⟩
  rw [← hb2] at h2 ⊢
  have h3 : ((stepResume b2).DEMO = 0 ∨ (stepResume b2).DEMO = 1) ∧
      ((stepResume b2)._inited = true → DirOK (stepResume b2)) := by
    unfold stepResume
    split_ifs
    · exact ⟨h2.1, fun hi => hflag b2 0 (h2.2 hi)⟩
    · exact h2
  obtain ⟨b3, hb3⟩ : ∃ b3, b3 = stepResume b2 := ⟨_, rfl⟩
  rw [← hb3] at h3 ⊢
  unfold stepButtonB
  split_ifs with hb hi
  · exact Init_dirOK env _ (Or.inl rfl)
  · exact Init_dirOK env _ (Or.inr rfl)
  · apply h3.2
    cases h : b3._inited
    · exact absurd h hi
    · rfl

theorem press_DEMO (b : Button) (g : Game) : (press b g).DEMO = g.DEMO := by
  cases b <;> rfl

/-- In every reachable state DEMO is 0 or 1, and once `Init` has run the
sprites are in order. -/
theorem Reachable_dirOK (env : Env) (g : Game) (hg : Reachable env g) :
    (g.DEMO = 0 ∨ g.DEMO = 1) ∧ (g._inited = true → DirOK g) := by
  induction hg with
  | boot => exact ⟨Or.inr rfl, fun h => absurd h (by decide)⟩
  | @step g0 _ ih =>
    have h : DirOK (Step env g0) := by
      unfold Step
      apply StepWith_stages (fun b => (b.DEMO = 0 ∨ b.DEMO = 1) ∧ (b._inited = true → DirOK b))
        DirOK DirOK (Init env) env
      · exact fun b hb => stepBlocks_dirOK env b hb.1 hb.2
      · exact fun b h => h
      · exact UpdateTimers_dirOK
      · exact UpdateTargets_dirOK
      · exact fun b h => h
      · exact stateTimeout_dirOK
      · exact fun i b hi h => moveSprite_dirOK env i hi b h
      · exact collideBonus_dirOK
      · exact fun i b _ h => collideGhostWith_dirOK env i b h
      · exact DrawAll_dirOK
      · exact ih
    exact ⟨h.1, fun _ => h⟩
  | press b _ ih =>
    refine ⟨by rw [press_DEMO]; exact ih.1, fun hi => ?_⟩
    rw [(press_inited b _).1] at hi
    apply DirOK_keeps _ _ (press_DEMO b _) ?_ (ih.2 hi)
    intro j _
    rw [(press_inited b _).2]
    exact keepsDir_refl _

theorem Inside_dirOK (env : Env) (b : Game) (hb : Inside env b) : DirOK b := by
  induction hb with
  | blocks hg =>
    exact stepBlocks_dirOK env _ (Reachable_dirOK env _ hg).1 (Reachable_dirOK env _ hg).2
  | timers _ ih => exact UpdateTimers_dirOK _ ih
  | targets _ ih => exact UpdateTargets_dirOK _ ih
  | tick _ ih => exact ih
  | timeout _ ih => exact stateTimeout_dirOK _ ih
  | move i hi _ ih => exact moveSprite_dirOK env i hi _ ih
  | accumulate i _ _ ih => exact DirOK_setSprite _ i _ ⟨rfl, fun h => h⟩ ih
  | bookkeeping i _ _ ih => exact DirOK_setSprite _ i _ ⟨rfl, fun h => h⟩ ih

/-- The first `Step` ever, with no button latched, leaves the game in attract
mode. -/
theorem Step_first_DEMO (env : Env) (g : Game) (hi : g._inited = false) (hb : g.but_B = false)
    (hw : g.GAMEWIN ≠ 1) (ha : g.but_A = false) : (Step env g).DEMO = 1 := by
  have hr := Step_first env g hi hb hw ha
  obtain ⟨r, hrr⟩ : ∃ r, r = Step env g := ⟨_, rfl⟩
  obtain ⟨a, haa⟩ : ∃ a : Game, a = { g with but_B := false, DEMO := 1 } := ⟨_, rfl⟩
  rw [← hrr, ← haa] at hr
  rw [← hrr]
  have hk := (Init_kept env a).2.1
  obtain ⟨ia, hia⟩ : ∃ ia, ia = Init env a := ⟨_, rfl⟩
  rw [← hia] at hr hk
  have hrest := hr.rest
  have e : r.DEMO = ia.DEMO := by rw [hrest]
  rw [e, hk, haa]

/-! ## The dot search of `PacmanAI` -/

theorem forRange_induction_idx {α : Type} (P : Nat → α → Prop) (lo hi : Nat) (hle : lo ≤ hi)
    (body : Nat → α → α) (a : α) (h0 : P lo a)
    (hstep : ∀ i b, lo ≤ i → i < hi → P i b → P (i + 1) (body i b)) :
    P hi (forRange lo hi body a) := by
  obtain ⟨n, rfl⟩ := Nat.exists_eq_add_of_le hle
  induction n with
  | zero => simpa [forRange_self] using h0
  | succ k ih =>
    rw [forRange_succ]
    exact hstep (lo + k) _ (by omega) (by omega)
      (ih (by omega) (fun i b h1 h2 hb => hstep i b h1 (by omega) hb))

theorem toInt16_le (v : Int) : toInt16 v ≤ 32767 := by
  unfold toInt16
  omega

/-- `Distance` never returns the start value 0x7FFF of the searches. -/
theorem Distance_lt_sentinel (s : Sprite) (x y : Nat) : s.Distance x y < 0x7FFF := by
  have h1 : s.Distance x y ≠ 0x7FFF := by
    unfold Sprite.Distance
    exact toInt16_sum_sq_ne_sentinel _ _
  have h2 : s.Distance x y ≤ 32767 := by
    unfold Sprite.Distance
    exact toInt16_le _
  omega

theorem setSprite_twice (g : Game) (i : Nat) (s t : Sprite) :
    (g.setSprite i s).setSprite i t = g.setSprite i t := by
  unfold Game.setSprite
  simp only []
  congr 1
  funext j
  by_cases hj : j = i
  · rw [if_pos hj, if_pos hj]
  · rw [if_neg hj, if_neg hj, if_neg hj]

theorem dotFound_congr (g : Game) (seen seen2 : Nat → Nat → Prop)
    (h : ∀ a b, seen2 a b ↔ seen a b) (st : Int × Game) (hst : dotFound g seen st) :
    dotFound g seen2 st := by
  rcases hst with ⟨h1, h2, h3⟩ | ⟨x, y, h1, h2, h3, h4, h5⟩
  · exact Or.inl ⟨h1, h2, fun a b hab => h3 a b ((h a b).mp hab)⟩
  · exact Or.inr ⟨x, y, (h x y).mpr h1, h2, h3, h4,
      fun a b hab hd => h5 a b ((h a b).mp hab) hd⟩

/-- One cell of the dot search. -/
theorem dotSearchCell_found (g : Game) (seen seen2 : Nat → Nat → Prop) (x y : Nat)
    (h : ∀ a b, seen2 a b ↔ (seen a b ∨ (a = x ∧ b = y))) (st : Int × Game)
    (hst : dotFound g seen st) : dotFound g seen2 (dotSearchCell y x st) := by
  have hnew : seen2 x y := (h x y).mpr (Or.inr ⟨rfl, rfl⟩)
  have hold : ∀ a b, seen a b → seen2 a b := fun a b hab => (h a b).mpr (Or.inl hab)
  rcases hst with ⟨h1, h2, h3⟩ | ⟨x0, y0, h1, h2, h3, h4, h5⟩
  · obtain ⟨d, b⟩ := st
    simp only [] at h1 h2
    subst h1
    subst h2
    unfold dotSearchCell
    simp only []
    by_cases hd : GetDot b x y = true
    · rw [if_pos hd, if_pos (Distance_lt_sentinel _ x y)]
      refine Or.inr ⟨x, y, hnew, hd, rfl, rfl, fun a c hac hdac => ?_⟩
      rcases (h a c).mp hac with hs | ⟨ha, hc⟩
      · rw [h3 a c hs] at hdac
        exact absurd hdac (by decide)
      · rw [ha, hc]
    · rw [if_neg hd]
      refine Or.inl ⟨rfl, rfl, fun a c hac => ?_⟩
      rcases (h a c).mp hac with hs | ⟨ha, hc⟩
      · exact h3 a c hs
      · rw [ha, hc]
        cases hv : GetDot b x y
        · rfl
        · exact absurd hv hd
  · obtain ⟨d, b⟩ := st
    simp only [] at h3 h4
    subst h3
    subst h4
    have hdot : GetDot (g.setSprite PACMAN ((g._sprites PACMAN).Target x0 y0)) x y =
        GetDot g x y := rfl
    have hpac : (g.setSprite PACMAN ((g._sprites PACMAN).Target x0 y0))._sprites PACMAN =
        (g._sprites PACMAN).Target x0 y0 := by
      show (if PACMAN = PACMAN then (g._sprites PACMAN).Target x0 y0 else g._sprites PACMAN) = _
      rw [if_pos rfl]
    have hdist : ((g._sprites PACMAN).Target x0 y0).Distance x y =
        (g._sprites PACMAN).Distance x y := rfl
    unfold dotSearchCell
    simp only []
    rw [hdot, hpac, hdist]
    by_cases hd : GetDot g x y = true
    · rw [if_pos hd]
      by_cases hlt : (g._sprites PACMAN).Distance x y < (g._sprites PACMAN).Distance x0 y0
      · rw [if_pos hlt, setSprite_twice]
        refine Or.inr ⟨x, y, hnew, hd, rfl, rfl, fun a c hac hdac => ?_⟩
        rcases (h a c).mp hac with hs | ⟨ha, hc⟩
        · have := h5 a c hs hdac
          omega
        · rw [ha, hc]
      · rw [if_neg hlt]
        refine Or.inr ⟨x0, y0, hold _ _ h1, h2, rfl, rfl, fun a c hac hdac => ?_⟩
        rcases (h a c).mp hac with hs | ⟨ha, hc⟩
        · exact h5 a c hs hdac
        · rw [ha, hc]
          omega
    · rw [if_neg hd]
      refine Or.inr ⟨x0, y0, hold _ _ h1, h2, rfl, rfl, fun a c hac hdac => ?_⟩
      rcases (h a c).mp hac with hs | ⟨ha, hc⟩
      · exact h5 a c hs hdac
      · rw [ha, hc] at hdac
        exact absurd hdac hd

/-- One row of the dot search. -/
theorem dotSearchRow_found (g : Game) (y : Nat) (hy : 4 ≤ y) (st : Int × Game)
    (hst : dotFound g (dotTried y 1) st) :
    dotFound g (dotTried (y + 1) 1) (forRange 1 26 (dotSearchCell y) st) := by
  have h := forRange_induction_idx (fun (c : Nat) (b : Int × Game) => dotFound g (dotTried y c) b)
    1 26 (by decide) (dotSearchCell y) st hst (by
      intro x b hx1 hx2 hb
      apply dotSearchCell_found g (dotTried y x) (dotTried y (x + 1)) x y ?_ b hb
      intro a c
      unfold dotTried
      constructor
      · rintro ⟨h1, h2, h3, h4⟩
        by_cases hac : a = x ∧ c = y
        · exact Or.inr hac
        · left
          refine ⟨h1, h2, h3, ?_⟩
          omega
      · rintro (⟨h1, h2, h3, h4⟩ | ⟨ha, hc⟩)
        · refine ⟨h1, h2, h3, ?_⟩
          omega
        · subst ha
          subst hc
          exact ⟨hx1, hx2, hy, Or.inr ⟨rfl, Nat.lt_succ_self _⟩⟩)
  apply dotFound_congr g _ _ ?_ _ h
  intro a c
  unfold dotTried
  constructor
  · rintro ⟨h1, h2, h3, h4⟩
    exact ⟨h1, h2, h3, by omega⟩
  · rintro ⟨h1, h2, h3, h4⟩
    exact ⟨h1, h2, h3, by omega⟩

/-- The two loops of the dot search. -/
theorem dotSearchLoop_found (g : Game) (st : Int × Game) (hst : st = (0x7FFF, g)) :
    dotFound g dotWindow
      (forRange 4 32 (fun y st => forRange 1 26 (dotSearchCell y) st) st) := by
  have h := forRange_induction_idx (fun (y : Nat) (b : Int × Game) => dotFound g (dotTried y 1) b)
    4 32 (by decide) (fun y st => forRange 1 26 (dotSearchCell y) st) st (by
      left
      rw [hst]
      refine ⟨rfl, rfl, fun x y hs => ?_⟩
      unfold dotTried at hs
      omega)
    (fun y b hy1 _ hb => dotSearchRow_found g y hy1 b hb)
  apply dotFound_congr g _ _ ?_ _ h
  intro a c
  unfold dotTried dotWindow
  constructor
  · rintro ⟨h1, h2, h3, h4⟩
    exact ⟨h1, h2, h3, by omega⟩
  · rintro ⟨h1, h2, h3, h4⟩
    exact ⟨h1, h2, h3, by omega⟩

theorem dotSearch_result (g : Game) (st : Int × Game) (hst : dotFound g dotWindow st) :
    ((∀ x y, dotWindow x y → GetDot g x y = false) →
        (if st.1 = 0x7FFF then { st.2 with GAMEWIN := 1 } else st.2) = { g with GAMEWIN := 1 }) ∧
      ((∃ x y, dotWindow x y ∧ GetDot g x y = true) →
        ∃ x y, dotWindow x y ∧ GetDot g x y = true ∧
          (if st.1 = 0x7FFF then { st.2 with GAMEWIN := 1 } else st.2) =
            g.setSprite PACMAN ((g._sprites PACMAN).Target x y) ∧
          ∀ x1 y1, dotWindow x1 y1 → GetDot g x1 y1 = true →
            (g._sprites PACMAN).Distance x y ≤ (g._sprites PACMAN).Distance x1 y1) := by
  rcases hst with ⟨h1, h2, h3⟩ | ⟨x, y, h1, h2, h3, h4, h5⟩
  · refine ⟨fun _ => ?_, fun ⟨x, y, hw, hd⟩ => ?_⟩
    · rw [if_pos h1, h2]
    · rw [h3 x y hw] at hd
      exact absurd hd (by decide)
  · refine ⟨fun hno => ?_, fun _ => ?_⟩
    · rw [hno x y h1] at h2
      exact absurd h2 (by decide)
    · have hne : st.1 ≠ 0x7FFF := by
        rw [h3]
        exact ne_of_lt (Distance_lt_sentinel _ x y)
      exact ⟨x, y, h1, h2, by rw [if_neg hne, h4], h5⟩

theorem dotSearchLoop_start (g : Game) :
    dotFound g dotWindow
      (forRange 4 32 (fun y st => forRange 1 26 (dotSearchCell y) st) (0x7FFF, g)) :=
  dotSearchLoop_found g (0x7FFF, g) rfl

theorem dotSearch_def (g : Game) :
    dotSearch g =
      if (forRange 4 32 (fun y st => forRange 1 26 (dotSearchCell y) st) (0x7FFF, g)).1 = 0x7FFF
      then { (forRange 4 32 (fun y st => forRange 1 26 (dotSearchCell y) st) (0x7FFF, g)).2 with
        GAMEWIN := 1 }
      else (forRange 4 32 (fun y st => forRange 1 26 (dotSearchCell y) st) (0x7FFF, g)).2 := rfl

/-- The dot search of `PacmanAI`: with no dot bit set in columns 1..25 of rows
4..31 it sets GAMEWIN and leaves the rest; otherwise it leaves Pac-Man with the
target of such a cell that no other such cell is closer to, and nothing else
changed. -/
theorem dotSearch_spec (g : Game) :
    ((∀ x y, dotWindow x y → GetDot g x y = false) → dotSearch g = { g with GAMEWIN := 1 }) ∧
      ((∃ x y, dotWindow x y ∧ GetDot g x y = true) →
        ∃ x y, dotWindow x y ∧ GetDot g x y = true ∧
          dotSearch g = g.setSprite PACMAN ((g._sprites PACMAN).Target x y) ∧
          ∀ x1 y1, dotWindow x1 y1 → GetDot g x1 y1 = true →
            (g._sprites PACMAN).Distance x y ≤ (g._sprites PACMAN).Distance x1 y1) := by
  rw [dotSearch_def]
  exact dotSearch_result g _ (dotSearchLoop_start g)

theorem pacmanForage_search (g : Game) (h1 : GetDot g 1 6 = false)
    (h2 : GetDot g 26 6 = false) (h3 : GetDot g 1 26 = false) (h4 : GetDot g 26 26 = false) :
    pacmanForage g = dotSearch g := by
  have hb : ∀ v : Bool, v = false → ¬ (v = true) := by decide
  unfold pacmanForage
  simp only []
  rw [if_neg (hb _ h1), if_neg (hb _ h2), if_neg (hb _ h3), if_neg (hb _ h4)]

/-- In the sample game with one dot left, in column 26, no dot bit is set in the
cells the dot search looks at. -/
theorem sampleLastDot_window (x y : Nat) (h : dotWindow x y) :
    GetDot Game.sampleLastDot x y = false := by
  obtain ⟨h1, h2, h3, h4⟩ := h
  rw [GetDot_eq_testBit]
  show (if dotIndex x y = 23 then 0x20 else 0 : Nat).testBit (7 - x % 8) = false
  by_cases hi : dotIndex x y = 23
  · rw [if_pos hi]
    unfold dotIndex at hi
    rw [Nat.shiftRight_eq_div_pow] at hi
    have hx : x = 24 ∨ x = 25 := by omega
    rcases hx with hx | hx <;> subst hx <;> decide
  · rw [if_neg hi]
    exact Nat.zero_testBit _

theorem PacmanAI_forage (g : Game)
    (h1 : ¬ (g.DEMO = 1 ∧ (ghostScan g).DeadEyesStateGhost = none ∧
      (ghostScan g).frightenedGhost ≠ none))
    (h2 : ¬ (g.DEMO = 1 ∧ (ghostScan g).DeadEyesStateGhost = none ∧ (ghostScan g).dist ≤ 32 ∧
      (ghostScan g).closestAttackingDist < (ghostScan g).closestfrightenedDist))
    (h3 : g.ACTIVEBONUS ≠ 1) :
    PacmanAI g = pacmanForage { g with PACMANFALLBACK := 0 } := by
  unfold PacmanAI
  simp only []
  rw [if_neg (by exact h1), if_neg (by exact h2), if_neg (by exact h3)]


theorem store_cells (sb : ScreenBuffer) (k v j : Nat) :
    (sb.store k v).cells j = if j = k then v else sb.cells j := rfl

theorem store_count (sb : ScreenBuffer) (k v j : Nat) :
    (sb.store k v).stores.count j = sb.stores.count j + if j = k then 1 else 0 := by
  show (sb.stores ++ [k]).count j = _
  rw [List.count_append, List.count_singleton]
  by_cases h : j = k
  · subst h
    simp
  · have h2 : ¬ (k = j) := fun e => h e.symm
    simp [h, h2]

theorem store_length (sb : ScreenBuffer) (k v : Nat) :
    (sb.store k v).stores.length = sb.stores.length + 1 := by
  show (sb.stores ++ [k]).length = _
  simp

theorem drawQuad_done (paletteW : List Nat) (indexmap : Nat → Nat) (tmpY tmpX : Nat)
    (hy : tmpY < 8) (hx : tmpX < 8) (st : Nat × ScreenBuffer)
    (h : quadsDone paletteW indexmap (tmpY * 8 + tmpX) st) :
    quadsDone paletteW indexmap (tmpY * 8 + tmpX + 1)
      (drawQuad paletteW indexmap tmpY tmpX st) := by
  obtain ⟨i, sb⟩ := st
  obtain ⟨h1, h2, h3, h4⟩ := h
  have h1 : i = tmpY * 8 + tmpX := h1
  subst h1
  have hxt : toU16 (2 * (tmpY : Int)) = 2 * tmpY := by
    unfold toU16
    omega
  have hyt : toU16 (14 - 2 * (tmpX : Int)) = 14 - 2 * tmpX := by
    unfold toU16
    omega
  unfold drawQuad
  simp only []
  rw [hxt, hyt]
  refine ⟨by show (tmpY * 8 + tmpX + 1) % 256 = _; omega, ?_, ?_, ?_⟩
  · intro tx ty a b htx hty ha hb hlt
    simp only [store_cells]
    by_cases hc : ty * 8 + tx = tmpY * 8 + tmpX
    · have e1 : ty = tmpY := by omega
      have e2 : tx = tmpX := by omega
      subst e1 e2
      split_ifs <;> first | rfl | (exfalso; omega)
    · have hprev := h2 tx ty a b htx hty ha hb (by omega)
      split_ifs <;> first | exact hprev | (exfalso; omega)
  · intro tx ty a b htx hty ha hb
    have hprev := h3 tx ty a b htx hty ha hb
    simp only [store_count]
    rw [hprev]
    split_ifs <;> omega
  · simp only [store_length]
    have h4 : sb.stores.length = 4 * (tmpY * 8 + tmpX) := h4
    omega

theorem drawIndexedmap_done (paletteW : List Nat) (indexmap : Nat → Nat) (sb : ScreenBuffer) :
    quadsDone paletteW indexmap 64
      (forEach 8 (fun tmpY st => forEach 8 (drawQuad paletteW indexmap tmpY) st)
        (0, { sb with stores := [] })) := by
  refine forEach_induction_idx (fun y st => quadsDone paletteW indexmap (y * 8) st) 8 _ _
    ?_ ?_
  · refine ⟨rfl, ?_, ?_, rfl⟩
    · intro tx ty a b _ _ _ _ h
      omega
    · intro tx ty a b _ _ _ _
      rw [if_neg (by omega)]
      rfl
  · intro y st hy hst
    have h := forEach_induction_idx (fun x st => quadsDone paletteW indexmap (y * 8 + x) st) 8
      (drawQuad paletteW indexmap y) st hst
      (fun x b hx hb => drawQuad_done paletteW indexmap y x hy hx b hb)
    have e : (y + 1) * 8 = y * 8 + 8 := by omega
    rw [e]
    exact h

/-- Every subscript below 256 is the entry of one input pixel. -/
theorem quad_cover (k : Nat) (hk : k < 256) :
    ∃ tx ty a b, tx < 8 ∧ ty < 8 ∧ a < 2 ∧ b < 2 ∧
      k = 2 * ty + a + (14 - 2 * tx + b) * 16 := by
  refine ⟨7 - k / 32, k % 16 / 2, k % 2, k / 16 % 2, ?_, ?_, ?_, ?_, ?_⟩ <;> omega


theorem drawPixel_tile (rom : Int → Nat) (palette2 : Nat) (tp : Int) (x : Nat) (st : PixelRun)
    (k : Int) :
    (drawPixel rom ((palette2 : Int) * 4) tp x st).tile k =
      if k = tp + x then overlay palette2 (st.d &&& 3) (st.tile k) else st.tile k := by
  unfold drawPixel overlay
  simp only []
  generalize tableAt _palette2 ((palette2 : Int) * 4 + ((st.d &&& 3 : Nat) : Int)) = q
  generalize st.d &&& 3 = p
  by_cases hs : (st.sx + 255) % 256 = 0 <;> by_cases hp : p = 0 <;> by_cases hq : q = 0 <;>
    by_cases hk : k = tp + x <;> simp [hs, hp, hq, hk]

theorem toInt16_id (v : Int) (h1 : -32768 ≤ v) (h2 : v ≤ 32767) : toInt16 v = v := by
  unfold toInt16
  omega

theorem toInt8_id (v : Int) (h1 : -128 ≤ v) (h2 : v ≤ 127) : toInt8 v = v := by
  unfold toInt8
  omega

theorem toU8_id (v : Int) (h1 : 0 ≤ v) (h2 : v ≤ 255) : (toU8 v : Int) = v := by
  unfold toU8
  omega

theorem drawPixel_done (rom : Int → Nat) (palette2 : Nat) (base : Int) (c0 left : Nat)
    (tp : Int) (tile0 : Int → Nat) (j : Nat) (run : PixelRun)
    (h : pixelsDone rom palette2 base c0 left tp tile0 j run) :
    pixelsDone rom palette2 base c0 left tp tile0 (j + 1)
      (drawPixel rom ((palette2 : Int) * 4) tp (left + j) run) := by
  obtain ⟨h1, h2, h3, h4⟩ := h
  have hpix : run.d &&& 3 = rowPixel rom base (c0 + j) := by
    rw [h3]
    rfl
  refine ⟨?_, ?_, ?_, ?_⟩
  · unfold drawPixel
    simp only []
    rw [h1]
    by_cases hs : (4 - (c0 + j) % 4 + 255) % 256 = 0
    · rw [if_pos hs]
      show 4 = _
      omega
    · rw [if_neg hs]
      show (4 - (c0 + j) % 4 + 255) % 256 = _
      omega
  · unfold drawPixel
    simp only []
    rw [h1]
    by_cases hs : (4 - (c0 + j) % 4 + 255) % 256 = 0
    · rw [if_pos hs]
      show run.src + 1 = _
      rw [h2]
      omega
    · rw [if_neg hs]
      show run.src = _
      rw [h2]
      omega
  · unfold drawPixel
    simp only []
    rw [h1]
    by_cases hs : (4 - (c0 + j) % 4 + 255) % 256 = 0
    · rw [if_pos hs]
      show rom run.src % 256 = _
      rw [h2]
      have e1 : (c0 + (j + 1)) % 4 = 0 := by omega
      have e2 : base + (((c0 + j) / 4 : Nat) : Int) + 1 =
          base + (((c0 + (j + 1)) / 4 : Nat) : Int) := by omega
      rw [e1, e2]
      rfl
    · rw [if_neg hs]
      show run.d >>> 2 = _
      rw [h3]
      have e1 : (c0 + (j + 1)) % 4 = (c0 + j) % 4 + 1 := by omega
      have e2 : (c0 + (j + 1)) / 4 = (c0 + j) / 4 := by omega
      rw [e1, e2, ← Nat.shiftRight_add]
      have e3 : 2 * ((c0 + j) % 4) + 2 = 2 * ((c0 + j) % 4 + 1) := by omega
      rw [e3]
  · intro k
    rw [drawPixel_tile, hpix, h4 k]
    by_cases hk : k = tp + ((left + j : Nat) : Int)
    · rw [if_pos hk, if_neg (by omega), if_pos (by omega)]
      have e : c0 + (k - tp - left).toNat = c0 + j := by omega
      rw [e]
    · rw [if_neg hk]
      by_cases hr : tp + left ≤ k ∧ k < tp + left + j
      · rw [if_pos hr, if_pos (by omega)]
      · rw [if_neg hr, if_neg (by omega)]

theorem drawRow_done (rom : Int → Nat) (palette2 : Nat) (base : Int) (c0 left right : Nat)
    (dy : Int) (hlr : left < right) (st : RowRun)
    (hd : st.data = base + ((c0 / 4 : Nat) : Int)) (k : Int) :
    (drawRow rom ((palette2 : Int) * 4) (c0 % 4) left right dy st).tilePtr = st.tilePtr + 8 ∧
      (drawRow rom ((palette2 : Int) * 4) (c0 % 4) left right dy st).data = st.data + dy ∧
      (drawRow rom ((palette2 : Int) * 4) (c0 % 4) left right dy st).tile k =
        if st.tilePtr + left ≤ k ∧ k < st.tilePtr + right then
          overlay palette2 (rowPixel rom base (c0 + (k - st.tilePtr - left).toNat)) (st.tile k)
        else st.tile k := by
  refine ⟨rfl, rfl, ?_⟩
  have h0 : pixelsDone rom palette2 base c0 left st.tilePtr st.tile 0
      { d := (rom st.data % 256) >>> ((c0 % 4) <<< 1), sx := toU8 (4 - ((c0 % 4 : Nat) : Int)),
        src := st.data + 1, tile := st.tile } := by
    refine ⟨?_, ?_, ?_, ?_⟩
    · show toU8 (4 - ((c0 % 4 : Nat) : Int)) = 4 - (c0 + 0) % 4
      unfold toU8
      omega
    · show st.data + 1 = _
      rw [hd]
      rfl
    · show (rom st.data % 256) >>> ((c0 % 4) <<< 1) = _
      rw [hd, Nat.shiftLeft_eq]
      have e : c0 % 4 * 2 ^ 1 = 2 * ((c0 + 0) % 4) := by omega
      rw [e]
      rfl
    · intro k
      rw [if_neg (by omega)]
  have h := forEach_induction_idx
    (fun j run => pixelsDone rom palette2 base c0 left st.tilePtr st.tile j run)
    (right - left) (fun j run => drawPixel rom ((palette2 : Int) * 4) st.tilePtr (left + j) run)
    _ h0 (fun j run _ hr => drawPixel_done rom palette2 base c0 left st.tilePtr st.tile j run hr)
  have h4 := h.2.2.2 k
  unfold drawRow
  simp only []
  rw [if_pos hlr, h4]
  by_cases hk : st.tilePtr + left ≤ k ∧ k < st.tilePtr + right
  · rw [if_pos hk, if_pos (by omega)]
  · rw [if_neg hk, if_neg (by omega)]

theorem drawRow_rows (rom : Int → Nat) (palette2 : Nat) (base : Int) (c0 left right : Nat)
    (dy : Int) (hlr : left < right) (hr8 : right ≤ 8) (tp0 : Int) (tile0 : Int → Nat) (i : Nat)
    (st : RowRun) (h : rowsDone rom palette2 base c0 left right dy tp0 tile0 i st) :
    rowsDone rom palette2 base c0 left right dy tp0 tile0 (i + 1)
      (drawRow rom ((palette2 : Int) * 4) (c0 % 4) left right dy st) := by
  obtain ⟨h1, h2, h3⟩ := h
  have hd : st.data = (base + dy * i) + ((c0 / 4 : Nat) : Int) := by
    rw [h2]
    omega
  refine ⟨?_, ?_, ?_⟩
  · rw [(drawRow_done rom palette2 (base + dy * i) c0 left right dy hlr st hd 0).1, h1]
    push_cast
    omega
  · rw [(drawRow_done rom palette2 (base + dy * i) c0 left right dy hlr st hd 0).2.1, h2]
    push_cast
    ring
  · intro k
    rw [(drawRow_done rom palette2 (base + dy * i) c0 left right dy hlr st hd k).2.2, h3 k, h1]
    by_cases hk : tp0 + 8 * (i : Int) + left ≤ k ∧ k < tp0 + 8 * (i : Int) + right
    · rw [if_pos hk, if_neg (by omega), if_pos (by push_cast; omega)]
      have e1 : (k - tp0) / 8 = i := by omega
      have e2 : (k - (tp0 + 8 * (i : Int)) - left).toNat = ((k - tp0) % 8 - left).toNat := by
        omega
      rw [e1, e2]
    · rw [if_neg hk]
      by_cases hp : 0 ≤ k - tp0 ∧ (k - tp0) / 8 < i ∧ (left : Int) ≤ (k - tp0) % 8 ∧
          (k - tp0) % 8 < right
      · rw [if_pos hp, if_pos (by push_cast; omega)]
      · rw [if_neg hp, if_neg (by push_cast; omega)]


theorem Draw8_rows (rom : Int → Nat) (palette2 : Nat) (base : Int) (c0 left right : Nat)
    (dy : Int) (hlr : left < right) (hr8 : right ≤ 8) (tp0 : Int) (tile : Int → Nat) (n : Nat)
    (k : Int) :
    (forEach n (fun _ st => drawRow rom ((palette2 : Int) * 4) (c0 % 4) left right dy st)
        { tilePtr := tp0, data := base + ((c0 / 4 : Nat) : Int), tile := tile }).tile k =
      if 0 ≤ k - tp0 ∧ (k - tp0) / 8 < n ∧ (left : Int) ≤ (k - tp0) % 8 ∧
          (k - tp0) % 8 < right then
        overlay palette2
          (rowPixel rom (base + dy * ((k - tp0) / 8)) (c0 + ((k - tp0) % 8 - left).toNat))
          (tile k)
      else tile k := by
  have h := forEach_induction_idx
    (fun i st => rowsDone rom palette2 base c0 left right dy tp0 tile i st) n
    (fun _ st => drawRow rom ((palette2 : Int) * 4) (c0 % 4) left right dy st)
    { tilePtr := tp0, data := base + ((c0 / 4 : Nat) : Int), tile := tile }
    ⟨by show tp0 = _; push_cast; omega, by show _ = _ + dy * ((0 : Nat) : Int); push_cast; omega,
      fun k => by rw [if_neg (by push_cast; omega)]⟩
    (fun i st _ hst => drawRow_rows rom palette2 base c0 left right dy hlr hr8 tp0 tile i st hst)
  exact h.2.2 k

theorem rowPixel_eq (rom : Int → Nat) (bits : Nat) (base row col : Int) (c : Nat)
    (hb : base = (bits : Int) * 64 + row * 4) (hc : (c : Int) = col) :
    rowPixel rom base c = spritePixel rom bits row col := by
  unfold rowPixel spritePixel
  have e1 : base + ((c / 4 : Nat) : Int) = (bits : Int) * 64 + row * 4 + col / 4 := by omega
  have e2 : c % 4 = (col % 4).toNat := by omega
  rw [e1, e2]

theorem rows_cond (px py k tp0 : Int) (left right n : Nat)
    (hpx : -8 < px ∧ px < 16) (hpy : -8 < py ∧ py < 16)
    (hleft : (left : Int) = max (-px) 0) (hright : (right : Int) = min 8 (16 - px))
    (hn : (n : Int) = min (py + 8) 16 - max py 0) (htp : tp0 = 8 * max (-py) 0) :
    (0 ≤ k - tp0 ∧ (k - tp0) / 8 < n ∧ (left : Int) ≤ (k - tp0) % 8 ∧ (k - tp0) % 8 < right) ↔
      (0 ≤ k ∧ k < 64 ∧ 0 ≤ px + k % 8 ∧ px + k % 8 < 16 ∧ 0 ≤ py + k / 8 ∧
        py + k / 8 < 16) := by
  rcases Int.lt_or_le px 0 with hp | hp <;> rcases Int.lt_or_le py 0 with hq | hq
  · rw [max_eq_left (by omega)] at hleft htp
    rw [min_eq_left (by omega)] at hright hn
    rw [max_eq_right (by omega)] at hn
    omega
  · rw [max_eq_left (by omega)] at hleft
    rw [max_eq_right (by omega)] at htp
    rw [min_eq_left (by omega)] at hright
    rw [max_eq_left (by omega)] at hn
    omega
  · rw [max_eq_right (by omega)] at hleft
    rw [max_eq_left (by omega)] at htp
    rw [min_eq_left (by omega)] at hn
    rw [max_eq_right (by omega)] at hn
    omega
  · rw [max_eq_right (by omega)] at hleft htp
    rw [max_eq_left (by omega)] at hn
    omega

theorem rows_pixel (px py k tp0 base dy sy : Int) (bits c0 left : Nat)
    (hpx : -8 < px ∧ px < 16) (hpy : -8 < py ∧ py < 16)
    (hk : 0 ≤ k ∧ k < 64 ∧ 0 ≤ px + k % 8 ∧ px + k % 8 < 16 ∧ 0 ≤ py + k / 8 ∧
      py + k / 8 < 16)
    (hc0 : (c0 : Int) = max px 0) (hleft : (left : Int) = max (-px) 0)
    (htp : tp0 = 8 * max (-py) 0)
    (hsy : (sy = 1 ∧ dy = 4 ∧ base = (bits : Int) * 64 + max py 0 * 4) ∨
      (sy = -1 ∧ dy = -4 ∧ base = (bits : Int) * 64 + (15 - max py 0) * 4)) :
    ((c0 + ((k - tp0) % 8 - left).toNat : Nat) : Int) = px + k % 8 ∧
      base + dy * ((k - tp0) / 8) =
        (bits : Int) * 64 + (if sy < 0 then 15 - (py + k / 8) else py + k / 8) * 4 := by
  constructor
  · rcases Int.lt_or_le px 0 with hp | hp
    · rw [max_eq_right (by omega)] at hc0
      rw [max_eq_left (by omega)] at hleft
      omega
    · rw [max_eq_left (by omega)] at hc0
      rw [max_eq_right (by omega)] at hleft
      omega
  · rcases hsy with ⟨h1, h2, h3⟩ | ⟨h1, h2, h3⟩
    · subst h1 h2
      rw [if_neg (by decide)]
      rcases Int.lt_or_le py 0 with hq | hq
      · rw [max_eq_left (by omega)] at htp
        rw [max_eq_right (by omega)] at h3
        omega
      · rw [max_eq_right (by omega)] at htp
        rw [max_eq_left (by omega)] at h3
        omega
    · subst h1 h2
      rw [if_pos (by decide)]
      rcases Int.lt_or_le py 0 with hq | hq
      · rw [max_eq_left (by omega)] at htp
        rw [max_eq_right (by omega)] at h3
        omega
      · rw [max_eq_right (by omega)] at htp
        rw [max_eq_left (by omega)] at h3
        omega

theorem Draw8_overlaid (rom : Int → Nat) (s : Sprite) (x y : Int) (tile : Int → Nat)
    (hx1 : -32768 ≤ x - (s._x - 4)) (hx2 : x - (s._x - 4) ≤ 32767)
    (hy1 : -32768 ≤ y - (s._y - 4)) (hy2 : y - (s._y - 4) ≤ 32767)
    (hsy : s.sy = 1 ∨ s.sy = -1) (k : Int) :
    s.Draw8 rom x y tile k = overlaidTile rom s x y tile k := by
  unfold Sprite.Draw8 overlaidTile
  simp only []
  rw [toInt16_id _ hx1 hx2, toInt16_id _ hy1 hy2]
  have hcol : x + k % 8 - (s._x - 4) = x - (s._x - 4) + k % 8 := by omega
  have hrow : y + k / 8 - (s._y - 4) = y - (s._y - 4) + k / 8 := by omega
  rw [hcol, hrow]
  clear hcol hrow
  generalize x - (s._x - 4) = px at *
  generalize y - (s._y - 4) = py at *
  by_cases h1 : px ≤ -8 ∨ px ≥ 16
  · rw [if_pos h1, if_neg (by omega)]
  · rw [if_neg h1]
    by_cases h2 : py ≤ -8 ∨ py ≥ 16
    · rw [if_pos h2, if_neg (by omega)]
    · rw [if_neg h2]
      have hpx : -8 < px ∧ px < 16 := by omega
      have hpy : -8 < py ∧ py < 16 := by omega
      clear h1 h2 hx1 hx2 hy1 hy2
      obtain ⟨c0, hc0⟩ : ∃ c0 : Nat, (if px < 0 then 0 else px) = (c0 : Int) :=
        ⟨(if px < 0 then 0 else px).toNat, by split_ifs <;> omega⟩
      have hc0f : (c0 : Int) = max px 0 := by
        split_ifs at hc0 with h
        · rw [max_eq_right (by omega)]
          omega
        · rw [max_eq_left (by omega)]
          omega
      rw [hc0]
      clear hc0
      have e1 : (toInt16 ((c0 : Int) % 4)).toNat = c0 % 4 := by
        unfold toInt16
        omega
      have e2 : (c0 : Int) / 4 = ((c0 / 4 : Nat) : Int) := by omega
      rw [e1, e2]
      clear e1 e2
      generalize hleft : (if px < 0 then toU8 (-px) else 0) = left
      have hleftf : (left : Int) = max (-px) 0 := by
        unfold toU8 at hleft
        split_ifs at hleft with h
        · rw [max_eq_left (by omega)]
          omega
        · rw [max_eq_right (by omega)]
          omega
      clear hleft
      generalize hright : (if toU8 (16 - px) > 8 then 8 else toU8 (16 - px)) = right
      have hrightf : (right : Int) = min 8 (16 - px) := by
        unfold toU8 at hright
        split_ifs at hright with h
        · rw [min_eq_left (by omega)]
          omega
        · rw [min_eq_right (by omega)]
          omega
      clear hright
      generalize hn : (toInt16 ((if toInt16 (py + 8) > 16 then 16 else toInt16 (py + 8)) -
        if py < 0 then 0 else py)).toNat = n
      have hnf : (n : Int) = min (py + 8) 16 - max py 0 := by
        unfold toInt16 at hn
        rcases Int.lt_or_le py 0 with hq | hq
        · rw [max_eq_right (by omega), min_eq_left (by omega)]
          split_ifs at hn <;> omega
        · rw [max_eq_left (by omega)]
          rcases Int.lt_or_le 8 py with hr | hr
          · rw [min_eq_right (by omega)]
            split_ifs at hn <;> omega
          · rw [min_eq_left (by omega)]
            split_ifs at hn <;> omega
      clear hn
      generalize htp : (if py < 0 then 0 - py * 8 else 0) = tp0
      have htpf : tp0 = 8 * max (-py) 0 := by
        split_ifs at htp with h
        · rw [max_eq_left (by omega)]
          omega
        · rw [max_eq_right (by omega)]
          omega
      clear htp
      generalize hbase : (s.bits : Int) * 64 + (if toInt8 s.sy < 0 then
        toInt16 (15 - if py < 0 then 0 else py) else if py < 0 then 0 else py) * 4 = base
      generalize hdy : toInt8 (toInt8 s.sy * 4) = dy
      have hsyf : (s.sy = 1 ∧ dy = 4 ∧ base = (s.bits : Int) * 64 + max py 0 * 4) ∨
          (s.sy = -1 ∧ dy = -4 ∧ base = (s.bits : Int) * 64 + (15 - max py 0) * 4) := by
        rcases hsy with hs | hs
        · left
          rw [hs] at hbase hdy
          unfold toInt8 toInt16 at hbase
          unfold toInt8 at hdy
          refine ⟨hs, by omega, ?_⟩
          rcases Int.lt_or_le py 0 with hq | hq
          · rw [max_eq_right (by omega)]
            split_ifs at hbase <;> omega
          · rw [max_eq_left (by omega)]
            split_ifs at hbase <;> omega
        · right
          rw [hs] at hbase hdy
          unfold toInt8 toInt16 at hbase
          unfold toInt8 at hdy
          refine ⟨hs, by omega, ?_⟩
          rcases Int.lt_or_le py 0 with hq | hq
          · rw [max_eq_right (by omega)]
            split_ifs at hbase <;> omega
          · rw [max_eq_left (by omega)]
            split_ifs at hbase <;> omega
      clear hbase hdy
      have hlr : left < right := by
        rcases Int.lt_or_le px 0 with hp | hp
        · rw [max_eq_left (by omega)] at hleftf
          rw [min_eq_left (by omega)] at hrightf
          omega
        · rw [max_eq_right (by omega)] at hleftf
          rcases Int.lt_or_le 8 px with hr | hr
          · rw [min_eq_right (by omega)] at hrightf
            omega
          · rw [min_eq_left (by omega)] at hrightf
            omega
      have hr8 : right ≤ 8 := by
        have := min_le_left (8 : Int) (16 - px)
        omega
      rw [Draw8_rows rom s.palette2 base c0 left right dy hlr hr8 tp0 tile n k]
      have hcond := rows_cond px py k tp0 left right n hpx hpy hleftf hrightf hnf htpf
      by_cases hk : 0 ≤ k ∧ k < 64 ∧ 0 ≤ px + k % 8 ∧ px + k % 8 < 16 ∧ 0 ≤ py + k / 8 ∧
          py + k / 8 < 16
      · rw [if_pos hk, if_pos (hcond.2 hk)]
        have hpix := rows_pixel px py k tp0 base dy s.sy s.bits c0 left hpx hpy hk hc0f hleftf
          htpf hsyf
        rw [rowPixel_eq rom s.bits _ _ _ _ hpix.2 hpix.1]
      · rw [if_neg hk, if_neg (fun h => hk (hcond.1 h))]


theorem Mark_mem (x y : Int) (hx1 : -32764 ≤ x) (hx2 : x ≤ 32767) (hy1 : -32764 ≤ y)
    (hy2 : y ≤ 32767) (r c : Int) :
    (r, c) ∈ Mark x y ↔
      ((y - 4) / 8 ≤ r ∧ r ≤ (y - 4) / 8 + 2 ∧ (x - 4) / 8 ≤ c ∧ c ≤ (x - 4) / 8 + 2) := by
  unfold Mark
  simp only []
  rw [toInt16_id (x - 4) (by omega) (by omega), toInt16_id (y - 4) (by omega) (by omega)]
  generalize (x - 4) / 8 = C
  generalize (y - 4) / 8 = R
  simp only [List.mem_cons, List.mem_singleton, Prod.mk.injEq, List.mem_nil_iff, or_false]
  omega

theorem Draw8_changes (rom : Int → Nat) (s : Sprite) (x y : Int) (tile : Int → Nat)
    (h : s.Draw8 rom x y tile ≠ tile) :
    (-8 < toInt16 (x - (s._x - 4)) ∧ toInt16 (x - (s._x - 4)) < 16) ∧
      -8 < toInt16 (y - (s._y - 4)) ∧ toInt16 (y - (s._y - 4)) < 16 := by
  by_cases h1 : toInt16 (x - (s._x - 4)) ≤ -8 ∨ toInt16 (x - (s._x - 4)) ≥ 16
  · exfalso
    apply h
    unfold Sprite.Draw8
    simp only []
    rw [if_pos h1]
  · by_cases h2 : toInt16 (y - (s._y - 4)) ≤ -8 ∨ toInt16 (y - (s._y - 4)) ≥ 16
    · exfalso
      apply h
      unfold Sprite.Draw8
      simp only []
      rw [if_neg h1, if_pos h2]
    · omega

theorem SetupDraw_sy (ab : Nat) (st : GameState) (idx : Nat) (s : Sprite) :
    (s.SetupDraw ab st idx).sy = 1 ∨ (s.SetupDraw ab st idx).sy = -1 := by
  unfold Sprite.SetupDraw
  simp only []
  split_ifs
  all_goals first
    | exact Or.inl rfl
    | exact Or.inr rfl
    | (cases s.state <;> exact Or.inl rfl)

theorem spritePixel_le (rom : Int → Nat) (bits : Nat) (row col : Int) :
    spritePixel rom bits row col ≤ 3 := by
  unfold spritePixel
  exact Nat.and_le_right

theorem overlaidTile_changes (rom : Int → Nat) (s : Sprite) (x y : Int) (tile : Int → Nat)
    (k : Int) (h : overlaidTile rom s x y tile k ≠ tile k) :
    (0 ≤ k ∧ k < 64 ∧ 0 ≤ x + k % 8 - (s._x - 4) ∧ x + k % 8 - (s._x - 4) < 16 ∧
        0 ≤ y + k / 8 - (s._y - 4) ∧ y + k / 8 - (s._y - 4) < 16) ∧
      spritePixel rom s.bits (if s.sy < 0 then 15 - (y + k / 8 - (s._y - 4))
        else y + k / 8 - (s._y - 4)) (x + k % 8 - (s._x - 4)) ≠ 0 ∧
      overlaidTile rom s x y tile k ≠ 0 ∧
      overlaidTile rom s x y tile k = tableAt _palette2 ((s.palette2 : Int) * 4 +
        spritePixel rom s.bits (if s.sy < 0 then 15 - (y + k / 8 - (s._y - 4))
          else y + k / 8 - (s._y - 4)) (x + k % 8 - (s._x - 4))) := by
  unfold overlaidTile at h ⊢
  simp only [] at h ⊢
  by_cases hc : 0 ≤ k ∧ k < 64 ∧ 0 ≤ x + k % 8 - (s._x - 4) ∧ x + k % 8 - (s._x - 4) < 16 ∧
      0 ≤ y + k / 8 - (s._y - 4) ∧ y + k / 8 - (s._y - 4) < 16
  · rw [if_pos hc] at h ⊢
    generalize spritePixel rom s.bits (if s.sy < 0 then 15 - (y + k / 8 - (s._y - 4))
      else y + k / 8 - (s._y - 4)) (x + k % 8 - (s._x - 4)) = p at h ⊢
    unfold overlay at h ⊢
    by_cases hp : p ≠ 0 ∧ tableAt _palette2 ((s.palette2 : Int) * 4 + (p : Int)) ≠ 0
    · rw [if_pos hp]
      exact ⟨hc, hp.1, hp.2, rfl⟩
    · rw [if_neg hp] at h
      exact absurd rfl h
  · rw [if_neg hc] at h
    exact absurd rfl h


/-! ## Runs inside the icon tray, and the position after a move -/

theorem TrayReachable_reachable (env : Env) (g : Game) (h : TrayReachable env g) :
    Reachable env g := by
  induction h with
  | boot => exact Reachable.boot
  | step _ _ ih => exact Reachable.step ih
  | press b _ ih => exact Reachable.press b ih

/-- The body of sprite `i` after `advanceSprite`: the last position is the old
one, the phase is one up, and the position is the old one moved by SPEED in the
direction `d` of this frame, x wrapped into 0..223; `d` is the old direction
unless the sprite was cell-aligned and `ChooseDir` was asked. -/
theorem advanceSprite_position (env : Env) (i : Nat) (g : Game) :
    ∃ d : Nat, (¬ (g._sprites i).aligned → d = (g._sprites i).dir) ∧
      ((advanceSprite env i g)._sprites i).lastx = (g._sprites i)._x ∧
      ((advanceSprite env i g)._sprites i).lasty = (g._sprites i)._y ∧
      ((advanceSprite env i g)._sprites i).phase = ((g._sprites i).phase + 1) % 256 ∧
      ((advanceSprite env i g)._sprites i)._x =
        (if d = MLeft then toInt16 ((g._sprites i)._x - SPEED)
          else if d = MRight then toInt16 ((g._sprites i)._x + SPEED)
          else (g._sprites i)._x) % 224 ∧
      ((advanceSprite env i g)._sprites i)._y =
        (if d = MUp then toInt16 ((g._sprites i)._y - SPEED)
          else if d = MDown then toInt16 ((g._sprites i)._y + SPEED)
          else (g._sprites i)._y) ∧
      ((advanceSprite env i g)._sprites i).cx =
        toU8 ((((advanceSprite env i g)._sprites i)._x + 4) / 8) ∧
      ((advanceSprite env i g)._sprites i).cy =
        toU8 ((((advanceSprite env i g)._sprites i)._y + 4) / 8) := by
  obtain ⟨g1, hg1⟩ : ∃ g1, g1 = g.setSprite i { g._sprites i with
      _speed := (g._sprites i)._speed - 100, lastx := (g._sprites i)._x
      lasty := (g._sprites i)._y, phase := ((g._sprites i).phase + 1) % 256 } := ⟨_, rfl⟩
  have hset : g1._sprites i = { g._sprites i with
      _speed := (g._sprites i)._speed - 100, lastx := (g._sprites i)._x
      lasty := (g._sprites i)._y, phase := ((g._sprites i).phase + 1) % 256 } := by
    rw [hg1]
    show (if i = i then _ else g._sprites i) = _
    rw [if_pos rfl]
  obtain ⟨c, hc⟩ : ∃ c, c = (chooseAt env i g1)._sprites i := ⟨_, rfl⟩
  have hbody : (g1._sprites i).sameBody c := by
    rw [hc]
    exact (chooseAt_frame env i g1).body i
  have hstep : ((chooseAt env i g1).setSprite i (stepPixel c))._sprites i = stepPixel c := by
    show (if i = i then _ else (chooseAt env i g1)._sprites i) = _
    rw [if_pos rfl]
  have hfin : (stepPixel c).sameBody ((advanceSprite env i g)._sprites i) := by
    have h := advanceSprite_sprites env i g i
    rw [← hg1, ← hc, hstep] at h
    rcases h with h | ⟨_, h⟩
    · rw [h]
      exact Sprite.sameBody_refl _
    · rw [h]
      exact frighten_sameBody _
  have hx : c._x = (g._sprites i)._x := by rw [hbody.x, hset]
  have hy : c._y = (g._sprites i)._y := by rw [hbody.y, hset]
  have hlx : c.lastx = (g._sprites i)._x := by rw [hbody.lastx, hset]
  have hly : c.lasty = (g._sprites i)._y := by rw [hbody.lasty, hset]
  have hph : c.phase = ((g._sprites i).phase + 1) % 256 := by rw [hbody.phase, hset]
  refine ⟨c.dir, fun ha => ?_, ?_, ?_, ?_, ?_, ?_, ?_, ?_⟩
  · have hal : ¬ (i = i ∧ (g1._sprites i).aligned) := by
      rw [hset]
      exact fun h => ha h.2
    rw [hc, chooseAt_other env i g1 i hal, hset]
  · rw [hfin.lastx]
    exact hlx
  · rw [hfin.lasty]
    exact hly
  · rw [hfin.phase]
    exact hph
  · rw [hfin.x, ← hx]
    unfold stepPixel
    simp only []
    rw [wrapInto_eq_emod 224 (by decide)]
  · rw [hfin.y, ← hy]
    rfl
  · rw [hfin.cx, hfin.x]
    rfl
  · rw [hfin.cy, hfin.y]
    rfl

/-- A step of SPEED pixels changes the coordinate, also across the wrap of x
and the ends of the `int16_t` range. -/
theorem step_moves (v : Int) :
    toInt16 (v - SPEED) % 224 ≠ v ∧ toInt16 (v + SPEED) % 224 ≠ v ∧
      toInt16 (v - SPEED) ≠ v ∧ toInt16 (v + SPEED) ≠ v := by
  unfold toInt16 SPEED
  omega

/-- C1: for each motion direction d (Right = 1, Down = 2, Left = 3, Up = 4) the
opposite of the opposite of d is d again, and the opposite of Stopped is
Stopped. -/
theorem C1_opposite_involutive :
    (∀ d : Nat, d = MRight ∨ d = MDown ∨ d = MLeft ∨ d = MUp →
      OppositeDirection (OppositeDirection d) = d) ∧
    OppositeDirection MStopped = MStopped := by
  refine ⟨?_, rfl⟩
  rintro d (h | h | h | h) <;> subst h <;> rfl

/-- Witness for C1 at d = Left. -/
theorem C1_opposite_involutive_witness :
    OppositeDirection (OppositeDirection MLeft) = MLeft :=
  C1_opposite_involutive.1 MLeft (Or.inr (Or.inr (Or.inl rfl)))

/-- C2 fails as stated: the opposite of Right (1) is Left (3), not 5 - 1 = 4. -/
theorem C2_counterexample : ¬ (OppositeDirection MRight = 5 - MRight) := by
  decide

/-- C2, amended: for every motion direction d in 1..4 the table `_opposite`
holds the direction two steps further round the cycle Right, Down, Left, Up:
d + 2 for Right and Down, d - 2 for Left and Up.  So Right and Left are
opposite to each other, and so are Down and Up. -/
theorem C2_opposite_table (d : Nat) (h1 : 1 ≤ d) (h4 : d ≤ 4) :
    OppositeDirection d = if d ≤ 2 then d + 2 else d - 2 := by
  have hd : d = 1 ∨ d = 2 ∨ d = 3 ∨ d = 4 := by omega
  rcases hd with h | h | h | h <;> subst h <;> decide

/-- Witness for the amended C2 at d = Up. -/
theorem C2_opposite_table_witness :
    OppositeDirection 4 = if 4 ≤ 2 then 4 + 2 else 4 - 2 :=
  C2_opposite_table 4 (by decide) (by decide)

/-- C3: the value of `Chase` does not change when the neighbour's column is
shifted by 28 in either direction, for every sprite, game state (so every
maze) and row. -/
theorem C3_chase_shift_28 (env : Env) (g : Game) (s : Sprite) (cx cy : Int) :
    Chase env g s (cx + 28) cy = Chase env g s cx cy ∧
    Chase env g s (cx - 28) cy = Chase env g s cx cy := by
  have hup : wrapInto 28 (cx + 28) = wrapInto 28 cx := by
    rw [wrapInto_eq_emod 28 (by decide), wrapInto_eq_emod 28 (by decide)]; omega
  have hdn : wrapInto 28 (cx - 28) = wrapInto 28 cx := by
    rw [wrapInto_eq_emod 28 (by decide), wrapInto_eq_emod 28 (by decide)]; omega
  unfold Chase
  rw [hup, hdn]
  exact ⟨rfl, rfl⟩

/-- C4: at a passable cell the code does not return the squared distance once
that exceeds 32767.  For PINKY with target column 253 and the empty cell
(12, 6) the squared distance is 241 * 241 = 58081; `Chase` returns -7455. -/
theorem C4_chase_distance_wraps :
    GetTile Env.sample Game.boot 12 6 = 0 ∧
    ((pinkyFarTarget.tx : Int) - 12) ^ 2 + ((pinkyFarTarget.ty : Int) - 6) ^ 2 = 58081 ∧
    Chase Env.sample Game.boot pinkyFarTarget 12 6 = -7455 := by
  refine ⟨by decide, by decide, ?_⟩
  rw [Chase_passable]
  · decide
  · rw [Ne, Chase_eq_sentinel_iff Env.sample Game.boot pinkyFarTarget 12 6 0 (by decide)]
    decide

/-- C5: after `Init()`, for every column x in 0..27 and every row y in 3..32,
`GetDot(x, y)` is true if and only if the tile of the current level's maze at
(x, y) is DOT (7) or PILL (14).  The game is then in ReadyState, in which
`GetTile` is the plain read of the level's maze table. -/
theorem C5_init_dots_match_tiles (env : Env) (g : Game) (x y : Nat) (hx : x < 28)
    (hy : 3 ≤ y) (hy2 : y ≤ 32) :
    (Init env g)._state = ReadyState ∧
    (GetDot (Init env g) x y = true ↔
      (GetTile env (Init env g) x y = DOT ∨ GetTile env (Init env g) x y = PILL)) := by
  refine ⟨Init_state env g, ?_⟩
  have hinit : ∃ g0, Init env g = initDots env g0 := ⟨_, rfl⟩
  obtain ⟨g0, hg0⟩ := hinit
  rw [hg0, sameButDots_tile env (initDots_frame env g0)]
  exact GetDot_initDots env g0 x y hx hy (by omega)

/-- Witness for C5: the sample maze at the pill cell (1, 6). -/
theorem C5_init_dots_match_tiles_witness :
    (1 : Nat) < 28 ∧ 3 ≤ (6 : Nat) ∧ (6 : Nat) ≤ 32 ∧
    (Init Env.sample Game.boot)._state = ReadyState ∧
    (GetDot (Init Env.sample Game.boot) 1 6 = true ↔
      (GetTile Env.sample (Init Env.sample Game.boot) (1 : Nat) (6 : Nat) = DOT ∨
        GetTile Env.sample (Init Env.sample Game.boot) (1 : Nat) (6 : Nat) = PILL)) :=
  ⟨by decide, by decide, by decide,
    C5_init_dots_match_tiles Env.sample Game.boot 1 6 (by decide) (by decide) (by decide)⟩

/-- C6: the dot bitmap only loses bits between two calls of `Init`.  After
`EatDot(cx, cy)` the bit of cell (cx, cy) is clear and the bit of every other
cell of the 28 columns is what it was.  `Step`, with its calls of `Init()`
replaced by any `init` that sets no dot bit, sets no dot bit either, so every
other operation reachable from `Step` leaves each bit as it was or clears it;
and after `Step` itself every bit that is set was set before or is set in a
bitmap that a call of `Init` returned. -/
theorem C6_dot_bitmap_monotone (env : Env) (init : Game → Game)
    (hinit : ∀ b, dotsWithin (init b) b) (g : Game) (cx cy x y : Nat)
    (hcx : cx < 28) (hx : x < 28) (hne : ¬ (x = cx ∧ y = cy)) :
    GetDot (EatDot env g cx cy) cx cy = false ∧
    GetDot (EatDot env g cx cy) x y = GetDot g x y ∧
    dotsWithin (StepWith init env g) g ∧
    Step env g = StepWith (Init env) env g ∧
    (dotsWithin (Step env g) g ∨ ∃ g0, dotsWithin (Step env g) (Init env g0)) :=
  ⟨GetDot_EatDot_self env g cx cy,
    GetDot_EatDot_other env g cx cy x y (by omega) (by omega) hne,
    StepWith_dotsWithin init hinit env g, rfl, Step_dots env g⟩

/-- Witness for C6: the sample game, eating at (1, 6) and looking at (2, 6);
`init` is the identity. -/
theorem C6_dot_bitmap_monotone_witness :
    (∀ b : Game, dotsWithin (id b) b) ∧ (1 : Nat) < 28 ∧ (2 : Nat) < 28 ∧
    ¬ ((2 : Nat) = 1 ∧ (6 : Nat) = 6) ∧
    GetDot (EatDot Env.sample Game.sampleDots 1 6) 1 6 = false ∧
    GetDot (EatDot Env.sample Game.sampleDots 1 6) 2 6 = GetDot Game.sampleDots 2 6 ∧
    dotsWithin (StepWith id Env.sample Game.sampleDots) Game.sampleDots :=
  have h := C6_dot_bitmap_monotone Env.sample id (fun b => dotsWithin_refl b)
    Game.sampleDots 1 6 2 6 (by decide) (by decide) (by decide)
  ⟨fun b => dotsWithin_refl b, by decide, by decide, by decide, h.1, h.2.1, h.2.2.1⟩

/-- C8: `EatDot` on a cell whose dot bit is set adds exactly 10 to the score
when the tile is a dot and exactly 50 when it is a pill, and 100 more in the
one case that `Score` sees the life threshold crossed; on a cell whose dot bit
is clear it returns the game as it was (score, timers and ghosts included). -/
theorem C8_eatdot_score (env : Env) (g : Game) (cx cy : Nat) :
    (GetDot g cx cy = true → GetTile env g cx cy = DOT →
      (EatDot env g cx cy)._score =
        if g._lifescore < g._score + 10 ∧ 0 < Int.tmod (g._score + 10) 10000
        then g._score + 10 + 100 else g._score + 10) ∧
    (GetDot g cx cy = true → GetTile env g cx cy = PILL →
      (EatDot env g cx cy)._score =
        if g._lifescore < g._score + 50 ∧ 0 < Int.tmod (g._score + 50) 10000
        then g._score + 50 + 100 else g._score + 50) ∧
    (GetDot g cx cy = false → EatDot env g cx cy = g) := by
  refine ⟨fun hdot ht => ?_, fun hdot ht => ?_, fun hdot => EatDot_clear env g cx cy hdot⟩
  · have hne : GetTile env g cx cy ≠ PILL := by
      rw [ht]
      decide
    rw [EatDot_dot env g cx cy hdot hne, Score_score]
  · rw [EatDot_pill env g cx cy hdot ht, Score_score]

/-- Witness for C8: the dot at (2, 6) of the sample maze takes the score from
0 to 10. -/
theorem C8_eatdot_score_witness :
    GetDot Game.sampleDots 2 6 = true ∧
    GetTile Env.sample Game.sampleDots (2 : Nat) (6 : Nat) = DOT ∧
    (EatDot Env.sample Game.sampleDots 2 6)._score = 10 :=
  ⟨by decide, by decide,
    ((C8_eatdot_score Env.sample Game.sampleDots 2 6).1 (by decide) (by decide)).trans
      (by decide)⟩

/-- C10: when the bonus is on display (`ACTIVEBONUS` = 1) in Pac-Man's cell and
`ACTUALBONUS` is in 0..7, the collision code passes `ACTUALBONUS` * 50 (old
value) to `Score`, increments `ACTUALBONUS`, wrapping from 7 to 0, and on the
wrap adds one life if `LIFES` (as `Score` left it) is below `MAXLIFES`; it
sets `ACTIVEBONUS` to 0 and the inactive countdown to 600.  `ACTUALBONUS`
stays in 0..7; from 3 it goes to 4 with 150 points. -/
theorem C10_bonus_collect (g : Game) (hact : g.ACTIVEBONUS = 1)
    (hcx : g._BonusSprite.cx = (g._sprites PACMAN).cx)
    (hcy : g._BonusSprite.cy = (g._sprites PACMAN).cy) (hab : g.ACTUALBONUS ≤ 7) :
    (collideBonus g)._score =
      (if g._lifescore < g._score + (g.ACTUALBONUS : Int) * 50 ∧
          0 < Int.tmod (g._score + (g.ACTUALBONUS : Int) * 50) 10000
        then g._score + (g.ACTUALBONUS : Int) * 50 + 100
        else g._score + (g.ACTUALBONUS : Int) * 50) ∧
    (collideBonus g).ACTUALBONUS = (if g.ACTUALBONUS = 7 then 0 else g.ACTUALBONUS + 1) ∧
    (collideBonus g).ACTUALBONUS ≤ 7 ∧
    (collideBonus g).LIFES =
      (if g.ACTUALBONUS = 7 ∧ (Score g ((g.ACTUALBONUS : Int) * 50)).LIFES < MAXLIFES
        then (Score g ((g.ACTUALBONUS : Int) * 50)).LIFES + 1
        else (Score g ((g.ACTUALBONUS : Int) * 50)).LIFES) ∧
    (collideBonus g).ACTIVEBONUS = 0 ∧
    (collideBonus g)._BonusInactiveTimmer = 600 ∧
    (g.ACTUALBONUS = 3 →
      (collideBonus g).ACTUALBONUS = 4 ∧
      (collideBonus g)._score =
        (if g._lifescore < g._score + 150 ∧ 0 < Int.tmod (g._score + 150) 10000
          then g._score + 150 + 100 else g._score + 150)) := by
  have hfit : toInt16 ((g.ACTUALBONUS : Int) * 50) = (g.ACTUALBONUS : Int) * 50 := by
    unfold toInt16
    omega
  have hab2 : (Score g ((g.ACTUALBONUS : Int) * 50)).ACTUALBONUS ≤ 7 := by
    rw [Score_ACTUALBONUS]
    exact hab
  have hscore : (collideBonus g)._score =
      (if g._lifescore < g._score + (g.ACTUALBONUS : Int) * 50 ∧
          0 < Int.tmod (g._score + (g.ACTUALBONUS : Int) * 50) 10000
        then g._score + (g.ACTUALBONUS : Int) * 50 + 100
        else g._score + (g.ACTUALBONUS : Int) * 50) := by
    rw [collideBonus_hit g hact hcx hcy, hfit]
    show (bonusAdvance (Score g ((g.ACTUALBONUS : Int) * 50)))._score = _
    rw [bonusAdvance_score, Score_score]
  have hbonus : (collideBonus g).ACTUALBONUS =
      (if g.ACTUALBONUS = 7 then 0 else g.ACTUALBONUS + 1) := by
    rw [collideBonus_hit g hact hcx hcy, hfit]
    show (bonusAdvance (Score g ((g.ACTUALBONUS : Int) * 50))).ACTUALBONUS = _
    rw [bonusAdvance_ACTUALBONUS _ hab2, Score_ACTUALBONUS]
  refine ⟨hscore, hbonus, ?_, ?_, ?_, ?_, ?_⟩
  · rw [hbonus]
    split_ifs <;> omega
  · rw [collideBonus_hit g hact hcx hcy, hfit]
    show (bonusAdvance (Score g ((g.ACTUALBONUS : Int) * 50))).LIFES = _
    rw [bonusAdvance_LIFES _ hab2, Score_ACTUALBONUS]
  · rw [collideBonus_hit g hact hcx hcy]
  · rw [collideBonus_hit g hact hcx hcy]
    rfl
  · intro h3
    rw [hbonus, hscore, h3]
    exact ⟨rfl, rfl⟩

/-- Witness for C10: the bonus counter at 3, the score going from 0 to 150. -/
theorem C10_bonus_collect_witness :
    Game.sampleBonus.ACTIVEBONUS = 1 ∧ Game.sampleBonus.ACTUALBONUS ≤ 7 ∧
    Game.sampleBonus.ACTUALBONUS = 3 ∧
    (collideBonus Game.sampleBonus).ACTUALBONUS = 4 ∧
    (collideBonus Game.sampleBonus)._score = 150 ∧
    (collideBonus Game.sampleBonus).ACTIVEBONUS = 0 ∧
    (collideBonus Game.sampleBonus)._BonusInactiveTimmer = 600 :=
  have h := C10_bonus_collect Game.sampleBonus (by decide) (by decide) (by decide) (by decide)
  ⟨by decide, by decide, by decide, (h.2.2.2.2.2.2 (by decide)).1,
    (h.2.2.2.2.2.2 (by decide)).2.trans (by decide), h.2.2.2.2.1, h.2.2.2.2.2.1⟩

/-- C11: LIFES leaves the range 0..MAXLIFES.  In a game under way with five
lives and 39990 points, the `Step` in which Pac-Man eats the pill at cell (1, 6)
takes the score past 40000 and `Score` gives a sixth life. -/
theorem C11_lifes_exceed_max :
    Game.sampleFiveLives._inited = true ∧ Game.sampleFiveLives.LIFES ≤ MAXLIFES ∧
      (Step Env.sample Game.sampleFiveLives)._score = 40140 ∧
      MAXLIFES < (Step Env.sample Game.sampleFiveLives).LIFES :=
  ⟨by decide, by decide, by decide, by decide⟩

/-- C12: a call of `Score` after which the score is above `_lifescore` and is
no multiple of 10000 adds 100 more and raises LIFES by one, with no cap: from
MAXLIFES lives it goes to MAXLIFES + 1.  Every other call leaves LIFES as it
is. -/
theorem C12_score_life_uncapped (g : Game) (d : Int) :
    (g._lifescore < g._score + d ∧ 0 < Int.tmod (g._score + d) 10000 →
      (Score g d).LIFES = (g.LIFES + 1) % 256 ∧ (Score g d)._score = g._score + d + 100 ∧
        (g.LIFES = MAXLIFES → (Score g d).LIFES = MAXLIFES + 1)) ∧
    (¬ (g._lifescore < g._score + d ∧ 0 < Int.tmod (g._score + d) 10000) →
      (Score g d).LIFES = g.LIFES ∧ (Score g d)._score = g._score + d) := by
  refine ⟨fun h => ?_, fun h => ?_⟩
  · rw [Score_LIFES, Score_score, if_pos h, if_pos h]
    refine ⟨rfl, rfl, fun h5 => ?_⟩
    rw [h5]
    rfl
  · rw [Score_LIFES, Score_score, if_neg h, if_neg h]
    exact ⟨rfl, rfl⟩

/-- With five lives, 39990 points and the threshold at 40000, `Score(50)`
leaves six lives and 40140 points; `Score(5)` stays below the threshold and
leaves five lives. -/
theorem C12_score_life_uncapped_witness :
    Game.sampleFiveLives.LIFES = MAXLIFES ∧
      (Score Game.sampleFiveLives 50).LIFES = MAXLIFES + 1 ∧
      (Score Game.sampleFiveLives 50)._score = 39990 + 50 + 100 ∧
      (Score Game.sampleFiveLives 5).LIFES = 5 :=
  ⟨by decide,
    ((C12_score_life_uncapped Game.sampleFiveLives 50).1 (by decide)).2.2 (by decide),
    ((C12_score_life_uncapped Game.sampleFiveLives 50).1 (by decide)).2.1,
    ((C12_score_life_uncapped Game.sampleFiveLives 5).2 (by decide)).1⟩

/-- C16: `PackmanDied` with LIFES = 0 and GAMEWIN other than 1 (0 in
particular) ends in attract mode: GAMEOVER = 1, DEMO = 1, LEVEL = 1,
LIFES = START_LIFES, score = 0, and the dot bitmap is built anew from the
level-1 maze table: the bit of cell (x, y) is set exactly when the tile there
is 7 or 14. -/
theorem C16_pacman_died_game_over (env : Env) (g : Game) (h0 : g.LIFES = 0)
    (hw : g.GAMEWIN ≠ 1) :
    (PackmanDied env g).GAMEOVER = 1 ∧ (PackmanDied env g).DEMO = 1 ∧
    (PackmanDied env g).LEVEL = 1 ∧ (PackmanDied env g).LIFES = START_LIFES ∧
    (PackmanDied env g)._score = 0 ∧
    (∀ x y : Nat, x < 28 → 3 ≤ y → y < 33 →
      (GetDot (PackmanDied env g) x y = true ↔
        (env.playMap1 ((y : Int) * 28 + x) % 256 = 7 ∨
          env.playMap1 ((y : Int) * 28 + x) % 256 = 14))) := by
  have hd : PackmanDied env g =
      Init env { g with GAMEOVER := 1, LEVEL := START_LEVEL, LIFES := START_LIFES, DEMO := 1 } := by
    unfold PackmanDied PackmanDiedWith
    rw [if_pos (by omega)]
  have hf := Init_fresh env
    { g with GAMEOVER := 1, LEVEL := START_LEVEL, LIFES := START_LIFES, DEMO := 1 } hw
  rw [hd]
  refine ⟨(Init_kept env _).1, (Init_kept env _).2.1, hf.1, hf.2.1, hf.2.2.1, ?_⟩
  intro x y hx hy hy2
  rw [GetDot_Init env _ x y hx hy hy2,
    GetTile_ready_level1 env _ (Init_state env _) (by rw [hf.1]) x y]

/-- From no lives left the game goes to attract mode, and on the sample maze
the pill of cell (1, 6) is back. -/
theorem C16_pacman_died_game_over_witness :
    (PackmanDied Env.sample { Game.sampleFiveLives with LIFES := 0 }).GAMEOVER = 1 ∧
      (PackmanDied Env.sample { Game.sampleFiveLives with LIFES := 0 }).DEMO = 1 ∧
      (PackmanDied Env.sample { Game.sampleFiveLives with LIFES := 0 }).LIFES = 2 ∧
      (PackmanDied Env.sample { Game.sampleFiveLives with LIFES := 0 })._score = 0 ∧
      GetDot (PackmanDied Env.sample { Game.sampleFiveLives with LIFES := 0 }) 1 6 = true ∧
      GetDot (PackmanDied Env.sample { Game.sampleFiveLives with LIFES := 0 }) 3 6 = false :=
  have h := C16_pacman_died_game_over Env.sample { Game.sampleFiveLives with LIFES := 0 } rfl
    (by decide)
  ⟨h.1, h.2.1, h.2.2.2.1, h.2.2.2.2.1,
    (h.2.2.2.2.2 1 6 (by decide) (by decide) (by decide)).2 (by decide),
    Bool.eq_false_iff.mpr
      (fun hd => absurd ((h.2.2.2.2.2 3 6 (by decide) (by decide) (by decide)).1 hd)
        (by decide))⟩

/-- C17: `GetSpeed` returns the value of the specified speed table for every
sprite and every game: 90 or 80 for Pac-Man by the frightened timer; for a
ghost 40 in FrightenedState, else 100 in DeadEyesState, else 40 in the tunnel,
else 75. -/
theorem C17_getspeed_table (g : Game) (s : Sprite) :
    GetSpeed g s = speedTable g._frightenedTimer s := by
  unfold GetSpeed speedTable
  by_cases hw : s.who = PACMAN
  · rw [if_pos hw, if_pos hw]
    by_cases ht : g._frightenedTimer = 0
    · rw [if_neg (not_not.mpr ht), if_neg (by omega)]
    · rw [if_pos ht, if_pos (by omega)]
  · rw [if_neg hw, if_neg hw]

/-- C18 fails as stated: a Pac-Man that stands at x = 0 in the tunnel row and
heads left is at x = 222 after the `Step`, in column (222 + 4) >> 3 = 28, which
is neither below 28 nor 28 mod 28 = 0. -/
theorem C18_counterexample :
    (Game.sampleTunnel._sprites PACMAN)._x = 0 ∧
      ((Step Env.sample Game.sampleTunnel)._sprites PACMAN)._x = 222 ∧
      ((Step Env.sample Game.sampleTunnel)._sprites PACMAN).cx = 28 ∧
      ¬ (((Step Env.sample Game.sampleTunnel)._sprites PACMAN).cx < 28) ∧
      ¬ (((Step Env.sample Game.sampleTunnel)._sprites PACMAN).cx =
        toU8 ((((Step Env.sample Game.sampleTunnel)._sprites PACMAN)._x + 4) / 8) % 28) :=
  ⟨by decide, by decide, by decide, by decide, by decide⟩

/-- C18, amended: in every reachable state every sprite, the bonus sprite
included, has x in 0..223, its column is `(x + 4) >> 3` with no reduction
modulo 28, so 28 at most and 28 exactly for x in 220..223, and its row is
`(y + 4) >> 3` as a `uint8_t` holds it, below 36 unless y is outside -4..283. -/
theorem C18_cell_from_position (env : Env) (g : Game) (hg : Reachable env g) (j : Nat) :
    (0 ≤ (g._sprites j)._x ∧ (g._sprites j)._x < 224 ∧
      ((g._sprites j).cx : Int) = ((g._sprites j)._x + 4) / 8 ∧
      (g._sprites j).cy = toU8 (((g._sprites j)._y + 4) / 8) ∧
      (g._sprites j).cx ≤ 28 ∧ ((g._sprites j).cx = 28 ↔ 220 ≤ (g._sprites j)._x) ∧
      ((g._sprites j).cy < 36 ∨ (g._sprites j)._y < -4 ∨ 284 ≤ (g._sprites j)._y)) ∧
    (0 ≤ g._BonusSprite._x ∧ g._BonusSprite._x < 224 ∧
      (g._BonusSprite.cx : Int) = (g._BonusSprite._x + 4) / 8 ∧
      g._BonusSprite.cy = toU8 ((g._BonusSprite._y + 4) / 8) ∧
      g._BonusSprite.cx ≤ 28 ∧ (g._BonusSprite.cx = 28 ↔ 220 ≤ g._BonusSprite._x) ∧
      (g._BonusSprite.cy < 36 ∨ g._BonusSprite._y < -4 ∨ 284 ≤ g._BonusSprite._y)) := by
  have h := Reachable_cellInv env g hg
  have hs := cellOK_column _ (h.1 j)
  have hb := cellOK_column _ h.2
  refine ⟨⟨(h.1 j).x0, (h.1 j).x1, hs.1, (h.1 j).cy, hs.2.1, hs.2.2.1, ?_⟩,
    ⟨h.2.x0, h.2.x1, hb.1, h.2.cy, hb.2.1, hb.2.2.1, ?_⟩⟩
  · by_cases hy : -4 ≤ (g._sprites j)._y ∧ (g._sprites j)._y < 284
    · exact Or.inl (hs.2.2.2 hy)
    · right
      omega
  · by_cases hy : -4 ≤ g._BonusSprite._y ∧ g._BonusSprite._y < 284
    · exact Or.inl (hb.2.2.2 hy)
    · right
      omega

/-- After two `Step`s from the start state Pac-Man's column is the one of its
position and is 28 at most. -/
theorem C18_cell_from_position_witness :
    Reachable Env.sample (Step Env.sample (Step Env.sample Game.boot)) ∧
      (((Step Env.sample (Step Env.sample Game.boot))._sprites PACMAN).cx : Int) =
        (((Step Env.sample (Step Env.sample Game.boot))._sprites PACMAN)._x + 4) / 8 ∧
      ((Step Env.sample (Step Env.sample Game.boot))._sprites PACMAN).cx ≤ 28 :=
  have h := C18_cell_from_position Env.sample (Step Env.sample (Step Env.sample Game.boot))
    (Reachable.step (Reachable.step Reachable.boot)) PACMAN
  ⟨Reachable.step (Reachable.step Reachable.boot), h.1.2.2.1, h.1.2.2.2.2.1⟩

/-- C19 fails as stated: in the `Step` in which Pac-Man eats the pill at cell
(1, 6), BINKY, in RunState at x = 106 between two cells and not moving on this
frame, is turned from Left to Right by `EatDot`. -/
theorem C19_counterexample :
    (Game.sampleFiveLives._sprites BINKY)._x % 8 = 2 ∧
      (Game.sampleFiveLives._sprites BINKY).dir = MLeft ∧
      ((Step Env.sample Game.sampleFiveLives)._sprites BINKY)._x % 8 = 2 ∧
      ((Step Env.sample Game.sampleFiveLives)._sprites BINKY).dir = MRight ∧
      ¬ (((Step Env.sample Game.sampleFiveLives)._sprites BINKY).dir ≠
          (Game.sampleFiveLives._sprites BINKY).dir →
        (Game.sampleFiveLives._sprites BINKY)._x % 8 = 0 ∧
          (Game.sampleFiveLives._sprites BINKY)._y % 8 = 0) :=
  ⟨by decide, by decide, by decide, by decide, by decide⟩

/-- C19, amended: `ChooseDir` acts on a cell-aligned sprite only.  In the body
of the movement loop for sprite `i`, a sprite `j` that is another one, or is
`i` itself off the grid, keeps its direction, unless it is a ghost in RunState
that the pill Pac-Man eats on this move reverses.  `UpdateTimers` keeps every
direction, but reverses a frightened ghost when the frightened time ends.
Neither reversal looks at the alignment.  `UpdateTargets`, the state timeout,
the bonus collision and `DrawAll` keep every direction, and so does a ghost
collision unless it is Pac-Man's death, which initialises the sprites. -/
theorem C19_direction_changes (env : Env) (g : Game) (i j : Nat) :
    (¬ (j = i ∧ (g._sprites i).aligned) →
      ((moveSprite env i g)._sprites j).dir = (g._sprites j).dir ∨
        (j < 4 ∧ (g._sprites j).state = RunState ∧
          ((moveSprite env i g)._sprites j).dir = OppositeDirection (g._sprites j).dir)) ∧
    (((UpdateTimers g)._sprites j).dir = (g._sprites j).dir ∨
      (j < 4 ∧ (g._sprites j).state = FrightenedState ∧
        ((UpdateTimers g)._sprites j).dir = OppositeDirection (g._sprites j).dir)) ∧
    sameDirs g (UpdateTargets g) ∧ sameDirs g (stateTimeout g) ∧
    sameDirs g (collideBonus g) ∧ sameDirs g (DrawAll g) ∧
    (∀ init : Game → Game,
      sameDirs g (collideGhostWith init env i g) ∨
        collideGhostWith init env i g = PackmanDiedWith init env g) := by
  refine ⟨fun h => ?_, ?_, UpdateTargets_dirs g, stateTimeout_dirs g, collideBonus_dirs g,
    DrawAll_dirs g, fun init => collideGhostWith_dirs init env i g⟩
  · by_cases hji : j = i
    · subst hji
      exact moveSprite_self_dir env j g (fun ha => h ⟨rfl, ha⟩)
    · rcases moveSprite_other env i g j hji with h1 | ⟨h4, h1⟩
      · left
        rw [h1]
      · rw [h1]
        rcases frighten_dir (g._sprites j) with hd | ⟨hr, hd⟩
        · exact Or.inl hd
        · exact Or.inr ⟨h4, hr, hd⟩
  · rcases UpdateTimers_sprites g j with h1 | ⟨h4, h1⟩
    · left
      rw [h1]
    · rw [h1]
      rcases releaseFrightened_dir (g._sprites j) with hd | ⟨hr, hd⟩
      · exact Or.inl hd
      · exact Or.inr ⟨h4, hr, hd⟩

/-- On Pac-Man's move in the sample game, Pac-Man itself, 4 pixels off the
grid, keeps heading left, and BINKY keeps its direction or is reversed as a
ghost in RunState. -/
theorem C19_direction_changes_witness :
    ((moveSprite Env.sample PACMAN Game.sampleFiveLives)._sprites PACMAN).dir = MLeft ∧
      (((moveSprite Env.sample PACMAN Game.sampleFiveLives)._sprites BINKY).dir = MLeft ∨
        (BINKY < 4 ∧ (Game.sampleFiveLives._sprites BINKY).state = RunState ∧
          ((moveSprite Env.sample PACMAN Game.sampleFiveLives)._sprites BINKY).dir =
            OppositeDirection MLeft)) :=
  ⟨((C19_direction_changes Env.sample Game.sampleFiveLives PACMAN PACMAN).1
      (fun h => absurd h.2.1 (by decide))).elim id (fun h => absurd h.1 (by decide)),
    (C19_direction_changes Env.sample Game.sampleFiveLives PACMAN BINKY).1
      (fun h => absurd h.1 (by decide))⟩

/-- C20 fails as stated: in the `Step` in which Pac-Man moves from x = 12 to
x = 10 and catches the frightened BINKY there, the game enters DeadGhostState
with Pac-Man at x = 10 and `lastx` = 12, and one `Step` later, still in
DeadGhostState, that has not changed. -/
theorem C20_counterexample :
    (Step Env.sample Game.sampleChase)._state = DeadGhostState ∧
      ((Step Env.sample Game.sampleChase)._sprites PACMAN).state ≠ DeadEyesState ∧
      ((Step Env.sample Game.sampleChase)._sprites PACMAN)._x = 10 ∧
      ((Step Env.sample Game.sampleChase)._sprites PACMAN).lastx = 12 ∧
      (Step Env.sample (Step Env.sample Game.sampleChase))._state = DeadGhostState ∧
      ((Step Env.sample (Step Env.sample Game.sampleChase))._sprites PACMAN)._x = 10 ∧
      ((Step Env.sample (Step Env.sample Game.sampleChase))._sprites PACMAN).lastx = 12 :=
  ⟨by decide, by decide, by decide, by decide, by decide, by decide, by decide⟩

/-- C20, amended: in DeadGhostState the movement loop of `MoveAll` leaves
every sprite that is not in DeadEyesState in its place: x, y, `lastx` and
`lasty` are after the loop what they were before it (and so are the cell, the
speed accumulator and the phase), and the game is still in DeadGhostState.
`lastx` and `lasty` are written only when a sprite moves, so they keep the
position before the sprite's last move. -/
theorem C20_frozen_sprites_stay (env : Env) (g : Game) (j : Nat)
    (hs : g._state = DeadGhostState) (hj : (g._sprites j).state ≠ DeadEyesState) :
    ((forEach 5 (moveSprite env) g)._sprites j)._x = (g._sprites j)._x ∧
      ((forEach 5 (moveSprite env) g)._sprites j)._y = (g._sprites j)._y ∧
      ((forEach 5 (moveSprite env) g)._sprites j).lastx = (g._sprites j).lastx ∧
      ((forEach 5 (moveSprite env) g)._sprites j).lasty = (g._sprites j).lasty ∧
      (g._sprites j).sameBody ((forEach 5 (moveSprite env) g)._sprites j) ∧
      (forEach 5 (moveSprite env) g)._state = DeadGhostState := by
  have h := moveLoop_frozen env g j hs hj 5
  exact ⟨h.2.2.x, h.2.2.y, h.2.2.lastx, h.2.2.lasty, h.2.2, h.1⟩

/-- In the game after Pac-Man caught BINKY the movement loop leaves Pac-Man at
x = 10 with `lastx` = 12. -/
theorem C20_frozen_sprites_stay_witness :
    (Step Env.sample Game.sampleChase)._state = DeadGhostState ∧
      ((forEach 5 (moveSprite Env.sample) (Step Env.sample Game.sampleChase))._sprites
        PACMAN)._x = 10 ∧
      ((forEach 5 (moveSprite Env.sample) (Step Env.sample Game.sampleChase))._sprites
        PACMAN).lastx = 12 :=
  have h := C20_frozen_sprites_stay Env.sample (Step Env.sample Game.sampleChase) PACMAN
    (by decide) (by decide)
  ⟨by decide, h.1.trans (by decide), h.2.2.1.trans (by decide)⟩

/-- C21 fails as stated: after the first `Step` of the program, a reachable
state, BINKY is in PenState in cell (14, 14), above the pen box, and Pac-Man is
in PenState with a pen timer of 0. -/
theorem C21_counterexample :
    Reachable Env.sample (Step Env.sample Game.boot) ∧
      ((Step Env.sample Game.boot)._sprites BINKY).state = PenState ∧
      ((Step Env.sample Game.boot)._sprites BINKY).cx = 14 ∧
      ((Step Env.sample Game.boot)._sprites BINKY).cy = 14 ∧
      ¬ (15 ≤ ((Step Env.sample Game.boot)._sprites BINKY).cy) ∧
      ((Step Env.sample Game.boot)._sprites PACMAN).state = PenState ∧
      ((Step Env.sample Game.boot)._sprites PACMAN).pentimer = 0 := by
  have h := (Step_first_sprites Env.sample Game.boot rfl rfl (by decide) rfl).2
  have hb := h BINKY (by decide)
  have hp := h PACMAN (by decide)
  refine ⟨Reachable.step Reachable.boot, hb.1, hb.2.1, hb.2.2.1, ?_, hp.1, hp.2.2.2⟩
  rw [hb.2.2.1]
  decide

/-- C21, amended: in every reachable state in which `Init` has run,
each of the four ghosts that is in PenState has a pen timer above 0.  (The cell
of such a ghost is not confined to the pen box, and Pac-Man is in PenState too,
with a pen timer of 0.) -/
theorem C21_pen_timer (env : Env) (g : Game) (hg : Reachable env g) (hi : g._inited = true)
    (j : Nat) (hj : j < 4) (hs : (g._sprites j).state = PenState) :
    0 < (g._sprites j).pentimer :=
  Reachable_all (penTimer_rule env) g hg hi j (by omega) hj hs

theorem C21_pen_timer_witness :
    Reachable Env.sample (Step Env.sample Game.boot) ∧
      (Step Env.sample Game.boot)._inited = true ∧ PINKY < 4 ∧
      ((Step Env.sample Game.boot)._sprites PINKY).state = PenState ∧
      0 < ((Step Env.sample Game.boot)._sprites PINKY).pentimer :=
  ⟨Reachable.step Reachable.boot,
    (Step_first_sprites Env.sample Game.boot rfl rfl (by decide) rfl).1, by decide,
    ((Step_first_sprites Env.sample Game.boot rfl rfl (by decide) rfl).2 PINKY (by decide)).1,
    C21_pen_timer Env.sample (Step Env.sample Game.boot) (Reachable.step Reachable.boot)
      (Step_first_sprites Env.sample Game.boot rfl rfl (by decide) rfl).1 PINKY (by decide)
      ((Step_first_sprites Env.sample Game.boot rfl rfl (by decide) rfl).2 PINKY (by decide)).1⟩

/-- C23 fails as stated: with `_scIndex` = 2, even, `UpdateTargets` sends BINKY
after Pac-Man's cell (2, 8), the chase target, and not to its scatter corner
(2, 0); with `_scIndex` = 1, odd, it sends BINKY to the scatter corner. -/
theorem C23_counterexample :
    Game.sampleHunt._scIndex % 2 = 0 ∧
      ((UpdateTargets Game.sampleHunt)._sprites BINKY).tx = 2 ∧
      ((UpdateTargets Game.sampleHunt)._sprites BINKY).ty = 8 ∧
      ((UpdateTargets { Game.sampleHunt with _scIndex := 1 })._sprites BINKY).tx = 2 ∧
      ((UpdateTargets { Game.sampleHunt with _scIndex := 1 })._sprites BINKY).ty = 0 ∧
      tableAt _scatterTargets ((BINKY : Int) * 2) = 2 ∧
      tableAt _scatterTargets ((BINKY : Int) * 2 + 1) = 0 :=
  ⟨by decide, by decide, by decide, by decide, by decide, by decide, by decide⟩

/-- C23, amended: outside ReadyState the flag `scatter` that `UpdateTargets`
passes to the targeting of each ghost is set exactly when `_scIndex` is odd.
With the flag set, a ghost that is not dead, has its pen timer at 0 and is
outside the pen gets its scatter corner from `_scatterTargets`; with the flag
clear, such a ghost, unless frightened, gets the target of the chase block. -/
theorem C23_scatter_iff_odd (g : Game) (hs : g._state ≠ ReadyState) :
    UpdateTargets g = forEach 4 (targetGhost (decide (g._scIndex % 2 = 1))) (PacmanAI g) ∧
    (∀ (i : Nat) (b : Game), (b._sprites i).state ≠ DeadEyesState →
      (b._sprites i).pentimer = 0 → InPen (b._sprites i).cx (b._sprites i).cy = false →
      ((targetGhost true i b)._sprites i).tx =
          tableAt _scatterTargets (((b._sprites i).who : Int) * 2) ∧
        ((targetGhost true i b)._sprites i).ty =
          tableAt _scatterTargets (((b._sprites i).who : Int) * 2 + 1) ∧
        ((b._sprites i).state ≠ FrightenedState →
          ((targetGhost false i b)._sprites i).tx = toU8 (chaseTarget b (b._sprites i)).1 ∧
            ((targetGhost false i b)._sprites i).ty = toU8 (chaseTarget b (b._sprites i)).2)) := by
  refine ⟨UpdateTargets_phase g hs, fun i b he hp hin => ?_⟩
  rw [targetGhost_scatter i b he hp hin]
  refine ⟨?_, ?_, fun hf => ?_⟩
  · show (if i = i then Scatter (b._sprites i) else b._sprites i).tx = _
    rw [if_pos rfl]
    rfl
  · show (if i = i then Scatter (b._sprites i) else b._sprites i).ty = _
    rw [if_pos rfl]
    rfl
  · rw [targetGhost_chase i b he hf hp hin]
    constructor
    · show (if i = i then _ else b._sprites i).tx = _
      rw [if_pos rfl]
      rfl
    · show (if i = i then _ else b._sprites i).ty = _
      rw [if_pos rfl]
      rfl

/-- In the sample chase game, taken with `_scIndex` = 1, PINKY gets its scatter
corner (25, 0). -/
theorem C23_scatter_iff_odd_witness :
    UpdateTargets { Game.sampleHunt with _scIndex := 1 } =
        forEach 4 (targetGhost (decide (1 % 2 = 1)))
          (PacmanAI { Game.sampleHunt with _scIndex := 1 }) ∧
      ((targetGhost true PINKY Game.sampleHunt)._sprites PINKY).tx = 25 ∧
      ((targetGhost true PINKY Game.sampleHunt)._sprites PINKY).ty = 0 ∧
      ((targetGhost false PINKY Game.sampleHunt)._sprites PINKY).tx = 254 :=
  have h := C23_scatter_iff_odd { Game.sampleHunt with _scIndex := 1 } (by decide)
  have h2 := h.2 PINKY Game.sampleHunt (by decide) (by decide) (by decide)
  ⟨h.1, h2.1.trans (by decide), h2.2.1.trans (by decide), (h2.2.2 (by decide)).1.trans (by decide)⟩

/-- C24 fails as stated: in the sample game at the end of the schedule
(`_scIndex` = 8, `_scTimer` = 0) BINKY catches Pac-Man, who has two lives left;
the `Step` restarts the level and with it the schedule, at `_scIndex` = 0 and
`_scTimer` = 1. -/
theorem C24_counterexample :
    Game.sampleLastPhase._scIndex = 8 ∧ Game.sampleLastPhase._scTimer = 0 ∧
      (Step Env.sample Game.sampleLastPhase)._scIndex = 0 ∧
      (Step Env.sample Game.sampleLastPhase)._scTimer = 1 ∧
      (Step Env.sample Game.sampleLastPhase).LIFES = 1 :=
  ⟨by decide, by decide, by decide, by decide, by decide⟩

/-- C24, amended: `_scIndex` is at most 8 in every state of a run whose icon
loops stay inside `_icons`; `UpdateTimers` increments `_scIndex` exactly when it
is below 8 and `_scTimer` is 0, and then loads `_scTimer` with
`_scatterChase[old _scIndex] * 60`; below 8 with a timer that is not 0 it counts
the timer down; from 8 on `UpdateTimers` changes neither, and the phase is
chase; a `Step` that starts with 8 lives at most and a bonus counter of 7 at
most then leaves both as they are, unless `Init` or `PackmanDied` restart the
schedule at index 0. -/
theorem C24_schedule (env : Env) (g : Game) :
    (TrayReachable env g → g._scIndex ≤ 8) ∧
      (g._scIndex < 8 → g._scTimer = 0 →
        (UpdateTimers g)._scIndex = g._scIndex + 1 ∧
          (UpdateTimers g)._scTimer = tableAt _scatterChase g._scIndex * 60) ∧
      (g._scIndex < 8 → g._scTimer ≠ 0 →
        (UpdateTimers g)._scIndex = g._scIndex ∧
          (UpdateTimers g)._scTimer = decU16 g._scTimer) ∧
      (8 ≤ g._scIndex →
        (UpdateTimers g)._scIndex = g._scIndex ∧ (UpdateTimers g)._scTimer = g._scTimer) ∧
      (g._scIndex = 8 → g._state ≠ ReadyState →
        UpdateTargets g = forEach 4 (targetGhost false) (PacmanAI g)) ∧
      (8 ≤ g._scIndex → g.LIFES ≤ 8 → g.ACTUALBONUS ≤ 7 →
        ((Step env g)._scIndex = g._scIndex ∧ (Step env g)._scTimer = g._scTimer) ∨
          ((Step env g)._scIndex = 0 ∧ (Step env g)._scTimer ≤ 1)) := by
  have hq := UpdateTimers_quiet g
  refine ⟨fun hg => Reachable_scIndex env g (TrayReachable_reachable env g hg), ?_, ?_, ?_, ?_,
    fun hi _ _ => Step_schedule_end env g hi⟩
  · intro hi ht
    rw [hq.scIndex, hq.scTimer]
    exact scatterChaseTick_advance g hi ht
  · intro hi ht
    rw [hq.scIndex, hq.scTimer]
    exact scatterChaseTick_count g hi ht
  · intro hi
    rw [hq.scIndex, hq.scTimer, scatterChaseTick_frozen g hi]
    exact ⟨rfl, rfl⟩
  · intro hi hs
    rw [UpdateTargets_phase g hs, hi]
    rfl

theorem C24_schedule_witness :
    TrayReachable Env.sample (Step Env.sample Game.boot) ∧
      (Step Env.sample Game.boot)._scIndex ≤ 8 ∧
      (UpdateTimers Game.boot)._scIndex = 1 ∧ (UpdateTimers Game.boot)._scTimer = 420 ∧
      (UpdateTimers Game.sampleHunt)._scIndex = 2 ∧
      (UpdateTimers Game.sampleHunt)._scTimer = 99 ∧
      (UpdateTimers Game.sampleLastPhase)._scIndex = 8 ∧
      (UpdateTimers Game.sampleLastPhase)._scTimer = 0 ∧
      UpdateTargets Game.sampleLastPhase =
        forEach 4 (targetGhost false) (PacmanAI Game.sampleLastPhase) ∧
      Game.sampleLastPhase.LIFES ≤ 8 ∧ Game.sampleLastPhase.ACTUALBONUS ≤ 7 ∧
      (((Step Env.sample Game.sampleLastPhase)._scIndex = 8 ∧
          (Step Env.sample Game.sampleLastPhase)._scTimer = 0) ∨
        ((Step Env.sample Game.sampleLastPhase)._scIndex = 0 ∧
          (Step Env.sample Game.sampleLastPhase)._scTimer ≤ 1)) :=
  ⟨TrayReachable.step TrayReachable.boot (by decide),
    (C24_schedule Env.sample (Step Env.sample Game.boot)).1
      (TrayReachable.step TrayReachable.boot (by decide)),
    ((C24_schedule Env.sample Game.boot).2.1 (by decide) (by decide)).1,
    ((C24_schedule Env.sample Game.boot).2.1 (by decide) (by decide)).2,
    ((C24_schedule Env.sample Game.sampleHunt).2.2.1 (by decide) (by decide)).1,
    ((C24_schedule Env.sample Game.sampleHunt).2.2.1 (by decide) (by decide)).2,
    ((C24_schedule Env.sample Game.sampleLastPhase).2.2.2.1 (by decide)).1,
    ((C24_schedule Env.sample Game.sampleLastPhase).2.2.2.1 (by decide)).2,
    (C24_schedule Env.sample Game.sampleLastPhase).2.2.2.2.1 (by decide) (by decide),
    by decide, by decide,
    (C24_schedule Env.sample Game.sampleLastPhase).2.2.2.2.2 (by decide) (by decide)
      (by decide)⟩

/-- C25 fails as stated: in the sample game under way with the B button
latched, `Step` tests the latch and finds it set; afterwards DEMO is 0, not
1. -/
theorem C25_counterexample :
    ({ Game.sampleFiveLives with but_B := true } : Game).but_B = true ∧
      (Step Env.sample { Game.sampleFiveLives with but_B := true }).DEMO = 0 ∧
      (Step Env.sample { Game.sampleFiveLives with but_B := true }).DEMO ≠ 1 := by
  have h := (Step_seen_B Env.sample { Game.sampleFiveLives with but_B := true }
    (stepBlocks_but_B (Init Env.sample) _ rfl (by decide) (by decide))).1
  refine ⟨rfl, h, ?_⟩
  rw [h]
  decide

/-- C25, amended: a latched B button is still latched when `Step`
tests it, unless a win or button A in attract mode made `Step` call `Init`
before; a `Step` that finds the B latch set clears it, sets DEMO to 0 (a game
played by the user, not the attract mode) and initialises the playfield:
ReadyState with the state timer at 29 after the frame (30 when paused), level 1,
two lives, score 0, the dots of the first maze, and the five sprites in
PenState on the cells of `_initSprites`. -/
theorem C25_button_B (env : Env) (g : Game) :
    (g.but_B = true → g.GAMEWIN ≠ 1 → ¬ (g.but_A = true ∧ g.DEMO = 1 ∧ g.GAMEPAUSED = 0) →
        (stepResume (stepButtonA (Init env) (stepGameWin (Init env) g))).but_B = true) ∧
      ((stepResume (stepButtonA (Init env) (stepGameWin (Init env) g))).but_B = true →
        (Step env g).DEMO = 0 ∧ (Step env g).but_B = false ∧ (Step env g)._inited = true ∧
          (Step env g)._state = ReadyState ∧
          ((Step env g)._stateTimer = 29 ∨
            ((Step env g).GAMEPAUSED ≠ 0 ∧ (Step env g)._stateTimer = 30)) ∧
          (Step env g).LEVEL = START_LEVEL ∧ (Step env g).LIFES = START_LIFES ∧
          (Step env g)._score = 0 ∧ (Step env g)._lifescore = 10000 ∧
          (∀ x y : Nat, x < 28 → 3 ≤ y → y < 33 →
            (GetDot (Step env g) x y = true ↔
              (env.playMap1 ((y : Int) * 28 + x) % 256 = 7 ∨
                env.playMap1 ((y : Int) * 28 + x) % 256 = 14))) ∧
          ∀ j, j < 5 →
            ((Step env g)._sprites j).state = PenState ∧
              ((Step env g)._sprites j).cx = _initSprites.getD (j * 5 + 1) 0 ∧
              ((Step env g)._sprites j).cy = _initSprites.getD (j * 5 + 2) 0 ∧
              ((Step env g)._sprites j)._x =
                ((_initSprites.getD (j * 5 + 1) 0 : Nat) : Int) * 8 - 4 ∧
              ((Step env g)._sprites j)._y =
                ((_initSprites.getD (j * 5 + 2) 0 : Nat) : Int) * 8 ∧
              ((Step env g)._sprites j).dir = _initSprites.getD (j * 5 + 4) 0) :=
  ⟨stepBlocks_but_B (Init env) g, Step_seen_B env g⟩

theorem C25_button_B_witness :
    (press Button.B Game.sampleChase).but_B = true ∧
      (press Button.B Game.sampleChase).GAMEWIN ≠ 1 ∧
      ¬ ((press Button.B Game.sampleChase).but_A = true ∧
        (press Button.B Game.sampleChase).DEMO = 1 ∧
        (press Button.B Game.sampleChase).GAMEPAUSED = 0) ∧
      (Step Env.sample (press Button.B Game.sampleChase)).DEMO = 0 ∧
      (Step Env.sample (press Button.B Game.sampleChase)).but_B = false ∧
      (Step Env.sample (press Button.B Game.sampleChase))._state = ReadyState ∧
      (Step Env.sample (press Button.B Game.sampleChase))._score = 0 :=
  ⟨rfl, by decide, by decide,
    ((C25_button_B Env.sample (press Button.B Game.sampleChase)).2
      ((C25_button_B Env.sample (press Button.B Game.sampleChase)).1 rfl (by decide)
        (by decide))).1,
    ((C25_button_B Env.sample (press Button.B Game.sampleChase)).2
      ((C25_button_B Env.sample (press Button.B Game.sampleChase)).1 rfl (by decide)
        (by decide))).2.1,
    ((C25_button_B Env.sample (press Button.B Game.sampleChase)).2
      ((C25_button_B Env.sample (press Button.B Game.sampleChase)).1 rfl (by decide)
        (by decide))).2.2.2.1,
    ((C25_button_B Env.sample (press Button.B Game.sampleChase)).2
      ((C25_button_B Env.sample (press Button.B Game.sampleChase)).1 rfl (by decide)
        (by decide))).2.2.2.2.2.2.2.1⟩

/-- C26: with DEMO = 1 the direction `ChooseDir` returns, for every sprite,
Pac-Man included, every current direction and every maze, is the same in two
games that differ only in the latches of Up, Down, Left and Right; so is the
PACMANFALLBACK it leaves. -/
theorem C26_demo_ignores_buttons (env : Env) (g g2 : Game) (dir : Int) (s : Sprite)
    (hsame : g2 = { g with
      but_UP := g2.but_UP, but_DOWN := g2.but_DOWN, but_LEFT := g2.but_LEFT
      but_RIGHT := g2.but_RIGHT })
    (hdemo : g.DEMO = 1) :
    (ChooseDir env g2 dir s).1 = (ChooseDir env g dir s).1 ∧
      (ChooseDir env g2 dir s).2.PACMANFALLBACK = (ChooseDir env g dir s).2.PACMANFALLBACK := by
  rw [hsame]
  exact ChooseDir_demo_buttons env g dir s _ _ _ _ hdemo

/-- In attract mode at the start, latching Up and Left does not change what
`ChooseDir` returns for Pac-Man. -/
theorem C26_demo_ignores_buttons_witness :
    Game.boot.DEMO = 1 ∧
      (ChooseDir Env.sample { Game.boot with but_UP := true, but_LEFT := true } 3
        (Sprite.place PACMAN 16 48 PenState MLeft)).1 =
      (ChooseDir Env.sample Game.boot 3 (Sprite.place PACMAN 16 48 PenState MLeft)).1 :=
  ⟨rfl, (C26_demo_ignores_buttons Env.sample Game.boot
    { Game.boot with but_UP := true, but_LEFT := true } 3
    (Sprite.place PACMAN 16 48 PenState MLeft) rfl rfl).1⟩

/-- C27: in player mode (DEMO = 0, the sprite is Pac-Man) `ChooseDir` returns
the first of Up, Left, Down, Right whose button is latched and whose neighbour
is passable (`Chase < 0x7FFF`); if there is none, the current direction when
its neighbour is passable; otherwise Stopped. -/
theorem C27_player_choice (env : Env) (g : Game) (dir : Int) (s : Sprite)
    (hd : g.DEMO = 0) (hw : s.who = PACMAN) :
    (ChooseDir env g dir s).1 = playerChoice (latched g) (passable env g s) dir :=
  ChooseDir_player env g dir s hd hw

/-- In the sample game with Up latched, Pac-Man, heading left, turns up. -/
theorem C27_player_choice_witness :
    (ChooseDir Env.sample { Game.sampleFiveLives with but_UP := true } MLeft
      (Game.sampleFiveLives._sprites PACMAN)).1 = MUp :=
  (C27_player_choice Env.sample { Game.sampleFiveLives with but_UP := true } MLeft
    (Game.sampleFiveLives._sprites PACMAN) rfl rfl).trans (by decide)

/-- C28: in AI mode (a ghost, or any sprite with DEMO = 1), when PACMANFALLBACK
does not apply and the current direction `d` is one of Right, Down, Left, Up,
`ChooseDir` returns one of these four and never the opposite of `d`.  It
returns `d` when no direction other than the opposite has a smaller `Chase`
value than the neighbour in direction `d`; otherwise it returns a direction
other than the opposite whose `Chase` value is least, and every such direction
that comes earlier in the order Up, Left, Down, Right (4, 3, 2, 1) has a
greater value. -/
theorem C28_ai_choice (env : Env) (g : Game) (s : Sprite) (d : Nat)
    (hai : (g.DEMO = 0 ∧ s.who ≠ PACMAN) ∨ g.DEMO = 1)
    (hfb : ¬ (s.who = PACMAN ∧ g.PACMANFALLBACK ≠ 0)) (h1 : 1 ≤ d) (h4 : d ≤ 4) :
    1 ≤ (ChooseDir env g d s).1 ∧ (ChooseDir env g d s).1 ≤ 4 ∧
      (ChooseDir env g d s).1 ≠ OppositeDirection d ∧
      (((ChooseDir env g d s).1 = d ∧
          ∀ k : Nat, 1 ≤ k → k ≤ 4 → k ≠ OppositeDirection d →
            neighbourChase env g s d ≤ neighbourChase env g s k) ∨
        (neighbourChase env g s (ChooseDir env g d s).1 < neighbourChase env g s d ∧
          ∀ k : Nat, 1 ≤ k → k ≤ 4 → k ≠ OppositeDirection d →
            neighbourChase env g s (ChooseDir env g d s).1 ≤ neighbourChase env g s k ∧
              ((ChooseDir env g d s).1 < k →
                neighbourChase env g s (ChooseDir env g d s).1 < neighbourChase env g s k))) :=
  ChooseDir_ai env g s d hai hfb h1 h4

/-- In the sample chase game BINKY, heading left, does not turn right. -/
theorem C28_ai_choice_witness :
    (ChooseDir Env.sample Game.sampleHunt MLeft (Game.sampleHunt._sprites BINKY)).1 ≠ MRight ∧
      1 ≤ (ChooseDir Env.sample Game.sampleHunt MLeft (Game.sampleHunt._sprites BINKY)).1 :=
  have h := C28_ai_choice Env.sample Game.sampleHunt (Game.sampleHunt._sprites BINKY) MLeft
    (Or.inl ⟨rfl, by decide⟩) (fun hc => absurd hc.1 (by decide)) (by decide) (by decide)
  ⟨h.2.2.1, h.1⟩

/-- C29: in chase mode, for a ghost with `who` = INKY that is neither dead nor
frightened, has its pen timer at 0 and is outside the pen, and for Pac-Man's
direction `d` in 1..4, the target `UpdateTargets` sets is, in each coordinate,
twice the intermediate point minus BINKY's cell, modulo 256, where the
intermediate point is Pac-Man's cell plus half the PINKY offset read as a signed
value (Left gives -2 in x).  The shift of the unsigned byte and the `int8_t`
arithmetic of the code agree with this for every cell of Pac-Man and BINKY. -/
theorem C29_inky_target (i : Nat) (g : Game) (d : Nat)
    (hw : (g._sprites i).who = INKY) (he : (g._sprites i).state ≠ DeadEyesState)
    (hf : (g._sprites i).state ≠ FrightenedState) (hp : (g._sprites i).pentimer = 0)
    (hin : InPen (g._sprites i).cx (g._sprites i).cy = false)
    (hd : (g._sprites PACMAN).dir = d) (h1 : 1 ≤ d) (h4 : d ≤ 4) :
    (((targetGhost false i g)._sprites i).tx : Int) =
        (2 * (((g._sprites PACMAN).cx : Int) + (pinkyOffset d).1 / 2) -
          ((g._sprites BINKY).cx : Int)) % 256 ∧
      (((targetGhost false i g)._sprites i).ty : Int) =
        (2 * (((g._sprites PACMAN).cy : Int) + (pinkyOffset d).2 / 2) -
          ((g._sprites BINKY).cy : Int)) % 256 ∧
      (pinkyOffset MLeft).1 / 2 = -2 := by
  have ht := chaseTarget_inky g (g._sprites i) hw d hd h1 h4
  rw [targetGhost_chase i g he hf hp hin]
  refine ⟨?_, ?_, by decide⟩
  · show ((if i = i then _ else g._sprites i).tx : Int) = _
    rw [if_pos rfl]
    exact ht.1
  · show ((if i = i then _ else g._sprites i).ty : Int) = _
    rw [if_pos rfl]
    exact ht.2

/-- In the sample chase game, with Pac-Man in cell (2, 8) heading left and BINKY
in cell (13, 14), INKY's target is (2 * 0 - 13, 2 * 8 - 14) modulo 256, that is
(243, 2). -/
theorem C29_inky_target_witness :
    ((targetGhost false INKY Game.sampleHunt)._sprites INKY).tx = 243 ∧
      ((targetGhost false INKY Game.sampleHunt)._sprites INKY).ty = 2 :=
  have h := C29_inky_target INKY Game.sampleHunt MLeft rfl (by decide) (by decide) rfl
    (by decide) rfl (by decide) (by decide)
  ⟨Int.ofNat.inj (h.1.trans (by decide)), Int.ofNat.inj (h.2.1.trans (by decide))⟩

/-- C30: in chase mode, for a ghost that is neither dead nor frightened, has
its pen timer at 0 and is outside the pen, the target `UpdateTargets` sets is:
for PINKY, Pac-Man's cell plus the offset of Pac-Man's direction (Right (4, 0),
Down (0, 4), Left (-4, 0), Up (-4, 4)), each coordinate modulo 256; for BINKY,
Pac-Man's cell; for CLYDE, Pac-Man's cell unless the squared cell distance to
Pac-Man is below 64, when it is (27, 35).  Cells are bytes; for CLYDE they are
taken below 128, where the squared distance fits the `int16_t` of `Distance`. -/
theorem C30_chase_targets (i : Nat) (g : Game)
    (he : (g._sprites i).state ≠ DeadEyesState) (hf : (g._sprites i).state ≠ FrightenedState)
    (hp : (g._sprites i).pentimer = 0)
    (hin : InPen (g._sprites i).cx (g._sprites i).cy = false) :
    ((g._sprites i).who = PINKY → ∀ d : Nat, (g._sprites PACMAN).dir = d → 1 ≤ d → d ≤ 4 →
      (((targetGhost false i g)._sprites i).tx : Int) =
          (((g._sprites PACMAN).cx : Int) + (pinkyOffset d).1) % 256 ∧
        (((targetGhost false i g)._sprites i).ty : Int) =
          (((g._sprites PACMAN).cy : Int) + (pinkyOffset d).2) % 256) ∧
    ((g._sprites i).who = BINKY → (g._sprites PACMAN).cx < 256 → (g._sprites PACMAN).cy < 256 →
      ((targetGhost false i g)._sprites i).tx = (g._sprites PACMAN).cx ∧
        ((targetGhost false i g)._sprites i).ty = (g._sprites PACMAN).cy) ∧
    ((g._sprites i).who = CLYDE → (g._sprites i).cx < 128 → (g._sprites i).cy < 128 →
      (g._sprites PACMAN).cx < 128 → (g._sprites PACMAN).cy < 128 →
      (((g._sprites i).cx : Int) - (g._sprites PACMAN).cx) *
            (((g._sprites i).cx : Int) - (g._sprites PACMAN).cx) +
          (((g._sprites i).cy : Int) - (g._sprites PACMAN).cy) *
            (((g._sprites i).cy : Int) - (g._sprites PACMAN).cy) < 64 →
        ((targetGhost false i g)._sprites i).tx = 27 ∧
          ((targetGhost false i g)._sprites i).ty = 35) ∧
    ((g._sprites i).who = CLYDE → (g._sprites i).cx < 128 → (g._sprites i).cy < 128 →
      (g._sprites PACMAN).cx < 128 → (g._sprites PACMAN).cy < 128 →
      ¬ ((((g._sprites i).cx : Int) - (g._sprites PACMAN).cx) *
            (((g._sprites i).cx : Int) - (g._sprites PACMAN).cx) +
          (((g._sprites i).cy : Int) - (g._sprites PACMAN).cy) *
            (((g._sprites i).cy : Int) - (g._sprites PACMAN).cy) < 64) →
        ((targetGhost false i g)._sprites i).tx = (g._sprites PACMAN).cx ∧
          ((targetGhost false i g)._sprites i).ty = (g._sprites PACMAN).cy) ∧
    pinkyOffset MRight = (4, 0) ∧ pinkyOffset MDown = (0, 4) ∧
    pinkyOffset MLeft = (-4, 0) ∧ pinkyOffset MUp = (-4, 4) := by
  have htx : ((targetGhost false i g)._sprites i).tx = toU8 (chaseTarget g (g._sprites i)).1 := by
    rw [targetGhost_chase i g he hf hp hin]
    show (if i = i then _ else g._sprites i).tx = _
    rw [if_pos rfl]
    rfl
  have hty : ((targetGhost false i g)._sprites i).ty = toU8 (chaseTarget g (g._sprites i)).2 := by
    rw [targetGhost_chase i g he hf hp hin]
    show (if i = i then _ else g._sprites i).ty = _
    rw [if_pos rfl]
    rfl
  rw [htx, hty]
  refine ⟨fun hw d hd h1 h4 => chaseTarget_pinky g _ hw d hd h1 h4, fun hw hx hy => ?_,
    fun hw h1 h2 h3 h4 hnear => ?_, fun hw h1 h2 h3 h4 hfar => ?_, by decide, by decide,
    by decide, by decide⟩
  · have h := chaseTarget_binky g (g._sprites i) (by rw [hw]; decide) (by rw [hw]; decide)
      (by rw [hw]; decide)
    constructor <;> omega
  · have hdist := Distance_exact (g._sprites i) _ _ h1 h2 h3 h4
    exact (chaseTarget_clyde g _ hw).1 (by rw [hdist]; exact hnear)
  · have hdist := Distance_exact (g._sprites i) _ _ h1 h2 h3 h4
    have h := (chaseTarget_clyde g _ hw).2 (by rw [hdist]; exact hfar)
    constructor <;> omega

/-- In the sample chase game, with Pac-Man in cell (2, 8) heading left: PINKY's
target is (254, 8), BINKY's is (2, 8), CLYDE's, one cell from Pac-Man, is
(27, 35), and from cell (25, 25) it would be (2, 8). -/
theorem C30_chase_targets_witness :
    (((targetGhost false PINKY Game.sampleHunt)._sprites PINKY).tx : Int) = 254 ∧
      ((targetGhost false BINKY Game.sampleHunt)._sprites BINKY).ty = 8 ∧
      ((targetGhost false CLYDE Game.sampleHunt)._sprites CLYDE).tx = 27 ∧
      ((targetGhost false CLYDE
        (Game.sampleHunt.setSprite CLYDE (Sprite.place CLYDE 200 200 RunState MLeft)))._sprites
          CLYDE).tx = 2 :=
  have h := C30_chase_targets
  ⟨((h PINKY Game.sampleHunt (by decide) (by decide) rfl (by decide)).1 rfl MLeft rfl
      (by decide) (by decide)).1.trans (by decide),
    ((h BINKY Game.sampleHunt (by decide) (by decide) rfl (by decide)).2.1 rfl (by decide)
      (by decide)).2.trans (by decide),
    ((h CLYDE Game.sampleHunt (by decide) (by decide) rfl (by decide)).2.2.1 rfl (by decide)
      (by decide) (by decide) (by decide) (by decide)).1,
    ((h CLYDE (Game.sampleHunt.setSprite CLYDE (Sprite.place CLYDE 200 200 RunState MLeft))
      (by decide) (by decide) rfl (by decide)).2.2.2.1 rfl (by decide) (by decide) (by decide)
      (by decide) (by decide)).1.trans (by decide)⟩


/-- C31: the scan of `PacmanAI` records a ghost only when it is closer than
every ghost scanned before it, whatever their states.  In the sample game INKY
is frightened, but is scanned after the closer PINKY: `frightenedGhost` stays
null.  Scanned in the order INKY, BINKY, PINKY, CLYDE the same ghosts give
`frightenedGhost` = INKY.  In the sample game in which BINKY, frightened, is
the ghost next to Pac-Man, the three ghosts in the pen are not frightened and
`closestAttackingGhost` stays null. -/
theorem C31_scan_misses_ghosts :
    (Game.sampleScan._sprites INKY).state = FrightenedState ∧
      (ghostScan Game.sampleScan).frightenedGhost = none ∧
      ghostScan Game.sampleScan =
        [BINKY, PINKY, INKY, CLYDE].foldl (fun sc i => scanGhost Game.sampleScan i sc)
          ⟨none, none, none, 0x7FFF, 0x7FFF, 0x7FFF⟩ ∧
      ([INKY, BINKY, PINKY, CLYDE].foldl (fun sc i => scanGhost Game.sampleScan i sc)
          ⟨none, none, none, 0x7FFF, 0x7FFF, 0x7FFF⟩).frightenedGhost = some INKY ∧
      (Game.sampleChase._sprites PINKY).state ≠ FrightenedState ∧
      (ghostScan Game.sampleChase).closestAttackingGhost = none :=
  ⟨by decide, by decide, rfl, by decide, by decide, by decide⟩


/-- C32: the dot search of `PacmanAI` looks at columns 1..25 of rows 4..31
only.  When `PacmanAI` reaches it (neither ghost branch taken, no active bonus,
the four pill bits clear) and no cell of that window has its dot bit set, the
call sets GAMEWIN = 1 and changes nothing else but the fallback flag, whatever
dot bits are set in columns 0, 26 and 27 or in the other rows; when a cell of
the window has its bit set, the call targets such a cell of minimum squared
distance among the cells of the window, and leaves GAMEWIN as it was. -/
theorem C32_dot_search_window (g : Game)
    (hf : ¬ (g.DEMO = 1 ∧ (ghostScan g).DeadEyesStateGhost = none ∧
      (ghostScan g).frightenedGhost ≠ none))
    (ht : ¬ (g.DEMO = 1 ∧ (ghostScan g).DeadEyesStateGhost = none ∧ (ghostScan g).dist ≤ 32 ∧
      (ghostScan g).closestAttackingDist < (ghostScan g).closestfrightenedDist))
    (hb : g.ACTIVEBONUS ≠ 1)
    (h1 : GetDot g 1 6 = false) (h2 : GetDot g 26 6 = false)
    (h3 : GetDot g 1 26 = false) (h4 : GetDot g 26 26 = false) :
    ((∀ x y, dotWindow x y → GetDot g x y = false) →
        PacmanAI g = { g with PACMANFALLBACK := 0, GAMEWIN := 1 }) ∧
      ((∃ x y, dotWindow x y ∧ GetDot g x y = true) →
        ∃ x y, dotWindow x y ∧ GetDot g x y = true ∧
          PacmanAI g = ({ g with PACMANFALLBACK := 0 } : Game).setSprite PACMAN
            ((g._sprites PACMAN).Target x y) ∧
          (PacmanAI g).GAMEWIN = g.GAMEWIN ∧
          ∀ x1 y1, dotWindow x1 y1 → GetDot g x1 y1 = true →
            (g._sprites PACMAN).Distance x y ≤ (g._sprites PACMAN).Distance x1 y1) := by
  have ha := PacmanAI_forage g hf ht hb
  have hs := pacmanForage_search { g with PACMANFALLBACK := 0 } h1 h2 h3 h4
  have hsp := dotSearch_spec { g with PACMANFALLBACK := 0 }
  rw [ha, hs]
  refine ⟨fun h => hsp.1 h, fun h => ?_⟩
  obtain ⟨x, y, hw, hd, he, hmin⟩ := hsp.2 h
  refine ⟨x, y, hw, hd, he, ?_, hmin⟩
  rw [he]
  rfl

/-- In the sample game whose only dot is at cell (26, 8), outside the columns
searched, `PacmanAI` declares the level won. -/
theorem C32_dot_search_window_witness :
    GetDot Game.sampleLastDot 26 8 = true ∧
      PacmanAI Game.sampleLastDot =
        { Game.sampleLastDot with PACMANFALLBACK := 0, GAMEWIN := 1 } :=
  ⟨by decide,
    (C32_dot_search_window Game.sampleLastDot (by decide) (by decide) (by decide) (by decide)
      (by decide) (by decide) (by decide)).1 sampleLastDot_window⟩

/-- C33 fails as stated: `Draw8` steps through the sprite's rows by `sy << 2`
bytes, so only for `sy` = 1 or -1 does tile row `r` show the sprite row that
lies over it.  For the sprite of the zero-initialised `_game`, with `sy` = 0,
placed with its box at (0, 0): the pixel of row 1, column 0 of the bitmap is 0,
and so is the one of row 14, yet entry 8 of the tile at (0, 0), which lies over
row 1, column 0 of the box, is overwritten with colour 15, the pixel of row 0. -/
theorem C33_draw8_repeats_row :
    (Sprite.place PACMAN 4 4 RunState MLeft).sy = 0 ∧
      spritePixel sampleRom (Sprite.place PACMAN 4 4 RunState MLeft).bits 1 0 = 0 ∧
      spritePixel sampleRom (Sprite.place PACMAN 4 4 RunState MLeft).bits 14 0 = 0 ∧
      (Sprite.place PACMAN 4 4 RunState MLeft).Draw8 sampleRom 0 0 (fun _ => 0) 8 = 15 ∧
      overlaidTile sampleRom (Sprite.place PACMAN 4 4 RunState MLeft) 0 0 (fun _ => 0) 8 = 0 :=
  ⟨by decide, by decide, by decide, by decide, by decide⟩

/-- C33, amended: for a sprite whose `sy` is 1 or -1, the two values that
`SetupDraw` gives, whose palette row is one of the fifteen of `_palette2`, and
for a tile origin whose distance from the sprite fits an `int16_t`, `Draw8`
leaves the tile as the specification describes it: entry `k` is overlaid with
the sprite pixel over which it lies, the sprite's rows mirrored when `sy < 0`.
So nothing outside entries 0..63 changes; an entry changes only where it lies
in the sprite's box over a pixel of non-zero value whose palette entry, read
inside the table, is non-zero, and then holds that palette entry; and a tile
that does not intersect the box is unchanged. -/
theorem C33_draw8_overlay (rom : Int → Nat) (s : Sprite) (x y : Int) (tile : Int → Nat)
    (hx1 : -32768 ≤ x - (s._x - 4)) (hx2 : x - (s._x - 4) ≤ 32767)
    (hy1 : -32768 ≤ y - (s._y - 4)) (hy2 : y - (s._y - 4) ≤ 32767)
    (hsy : s.sy = 1 ∨ s.sy = -1) (hpal : s.palette2 < 15) :
    (∀ (ab : Nat) (st : GameState) (idx : Nat) (t : Sprite),
        (t.SetupDraw ab st idx).sy = 1 ∨ (t.SetupDraw ab st idx).sy = -1) ∧
      (∀ k, s.Draw8 rom x y tile k = overlaidTile rom s x y tile k) ∧
      (∀ k, k < 0 ∨ 64 ≤ k → s.Draw8 rom x y tile k = tile k) ∧
      (∀ k, s.Draw8 rom x y tile k ≠ tile k →
        (0 ≤ x + k % 8 - (s._x - 4) ∧ x + k % 8 - (s._x - 4) < 16 ∧
          0 ≤ y + k / 8 - (s._y - 4) ∧ y + k / 8 - (s._y - 4) < 16) ∧
        spritePixel rom s.bits (if s.sy < 0 then 15 - (y + k / 8 - (s._y - 4))
          else y + k / 8 - (s._y - 4)) (x + k % 8 - (s._x - 4)) ≠ 0 ∧
        s.palette2 * 4 + spritePixel rom s.bits (if s.sy < 0 then 15 - (y + k / 8 - (s._y - 4))
          else y + k / 8 - (s._y - 4)) (x + k % 8 - (s._x - 4)) < _palette2.length ∧
        s.Draw8 rom x y tile k ≠ 0 ∧
        s.Draw8 rom x y tile k = tableAt _palette2 ((s.palette2 : Int) * 4 +
          spritePixel rom s.bits (if s.sy < 0 then 15 - (y + k / 8 - (s._y - 4))
            else y + k / 8 - (s._y - 4)) (x + k % 8 - (s._x - 4)))) ∧
      ((x + 8 ≤ s._x - 4 ∨ s._x - 4 + 16 ≤ x ∨ y + 8 ≤ s._y - 4 ∨ s._y - 4 + 16 ≤ y) →
        s.Draw8 rom x y tile = tile) := by
  have hall : ∀ k, s.Draw8 rom x y tile k = overlaidTile rom s x y tile k :=
    fun k => Draw8_overlaid rom s x y tile hx1 hx2 hy1 hy2 hsy k
  refine ⟨fun ab st idx t => SetupDraw_sy ab st idx t, hall, ?_, ?_, ?_⟩
  · intro k hk
    rw [hall k]
    unfold overlaidTile
    simp only []
    rw [if_neg (by omega)]
  · intro k hk
    rw [hall k] at hk ⊢
    have h := overlaidTile_changes rom s x y tile k hk
    have hp := spritePixel_le rom s.bits (if s.sy < 0 then 15 - (y + k / 8 - (s._y - 4))
      else y + k / 8 - (s._y - 4)) (x + k % 8 - (s._x - 4))
    have hlen : _palette2.length = 60 := rfl
    exact ⟨h.1.2.2, h.2.1, by omega, h.2.2.1, h.2.2.2⟩
  · intro hout
    funext k
    rw [hall k]
    unfold overlaidTile
    simp only []
    rw [if_neg (by omega)]

/-- Pac-Man heading up is drawn mirrored: the first pixel of row 0 of its
bitmap, of value 3, shows in the bottom row of its box, at entry 56 of the tile
at (0, 8), in colour 9. -/
theorem C33_draw8_overlay_witness :
    Sprite.sampleUp.sy = -1 ∧ Sprite.sampleUp.palette2 = 4 ∧
      Sprite.sampleUp.Draw8 sampleRom 0 8 (fun _ => 0) 56 = 9 :=
  ⟨by decide, by decide,
    ((C33_draw8_overlay sampleRom Sprite.sampleUp 0 8 (fun _ => 0) (by decide) (by decide)
      (by decide) (by decide) (by decide) (by decide)).2.1 56).trans (by decide)⟩

/-- C34: `drawIndexedmap` turns the 8x8 tile at `indexmap` into its image
rotated a quarter turn counter-clockwise and doubled: for every input pixel
(tx, ty) the four entries of `screenBuffer` at columns 2 ty and 2 ty + 1 of
rows 14 - 2 tx and 15 - 2 tx hold `_paletteW[indexmap[ty * 8 + tx]]`, for
either display controller; the call makes 256 stores, and each of the
subscripts 0..255 is stored to exactly once. -/
theorem C34_rotate_and_double (ra8875 : Bool) (indexmap : Nat → Nat) (sb : ScreenBuffer) :
    (∀ tx ty a b, tx < 8 → ty < 8 → a < 2 → b < 2 →
        (drawIndexedmap (_paletteW ra8875) indexmap sb).cells
            (2 * ty + a + (14 - 2 * tx + b) * 16) =
          tableAt (_paletteW ra8875) (indexmap (ty * 8 + tx) % 256 : Nat)) ∧
      (drawIndexedmap (_paletteW ra8875) indexmap sb).stores.length = 256 ∧
      ∀ k, k < 256 → (drawIndexedmap (_paletteW ra8875) indexmap sb).stores.count k = 1 := by
  have h := drawIndexedmap_done (_paletteW ra8875) indexmap sb
  refine ⟨fun tx ty a b htx hty ha hb => ?_, h.2.2.2, fun k hk => ?_⟩
  · exact h.2.1 tx ty a b htx hty ha hb (by omega)
  · obtain ⟨tx, ty, a, b, htx, hty, ha, hb, e⟩ := quad_cover k hk
    have hc := h.2.2.1 tx ty a b htx hty ha hb
    rw [if_pos (by omega)] at hc
    rw [e]
    exact hc

/-- For the tile whose entry `i` is `i % 16`, input pixel (3, 5) has index 11,
blue; the entry of `screenBuffer` in column 2 * 5 + 1 of row 14 - 2 * 3, which
is entry 139, holds the RGB565 value of blue for the RM68120 controller. -/
theorem C34_rotate_and_double_witness :
    2 * 5 + 1 + (14 - 2 * 3 + 0) * 16 = 139 ∧
      (drawIndexedmap (_paletteW false) (fun i => i % 16) ⟨fun _ => 0, []⟩).cells
        (2 * 5 + 1 + (14 - 2 * 3 + 0) * 16) = 8479 :=
  ⟨rfl, ((C34_rotate_and_double false (fun i => i % 16) ⟨fun _ => 0, []⟩).1 3 5 1 0 (by decide)
    (by decide) (by decide) (by decide)).trans rfl⟩

/-- C35: `Mark(x, y)` stores to nine subscripts of `updateMap`, and they are
exactly the pairs of a row from `(y - 4) >> 3` to `((y - 4) >> 3) + 2` and a
column from `(x - 4) >> 3` to `((x - 4) >> 3) + 2`.  Every cell whose 8x8 tile
intersects the 16x16 box at top-left `(x - 4, y - 4)` is among them; so is
every cell of the 36x28 map whose tile `Draw8` changes for a sprite at
`(x, y)`, whatever the bitmaps and the sprite's other fields. -/
theorem C35_mark_block (x y : Int) (hx1 : -32764 ≤ x) (hx2 : x ≤ 32767) (hy1 : -32764 ≤ y)
    (hy2 : y ≤ 32767) :
    (Mark x y).length = 9 ∧
      (∀ r c, (r, c) ∈ Mark x y ↔
        ((y - 4) / 8 ≤ r ∧ r ≤ (y - 4) / 8 + 2 ∧ (x - 4) / 8 ≤ c ∧ c ≤ (x - 4) / 8 + 2)) ∧
      (∀ r c : Int, c * 8 < x - 4 + 16 → x - 4 < c * 8 + 8 → r * 8 < y - 4 + 16 →
        y - 4 < r * 8 + 8 → (r, c) ∈ Mark x y) ∧
      ∀ (rom : Int → Nat) (s : Sprite) (tile : Int → Nat) (r c : Int), s._x = x → s._y = y →
        0 ≤ r → r < 36 → 0 ≤ c → c < 28 → s.Draw8 rom (c * 8) (r * 8) tile ≠ tile →
        (r, c) ∈ Mark x y := by
  refine ⟨rfl, fun r c => Mark_mem x y hx1 hx2 hy1 hy2 r c, fun r c h1 h2 h3 h4 => ?_,
    fun rom s tile r c hsx hsy hr0 hr1 hc0 hc1 hd => ?_⟩
  · rw [Mark_mem x y hx1 hx2 hy1 hy2]
    omega
  · have h := Draw8_changes rom s (c * 8) (r * 8) tile hd
    rw [hsx, hsy] at h
    unfold toInt16 at h
    rw [Mark_mem x y hx1 hx2 hy1 hy2]
    omega

/-- A sprite at (110, 210) has its box at (106, 206); `Mark` stores to rows
25..27 and columns 13..15, and the tile of cell (27, 15), at pixel (120, 216),
intersects the box. -/
theorem C35_mark_block_witness :
    Mark 110 210 = [(25, 13), (25, 14), (25, 15), (26, 13), (26, 14), (26, 15),
        (27, 13), (27, 14), (27, 15)] ∧
      (27, 15) ∈ Mark 110 210 :=
  ⟨by decide,
    (C35_mark_block 110 210 (by decide) (by decide) (by decide) (by decide)).2.2.1 27 15
      (by decide) (by decide) (by decide) (by decide)⟩

/-- C36: in every reachable state, and after `MoveAll` from every state of
which this holds, the speed accumulator of every sprite is below 100.  Hence in
the body of the movement loop, for a sprite that is not frozen, the sum
`_speed + GetSpeed(s)` is 199 at most and fits the `uint8_t`.  When the sum is
below 100 only the accumulator is written: position, cell, last position,
phase and direction stay.  When it reaches 100 the sprite moves: the
accumulator is the sum less 100, the last position is the old position, the
phase goes up by one, and the new position is the old one moved by SPEED pixels
in the direction `d` of this frame (the old direction, unless the sprite is
cell-aligned and `ChooseDir` gives a new one), x wrapped into 0..223, with the
cell derived from it; for `d` Left or Right x changes, for Up or Down y
changes, and for Stopped the sprite keeps its place. -/
theorem C36_speed_accumulator (env : Env) (g : Game) :
    (Reachable env g → ∀ j, (g._sprites j)._speed < 100) ∧
      ((∀ j, (g._sprites j)._speed < 100) → g._BonusSprite._speed < 100 →
        ∀ j, ((MoveAll env g)._sprites j)._speed < 100) ∧
      ∀ i, (g._sprites i)._speed < 100 →
        ¬ (g._state = DeadGhostState ∧ (g._sprites i).state ≠ DeadEyesState) →
        (g._sprites i)._speed + GetSpeed g (g._sprites i) ≤ 199 ∧
          ((g._sprites i)._speed + GetSpeed g (g._sprites i)) % 256 =
            (g._sprites i)._speed + GetSpeed g (g._sprites i) ∧
          ((g._sprites i)._speed + GetSpeed g (g._sprites i) < 100 →
            moveSprite env i g = g.setSprite i { g._sprites i with
              _speed := (g._sprites i)._speed + GetSpeed g (g._sprites i) } ∧
            ((moveSprite env i g)._sprites i)._x = (g._sprites i)._x ∧
            ((moveSprite env i g)._sprites i)._y = (g._sprites i)._y ∧
            ((moveSprite env i g)._sprites i).cx = (g._sprites i).cx ∧
            ((moveSprite env i g)._sprites i).cy = (g._sprites i).cy ∧
            ((moveSprite env i g)._sprites i).lastx = (g._sprites i).lastx ∧
            ((moveSprite env i g)._sprites i).lasty = (g._sprites i).lasty ∧
            ((moveSprite env i g)._sprites i).phase = (g._sprites i).phase ∧
            ((moveSprite env i g)._sprites i).dir = (g._sprites i).dir) ∧
          (100 ≤ (g._sprites i)._speed + GetSpeed g (g._sprites i) →
            moveSprite env i g = advanceSprite env i (g.setSprite i { g._sprites i with
                _speed := (g._sprites i)._speed + GetSpeed g (g._sprites i) }) ∧
              ((moveSprite env i g)._sprites i)._speed =
                (g._sprites i)._speed + GetSpeed g (g._sprites i) - 100 ∧
              ((moveSprite env i g)._sprites i).lastx = (g._sprites i)._x ∧
              ((moveSprite env i g)._sprites i).lasty = (g._sprites i)._y ∧
              ((moveSprite env i g)._sprites i).phase = ((g._sprites i).phase + 1) % 256 ∧
              ((moveSprite env i g)._sprites i).cx =
                toU8 ((((moveSprite env i g)._sprites i)._x + 4) / 8) ∧
              ((moveSprite env i g)._sprites i).cy =
                toU8 ((((moveSprite env i g)._sprites i)._y + 4) / 8) ∧
              ∃ d : Nat, (¬ (g._sprites i).aligned → d = (g._sprites i).dir) ∧
                ((moveSprite env i g)._sprites i)._x =
                  (if d = MLeft then toInt16 ((g._sprites i)._x - SPEED)
                    else if d = MRight then toInt16 ((g._sprites i)._x + SPEED)
                    else (g._sprites i)._x) % 224 ∧
                ((moveSprite env i g)._sprites i)._y =
                  (if d = MUp then toInt16 ((g._sprites i)._y - SPEED)
                    else if d = MDown then toInt16 ((g._sprites i)._y + SPEED)
                    else (g._sprites i)._y) ∧
                ((d = MLeft ∨ d = MRight) →
                  ((moveSprite env i g)._sprites i)._x ≠ (g._sprites i)._x ∧
                    ((moveSprite env i g)._sprites i)._y = (g._sprites i)._y) ∧
                ((d = MUp ∨ d = MDown) →
                  ((moveSprite env i g)._sprites i)._y ≠ (g._sprites i)._y ∧
                    ((moveSprite env i g)._sprites i)._x = (g._sprites i)._x % 224) ∧
                (d = MStopped →
                  ((moveSprite env i g)._sprites i)._x = (g._sprites i)._x % 224 ∧
                    ((moveSprite env i g)._sprites i)._y = (g._sprites i)._y)) := by
  refine ⟨fun hg => (Reachable_speedInv env g hg).1, fun h1 h2 => ?_, fun i hv hnf => ?_⟩
  · exact (MoveAllWith_speedInv (Init env) (Init_speedInv env) env g ⟨h1, h2⟩).1
  · have h := moveSprite_accumulate env i g hv hnf
    refine ⟨h.1, Nat.mod_eq_of_lt (by omega), fun hlt => ?_, fun hge => ?_⟩
    · have he := h.2.1 hlt
      have hs : (moveSprite env i g)._sprites i = { g._sprites i with
          _speed := (g._sprites i)._speed + GetSpeed g (g._sprites i) } := by
        rw [he]
        show (if i = i then _ else g._sprites i) = _
        rw [if_pos rfl]
      refine ⟨he, ?_, ?_, ?_, ?_, ?_, ?_, ?_, ?_⟩ <;> rw [hs]
    · have he := (h.2.2 hge).1
      have hset : (g.setSprite i { g._sprites i with
          _speed := (g._sprites i)._speed + GetSpeed g (g._sprites i) })._sprites i =
          { g._sprites i with
            _speed := (g._sprites i)._speed + GetSpeed g (g._sprites i) } := by
        show (if i = i then _ else g._sprites i) = _
        rw [if_pos rfl]
      obtain ⟨d, hd, hlx, hly, hph, hx, hy, hcx, hcy⟩ := advanceSprite_position env i
        (g.setSprite i { g._sprites i with
          _speed := (g._sprites i)._speed + GetSpeed g (g._sprites i) })
      rw [← he] at hlx hly hph hx hy hcx hcy
      rw [hset] at hd hlx hly hph hx hy
      have hmv := step_moves (g._sprites i)._x
      have hmy := step_moves (g._sprites i)._y
      refine ⟨he, (h.2.2 hge).2, hlx, hly, hph, hcx, hcy, d, hd, hx, hy, ?_, ?_, ?_⟩
      · rintro (hl | hr)
        · rw [hx, hy, hl, if_pos rfl, if_neg (by decide), if_neg (by decide)]
          exact ⟨hmv.1, rfl⟩
        · rw [hx, hy, hr, if_neg (by decide), if_pos rfl, if_neg (by decide),
            if_neg (by decide)]
          exact ⟨hmv.2.1, rfl⟩
      · rintro (hu | hdn)
        · rw [hx, hy, hu, if_pos rfl, if_neg (by decide), if_neg (by decide)]
          exact ⟨hmy.2.2.1, rfl⟩
        · rw [hx, hy, hdn, if_neg (by decide), if_pos rfl, if_neg (by decide),
            if_neg (by decide)]
          exact ⟨hmy.2.2.2, rfl⟩
      · intro hst
        rw [hx, hy, hst, if_neg (by decide), if_neg (by decide), if_neg (by decide),
          if_neg (by decide)]
        exact ⟨rfl, rfl⟩

/-- In the sample game Pac-Man, at x = 12 between two cells and heading left,
enters the frame with 20 in the accumulator and gets 80: the sum is 100,
Pac-Man moves to x = 10 with y unchanged, and the accumulator is 0 afterwards;
PINKY, in the pen, goes from 0 to 75 and stays at x = 92. -/
theorem C36_speed_accumulator_witness :
    Reachable Env.sample (Step Env.sample Game.boot) ∧
      ((Step Env.sample Game.boot)._sprites PACMAN)._speed < 100 ∧
      ((MoveAll Env.sample Game.sampleFiveLives)._sprites PACMAN)._speed < 100 ∧
      (Game.sampleFiveLives._sprites PACMAN)._speed +
        GetSpeed Game.sampleFiveLives (Game.sampleFiveLives._sprites PACMAN) = 100 ∧
      ((moveSprite Env.sample PACMAN Game.sampleFiveLives)._sprites PACMAN)._speed = 0 ∧
      (Game.sampleFiveLives._sprites PACMAN)._x = 12 ∧
      ((moveSprite Env.sample PACMAN Game.sampleFiveLives)._sprites PACMAN)._x = 10 ∧
      ((moveSprite Env.sample PACMAN Game.sampleFiveLives)._sprites PACMAN).lastx = 12 ∧
      moveSprite Env.sample PINKY Game.sampleFiveLives =
        Game.sampleFiveLives.setSprite PINKY
          { Game.sampleFiveLives._sprites PINKY with _speed := 75 } ∧
      ((moveSprite Env.sample PINKY Game.sampleFiveLives)._sprites PINKY)._x = 92 :=
  have hs : ∀ j, (Game.sampleFiveLives._sprites j)._speed < 100 := by
    intro j
    unfold Game.sampleFiveLives sampleSprites
    simp only []
    split_ifs <;> decide
  have hm := ((C36_speed_accumulator Env.sample Game.sampleFiveLives).2.2 PACMAN (by decide)
    (by decide)).2.2.2 (by decide)
  have hp := ((C36_speed_accumulator Env.sample Game.sampleFiveLives).2.2 PINKY (by decide)
    (by decide)).2.2.1 (by decide)
  ⟨Reachable.step Reachable.boot,
    (C36_speed_accumulator Env.sample (Step Env.sample Game.boot)).1
      (Reachable.step Reachable.boot) PACMAN,
    (C36_speed_accumulator Env.sample Game.sampleFiveLives).2.1 hs (by decide) PACMAN,
    by decide, hm.2.1, by decide,
    (by
      obtain ⟨d, hd, hx, _⟩ := hm.2.2.2.2.2.2.2
      rw [hx, hd (fun ha => absurd ha.1 (by decide))]
      decide),
    hm.2.2.1.trans (by decide), hp.1, hp.2.1.trans (by decide)⟩

/-- C37: in every reachable state in which `Init` has run, and in every state
in which the movement loop of `MoveAll` can find the game during a `Step` from
a reachable state, a sprite for which `ChooseDir` takes its last branch (a
ghost, or any sprite with DEMO = 1) has a current direction in 1..4; so the
index `4 - dir` of the seed lookup is in 0..3, and the direction `ChooseDir`
returns is in 1..4 again. -/
theorem C37_ai_direction (env : Env) (b : Game)
    (hb : (Reachable env b ∧ b._inited = true) ∨ Inside env b) (i : Nat) (hi : i < 5)
    (hai : (b.DEMO = 0 ∧ (b._sprites i).who ≠ PACMAN) ∨ b.DEMO = 1) :
    1 ≤ (b._sprites i).dir ∧ (b._sprites i).dir ≤ 4 ∧
      0 ≤ 4 - ((b._sprites i).dir : Int) ∧ 4 - ((b._sprites i).dir : Int) ≤ 3 ∧
      1 ≤ (ChooseDir env b (b._sprites i).dir (b._sprites i)).1 ∧
      (ChooseDir env b (b._sprites i).dir (b._sprites i)).1 ≤ 4 := by
  have hok : DirOK b := by
    rcases hb with h | h
    · exact (Reachable_dirOK env b h.1).2 h.2
    · exact Inside_dirOK env b h
  have hc : i < 4 ∨ b.DEMO = 1 := by
    rcases hai with h | h
    · left
      have hw := (hok.2 i hi).1
      have hne := h.2
      rw [hw] at hne
      unfold PACMAN at hne
      omega
    · exact Or.inr h
  have hd := (hok.2 i hi).2 hc
  have hr := ChooseDir_range env b (b._sprites i) (b._sprites i).dir hai hd
  exact ⟨hd.1, hd.2, by omega, by omega, hr.1, hr.2⟩

/-- After the first `Step` of the program the game is in attract mode, and
Pac-Man's direction is in 1..4. -/
theorem C37_ai_direction_witness :
    Reachable Env.sample (Step Env.sample Game.boot) ∧
      (Step Env.sample Game.boot)._inited = true ∧
      (Step Env.sample Game.boot).DEMO = 1 ∧
      1 ≤ ((Step Env.sample Game.boot)._sprites PACMAN).dir ∧
      ((Step Env.sample Game.boot)._sprites PACMAN).dir ≤ 4 :=
  have h := C37_ai_direction Env.sample (Step Env.sample Game.boot)
    (Or.inl ⟨Reachable.step Reachable.boot,
      (Step_first_sprites Env.sample Game.boot rfl rfl (by decide) rfl).1⟩)
    PACMAN (by decide)
    (Or.inr (Step_first_DEMO Env.sample Game.boot rfl rfl (by decide) rfl))
  ⟨Reachable.step Reachable.boot,
    (Step_first_sprites Env.sample Game.boot rfl rfl (by decide) rfl).1,
    Step_first_DEMO Env.sample Game.boot rfl rfl (by decide) rfl, h.1, h.2.1⟩


/-- C38: in player mode Pac-Man's direction leaves 1..4.  In the sample chase
game, played by the user with no button latched, Pac-Man stands on the grid in
cell (2, 8) and heads left into a wall: `ChooseDir` returns Stopped and the
`Step` leaves Pac-Man's direction at 0.  The game is then in PlayState in chase
mode (`_scIndex` even), PINKY and INKY are in RunState outside the pen with
their pen timers at 0, so the next `UpdateTargets` computes their chase targets
with the offset index `(dir - 1) * 2` = -2, before the start of
`_pinkyTargetOffset`. -/
theorem C38_pacman_stopped :
    Game.sampleWall.DEMO = 0 ∧ (Game.sampleWall._sprites PACMAN).dir = MLeft ∧
      ((Step Env.walled Game.sampleWall)._sprites PACMAN).dir = MStopped ∧
      (Step Env.walled Game.sampleWall)._state = PlayState ∧
      (Step Env.walled Game.sampleWall)._scIndex % 2 = 0 ∧
      ((Step Env.walled Game.sampleWall)._sprites PINKY).who = PINKY ∧
      ((Step Env.walled Game.sampleWall)._sprites PINKY).state = RunState ∧
      ((Step Env.walled Game.sampleWall)._sprites PINKY).pentimer = 0 ∧
      InPen ((Step Env.walled Game.sampleWall)._sprites PINKY).cx
        ((Step Env.walled Game.sampleWall)._sprites PINKY).cy = false ∧
      ((((Step Env.walled Game.sampleWall)._sprites PACMAN).dir : Int) - 1) * 2 = -2 :=
  ⟨by decide, by decide, by decide, by decide, by decide, by decide, by decide, by decide,
    by decide, by decide⟩

/-- C40: `Mark` stores outside the 28 columns of `updateMap` for positions
that the tunnel wrap produces.  In the sample game Pac-Man stands at x = 0 and
heads left; after the `Step` its position is x = 222 and its last position
x = 0, both in 0..223.  `DrawAll` calls `Mark` on both: for the last position
the stores of column `(0 - 4) >> 3` = -1 are before the start of a row, for the
new one the stores of columns 28 and 29 are past its end. -/
theorem C40_mark_outside_columns :
    ((Step Env.sample Game.sampleTunnel)._sprites PACMAN).lastx = 0 ∧
      ((Step Env.sample Game.sampleTunnel)._sprites PACMAN)._x = 222 ∧
      ((Step Env.sample Game.sampleTunnel)._sprites PACMAN)._y = 136 ∧
      Mark ((Step Env.sample Game.sampleTunnel)._sprites PACMAN).lastx
          ((Step Env.sample Game.sampleTunnel)._sprites PACMAN).lasty =
        [(16, -1), (16, 0), (16, 1), (17, -1), (17, 0), (17, 1), (18, -1), (18, 0), (18, 1)] ∧
      Mark ((Step Env.sample Game.sampleTunnel)._sprites PACMAN)._x
          ((Step Env.sample Game.sampleTunnel)._sprites PACMAN)._y =
        [(16, 27), (16, 28), (16, 29), (17, 27), (17, 28), (17, 29), (18, 27), (18, 28),
          (18, 29)] ∧
      inUpdateMap (16, -1) = false ∧ inUpdateMap (16, 28) = false ∧
      inUpdateMap (16, 29) = false ∧
      (∀ y : Int, (Mark 0 y).all inUpdateMap = false) :=
  ⟨by decide, by decide, by decide, by decide, by decide, by decide, by decide, by decide,
    fun y => by
      unfold Mark inUpdateMap
      simp [toInt16]⟩

end Pacman
